import Mathlib

/-! RT64 view update pipeline

A shallow embedding of `RT64::View` (src/rt64lib/private/rt64_view.cpp) and of the
parts of `rt64_common.h` it uses, followed by theorems about the per-frame update, the
rendering of a frame, the resolution scale, the camera and instance picking.

Conventions of the embedding.

* Pointers are natural numbers and `0` is `nullptr`.
* `float` values are elements of a type parameter `F`; the float operations and the
  DirectXMath routines the view calls are the fields of `FloatOps F`.
* An `Instance *` of the scene is represented by the `Instance` it points to.
* The answers of the external collaborators during one call (the device, the
  allocator, the nv_helpers generators) are the fields of `Device`.
* Helper objects owned by the view (`topLevelASGenerator`, `sbtHelper`) are
  represented by the calls made on them since their last `Reset`.
* Machine integers are `Nat`/`Int` with the conversions written out.
* `assert`, `D3D12_CHECK` and a call through a null pointer end the call with a `Fault`.
-/

namespace RT64

/-! ## Machine integers and constants -/

/-- Pointers; `0` is `nullptr`. -/
abbrev Ptr := Nat

/-- Ways in which a call of the view ends without returning. -/
inductive Fault where
  | assertion
  | runtimeError
  | nullDereference
deriving DecidableEq, Repr

/-- Conversion to a 32-bit unsigned integer (`UINT`, `uint32_t`, `unsigned int`). -/
def toUInt32 (n : Int) : Nat := (n % 4294967296).toNat

/-- Conversion to a 32-bit signed integer (`int`, `LONG`). -/
def toInt32 (n : Int) : Int :=
  if n % 4294967296 < 2147483648 then n % 4294967296 else n % 4294967296 - 4294967296

/-- Conversion to a 64-bit unsigned integer (`size_t`, `UINT64`). -/
def toUInt64 (n : Nat) : Nat := n % 18446744073709551616

/-- Conversion of a signed integer to a 64-bit unsigned integer. -/
def intToUInt64 (n : Int) : Nat := (n % 18446744073709551616).toNat

/-- The macro `ROUND_UP(v, powerOf2Alignment)` of rt64_common.h on 64-bit operands:
`((v) + (powerOf2Alignment)-1) & ~((powerOf2Alignment)-1)`. -/
def ROUND_UP (v powerOf2Alignment : Nat) : Nat :=
  toUInt64 (v + (powerOf2Alignment - 1)) &&& (18446744073709551616 - 1 - (powerOf2Alignment - 1))

/-- The constant `D3D12_CONSTANT_BUFFER_DATA_PLACEMENT_ALIGNMENT` of d3d12.h. -/
def D3D12_CONSTANT_BUFFER_DATA_PLACEMENT_ALIGNMENT : Nat := 256

/-- The constant `D3D12_RAYTRACING_INSTANCE_FLAG_NONE` of d3d12.h. -/
def D3D12_RAYTRACING_INSTANCE_FLAG_NONE : Nat := 0

/-- The constant `D3D12_RAYTRACING_INSTANCE_FLAG_TRIANGLE_CULL_DISABLE` of d3d12.h. -/
def D3D12_RAYTRACING_INSTANCE_FLAG_TRIANGLE_CULL_DISABLE : Nat := 1

/-- The constant `MaxQueries` of rt64_view.cpp. -/
def MaxQueries : Int := 16 + 1

/-- The enumeration `RT64::HeapIndices` of rt64_common.h. -/
inductive HeapIndices where
  | gOutput
  | gAlbedo
  | gNormal
  | gHitDistance
  | gHitColor
  | gHitNormal
  | gHitSpecular
  | gHitInstanceId
  | gBackground
  | SceneBVH
  | ViewParams
  | SceneLights
  | instanceProps
  | gTextures
  | MAX
deriving DecidableEq, Repr

/-- The integer value of an enumerator of `HeapIndices` (the macro `HEAP_INDEX`). -/
def HeapIndices.toNat : HeapIndices → Nat
  | .gOutput => 0
  | .gAlbedo => 1
  | .gNormal => 2
  | .gHitDistance => 3
  | .gHitColor => 4
  | .gHitNormal => 5
  | .gHitSpecular => 6
  | .gHitInstanceId => 7
  | .gBackground => 8
  | .SceneBVH => 9
  | .ViewParams => 10
  | .SceneLights => 11
  | .instanceProps => 12
  | .gTextures => 13
  | .MAX => 14

/-- Values declared in public/rt64.h, a header outside the translated sources, taken as
parameters: the two instance flag masks, `sizeof(InstanceProperties)` (two `XMMATRIX` and
one `RT64_MATERIAL`) and `sizeof(RT64_LIGHT)`. -/
structure PublicHeader where
  RT64_INSTANCE_RASTER_BACKGROUND : Nat
  RT64_INSTANCE_DISABLE_BACKFACE_CULLING : Nat
  sizeofInstanceProperties : Nat
  sizeofLight : Nat

/-! ## Floats and matrices -/

/-- A DirectXMath `XMMATRIX`: `r i j` is `r[i].m128_f32[j]`. -/
structure XMMATRIX (F : Type) where
  r : Fin 4 → Fin 4 → F

/-- Assignment `M.r[i].m128_f32[j] = x`. -/
def XMMATRIX.set {F : Type} (M : XMMATRIX F) (i j : Fin 4) (x : F) : XMMATRIX F :=
  { r := fun a b => if a = i ∧ b = j then x else M.r a b }

/-- The routine `XMMatrixTranspose`. -/
def XMMatrixTranspose {F : Type} (M : XMMATRIX F) : XMMATRIX F :=
  { r := fun a b => M.r b a }

/-- A DirectXMath `XMVECTOR`: four floats `x`, `y`, `z`, `w`. -/
abbrev XMVECTOR (F : Type) := Fin 4 → F

/-- The float operations used by the view: literals, comparisons, arithmetic, the
conversions `(float)` and `(int)`, `lround` and `sqrt`, and the DirectXMath routines
`XMMatrixInverse`, `XMMatrixMultiply`, `XMVector4Transform` and `XMMatrixPerspectiveFovRH`. -/
structure FloatOps (F : Type) where
  zero : F
  one : F
  two : F
  hundredth : F
  lt : F → F → Bool
  ne : F → F → Bool
  eq : F → F → Bool
  ofInt : Int → F
  mul : F → F → F
  lround : F → Int
  XMMatrixInverse : XMMATRIX F → XMMATRIX F
  XMMatrixMultiply : XMMATRIX F → XMMATRIX F → XMMATRIX F
  toInt : F → Int
  add : F → F → F
  div : F → F → F
  sqrt : F → F
  XMVector4Transform : XMVECTOR F → XMMATRIX F → XMVECTOR F
  XMMatrixPerspectiveFovRH : F → F → F → F → XMMATRIX F

/-- The template `std::min` on floats: `(b < a) ? b : a`. -/
def FloatOps.min {F : Type} (fl : FloatOps F) (a b : F) : F := if fl.lt b a then b else a

/-- The template `std::max` on floats: `(a < b) ? b : a`. -/
def FloatOps.max {F : Type} (fl : FloatOps F) (a b : F) : F := if fl.lt a b then b else a

/-! ## Scene side: what the view consumes -/

/-- Modelled from the spec: the struct `RT64_RECT` is declared in public/rt64.h; its
four fields are those the view reads of a scissor or viewport rectangle. -/
structure RT64_RECT where
  x : Int
  y : Int
  w : Int
  h : Int
deriving DecidableEq, Repr

/-- Modelled from the spec: the struct `RT64_MATERIAL` is declared in public/rt64.h. The
material "includes per-texture indices resolved by the View at bucketing time": the three
indices the view rewrites; `rest` stands for the remaining fields, which the view copies. -/
structure RT64_MATERIAL where
  diffuseTexIndex : Int
  normalTexIndex : Int
  specularTexIndex : Int
  rest : Nat
deriving DecidableEq, Repr

/-- A vertex or index buffer view; only `BufferLocation` is read by the view. -/
structure BufferView where
  BufferLocation : Nat
deriving DecidableEq, Repr

/-- Modelled from the spec: the class `Mesh` is declared in rt64_mesh.h. The view consumes
of each mesh its bottom-level structure result handle, its vertex and index buffer views
and its index count. -/
structure Mesh where
  bottomLevelASResult : Ptr
  indexCount : Nat
  indexBufferView : BufferView
  vertexBufferView : BufferView
deriving DecidableEq, Repr

/-- Modelled from the spec: the class `Instance` is declared in rt64_instance.h. The view
consumes of each instance its transform, material, mesh, textures, optional scissor and
viewport rectangles, and flag bits, through getters. -/
structure Instance (F : Type) where
  flags : Nat
  mesh : Mesh
  transform : XMMATRIX F
  material : RT64_MATERIAL
  diffuseTexture : Ptr
  normalTexture : Ptr
  specularTexture : Ptr
  hasScissorRect : Bool
  scissorRect : RT64_RECT
  hasViewportRect : Bool
  viewportRect : RT64_RECT

/-- Modelled from the spec: the class `Scene` is declared in rt64_scene.h. The view
consumes of its scene the ordered instance list, the lights buffer and its element count. -/
structure Scene (F : Type) where
  instances : List (Instance F)
  lightsCount : Int
  lightsBuffer : Ptr

/-! ## View side -/

/-- A `CD3DX12_RECT`. -/
structure D3D12_RECT where
  left : Int
  top : Int
  right : Int
  bottom : Int
deriving DecidableEq, Repr

/-- A `CD3DX12_VIEWPORT` (the depth range is never set by the view). -/
structure D3D12_VIEWPORT (F : Type) where
  TopLeftX : F
  TopLeftY : F
  Width : F
  Height : F

/-- Modelled from the spec: the struct `View::RenderInstance` is declared in rt64_view.h.
Its members are those `View::update` assigns: the flattened, render-ready projection of
one instance. -/
structure RenderInstance (F : Type) where
  instance_ : Instance F
  bottomLevelAS : Ptr
  transform : XMMATRIX F
  material : RT64_MATERIAL
  indexCount : Nat
  indexBufferView : BufferView
  vertexBufferView : BufferView
  flags : Nat
  scissorRect : D3D12_RECT
  viewport : D3D12_VIEWPORT F

/-- The struct `RT64::InstanceProperties` of rt64_common.h. -/
structure InstanceProperties (F : Type) where
  objectToWorld : XMMATRIX F
  objectToWorldNormal : XMMATRIX F
  material : RT64_MATERIAL

/-- Modelled from the spec: the class of `topLevelASGenerator` is declared in
nv_helpers_dx12/TopLevelASGenerator.h. One call
`AddInstance(bottomLevelAS, transform, instanceID, hitGroupIndex, flags)`; the generator
is the list of these calls since its last `Reset`. -/
structure TLASInstance (F : Type) where
  bottomLevelAS : Ptr
  transform : XMMATRIX F
  instanceID : Nat
  hitGroupIndex : Nat
  flags : Nat

/-- The struct `RT64::AccelerationStructureBuffers` of rt64_common.h. -/
structure AccelerationStructureBuffers where
  scratch : Ptr
  scratchSize : Nat
  result : Ptr
  resultSize : Nat
  instanceDesc : Ptr
  instanceDescSize : Nat
deriving DecidableEq, Repr

/-- The shader programs named in the binding table. -/
inductive ShaderName where
  | TraceRayGen
  | ShadowMiss
  | SurfaceHitGroup
  | ShadowHitGroup
deriving DecidableEq, Repr

/-- One record registered with the binding-table helper: entry point and arguments. -/
structure SBTRecord where
  entryPoint : ShaderName
  inputData : List Nat
deriving DecidableEq, Repr

/-- Modelled from the spec: the class of `sbtHelper` is declared in
nv_helpers_dx12/ShaderBindingTableGenerator.h. The helper is the records registered since
its last `Reset`: ray-generation, miss and hit-group records, in the order of the calls. -/
structure ShaderBindingTableGenerator where
  rayGen : List SBTRecord
  miss : List SBTRecord
  hitGroup : List SBTRecord
deriving DecidableEq, Repr

/-- Modelled from the spec: the helper call `sbtHelper.Reset()` (nv_helpers_dx12),
which forgets the registered records. -/
def ShaderBindingTableGenerator.Reset (_ : ShaderBindingTableGenerator) :
    ShaderBindingTableGenerator :=
  { rayGen := [], miss := [], hitGroup := [] }

/-- Modelled from the spec: the helper call
`sbtHelper.AddRayGenerationProgram(entryPoint, inputData)` (nv_helpers_dx12), which
registers one more record. -/
def ShaderBindingTableGenerator.AddRayGenerationProgram (g : ShaderBindingTableGenerator)
    (entryPoint : ShaderName) (inputData : List Nat) : ShaderBindingTableGenerator :=
  { g with rayGen := g.rayGen ++ [{ entryPoint := entryPoint, inputData := inputData }] }

/-- Modelled from the spec: the helper call `sbtHelper.AddMissProgram(entryPoint,
inputData)` (nv_helpers_dx12), which registers one more record. -/
def ShaderBindingTableGenerator.AddMissProgram (g : ShaderBindingTableGenerator)
    (entryPoint : ShaderName) (inputData : List Nat) : ShaderBindingTableGenerator :=
  { g with miss := g.miss ++ [{ entryPoint := entryPoint, inputData := inputData }] }

/-- Modelled from the spec: the helper call `sbtHelper.AddHitGroup(entryPoint,
inputData)` (nv_helpers_dx12), which registers one more record. -/
def ShaderBindingTableGenerator.AddHitGroup (g : ShaderBindingTableGenerator)
    (entryPoint : ShaderName) (inputData : List Nat) : ShaderBindingTableGenerator :=
  { g with hitGroup := g.hitGroup ++ [{ entryPoint := entryPoint, inputData := inputData }] }

/-- The formats named by the view. -/
inductive DXGI_FORMAT where
  | UNKNOWN
  | R8G8B8A8_UNORM
  | R32G32B32A32_FLOAT
  | R32_FLOAT
  | R16G16B16A16_SNORM
  | R8_UNORM
  | R16_UINT
deriving DecidableEq, Repr

/-- A descriptor written into a descriptor heap. -/
inductive Descriptor where
  | uavTexture2D (resource : Ptr)
  | uavBuffer (resource : Ptr) (numElements : Nat) (format : DXGI_FORMAT)
  | srvTexture2D (resource : Ptr) (format : DXGI_FORMAT)
  | srvAccelerationStructure (location : Nat)
  | cbv (bufferLocation : Nat) (sizeInBytes : Nat)
  | srvBuffer (resource : Ptr) (numElements : Nat) (structureByteStride : Nat)
deriving DecidableEq, Repr

/-- The members of the view that hold GPU allocations: textures, buffers and descriptor
heaps. -/
inductive Resource where
  | rasterBg
  | rtOutput
  | rtAlbedo
  | rtNormal
  | rtHitDistance
  | rtHitColor
  | rtHitNormal
  | rtHitSpecular
  | rtHitInstanceId
  | rtHitInstanceIdReadback
  | tlasScratch
  | tlasResult
  | tlasInstanceDesc
  | activeInstancesBufferProps
  | sbtStorage
  | viewParamBufferResource
  | rasterBgHeap
  | descriptorHeap
  | composeHeap
deriving DecidableEq, Repr

/-- The answers of the external collaborators during one call of the view: the device
size, `Device::allocateBuffer` and `Device::allocateResource` (the allocation pointer,
null when the allocator failed), the D3D12 calls checked by `D3D12_CHECK`, the
nv_helpers descriptor-heap, acceleration-structure and binding-table helpers, the
addresses of resources, the content of newly allocated upload memory, the viewport and
scissor rectangle of the device, the hash of the view and projection matrices, the aspect
ratio of the device, and the mapped read-back buffer of hit instance ids (the two bytes
found at a byte offset). -/
structure Device (F : Type) where
  width : Int
  height : Int
  allocateBuffer : Resource → Nat → Ptr
  allocateResource : Resource → Int → Int → Ptr
  createRtvHeap : Except Fault Ptr
  CreateDescriptorHeap : Nat → Except Fault Ptr
  ComputeASBufferSizes : List (TLASInstance F) → Nat × Nat × Nat
  GenerateTopLevelAS : List (TLASInstance F) → Ptr → Ptr → Ptr → Except Fault Unit
  ComputeSBTSize : ShaderBindingTableGenerator → Nat
  GenerateSBT : ShaderBindingTableGenerator → Ptr → Except Fault Unit
  mapInstanceProps : Except Fault Unit
  gpuDescriptorHandle : Ptr → Nat
  gpuVirtualAddress : Ptr → Nat
  getTexture : Ptr → Ptr
  freshInstanceProps : Nat → InstanceProperties F
  d3dViewport : D3D12_VIEWPORT F
  d3dScissorRect : D3D12_RECT
  mapViewParams : Except Fault Unit
  XXHash32 : XMMATRIX F → XMMATRIX F → Nat
  GetRayGenSectionSize : ShaderBindingTableGenerator → Nat
  GetMissSectionSize : ShaderBindingTableGenerator → Nat
  GetMissEntrySize : ShaderBindingTableGenerator → Nat
  GetHitGroupSectionSize : ShaderBindingTableGenerator → Nat
  GetHitGroupEntrySize : ShaderBindingTableGenerator → Nat
  aspectRatio : F
  mapReadback : Except Fault Unit
  readbackInstanceId : Nat → Nat

/-- Modelled from the spec: the struct `ViewParamsBuffer` is declared in rt64_view.h. The
members are those `update` and `render` write; `frameCount` is a 32-bit counter. -/
structure ViewParamsBuffer (F : Type) where
  view : XMMATRIX F
  projection : XMMATRIX F
  viewI : XMMATRIX F
  projectionI : XMMATRIX F
  prevViewProj : XMMATRIX F
  viewport : Fin 4 → F
  resolution : Fin 4 → F
  randomSeed : Nat
  frameCount : Nat

/-- Modelled from the spec: the class `RT64::View` is declared in rt64_view.h; its
members are those the methods of rt64_view.cpp read and write. The fields
`instancePropsData`, `descriptorWrites`, `composeWrites` and `allocations` are not members
of the class: they record the content of the mapped instance-properties buffer, the
descriptors last written into the two heaps with their slots, and the allocation requests
issued so far (for a texture, the product of its width and height; for a descriptor heap,
its number of descriptors). -/
structure View (F : Type) where
  rtInstances : List (RenderInstance F)
  rasterBgInstances : List (RenderInstance F)
  rasterFgInstances : List (RenderInstance F)
  usedTextures : List Ptr
  topLevelASGenerator : List (TLASInstance F)
  topLevelASBuffers : AccelerationStructureBuffers
  activeInstancesBufferProps : Ptr
  activeInstancesBufferPropsSize : Nat
  instancePropsData : Nat → InstanceProperties F
  descriptorHeap : Ptr
  descriptorHeapEntryCount : Nat
  descriptorWrites : List (Nat × Descriptor)
  composeHeap : Ptr
  composeWrites : List (Nat × Descriptor)
  sbtHelper : ShaderBindingTableGenerator
  sbtStorage : Ptr
  sbtStorageSize : Nat
  viewParamBufferResource : Ptr
  viewParamsBufferSize : Nat
  viewParamsBufferData : ViewParamsBuffer F
  rtWidth : Int
  rtHeight : Int
  rtScale : F
  resolutionScale : F
  rasterBg : Ptr
  rtOutput : Ptr
  rtAlbedo : Ptr
  rtNormal : Ptr
  rtHitDistance : Ptr
  rtHitColor : Ptr
  rtHitNormal : Ptr
  rtHitSpecular : Ptr
  rtHitInstanceId : Ptr
  rtHitInstanceIdReadback : Ptr
  rasterBgHeap : Ptr
  denoiserEnabled : Bool
  denoiser : Ptr
  viewParamsBufferUpdatedThisFrame : Bool
  rtHitInstanceIdReadbackUpdated : Bool
  scissorApplied : Bool
  viewportApplied : Bool
  perspectiveControlActive : Bool
  fovRadians : F
  nearDist : F
  farDist : F
  allocations : List (Resource × Nat)

/-! ## The operations of the view -/

/-- The method `View::releaseOutputBuffers`: `Release` leaves a null allocation. The
read-back buffer is not among the members it releases. -/
def View.releaseOutputBuffers {F : Type} (v : View F) : View F :=
  { v with
    rasterBg := 0, rtOutput := 0, rtAlbedo := 0, rtNormal := 0, rtHitDistance := 0,
    rtHitColor := 0, rtHitNormal := 0, rtHitSpecular := 0, rtHitInstanceId := 0 }

/-- The method `View::createOutputBuffers` (rt64_view.cpp:71-138). The products of `int`
values are taken exactly; the call `denoiser->set` is a call into the denoiser and leaves
no trace in this state. -/
def View.createOutputBuffers {F : Type} (fl : FloatOps F) (dev : Device F) (v : View F) :
    Except Fault (View F) :=
  let v := v.releaseOutputBuffers
  let screenWidth := dev.width
  let screenHeight := dev.height
  let rtWidth := fl.lround (fl.mul (fl.ofInt screenWidth) v.rtScale)
  let rtHeight := fl.lround (fl.mul (fl.ofInt screenHeight) v.rtScale)
  let resolution : Fin 4 → F := fun i =>
    if i = 0 then fl.ofInt rtWidth
    else if i = 1 then fl.ofInt rtHeight
    else if i = 2 then fl.ofInt screenWidth
    else fl.ofInt screenHeight
  let hitCountBufferSizeOne := intToUInt64 (rtWidth * rtHeight)
  let hitCountBufferSizeAll := toUInt64 (hitCountBufferSizeOne * intToUInt64 MaxQueries)
  let v : View F :=
    { v with
      rtWidth := rtWidth
      rtHeight := rtHeight
      viewParamsBufferData := { v.viewParamsBufferData with resolution := resolution }
      rasterBg := dev.allocateResource .rasterBg screenWidth screenHeight
      rtOutput := dev.allocateResource .rtOutput rtWidth rtHeight
      rtAlbedo := dev.allocateResource .rtAlbedo rtWidth rtHeight
      rtNormal := dev.allocateResource .rtNormal rtWidth rtHeight
      rtHitDistance := dev.allocateBuffer .rtHitDistance (toUInt64 (hitCountBufferSizeAll * 4))
      rtHitColor := dev.allocateBuffer .rtHitColor (toUInt64 (hitCountBufferSizeAll * 4))
      rtHitNormal := dev.allocateBuffer .rtHitNormal (toUInt64 (hitCountBufferSizeAll * 8))
      rtHitSpecular := dev.allocateBuffer .rtHitSpecular hitCountBufferSizeAll
      rtHitInstanceId := dev.allocateBuffer .rtHitInstanceId (toUInt64 (hitCountBufferSizeAll * 2))
      rtHitInstanceIdReadback :=
        dev.allocateBuffer .rtHitInstanceIdReadback (toUInt64 (hitCountBufferSizeOne * 2))
      allocations := v.allocations ++
        [(.rasterBg, intToUInt64 (screenWidth * screenHeight)),
         (.rtOutput, intToUInt64 (rtWidth * rtHeight)),
         (.rtAlbedo, intToUInt64 (rtWidth * rtHeight)),
         (.rtNormal, intToUInt64 (rtWidth * rtHeight)),
         (.rtHitDistance, toUInt64 (hitCountBufferSizeAll * 4)),
         (.rtHitColor, toUInt64 (hitCountBufferSizeAll * 4)),
         (.rtHitNormal, toUInt64 (hitCountBufferSizeAll * 8)),
         (.rtHitSpecular, hitCountBufferSizeAll),
         (.rtHitInstanceId, toUInt64 (hitCountBufferSizeAll * 2)),
         (.rtHitInstanceIdReadback, toUInt64 (hitCountBufferSizeOne * 2))] }
  match dev.createRtvHeap with
  | .error e => .error e
  | .ok heap =>
    .ok { v with rasterBgHeap := heap, allocations := v.allocations ++ [(.rasterBgHeap, 1)] }

/-- The method `View::createInstancePropertiesBuffer` (rt64_view.cpp:152-160). -/
def View.createInstancePropertiesBuffer {F : Type} (hdr : PublicHeader) (dev : Device F)
    (v : View F) : View F :=
  let totalInstances : Nat :=
    toUInt32 (toUInt64 (v.rtInstances.length + v.rasterBgInstances.length
      + v.rasterFgInstances.length))
  let newBufferSize : Nat :=
    toUInt32 (ROUND_UP (toUInt64 (totalInstances * hdr.sizeofInstanceProperties))
      D3D12_CONSTANT_BUFFER_DATA_PLACEMENT_ALIGNMENT)
  if v.activeInstancesBufferPropsSize ≠ newBufferSize then
    { v with
      activeInstancesBufferProps := dev.allocateBuffer .activeInstancesBufferProps newBufferSize
      activeInstancesBufferPropsSize := newBufferSize
      instancePropsData := dev.freshInstanceProps
      allocations := v.allocations ++ [(.activeInstancesBufferProps, newBufferSize)] }
  else v

/-- The matrix stored as `objectToWorldNormal` for a raytraced instance
(rt64_view.cpp:173-183). -/
def objectToWorldNormal {F : Type} (fl : FloatOps F) (objectToWorld : XMMATRIX F) :
    XMMATRIX F :=
  let upper3x3 := objectToWorld
  let upper3x3 := upper3x3.set 0 3 fl.zero
  let upper3x3 := upper3x3.set 1 3 fl.zero
  let upper3x3 := upper3x3.set 2 3 fl.zero
  let upper3x3 := upper3x3.set 3 0 fl.zero
  let upper3x3 := upper3x3.set 3 1 fl.zero
  let upper3x3 := upper3x3.set 3 2 fl.zero
  let upper3x3 := upper3x3.set 3 3 fl.one
  XMMatrixTranspose (fl.XMMatrixInverse upper3x3)

/-- The mapped instance-properties buffer together with the write pointer `current`,
counted in records from the start of the buffer. -/
structure PropsCursor (F : Type) where
  data : Nat → InstanceProperties F
  current : Nat

/-- One iteration of the loop over `rtInstances` in `updateInstancePropertiesBuffer`. -/
def PropsCursor.writeRt {F : Type} (fl : FloatOps F) (c : PropsCursor F)
    (inst : RenderInstance F) : PropsCursor F :=
  { data := fun k =>
      if k = c.current then
        { objectToWorld := inst.transform
          objectToWorldNormal := objectToWorldNormal fl inst.transform
          material := inst.material }
      else c.data k
    current := c.current + 1 }

/-- One iteration of the loops over `rasterBgInstances` and `rasterFgInstances` in
`updateInstancePropertiesBuffer`: only the material is stored. -/
def PropsCursor.writeRaster {F : Type} (c : PropsCursor F) (inst : RenderInstance F) :
    PropsCursor F :=
  { data := fun k =>
      if k = c.current then { c.data k with material := inst.material } else c.data k
    current := c.current + 1 }

/-- The three loops of `updateInstancePropertiesBuffer` (rt64_view.cpp:168-198), started
at the beginning of the mapped buffer. -/
def View.writeInstanceProperties {F : Type} (fl : FloatOps F) (v : View F) : PropsCursor F :=
  let c : PropsCursor F := { data := v.instancePropsData, current := 0 }
  let c := v.rtInstances.foldl (PropsCursor.writeRt fl) c
  let c := v.rasterBgInstances.foldl PropsCursor.writeRaster c
  v.rasterFgInstances.foldl PropsCursor.writeRaster c

/-- The method `View::updateInstancePropertiesBuffer` (rt64_view.cpp:162-201). -/
def View.updateInstancePropertiesBuffer {F : Type} (fl : FloatOps F) (dev : Device F)
    (v : View F) : Except Fault (View F) :=
  if v.activeInstancesBufferProps = 0 then .error .nullDereference
  else
    match dev.mapInstanceProps with
    | .error e => .error e
    | .ok _ => .ok { v with instancePropsData := (v.writeInstanceProperties fl).data }

/-- The calls `AddInstance` issued by the loop of `createTopLevelAS`
(rt64_view.cpp:208-210), in order: the one for `rtInstances[i]` carries
`static_cast<UINT>(i)` and `static_cast<UINT>(2 * i)`. -/
def addInstances {F : Type} (rtInstances : List (RenderInstance F)) : List (TLASInstance F) :=
  rtInstances.mapIdx fun i inst =>
    { bottomLevelAS := inst.bottomLevelAS
      transform := inst.transform
      instanceID := toUInt32 (toUInt64 i)
      hitGroupIndex := toUInt32 (toUInt64 (2 * i))
      flags := inst.flags }

/-- The method `AccelerationStructureBuffers::Release` of rt64_common.h. -/
def AccelerationStructureBuffers.Release (_ : AccelerationStructureBuffers) :
    AccelerationStructureBuffers :=
  { scratch := 0, scratchSize := 0, result := 0, resultSize := 0,
    instanceDesc := 0, instanceDescSize := 0 }

/-- The method `View::createTopLevelAS` (rt64_view.cpp:203-243). -/
def View.createTopLevelAS {F : Type} (dev : Device F) (v : View F)
    (rtInstances : List (RenderInstance F)) : Except Fault (View F) :=
  let v : View F := { v with topLevelASGenerator := addInstances rtInstances }
  let scratchSize := (dev.ComputeASBufferSizes v.topLevelASGenerator).1
  let resultSize := (dev.ComputeASBufferSizes v.topLevelASGenerator).2.1
  let instanceDescsSize := (dev.ComputeASBufferSizes v.topLevelASGenerator).2.2
  let v : View F :=
    if v.topLevelASBuffers.scratchSize < scratchSize ∨ v.topLevelASBuffers.resultSize < resultSize
        ∨ v.topLevelASBuffers.instanceDescSize < instanceDescsSize then
      { v with
        topLevelASBuffers :=
          { v.topLevelASBuffers.Release with
            scratch := dev.allocateBuffer .tlasScratch scratchSize
            scratchSize := scratchSize
            result := dev.allocateBuffer .tlasResult resultSize
            resultSize := resultSize
            instanceDesc := dev.allocateBuffer .tlasInstanceDesc instanceDescsSize
            instanceDescSize := instanceDescsSize }
        allocations := v.allocations ++
          [(.tlasScratch, scratchSize), (.tlasResult, resultSize),
           (.tlasInstanceDesc, instanceDescsSize)] }
    else v
  match dev.GenerateTopLevelAS v.topLevelASGenerator v.topLevelASBuffers.scratch
      v.topLevelASBuffers.result v.topLevelASBuffers.instanceDesc with
  | .error e => .error e
  | .ok _ => .ok v

/-- The texture descriptors written by the loop of `createShaderResourceHeap`
(rt64_view.cpp:364-367), starting at slot `slot`; `usedTextures[i]->getTexture()` is a
call through the pointer `usedTextures[i]`. -/
def textureDescriptors {F : Type} (dev : Device F) :
    List Ptr → Nat → Except Fault (List (Nat × Descriptor))
  | [], _ => .ok []
  | t :: ts, slot =>
    if t = 0 then .error .nullDereference
    else
      match textureDescriptors dev ts (slot + 1) with
      | .error e => .error e
      | .ok ws => .ok ((slot, .srvTexture2D (dev.getTexture t) .R8G8B8A8_UNORM) :: ws)

/-- The number of entries `createShaderResourceHeap` computes for the frame
(rt64_view.cpp:248). -/
def View.entryCount {F : Type} (v : View F) : Nat :=
  toUInt32 ((toUInt32 HeapIndices.MAX.toNat - 1 : Int) + toUInt32 (toUInt64 v.usedTextures.length))

/-- The reallocation step of `createShaderResourceHeap` (rt64_view.cpp:250-259): the
heap is created again, with the required number of entries, when it holds fewer. -/
def View.growDescriptorHeap {F : Type} (dev : Device F) (v : View F) : Except Fault (View F) :=
  if v.descriptorHeapEntryCount < v.entryCount then
    match dev.CreateDescriptorHeap v.entryCount with
    | .error e => .error e
    | .ok heap =>
      .ok { v with
        descriptorHeap := heap
        descriptorHeapEntryCount := v.entryCount
        allocations := v.allocations ++ [(.descriptorHeap, v.entryCount)] }
  else .ok v

/-- The descriptors `createShaderResourceHeap` writes into the heap, each with the slot
the handle points to (rt64_view.cpp:261-367). -/
def View.heapDescriptors {F : Type} (hdr : PublicHeader) (dev : Device F) (scene : Scene F)
    (v : View F) : Except Fault (List (Nat × Descriptor)) :=
  if v.descriptorHeap = 0 then .error .nullDereference
  else
    let numElements := toUInt32 (v.rtWidth * v.rtHeight * MaxQueries)
    let outputs : List (Nat × Descriptor) :=
      [(0, .uavTexture2D v.rtOutput),
       (1, .uavTexture2D v.rtAlbedo),
       (2, .uavTexture2D v.rtNormal),
       (3, .uavBuffer v.rtHitDistance numElements .R32_FLOAT),
       (4, .uavBuffer v.rtHitColor numElements .R8G8B8A8_UNORM),
       (5, .uavBuffer v.rtHitNormal numElements .R16G16B16A16_SNORM),
       (6, .uavBuffer v.rtHitSpecular numElements .R8_UNORM),
       (7, .uavBuffer v.rtHitInstanceId numElements .R16_UINT),
       (8, .srvTexture2D v.rasterBg .R8G8B8A8_UNORM)]
    let sceneBVH : List (Nat × Descriptor) :=
      if v.topLevelASBuffers.result ≠ 0 then
        [(9, .srvAccelerationStructure (dev.gpuVirtualAddress v.topLevelASBuffers.result))]
      else []
    if v.viewParamBufferResource = 0 then .error .nullDereference
    else
      let viewParams : List (Nat × Descriptor) :=
        [(10, .cbv (dev.gpuVirtualAddress v.viewParamBufferResource) v.viewParamsBufferSize)]
      let lights : List (Nat × Descriptor) :=
        if scene.lightsCount > 0 then
          [(11, .srvBuffer scene.lightsBuffer (toUInt32 scene.lightsCount) hdr.sizeofLight)]
        else []
      let props : List (Nat × Descriptor) :=
        [(12, .srvBuffer v.activeInstancesBufferProps
            (toUInt32 (toUInt64 (v.rtInstances.length + v.rasterBgInstances.length
              + v.rasterFgInstances.length)))
            hdr.sizeofInstanceProperties)]
      match textureDescriptors dev v.usedTextures 13 with
      | .error e => .error e
      | .ok textures => .ok (outputs ++ sceneBVH ++ viewParams ++ lights ++ props ++ textures)

/-- The last block of `createShaderResourceHeap` (rt64_view.cpp:369-388): the heap of
the compose shader is created once and its single descriptor written. -/
def View.createComposeHeap {F : Type} (dev : Device F) (v : View F) : Except Fault (View F) :=
  let created : Except Fault (View F) :=
    if v.composeHeap = 0 then
      match dev.CreateDescriptorHeap 1 with
      | .error e => .error e
      | .ok heap =>
        .ok { v with composeHeap := heap, allocations := v.allocations ++ [(.composeHeap, 1)] }
    else .ok v
  match created with
  | .error e => .error e
  | .ok v =>
    if v.composeHeap = 0 then .error .nullDereference
    else .ok { v with composeWrites := [(0, .srvTexture2D v.rtOutput .R32G32B32A32_FLOAT)] }

/-- The method `View::createShaderResourceHeap` (rt64_view.cpp:245-389). The handle is
represented by the number of the slot it points to. -/
def View.createShaderResourceHeap {F : Type} (hdr : PublicHeader) (dev : Device F)
    (scene : Scene F) (v : View F) : Except Fault (View F) :=
  if ¬ v.usedTextures.length ≤ 1024 then .error .assertion
  else
    match v.growDescriptorHeap dev with
    | .error e => .error e
    | .ok v =>
      match v.heapDescriptors hdr dev scene with
      | .error e => .error e
      | .ok writes => View.createComposeHeap dev { v with descriptorWrites := writes }

/-- The two calls `AddHitGroup` of one iteration of the loop of
`createShaderBindingTable` (rt64_view.cpp:413-425). -/
def addHitGroups {F : Type} (heapPointer : Nat) (g : ShaderBindingTableGenerator)
    (rtInstance : RenderInstance F) : ShaderBindingTableGenerator :=
  let g := g.AddHitGroup .SurfaceHitGroup
    [rtInstance.vertexBufferView.BufferLocation, rtInstance.indexBufferView.BufferLocation,
     heapPointer]
  g.AddHitGroup .ShadowHitGroup
    [rtInstance.vertexBufferView.BufferLocation, rtInstance.indexBufferView.BufferLocation,
     heapPointer]

/-- The registrations of `createShaderBindingTable` (rt64_view.cpp:394-425). -/
def View.registerPrograms {F : Type} (heapPointer : Nat) (v : View F) :
    ShaderBindingTableGenerator :=
  let g := v.sbtHelper.Reset
  let g := g.AddRayGenerationProgram .TraceRayGen [heapPointer]
  let g := g.AddMissProgram .ShadowMiss []
  v.rtInstances.foldl (addHitGroups heapPointer) g

/-- The method `View::createShaderBindingTable` (rt64_view.cpp:391-442). -/
def View.createShaderBindingTable {F : Type} (dev : Device F) (v : View F) :
    Except Fault (View F) :=
  if v.descriptorHeap = 0 then .error .nullDereference
  else
    let heapPointer := dev.gpuDescriptorHandle v.descriptorHeap
    let v : View F := { v with sbtHelper := v.registerPrograms heapPointer }
    let sbtSize := toUInt32 (dev.ComputeSBTSize v.sbtHelper)
    let v : View F :=
      if v.sbtStorageSize < sbtSize then
        { v with
          sbtStorage := dev.allocateBuffer .sbtStorage sbtSize
          sbtStorageSize := sbtSize
          allocations := v.allocations ++ [(.sbtStorage, sbtSize)] }
      else v
    match dev.GenerateSBT v.sbtHelper v.sbtStorage with
    | .error e => .error e
    | .ok _ => .ok v

/-- The first part of one iteration of the loop of `View::update` (rt64_view.cpp:502-553):
the members of `renderInstance` are filled from the instance and its textures are
appended to `usedTextures`; `screenHeight` is the `unsigned int` read before the loop. -/
def fillRenderInstance {F : Type} (hdr : PublicHeader) (fl : FloatOps F) (screenHeight : Nat)
    (usedTextures : List Ptr) (inst : Instance F) : RenderInstance F × List Ptr :=
  let instFlags := inst.flags
  let usedMesh := inst.mesh
  let diffuseTexIndex := toInt32 (toUInt64 usedTextures.length)
  let flags :=
    if instFlags &&& hdr.RT64_INSTANCE_DISABLE_BACKFACE_CULLING ≠ 0 then
      D3D12_RAYTRACING_INSTANCE_FLAG_TRIANGLE_CULL_DISABLE
    else D3D12_RAYTRACING_INSTANCE_FLAG_NONE
  let usedTextures := usedTextures ++ [inst.diffuseTexture]
  let scissorRect : D3D12_RECT :=
    if inst.hasScissorRect then
      let rect := inst.scissorRect
      { left := rect.x
        top := toInt32 (toUInt32 (screenHeight - rect.y - rect.h))
        right := toInt32 (rect.x + rect.w)
        bottom := toInt32 (toUInt32 (screenHeight - rect.y)) }
    else { left := 0, top := 0, right := 0, bottom := 0 }
  let viewport : D3D12_VIEWPORT F :=
    if inst.hasViewportRect then
      let rect := inst.viewportRect
      { TopLeftX := fl.ofInt rect.x
        TopLeftY := fl.ofInt (toUInt32 (screenHeight - rect.y - rect.h))
        Width := fl.ofInt rect.w
        Height := fl.ofInt rect.h }
    else { TopLeftX := fl.zero, TopLeftY := fl.zero, Width := fl.zero, Height := fl.zero }
  let normalTexIndex : Int :=
    if inst.normalTexture ≠ 0 then toInt32 (toUInt64 usedTextures.length) else -1
  let usedTextures :=
    if inst.normalTexture ≠ 0 then usedTextures ++ [inst.normalTexture] else usedTextures
  let specularTexIndex : Int :=
    if inst.specularTexture ≠ 0 then toInt32 (toUInt64 usedTextures.length) else -1
  let usedTextures :=
    if inst.specularTexture ≠ 0 then usedTextures ++ [inst.specularTexture] else usedTextures
  let renderInstance : RenderInstance F :=
    { instance_ := inst
      bottomLevelAS := usedMesh.bottomLevelASResult
      transform := inst.transform
      material :=
        { inst.material with
          diffuseTexIndex := diffuseTexIndex
          normalTexIndex := normalTexIndex
          specularTexIndex := specularTexIndex }
      indexCount := usedMesh.indexCount
      indexBufferView := usedMesh.indexBufferView
      vertexBufferView := usedMesh.vertexBufferView
      flags := flags
      scissorRect := scissorRect
      viewport := viewport }
  (renderInstance, usedTextures)

/-- One iteration of the loop of `View::update` over the scene's instances
(rt64_view.cpp:501-564): the render instance is filled and pushed into its bucket. -/
def View.updateInstance {F : Type} (hdr : PublicHeader) (fl : FloatOps F) (screenHeight : Nat)
    (v : View F) (inst : Instance F) : View F :=
  let renderInstance := (fillRenderInstance hdr fl screenHeight v.usedTextures inst).1
  let usedTextures := (fillRenderInstance hdr fl screenHeight v.usedTextures inst).2
  if renderInstance.bottomLevelAS ≠ 0 then
    { v with usedTextures := usedTextures, rtInstances := v.rtInstances ++ [renderInstance] }
  else if inst.flags &&& hdr.RT64_INSTANCE_RASTER_BACKGROUND ≠ 0 then
    { v with
      usedTextures := usedTextures
      rasterBgInstances := v.rasterBgInstances ++ [renderInstance] }
  else
    { v with
      usedTextures := usedTextures
      rasterFgInstances := v.rasterFgInstances ++ [renderInstance] }

/-- The bucketing pass of `View::update` (rt64_view.cpp:491-564): the four lists are
cleared and the loop runs over the scene's instances in order. -/
def View.updateInstances {F : Type} (hdr : PublicHeader) (fl : FloatOps F) (dev : Device F)
    (scene : Scene F) (v : View F) : View F :=
  let screenHeight := toUInt32 dev.height
  let v : View F :=
    { v with rtInstances := [], rasterBgInstances := [], rasterFgInstances := [],
             usedTextures := [] }
  scene.instances.foldl (View.updateInstance hdr fl screenHeight) v

/-- The first statement of `View::update` (rt64_view.cpp:478-482): a changed resolution
scale is clamped and the output buffers are created again. -/
def View.updateScale {F : Type} (fl : FloatOps F) (dev : Device F) (v : View F) :
    Except Fault (View F) :=
  if fl.ne v.rtScale v.resolutionScale then
    let rtScale := fl.max (fl.min v.resolutionScale fl.two) fl.hundredth
    View.createOutputBuffers fl dev { v with rtScale := rtScale, resolutionScale := rtScale }
  else .ok v

/-- The method `View::update` (rt64_view.cpp:477-591). -/
def View.update {F : Type} (hdr : PublicHeader) (fl : FloatOps F) (dev : Device F)
    (scene : Scene F) (v : View F) : Except Fault (View F) :=
  match v.updateScale fl dev with
  | .error e => .error e
  | .ok v =>
    if scene.instances.isEmpty then
      .ok { v with rtInstances := [], rasterBgInstances := [], rasterFgInstances := [] }
    else
      let v := v.updateInstances hdr fl dev scene
      let built : Except Fault (View F) :=
        if v.rtInstances.isEmpty then .ok v else v.createTopLevelAS dev v.rtInstances
      match built with
      | .error e => .error e
      | .ok v =>
        let v := v.createInstancePropertiesBuffer hdr dev
        match v.createShaderResourceHeap hdr dev scene with
        | .error e => .error e
        | .ok v =>
          match v.createShaderBindingTable dev with
          | .error e => .error e
          | .ok v => v.updateInstancePropertiesBuffer fl dev

/-! ## Rendering -/

/-- The pipeline objects of the device that `render` binds. -/
inductive Pipeline where
  | raster
  | compose
deriving DecidableEq, Repr

/-- The render targets `render` binds: the swap-chain target of the device and the
raster-background texture of the view. -/
inductive RenderTarget where
  | swapChain
  | rasterBg
deriving DecidableEq, Repr

/-- The resource states named by the view. -/
inductive D3D12_RESOURCE_STATES where
  | NON_PIXEL_SHADER_RESOURCE
  | PIXEL_SHADER_RESOURCE
  | RENDER_TARGET
  | UNORDERED_ACCESS
  | COPY_SOURCE
  | COPY_DEST
  | GENERIC_READ
  | RAYTRACING_ACCELERATION_STRUCTURE
deriving DecidableEq, Repr

/-- The fields of `D3D12_DISPATCH_RAYS_DESC` that `render` fills. -/
structure D3D12_DISPATCH_RAYS_DESC where
  rayGenerationStartAddress : Nat
  rayGenerationSizeInBytes : Nat
  missStartAddress : Nat
  missSizeInBytes : Nat
  missStrideInBytes : Nat
  hitGroupStartAddress : Nat
  hitGroupSizeInBytes : Nat
  hitGroupStrideInBytes : Nat
  Width : Int
  Height : Int
  Depth : Nat
deriving DecidableEq, Repr

/-- The calls the view issues on the command list, on the device and on the denoiser. -/
inductive Command (F : Type) where
  | SetPipelineState (pipeline : Pipeline)
  | SetGraphicsRootSignature (pipeline : Pipeline)
  | SetDescriptorHeaps (heaps : List Ptr)
  | SetGraphicsRootDescriptorTable (rootParameterIndex : Nat) (heap : Ptr)
  | RSSetScissorRects (rect : D3D12_RECT)
  | RSSetViewports (viewport : D3D12_VIEWPORT F)
  | IASetPrimitiveTopology
  | SetGraphicsRoot32BitConstant (rootParameterIndex : Nat) (srcData : Nat) (destOffset : Nat)
  | IASetVertexBuffers (numViews : Nat) (view : Option BufferView)
  | IASetIndexBuffer (view : BufferView)
  | DrawIndexedInstanced (indexCount : Nat)
  | ResourceBarrierTransition (resource : Ptr) (before after : D3D12_RESOURCE_STATES)
  | ResourceBarrierUAV (resources : List Ptr)
  | OMSetRenderTargets (target : RenderTarget)
  | ClearRenderTargetView (target : RenderTarget)
  | SetPipelineState1
  | DispatchRays (desc : D3D12_DISPATCH_RAYS_DESC)
  | DrawInstanced (vertexCount : Nat)
  | CopyResource (dst src : Ptr)
  | submitCommandList
  | waitForGPU
  | resetCommandList
  | denoise

/-- A view together with the calls issued so far by the running `render`. -/
structure Recording (F : Type) where
  view : View F
  commands : List (Command F)

/-- Issue the calls `cs`. -/
def Recording.record {F : Type} (rc : Recording F) (cs : List (Command F)) : Recording F :=
  { rc with commands := rc.commands ++ cs }

/-- The lambda `resetPipeline` of `render` (rt64_view.cpp:604-612). -/
def Recording.resetPipeline {F : Type} (rc : Recording F) : Recording F :=
  rc.record
    [.SetPipelineState .raster, .SetGraphicsRootSignature .raster,
     .SetDescriptorHeaps [rc.view.descriptorHeap],
     .SetGraphicsRootDescriptorTable 1 rc.view.descriptorHeap]

/-- The lambda `resetScissor` of `render` (rt64_view.cpp:615-618). -/
def Recording.resetScissor {F : Type} (dev : Device F) (rc : Recording F) : Recording F :=
  { view := { rc.view with scissorApplied := false }
    commands := rc.commands ++ [.RSSetScissorRects dev.d3dScissorRect] }

/-- The lambda `resetViewport` of `render` (rt64_view.cpp:620-623). -/
def Recording.resetViewport {F : Type} (dev : Device F) (rc : Recording F) : Recording F :=
  { view := { rc.view with viewportApplied := false }
    commands := rc.commands ++ [.RSSetViewports dev.d3dViewport] }

/-- The lambda `applyScissor` of `render` (rt64_view.cpp:625-633). -/
def Recording.applyScissor {F : Type} (dev : Device F) (rc : Recording F) (rect : D3D12_RECT) :
    Recording F :=
  if rect.right > rect.left then
    { view := { rc.view with scissorApplied := true }
      commands := rc.commands ++ [.RSSetScissorRects rect] }
  else if rc.view.scissorApplied then rc.resetScissor dev
  else rc

/-- The lambda `applyViewport` of `render` (rt64_view.cpp:635-643). -/
def Recording.applyViewport {F : Type} (fl : FloatOps F) (dev : Device F) (rc : Recording F)
    (viewport : D3D12_VIEWPORT F) : Recording F :=
  if fl.lt fl.zero viewport.Width && fl.lt fl.zero viewport.Height then
    { view := { rc.view with viewportApplied := true }
      commands := rc.commands ++ [.RSSetViewports viewport] }
  else if rc.view.viewportApplied then rc.resetViewport dev
  else rc

/-- One iteration of the loop of the lambda `drawInstances` (rt64_view.cpp:649-658), for
the instance `rasterInstances[j]`. -/
def Recording.drawInstance {F : Type} (fl : FloatOps F) (dev : Device F)
    (baseInstanceIndex : Nat) (applyScissorsAndViewports : Bool) (rc : Recording F) (j : Nat)
    (renderInstance : RenderInstance F) : Recording F :=
  let rc :=
    if applyScissorsAndViewports then
      (rc.applyScissor dev renderInstance.scissorRect).applyViewport fl dev renderInstance.viewport
    else rc
  rc.record
    [.SetGraphicsRoot32BitConstant 0 (toUInt32 (baseInstanceIndex + j)) 0,
     .IASetVertexBuffers 1 (some renderInstance.vertexBufferView),
     .IASetIndexBuffer renderInstance.indexBufferView,
     .DrawIndexedInstanced renderInstance.indexCount]

/-- The loop of the lambda `drawInstances` from index `j` on, over the instances that
remain. -/
def Recording.drawLoop {F : Type} (fl : FloatOps F) (dev : Device F) (baseInstanceIndex : Nat)
    (applyScissorsAndViewports : Bool) :
    List (RenderInstance F) → Nat → Recording F → Recording F
  | [], _, rc => rc
  | r :: rs, j, rc =>
    Recording.drawLoop fl dev baseInstanceIndex applyScissorsAndViewports rs (j + 1)
      (rc.drawInstance fl dev baseInstanceIndex applyScissorsAndViewports j r)

/-- The lambda `drawInstances` of `render` (rt64_view.cpp:645-660): the loop runs over the
first `(UINT)(rasterInstances.size())` instances. -/
def Recording.drawInstances {F : Type} (fl : FloatOps F) (dev : Device F) (rc : Recording F)
    (rasterInstances : List (RenderInstance F)) (baseInstanceIndex : Nat)
    (applyScissorsAndViewports : Bool) : Recording F :=
  let rc := rc.record [.IASetPrimitiveTopology]
  let rasterSz := toUInt32 (toUInt64 rasterInstances.length)
  Recording.drawLoop fl dev baseInstanceIndex applyScissorsAndViewports
    (rasterInstances.take rasterSz) 0 rc

/-- The first statement of `updateViewParamsBuffer` (rt64_view.cpp:452-456): the product
of the view and projection matrices is kept as the previous one, once per frame. -/
def View.capturePreviousViewProj {F : Type} (fl : FloatOps F) (v : View F) : View F :=
  if ¬ v.viewParamsBufferUpdatedThisFrame then
    { v with
      viewParamsBufferData :=
        { v.viewParamsBufferData with
          prevViewProj :=
            fl.XMMatrixMultiply v.viewParamsBufferData.view v.viewParamsBufferData.projection }
      viewParamsBufferUpdatedThisFrame := true }
  else v

/-- The method `View::updateViewParamsBuffer` (rt64_view.cpp:449-475). -/
def View.updateViewParamsBuffer {F : Type} (fl : FloatOps F) (dev : Device F) (v : View F) :
    Except Fault (View F) :=
  if ¬ fl.lt fl.zero v.fovRadians then .error .assertion
  else
    let v := v.capturePreviousViewProj fl
    let v : View F :=
      { v with
        viewParamsBufferData :=
          { v.viewParamsBufferData with
            randomSeed :=
              toUInt32 (dev.XXHash32 v.viewParamsBufferData.view v.viewParamsBufferData.projection)
            viewI := fl.XMMatrixInverse v.viewParamsBufferData.view
            projectionI := fl.XMMatrixInverse v.viewParamsBufferData.projection } }
    if v.viewParamBufferResource = 0 then .error .nullDereference
    else
      match dev.mapViewParams with
      | .error e => .error e
      | .ok _ => .ok v

/-- The background passes of `render` (rt64_view.cpp:662-688): the background bucket is
drawn to the screen and then to the raster-background texture. -/
def Recording.rasterBackground {F : Type} (fl : FloatOps F) (dev : Device F)
    (rc : Recording F) : Except Fault (Recording F) :=
  let rc := ((rc.resetPipeline).resetScissor dev).resetViewport dev
  let rc := rc.drawInstances fl dev rc.view.rasterBgInstances
    (toUInt32 (toUInt64 rc.view.rtInstances.length)) true
  let rc := rc.record
    [.ResourceBarrierTransition rc.view.rasterBg .NON_PIXEL_SHADER_RESOURCE .RENDER_TARGET]
  if rc.view.rasterBgHeap = 0 then .error .nullDereference
  else
    let rc := rc.record [.OMSetRenderTargets .rasterBg, .ClearRenderTargetView .rasterBg]
    let rc := (rc.resetScissor dev).resetViewport dev
    let rc := rc.drawInstances fl dev rc.view.rasterBgInstances
      (toUInt32 (toUInt64 rc.view.rtInstances.length)) false
    .ok (rc.record
      [.ResourceBarrierTransition rc.view.rasterBg .RENDER_TARGET .NON_PIXEL_SHADER_RESOURCE])

/-- The denoiser step of `render` (rt64_view.cpp:743-764). -/
def Recording.denoiseStep {F : Type} (dev : Device F) (rc : Recording F) : Recording F :=
  if rc.view.denoiserEnabled && decide (rc.view.denoiser ≠ 0) then
    let rc := rc.record
      [.ResourceBarrierUAV [rc.view.rtAlbedo, rc.view.rtNormal], .submitCommandList,
       .waitForGPU, .resetCommandList, .denoise]
    (rc.resetScissor dev).resetViewport dev
  else rc

/-- The scissor rectangle of the raytracing step (rt64_view.cpp:697-701): that of the
first raytraced instance, or the one of the device when it has none. -/
def rtScissorRect {F : Type} (dev : Device F) (first : RenderInstance F) : D3D12_RECT :=
  if first.scissorRect.right ≤ first.scissorRect.left then dev.d3dScissorRect
  else first.scissorRect

/-- The viewport of the raytracing step (rt64_view.cpp:698-705): that of the first
raytraced instance, or the one of the device when it has none. -/
def rtViewport {F : Type} (fl : FloatOps F) (dev : Device F) (first : RenderInstance F) :
    D3D12_VIEWPORT F :=
  if fl.eq first.viewport.Width fl.zero || fl.eq first.viewport.Height fl.zero then
    dev.d3dViewport
  else first.viewport

/-- The descriptor of the ray dispatch (rt64_view.cpp:713-734). -/
def View.dispatchRaysDesc {F : Type} (dev : Device F) (v : View F) : D3D12_DISPATCH_RAYS_DESC :=
  let start := dev.gpuVirtualAddress v.sbtStorage
  let rayGenerationSectionSizeInBytes := toUInt32 (dev.GetRayGenSectionSize v.sbtHelper)
  let missSectionSizeInBytes := toUInt32 (dev.GetMissSectionSize v.sbtHelper)
  let hitGroupsSectionSize := toUInt32 (dev.GetHitGroupSectionSize v.sbtHelper)
  { rayGenerationStartAddress := start
    rayGenerationSizeInBytes := rayGenerationSectionSizeInBytes
    missStartAddress := toUInt64 (start + rayGenerationSectionSizeInBytes)
    missSizeInBytes := missSectionSizeInBytes
    missStrideInBytes := toUInt32 (dev.GetMissEntrySize v.sbtHelper)
    hitGroupStartAddress :=
      toUInt64 (toUInt64 (start + rayGenerationSectionSizeInBytes) + missSectionSizeInBytes)
    hitGroupSizeInBytes := hitGroupsSectionSize
    hitGroupStrideInBytes := toUInt32 (dev.GetHitGroupEntrySize v.sbtHelper)
    Width := v.rtWidth
    Height := v.rtHeight
    Depth := 1 }

/-- The raytracing part of `render` for a non-empty raytraced bucket whose first instance
is `first` (rt64_view.cpp:692-782). -/
def Recording.raytrace {F : Type} (fl : FloatOps F) (dev : Device F) (rc : Recording F)
    (first : RenderInstance F) : Except Fault (Recording F) :=
  let rc := rc.record
    [.ResourceBarrierTransition rc.view.rtOutput .PIXEL_SHADER_RESOURCE .UNORDERED_ACCESS]
  let viewport : Fin 4 → F := fun i =>
    if i = 0 then (rtViewport fl dev first).TopLeftX
    else if i = 1 then (rtViewport fl dev first).TopLeftY
    else if i = 2 then (rtViewport fl dev first).Width
    else (rtViewport fl dev first).Height
  let v : View F :=
    { rc.view with viewParamsBufferData := { rc.view.viewParamsBufferData with viewport := viewport } }
  match v.updateViewParamsBuffer fl dev with
  | .error e => .error e
  | .ok v =>
    let rc : Recording F := { rc with view := v }
    if rc.view.sbtStorage = 0 then .error .nullDereference
    else
      let rc := rc.record
        [.SetPipelineState1, .DispatchRays (rc.view.dispatchRaysDesc dev),
         .ResourceBarrierTransition rc.view.rtOutput .UNORDERED_ACCESS .PIXEL_SHADER_RESOURCE]
      let rc := rc.denoiseStep dev
      let rc := (rc.applyScissor dev (rtScissorRect dev first)).applyViewport fl dev
        (rtViewport fl dev first)
      let rc := rc.record
        [.OMSetRenderTargets .swapChain, .SetPipelineState .compose,
         .SetGraphicsRootSignature .compose, .SetDescriptorHeaps [rc.view.composeHeap]]
      if rc.view.composeHeap = 0 then .error .nullDereference
      else
        .ok (rc.record
          [.SetGraphicsRootDescriptorTable 0 rc.view.composeHeap, .IASetPrimitiveTopology,
           .IASetVertexBuffers 0 none, .DrawInstanced 3])

/-- The foreground pass of `render` (rt64_view.cpp:789-793). -/
def Recording.rasterForeground {F : Type} (fl : FloatOps F) (dev : Device F)
    (rc : Recording F) : Recording F :=
  let rc := ((rc.resetPipeline).resetScissor dev).resetViewport dev
  rc.drawInstances fl dev rc.view.rasterFgInstances
    (toUInt32 (toUInt64 (rc.view.rasterBgInstances.length + rc.view.rtInstances.length))) true

/-- The end of `render` (rt64_view.cpp:795-798): the two flags are cleared and the frame
counter is incremented. -/
def View.endFrame {F : Type} (v : View F) : View F :=
  { v with
    rtHitInstanceIdReadbackUpdated := false
    viewParamsBufferUpdatedThisFrame := false
    viewParamsBufferData :=
      { v.viewParamsBufferData with frameCount := toUInt32 (v.viewParamsBufferData.frameCount + 1) } }

/-- The method `View::render` (rt64_view.cpp:593-799): the state of the view after the
call and the calls it issued, in order. -/
def View.render {F : Type} (fl : FloatOps F) (dev : Device F) (v : View F) :
    Except Fault (Recording F) :=
  if v.descriptorHeap = 0 then .ok { view := v, commands := [] }
  else
    match Recording.rasterBackground fl dev { view := v, commands := [] } with
    | .error e => .error e
    | .ok rc =>
      let traced : Except Fault (Recording F) :=
        match rc.view.rtInstances with
        | first :: _ => rc.raytrace fl dev first
        | [] => .ok (rc.record [.OMSetRenderTargets .swapChain])
      match traced with
      | .error e => .error e
      | .ok rc =>
        let rc := rc.rasterForeground fl dev
        .ok { rc with view := rc.view.endFrame }

/-! ## Construction, tunables, camera and picking -/

/-- Modelled from the spec: the struct `RT64_MATRIX4` is declared in public/rt64.h; the
view reads its sixteen floats as `m[i][j]`. -/
structure RT64_MATRIX4 (F : Type) where
  m : Fin 4 → Fin 4 → F

/-- Modelled from the spec: the struct `RT64_VECTOR3` is declared in public/rt64.h; the
view and rt64_common.h read and write its members `x`, `y` and `z`. -/
structure RT64_VECTOR3 (F : Type) where
  x : F
  y : F
  z : F

/-- The routine `XMMatrixSet(m00, ..., m33)`, its sixteen arguments given as `m i j`. -/
def XMMatrixSet {F : Type} (m : Fin 4 → Fin 4 → F) : XMMATRIX F :=
  { r := fun i j => m i j }

/-- The routine `XMVectorSet(x, y, z, w)`. -/
def XMVectorSet {F : Type} (x y z w : F) : XMVECTOR F :=
  fun i => if i = 0 then x else if i = 1 then y else if i = 2 then z else w

/-- The function `Length` of rt64_common.h. -/
def Length {F : Type} (fl : FloatOps F) (a : RT64_VECTOR3 F) : F :=
  let sqrLength := fl.add (fl.add (fl.mul a.x a.x) (fl.mul a.y a.y)) (fl.mul a.z a.z)
  fl.sqrt sqrLength

/-- The operator `/` of rt64_common.h on a vector and a float. -/
def RT64_VECTOR3.div {F : Type} (fl : FloatOps F) (a : RT64_VECTOR3 F) (v : F) :
    RT64_VECTOR3 F :=
  { x := fl.div a.x v, y := fl.div a.y v, z := fl.div a.z v }

/-- The method `View::createViewParamsBuffer` (rt64_view.cpp:444-447); `sizeof(XMMATRIX)`
is 64. -/
def View.createViewParamsBuffer {F : Type} (dev : Device F) (v : View F) : View F :=
  let viewParamsBufferSize :=
    ROUND_UP (toUInt64 (4 * 64 + 8)) D3D12_CONSTANT_BUFFER_DATA_PLACEMENT_ALIGNMENT
  { v with
    viewParamsBufferSize := viewParamsBufferSize
    viewParamBufferResource := dev.allocateBuffer .viewParamBufferResource viewParamsBufferSize
    allocations := v.allocations ++ [(.viewParamBufferResource, viewParamsBufferSize)] }

/-- The constructor `View::View` (rt64_view.cpp:29-61). The members it does not assign
(the camera scalars, the matrices of the view parameters, the content of unmapped memory)
keep the values of `indeterminate`; vectors, helpers and allocations start empty. -/
def View.new {F : Type} (fl : FloatOps F) (dev : Device F) (indeterminate : View F) :
    Except Fault (View F) :=
  let v : View F :=
    { indeterminate with
      rtInstances := []
      rasterBgInstances := []
      rasterFgInstances := []
      usedTextures := []
      topLevelASGenerator := []
      topLevelASBuffers :=
        { scratch := 0, scratchSize := 0, result := 0, resultSize := 0,
          instanceDesc := 0, instanceDescSize := 0 }
      activeInstancesBufferProps := 0
      descriptorHeap := 0
      descriptorHeapEntryCount := 0
      descriptorWrites := []
      composeHeap := 0
      composeWrites := []
      sbtHelper := { rayGen := [], miss := [], hitGroup := [] }
      sbtStorage := 0
      sbtStorageSize := 0
      activeInstancesBufferPropsSize := 0
      viewParamsBufferData :=
        { indeterminate.viewParamsBufferData with randomSeed := 0, frameCount := 0 }
      viewParamBufferResource := 0
      viewParamsBufferSize := 0
      viewParamsBufferUpdatedThisFrame := false
      rtWidth := 0
      rtHeight := 0
      rtScale := fl.one
      resolutionScale := fl.one
      rasterBg := 0
      rtOutput := 0
      rtAlbedo := 0
      rtNormal := 0
      rtHitDistance := 0
      rtHitColor := 0
      rtHitNormal := 0
      rtHitSpecular := 0
      rtHitInstanceId := 0
      rtHitInstanceIdReadback := 0
      rasterBgHeap := 0
      denoiserEnabled := false
      denoiser := 0
      perspectiveControlActive := false
      rtHitInstanceIdReadbackUpdated := false
      scissorApplied := false
      viewportApplied := false
      allocations := [] }
  match v.createOutputBuffers fl dev with
  | .error e => .error e
  | .ok v => .ok (v.createViewParamsBuffer dev)

/-- The method `View::setResolutionScale` (rt64_view.cpp:985-987). -/
def View.setResolutionScale {F : Type} (v : View F) (x : F) : View F :=
  { v with resolutionScale := x }

/-- The method `View::setPerspectiveControlActive` (rt64_view.cpp:913-915). -/
def View.setPerspectiveControlActive {F : Type} (v : View F) (x : Bool) : View F :=
  { v with perspectiveControlActive := x }

/-- The method `View::setPerspective` (rt64_view.cpp:878-896). -/
def View.setPerspective {F : Type} (fl : FloatOps F) (dev : Device F) (v : View F)
    (viewMatrix : RT64_MATRIX4 F) (fovRadians nearDist farDist : F) : View F :=
  if v.perspectiveControlActive then v
  else
    { v with
      fovRadians := fovRadians
      nearDist := nearDist
      farDist := farDist
      viewParamsBufferData :=
        { v.viewParamsBufferData with
          view := XMMatrixSet viewMatrix.m
          projection :=
            fl.XMMatrixPerspectiveFovRH fovRadians dev.aspectRatio nearDist farDist } }

/-- The method `View::getViewPosition` (rt64_view.cpp:917-920). -/
def View.getViewPosition {F : Type} (fl : FloatOps F) (v : View F) : RT64_VECTOR3 F :=
  let pos := fl.XMVector4Transform (XMVectorSet fl.zero fl.zero fl.zero fl.one)
    v.viewParamsBufferData.viewI
  { x := pos 0, y := pos 1, z := pos 2 }

/-- The method `View::getViewDirection` (rt64_view.cpp:922-927). -/
def View.getViewDirection {F : Type} (fl : FloatOps F) (v : View F) : RT64_VECTOR3 F :=
  let xdir := fl.XMVector4Transform (XMVectorSet fl.zero fl.zero fl.one fl.zero)
    v.viewParamsBufferData.viewI
  let dir : RT64_VECTOR3 F := { x := xdir 0, y := xdir 1, z := xdir 2 }
  let length := Length fl dir
  dir.div fl length

/-- The first block of `getRaytracedInstanceAt` (rt64_view.cpp:1024-1036): the ids of
the hit instances are copied to the read-back buffer unless that was done since the last
`render`. -/
def View.refreshReadback {F : Type} (v : View F) : Recording F :=
  if ¬ v.rtHitInstanceIdReadbackUpdated then
    { view := { v with rtHitInstanceIdReadbackUpdated := true }
      commands :=
        [.ResourceBarrierTransition v.rtHitInstanceId .UNORDERED_ACCESS .COPY_SOURCE,
         .CopyResource v.rtHitInstanceIdReadback v.rtHitInstanceId,
         .ResourceBarrierTransition v.rtHitInstanceId .COPY_SOURCE .UNORDERED_ACCESS,
         .submitCommandList, .waitForGPU, .resetCommandList] }
  else { view := v, commands := [] }

/-- The result of `getRaytracedInstanceAt`: the instance returned (`none` for `nullptr`),
the state of the view after the call and the calls it issued. -/
structure Picked (F : Type) where
  instance_ : Option (Instance F)
  view : View F
  commands : List (Command F)

/-- The method `View::getRaytracedInstanceAt` (rt64_view.cpp:1020-1059). -/
def View.getRaytracedInstanceAt {F : Type} (fl : FloatOps F) (dev : Device F) (v : View F)
    (x y : Int) : Except Fault (Picked F) :=
  let rc := v.refreshReadback
  let v := rc.view
  let x := fl.toInt (fl.mul (fl.ofInt x) v.rtScale)
  let y := fl.toInt (fl.mul (fl.ofInt y) v.rtScale)
  if x < 0 ∨ x ≥ v.rtWidth ∨ y < 0 ∨ y ≥ v.rtHeight then
    .ok { instance_ := none, view := v, commands := rc.commands }
  else
    let index := intToUInt64 (toInt32 ((v.rtWidth * y + x) * 2))
    if v.rtHitInstanceIdReadback = 0 then .error .nullDereference
    else
      match dev.mapReadback with
      | .error e => .error e
      | .ok _ =>
        let instanceId := dev.readbackInstanceId index % 65536
        if instanceId ≥ v.rtInstances.length then
          .ok { instance_ := none, view := v, commands := rc.commands }
        else
          .ok { instance_ := (v.rtInstances[instanceId]?).map fun r => r.instance_
                view := v
                commands := rc.commands }

/-! ## A sample frame

A scene of three instances (one with a bottom-level structure, one flagged as
background, one plain) on a 640x480 device, with rational numbers as floats. -/

/-- Rational numbers as floats. The matrix inverse of the sample is the identity map,
which is exact on the identity matrix, the only transform of the sample scene; its square
root is exact on quotients of perfect squares, and its perspective matrix is the one of a
field of view of a right angle. -/
def sampleFloatOps : FloatOps ℚ where
  zero := 0
  one := 1
  two := 2
  hundredth := mkRat 1 100
  lt a b := decide (a < b)
  ne a b := decide (a ≠ b)
  eq a b := decide (a = b)
  ofInt n := n
  mul a b := a * b
  lround x := if 0 ≤ x then ⌊x + mkRat 1 2⌋ else ⌈x - mkRat 1 2⌉
  XMMatrixInverse M := M
  XMMatrixMultiply A B :=
    { r := fun i j => A.r i 0 * B.r 0 j + A.r i 1 * B.r 1 j + A.r i 2 * B.r 2 j
        + A.r i 3 * B.r 3 j }
  toInt x := if 0 ≤ x then ⌊x⌋ else ⌈x⌉
  add a b := a + b
  div a b := a / b
  sqrt x := (Nat.sqrt x.num.toNat : ℚ) / (Nat.sqrt x.den : ℚ)
  XMVector4Transform V M := fun j =>
    V 0 * M.r 0 j + V 1 * M.r 1 j + V 2 * M.r 2 j + V 3 * M.r 3 j
  XMMatrixPerspectiveFovRH _ aspect nearZ farZ :=
    { r := fun i j =>
        if i = 0 ∧ j = 0 then 1 / aspect
        else if i = 1 ∧ j = 1 then 1
        else if i = 2 ∧ j = 2 then farZ / (nearZ - farZ)
        else if i = 2 ∧ j = 3 then -1
        else if i = 3 ∧ j = 2 then nearZ * farZ / (nearZ - farZ)
        else 0 }

/-- Flag masks and sizes of the sample. -/
def sampleHeader : PublicHeader where
  RT64_INSTANCE_RASTER_BACKGROUND := 1
  RT64_INSTANCE_DISABLE_BACKFACE_CULLING := 2
  sizeofInstanceProperties := 208
  sizeofLight := 64

/-- The identity matrix. -/
def sampleIdentity : XMMATRIX ℚ where
  r a b := if a = b then 1 else 0

/-- An instance of the sample scene. -/
def sampleInstance (flags : Nat) (blas : Ptr) (diffuse normal specular : Ptr) (rest : Nat) :
    Instance ℚ where
  flags := flags
  mesh :=
    { bottomLevelASResult := blas
      indexCount := 6
      indexBufferView := { BufferLocation := 4096 + rest }
      vertexBufferView := { BufferLocation := 8192 + rest } }
  transform := sampleIdentity
  material := { diffuseTexIndex := 0, normalTexIndex := 0, specularTexIndex := 0, rest := rest }
  diffuseTexture := diffuse
  normalTexture := normal
  specularTexture := specular
  hasScissorRect := false
  scissorRect := { x := 0, y := 0, w := 0, h := 0 }
  hasViewportRect := false
  viewportRect := { x := 0, y := 0, w := 0, h := 0 }

/-- The sample scene: a raytraced instance with a normal texture, a background instance,
and a plain instance sharing the diffuse texture of the first. -/
def sampleScene : Scene ℚ where
  instances :=
    [sampleInstance 0 500 11 12 0 1, sampleInstance 1 0 13 0 0 2, sampleInstance 0 0 11 0 14 3]
  lightsCount := 1
  lightsBuffer := 700

/-- A device on which every call succeeds. -/
def sampleDevice : Device ℚ where
  width := 640
  height := 480
  allocateBuffer _ size := 1000 + size
  allocateResource _ w h := 2000 + (w * h).toNat
  createRtvHeap := .ok 900
  CreateDescriptorHeap count := .ok (3000 + count)
  ComputeASBufferSizes l := (256 * l.length, 512 * l.length, 64 * l.length)
  GenerateTopLevelAS _ _ _ _ := .ok ()
  ComputeSBTSize g := 64 * g.rayGen.length + 64 * g.miss.length + 64 * g.hitGroup.length
  GenerateSBT _ _ := .ok ()
  mapInstanceProps := .ok ()
  gpuDescriptorHandle p := 16 * p
  gpuVirtualAddress p := 32 * p
  getTexture t := 5000 + t
  freshInstanceProps _ :=
    { objectToWorld := { r := fun _ _ => 7 }
      objectToWorldNormal := { r := fun _ _ => 7 }
      material := { diffuseTexIndex := 0, normalTexIndex := 0, specularTexIndex := 0, rest := 0 } }
  d3dViewport := { TopLeftX := 0, TopLeftY := 0, Width := 640, Height := 480 }
  d3dScissorRect := { left := 0, top := 0, right := 640, bottom := 480 }
  mapViewParams := .ok ()
  XXHash32 A B := ((A.r 0 0).num + (B.r 0 0).num).toNat
  GetRayGenSectionSize g := 64 * g.rayGen.length
  GetMissSectionSize g := 64 * g.miss.length
  GetMissEntrySize _ := 64
  GetHitGroupSectionSize g := 64 * g.hitGroup.length
  GetHitGroupEntrySize _ := 64
  aspectRatio := 4 / 3
  mapReadback := .ok ()
  readbackInstanceId _ := 0

/-- The state of a view after its constructor (rt64_view.cpp:29-61) on the sample device. -/
def sampleView : View ℚ where
  rtInstances := []
  rasterBgInstances := []
  rasterFgInstances := []
  usedTextures := []
  topLevelASGenerator := []
  topLevelASBuffers :=
    { scratch := 0, scratchSize := 0, result := 0, resultSize := 0,
      instanceDesc := 0, instanceDescSize := 0 }
  activeInstancesBufferProps := 0
  activeInstancesBufferPropsSize := 0
  instancePropsData := sampleDevice.freshInstanceProps
  descriptorHeap := 0
  descriptorHeapEntryCount := 0
  descriptorWrites := []
  composeHeap := 0
  composeWrites := []
  sbtHelper := { rayGen := [], miss := [], hitGroup := [] }
  sbtStorage := 0
  sbtStorageSize := 0
  viewParamBufferResource := 1512
  viewParamsBufferSize := 512
  viewParamsBufferData :=
    { view := sampleIdentity
      projection := sampleIdentity
      viewI := sampleIdentity
      projectionI := sampleIdentity
      prevViewProj := sampleIdentity
      viewport := fun _ => 0
      resolution := fun i => if i = 0 ∨ i = 2 then 640 else 480
      randomSeed := 0
      frameCount := 0 }
  rtWidth := 640
  rtHeight := 480
  rtScale := 1
  resolutionScale := 1
  rasterBg := 309200
  rtOutput := 309200
  rtAlbedo := 309200
  rtNormal := 309200
  rtHitDistance := 20890600
  rtHitColor := 20890600
  rtHitNormal := 41780200
  rtHitSpecular := 5223400
  rtHitInstanceId := 10445800
  rtHitInstanceIdReadback := 615400
  rasterBgHeap := 900
  denoiserEnabled := false
  denoiser := 0
  viewParamsBufferUpdatedThisFrame := false
  rtHitInstanceIdReadbackUpdated := false
  scissorApplied := false
  viewportApplied := false
  perspectiveControlActive := false
  fovRadians := 1
  nearDist := 1
  farDist := 100
  allocations := []

/-- The value of a call that returned, and `d` for a call that did not. -/
def okOr {α : Type} (d : α) : Except Fault α → α
  | .ok a => a
  | .error _ => d

/-- The sample view after one update on the sample scene. -/
def sampleUpdated : View ℚ :=
  okOr sampleView (sampleView.update sampleHeader sampleFloatOps sampleDevice sampleScene)

/-! ## Notions used to state the properties -/

section Notions

variable {F : Type}

/-- The mesh of the instance has a bottom-level structure result. -/
def Instance.hasStructure (inst : Instance F) : Bool :=
  decide (inst.mesh.bottomLevelASResult ≠ 0)

/-- The flag bit `RT64_INSTANCE_RASTER_BACKGROUND` of the instance is set. -/
def Instance.isBackground (hdr : PublicHeader) (inst : Instance F) : Bool :=
  decide (inst.flags &&& hdr.RT64_INSTANCE_RASTER_BACKGROUND ≠ 0)

/-- The textures an instance refers to: diffuse, then normal and specular when present. -/
def Instance.textures (inst : Instance F) : List Ptr :=
  [inst.diffuseTexture] ++ (if inst.normalTexture ≠ 0 then [inst.normalTexture] else [])
    ++ (if inst.specularTexture ≠ 0 then [inst.specularTexture] else [])

/-- The number `1 + (normal present) + (specular present)` of an instance. -/
def Instance.textureCount (inst : Instance F) : Nat :=
  1 + (if inst.normalTexture ≠ 0 then 1 else 0) + (if inst.specularTexture ≠ 0 then 1 else 0)

/-- The render instances of a view in the order raytraced, background, foreground. -/
def View.bucketed (v : View F) : List (RenderInstance F) :=
  v.rtInstances ++ v.rasterBgInstances ++ v.rasterFgInstances

/-- The texture indices of the material of `r` point at the textures of its instance
in the list `tex`, an absent normal or specular texture having index `-1`. -/
def RenderInstance.texturesResolved (tex : List Ptr) (r : RenderInstance F) : Prop :=
  (0 ≤ r.material.diffuseTexIndex
    ∧ tex[r.material.diffuseTexIndex.toNat]? = some r.instance_.diffuseTexture)
  ∧ (if r.instance_.normalTexture = 0 then r.material.normalTexIndex = -1
      else 0 ≤ r.material.normalTexIndex
        ∧ tex[r.material.normalTexIndex.toNat]? = some r.instance_.normalTexture)
  ∧ (if r.instance_.specularTexture = 0 then r.material.specularTexIndex = -1
      else 0 ≤ r.material.specularTexIndex
        ∧ tex[r.material.specularTexIndex.toNat]? = some r.instance_.specularTexture)

/-- The buckets and the texture list of two view states agree. -/
def View.SameBuckets (v v' : View F) : Prop :=
  v'.rtInstances = v.rtInstances ∧ v'.rasterBgInstances = v.rasterBgInstances
    ∧ v'.rasterFgInstances = v.rasterFgInstances ∧ v'.usedTextures = v.usedTextures

/-- The two hit-group records of a raytraced instance: the surface record, then the
shadow record, both with the vertex-buffer address, the index-buffer address and the
heap pointer. -/
def hitGroupRecords (heapPointer : Nat) (r : RenderInstance F) : List SBTRecord :=
  [{ entryPoint := .SurfaceHitGroup
     inputData := [r.vertexBufferView.BufferLocation, r.indexBufferView.BufferLocation,
       heapPointer] },
   { entryPoint := .ShadowHitGroup
     inputData := [r.vertexBufferView.BufferLocation, r.indexBufferView.BufferLocation,
       heapPointer] }]

/-- The matrix `M` with its last row and last column replaced by `(0, 0, 0, 1)`: the
upper 3x3 block of `M`, translation row and column zeroed. -/
def upper3x3 (fl : FloatOps F) (M : XMMATRIX F) : XMMATRIX F :=
  { r := fun a b => if a = 3 ∧ b = 3 then fl.one else if a = 3 ∨ b = 3 then fl.zero else M.r a b }

/-- The record `updateInstancePropertiesBuffer` stores for a raytraced instance. -/
def rtRecord (fl : FloatOps F) (r : RenderInstance F) : InstanceProperties F :=
  { objectToWorld := r.transform
    objectToWorldNormal := XMMatrixTranspose (fl.XMMatrixInverse (upper3x3 fl r.transform))
    material := r.material }

/-- The three capacities a view keeps across frames: the number of entries of the
descriptor heap, the size of the binding-table storage and the size of the instance-properties
buffer. -/
def View.capacities (v : View F) : Nat × Nat × Nat :=
  (v.descriptorHeapEntryCount, v.sbtStorageSize, v.activeInstancesBufferPropsSize)

/-- The calls of `drawInstances` that belong to the draw of one instance: the root
constant, the vertex and index buffers and the indexed draw. -/
def Command.isInstanceDraw : Command F → Bool
  | .SetGraphicsRoot32BitConstant _ _ _ => true
  | .IASetVertexBuffers _ (some _) => true
  | .IASetIndexBuffer _ => true
  | .DrawIndexedInstanced _ => true
  | _ => false

/-- The calls that draw the instance `r` with instance index `index`. -/
def instanceDraw (index : Nat) (r : RenderInstance F) : List (Command F) :=
  [.SetGraphicsRoot32BitConstant 0 index 0, .IASetVertexBuffers 1 (some r.vertexBufferView),
   .IASetIndexBuffer r.indexBufferView, .DrawIndexedInstanced r.indexCount]

/-- The calls that draw the instances of `l` in order, the `j`-th with instance index
`base + j`. -/
def instanceDraws (base : Nat) (l : List (RenderInstance F)) : List (Command F) :=
  (l.mapIdx fun j r => instanceDraw (base + j) r).flatten

/-- The instance draws among the calls issued so far. -/
def Recording.draws (rc : Recording F) : List (Command F) :=
  rc.commands.filter Command.isInstanceDraw

/-- From `rc` to `rc'` the instance draws `ds` were issued and no bucket changed. -/
def Recording.Step (rc rc' : Recording F) (ds : List (Command F)) : Prop :=
  rc'.draws = rc.draws ++ ds ∧ rc.view.SameBuckets rc'.view

/-- A device on which no call of an update fails: the checked D3D12 calls and the
helpers return, descriptor heaps and buffers come back non-null. -/
structure Device.Reliable (dev : Device F) : Prop where
  rtvHeap : ∃ heap, dev.createRtvHeap = .ok heap
  descriptorHeap : ∀ count, ∃ heap, dev.CreateDescriptorHeap count = .ok heap ∧ heap ≠ 0
  buffer : ∀ resource size, dev.allocateBuffer resource size ≠ 0
  topLevelAS : ∀ instances scratch result instanceDesc,
    dev.GenerateTopLevelAS instances scratch result instanceDesc = .ok ()
  bindingTable : ∀ helper storage, dev.GenerateSBT helper storage = .ok ()
  map : dev.mapInstanceProps = .ok ()

/-- The allocations a view holds match the sizes it records: a descriptor heap with
entries exists, an instance-properties buffer with a size exists, and the view-parameter
buffer exists. The constructor establishes this. -/
structure View.Allocated (v : View F) : Prop where
  heap : v.descriptorHeapEntryCount = 0 ∨ v.descriptorHeap ≠ 0
  props : v.activeInstancesBufferPropsSize = 0 ∨ v.activeInstancesBufferProps ≠ 0
  viewParams : v.viewParamBufferResource ≠ 0

/-- The three sizes held in `topLevelASBuffers`: scratch, result, instance descriptors. -/
def AccelerationStructureBuffers.sizes (b : AccelerationStructureBuffers) : Nat × Nat × Nat :=
  (b.scratchSize, b.resultSize, b.instanceDescSize)

/-- The condition under which `createTopLevelAS` reallocates (rt64_view.cpp:222): one of
the required sizes exceeds the size held. -/
def AccelerationStructureBuffers.tooSmall (b : AccelerationStructureBuffers)
    (required : Nat × Nat × Nat) : Prop :=
  b.scratchSize < required.1 ∨ b.resultSize < required.2.1
    ∨ b.instanceDescSize < required.2.2

/-- Componentwise order on triples of sizes. -/
def sizesLe (a b : Nat × Nat × Nat) : Prop :=
  a.1 ≤ b.1 ∧ a.2.1 ≤ b.2.1 ∧ a.2.2 ≤ b.2.2

/-- One call of `createTopLevelAS`: the answers of the device during the call and the
argument `rtInstances`. The sizes the backend reports for it are `requiredSizes`. -/
def requiredSizes (call : Device F × List (RenderInstance F)) : Nat × Nat × Nat :=
  call.1.ComputeASBufferSizes (addInstances call.2)

/-- A sequence of `createTopLevelAS` calls; the result lists the state after each. -/
def View.createTopLevelASs :
    List (Device F × List (RenderInstance F)) → View F → Except Fault (List (View F))
  | [], _ => .ok []
  | call :: calls, v =>
    match v.createTopLevelAS call.1 call.2 with
    | .error e => .error e
    | .ok v1 =>
      match View.createTopLevelASs calls v1 with
      | .error e => .error e
      | .ok vs => .ok (v1 :: vs)

/-- No held size of `b` is smaller than the same held size of `a`. -/
def View.heldSizesLe (a b : View F) : Prop :=
  sizesLe a.topLevelASBuffers.sizes b.topLevelASBuffers.sizes

/-- The sizes required by call `b` are at least those required by call `a`. -/
def requiredGrow (a b : Device F × List (RenderInstance F)) : Prop :=
  sizesLe (requiredSizes a) (requiredSizes b)

/-- The three allocation requests of a reallocation in `createTopLevelAS`. -/
def tlasAllocations (required : Nat × Nat × Nat) : List (Resource × Nat) :=
  [(.tlasScratch, required.1), (.tlasResult, required.2.1), (.tlasInstanceDesc, required.2.2)]

/-- The sample device with the acceleration-structure sizes `a`, `b`, `c` reported by the
backend. -/
def sampleSizesDevice (a b c : Nat) : Device ℚ :=
  { sampleDevice with ComputeASBufferSizes := fun _ => (a, b, c) }

/-- The size `createInstancePropertiesBuffer` requires for the buckets of the view
(rt64_view.cpp:153-154). -/
def View.propsBufferSize (hdr : PublicHeader) (v : View F) : Nat :=
  toUInt32 (ROUND_UP (toUInt64 (toUInt32 (toUInt64 (v.rtInstances.length
      + v.rasterBgInstances.length + v.rasterFgInstances.length))
    * hdr.sizeofInstanceProperties)) D3D12_CONSTANT_BUFFER_DATA_PLACEMENT_ALIGNMENT)

/-- The view `v` with the buckets and the texture list of `b`. -/
def View.withBuckets (v b : View F) : View F :=
  { v with
    rtInstances := b.rtInstances
    rasterBgInstances := b.rasterBgInstances
    rasterFgInstances := b.rasterFgInstances
    usedTextures := b.usedTextures }

/-- The answers of two devices that an update reads without allocating agree: the device
size, the sizes the backend reports for the acceleration structure and the binding table,
and the addresses of existing resources, heaps and textures. -/
structure Device.SameAnswers (dev dev2 : Device F) : Prop where
  width : dev2.width = dev.width
  height : dev2.height = dev.height
  asSizes : dev2.ComputeASBufferSizes = dev.ComputeASBufferSizes
  sbtSize : dev2.ComputeSBTSize = dev.ComputeSBTSize
  descriptorHandle : dev2.gpuDescriptorHandle = dev.gpuDescriptorHandle
  virtualAddress : dev2.gpuVirtualAddress = dev.gpuVirtualAddress
  texture : dev2.getTexture = dev.getTexture

/-- The view holds everything an update on `scene` with the answers of `dev` asks for:
every capacity suffices and the helpers and heaps hold what the update would write. -/
structure View.Settled (hdr : PublicHeader) (dev : Device F) (scene : Scene F) (v : View F) :
    Prop where
  generator : v.rtInstances ≠ [] → v.topLevelASGenerator = addInstances v.rtInstances
  tlas : v.rtInstances ≠ [] →
    ¬ v.topLevelASBuffers.tooSmall (dev.ComputeASBufferSizes (addInstances v.rtInstances))
  props : v.activeInstancesBufferPropsSize = v.propsBufferSize hdr
  heapCount : ¬ v.descriptorHeapEntryCount < v.entryCount
  heapWrites : v.heapDescriptors hdr dev scene = .ok v.descriptorWrites
  compose : v.composeHeap ≠ 0
  composeWrites : v.composeWrites = [(0, .srvTexture2D v.rtOutput .R32G32B32A32_FLOAT)]
  sbtHelper : v.sbtHelper = v.registerPrograms (dev.gpuDescriptorHandle v.descriptorHeap)
  sbtSize : ¬ v.sbtStorageSize < toUInt32 (dev.ComputeSBTSize v.sbtHelper)

/-- The allocations made by `createOutputBuffers`: the output textures, the hit buffers,
the read-back buffer and the heap of the raster-background target. -/
def Resource.isOutput : Resource → Bool
  | .rasterBg => true
  | .rtOutput => true
  | .rtAlbedo => true
  | .rtNormal => true
  | .rtHitDistance => true
  | .rtHitColor => true
  | .rtHitNormal => true
  | .rtHitSpecular => true
  | .rtHitInstanceId => true
  | .rtHitInstanceIdReadback => true
  | .rasterBgHeap => true
  | _ => false

/-- What the per-frame rebuilds of `View::update` maintain: the generator and the buffers
of the acceleration structure, the instance-properties buffer, the descriptor heap with
what was written to it, the compose heap, and the binding table with its storage. -/
structure View.SameFrameResources (v v' : View F) : Prop where
  generator : v'.topLevelASGenerator = v.topLevelASGenerator
  buffers : v'.topLevelASBuffers = v.topLevelASBuffers
  props : v'.activeInstancesBufferProps = v.activeInstancesBufferProps
  propsSize : v'.activeInstancesBufferPropsSize = v.activeInstancesBufferPropsSize
  propsData : v'.instancePropsData = v.instancePropsData
  heap : v'.descriptorHeap = v.descriptorHeap
  heapCount : v'.descriptorHeapEntryCount = v.descriptorHeapEntryCount
  heapWrites : v'.descriptorWrites = v.descriptorWrites
  composeHeap : v'.composeHeap = v.composeHeap
  composeWrites : v'.composeWrites = v.composeWrites
  sbtHelper : v'.sbtHelper = v.sbtHelper
  sbtStorage : v'.sbtStorage = v.sbtStorage
  sbtStorageSize : v'.sbtStorageSize = v.sbtStorageSize

/-- A scene without instances. -/
def sampleEmptyScene : Scene ℚ where
  instances := []
  lightsCount := 0
  lightsBuffer := 0

/-- Rounding to the nearest integer, halfway cases away from zero: what `lround` does. -/
def roundHalfAway {F : Type} [LinearOrderedField F] [FloorRing F] (x : F) : Int :=
  if 0 ≤ x then ⌊x + 1 / 2⌋ else ⌈x - 1 / 2⌉

/-- Rounding toward zero: what the conversion `(int)` of a float does. -/
def truncate {F : Type} [LinearOrderedField F] [FloorRing F] (x : F) : Int :=
  if 0 ≤ x then ⌊x⌋ else ⌈x⌉

/-- The float operations read as operations on numbers: the literals are the numbers they
name, comparisons and products are exact, `lround` rounds halfway cases away from zero and
the conversion to `int` rounds toward zero. -/
structure FloatOps.Exact {F : Type} [LinearOrderedField F] [FloorRing F] (fl : FloatOps F) :
    Prop where
  zero_eq : fl.zero = 0
  one_eq : fl.one = 1
  two_eq : fl.two = 2
  hundredth_eq : fl.hundredth = 1 / 100
  lt_iff : ∀ a b, fl.lt a b = true ↔ a < b
  ne_iff : ∀ a b, fl.ne a b = true ↔ a ≠ b
  ofInt_eq : ∀ n : Int, fl.ofInt n = (n : F)
  mul_eq : ∀ a b, fl.mul a b = a * b
  lround_eq : ∀ x, fl.lround x = roundHalfAway x
  toInt_eq : ∀ x, fl.toInt x = truncate x

/-- The view constructed on the sample device. -/
def sampleNew : View ℚ :=
  okOr sampleView (View.new sampleFloatOps sampleDevice sampleView)

/-- The number of times `createOutputBuffers` has run on the view: each run allocates
the raster-background texture once, and nothing else allocates it. -/
def View.outputCreations (v : View F) : Nat :=
  v.allocations.countP fun a => a.1 = Resource.rasterBg

/-- From `v` to `v'` no output buffer was allocated, and the scales, the sizes and the
view-parameter record that `createOutputBuffers` writes are unchanged. -/
structure View.SameOutput (v v' : View F) : Prop where
  creations : v'.outputCreations = v.outputCreations
  rtWidth : v'.rtWidth = v.rtWidth
  rtHeight : v'.rtHeight = v.rtHeight
  viewParams : v'.viewParamsBufferData = v.viewParamsBufferData
  rtOutput : v'.rtOutput = v.rtOutput
  rasterBg : v'.rasterBg = v.rasterBg
  rtScale : v'.rtScale = v.rtScale
  resolutionScale : v'.resolutionScale = v.resolutionScale

/-- The sample view after a request for the scale 1/2 and an update on the sample scene. -/
def sampleHalved : View ℚ :=
  okOr sampleView ((sampleView.setResolutionScale (mkRat 1 2)).update sampleHeader
    sampleFloatOps sampleDevice sampleScene)

/-- The position `getRaytracedInstanceAt` computes for the screen coordinates `(x, y)`
(rt64_view.cpp:1039-1040): each coordinate times `rtScale`, converted to `int`. -/
def View.texel (fl : FloatOps F) (v : View F) (x y : Int) : Int × Int :=
  (fl.toInt (fl.mul (fl.ofInt x) v.rtScale), fl.toInt (fl.mul (fl.ofInt y) v.rtScale))

/-- The bounds check of `getRaytracedInstanceAt` (rt64_view.cpp:1041) lets the position
`p` pass. -/
def View.inBounds (v : View F) (p : Int × Int) : Prop :=
  ¬ (p.1 < 0 ∨ p.1 ≥ v.rtWidth ∨ p.2 < 0 ∨ p.2 ≥ v.rtHeight)

/-- The 16-bit instance id `getRaytracedInstanceAt` reads for the position `p`
(rt64_view.cpp:1046-1050). -/
def View.readbackId (dev : Device F) (v : View F) (p : Int × Int) : Nat :=
  dev.readbackInstanceId (intToUInt64 (toInt32 ((v.rtWidth * p.2 + p.1) * 2))) % 65536

/-- The instance a call of `getRaytracedInstanceAt` returned: `none` for `nullptr`, and
also for a call that did not return. -/
def pickedInstance (r : Except Fault (Picked F)) : Option (Instance F) :=
  match r with
  | .ok p => p.instance_
  | .error _ => none

/-- The row-vector-by-matrix product that `XMVector4Transform` computes on numbers. -/
def vectorTimesMatrix {F : Type} [Field F] (V : XMVECTOR F) (M : XMMATRIX F) : XMVECTOR F :=
  fun j => V 0 * M.r 0 j + V 1 * M.r 1 j + V 2 * M.r 2 j + V 3 * M.r 3 j

/-- The matrix product that `XMMatrixMultiply` computes on numbers. -/
def matrixTimesMatrix {F : Type} [Field F] (A B : XMMATRIX F) : XMMATRIX F :=
  { r := fun i j => A.r i 0 * B.r 0 j + A.r i 1 * B.r 1 j + A.r i 2 * B.r 2 j
      + A.r i 3 * B.r 3 j }

/-- The view matrix of a camera moved by one unit along the x axis, as `RT64_MATRIX4`. -/
def sampleViewMatrix : RT64_MATRIX4 ℚ where
  m i j := if i = j then 1 else if i = 3 ∧ j = 0 then 1 else 0

/-- The inverse of `sampleViewMatrix`. -/
def sampleViewMatrixInverse : XMMATRIX ℚ where
  r i j := if i = j then 1 else if i = 3 ∧ j = 0 then -1 else 0

/-- The frame counter of the view parameters. -/
def View.frameCount (v : View F) : Nat :=
  v.viewParamsBufferData.frameCount

/-- The constructed sample view after an update on the empty scene: a view whose scene
has always been empty. -/
def sampleIdle : View ℚ :=
  okOr sampleView (sampleNew.update sampleHeader sampleFloatOps sampleDevice sampleEmptyScene)

/-- The view that has always had an empty scene, after a call of `getRaytracedInstanceAt`
at the screen coordinates (0, 0). -/
def sampleIdlePicked : View ℚ :=
  (okOr { instance_ := none, view := sampleView, commands := [] }
    (sampleIdle.getRaytracedInstanceAt sampleFloatOps sampleDevice 0 0)).view

/-- The position `getViewPosition` derives from an inverse view matrix: the image of
the point (0, 0, 0, 1). -/
def cameraPosition (fl : FloatOps F) (viewI : XMMATRIX F) : RT64_VECTOR3 F :=
  { x := fl.XMVector4Transform (XMVectorSet fl.zero fl.zero fl.zero fl.one) viewI 0
    y := fl.XMVector4Transform (XMVectorSet fl.zero fl.zero fl.zero fl.one) viewI 1
    z := fl.XMVector4Transform (XMVectorSet fl.zero fl.zero fl.zero fl.one) viewI 2 }

/-- The direction `getViewDirection` derives from an inverse view matrix: the image of
the direction (0, 0, 1, 0), divided by its length. -/
def cameraDirection (fl : FloatOps F) (viewI : XMMATRIX F) : RT64_VECTOR3 F :=
  RT64_VECTOR3.div fl
    { x := fl.XMVector4Transform (XMVectorSet fl.zero fl.zero fl.one fl.zero) viewI 0
      y := fl.XMVector4Transform (XMVectorSet fl.zero fl.zero fl.one fl.zero) viewI 1
      z := fl.XMVector4Transform (XMVectorSet fl.zero fl.zero fl.one fl.zero) viewI 2 }
    (Length fl
      { x := fl.XMVector4Transform (XMVectorSet fl.zero fl.zero fl.one fl.zero) viewI 0
        y := fl.XMVector4Transform (XMVectorSet fl.zero fl.zero fl.one fl.zero) viewI 1
        z := fl.XMVector4Transform (XMVectorSet fl.zero fl.zero fl.one fl.zero) viewI 2 })

/-- The sample view with the sample view matrix set by `setPerspective`. -/
def sampleMoved : View ℚ :=
  sampleView.setPerspective sampleFloatOps sampleDevice sampleViewMatrix 1 1 100

/-- Every check an update makes succeeds on the view as it stands: the texture list fits
the heap, the heap and the instance-properties buffer exist, the backend accepts the
generator and the binding table the view holds, and the buffer can be mapped. -/
structure View.Ready (dev : Device F) (v : View F) : Prop where
  textures : v.usedTextures.length ≤ 1024
  heap : v.descriptorHeap ≠ 0
  tlas : v.rtInstances ≠ [] →
    dev.GenerateTopLevelAS v.topLevelASGenerator v.topLevelASBuffers.scratch
      v.topLevelASBuffers.result v.topLevelASBuffers.instanceDesc = .ok ()
  sbt : dev.GenerateSBT v.sbtHelper v.sbtStorage = .ok ()
  props : v.activeInstancesBufferProps ≠ 0
  map : dev.mapInstanceProps = .ok ()

/-- A scene of 342 background instances, each with a diffuse, a normal and a specular
texture: 1026 texture references. -/
def sampleCrowdedScene : Scene ℚ where
  instances := List.replicate 342 (sampleInstance 1 0 11 12 14 1)
  lightsCount := 0
  lightsBuffer := 0

/-- The byte offset `index` at which `getRaytracedInstanceAt` reads the instance id of the
position `p` (rt64_view.cpp:1046): the `int` value `(rtWidth * y + x) * 2` converted to
`size_t`. -/
def View.readbackOffset (v : View F) (p : Int × Int) : Nat :=
  intToUInt64 (toInt32 ((v.rtWidth * p.2 + p.1) * 2))

/-- The size in bytes `createOutputBuffers` requests for the read-back buffer
(rt64_view.cpp:114-122): `hitCountBufferSizeOne * 2`. -/
def View.readbackSize (v : View F) : Nat :=
  toUInt64 (intToUInt64 (v.rtWidth * v.rtHeight) * 2)

/-- The sample view after a call of `createOutputBuffers` on the sample device. -/
def sampleOutput : View ℚ :=
  okOr sampleView (sampleView.createOutputBuffers sampleFloatOps sampleDevice)

/-- The state of the population of the descriptor heap in `createShaderResourceHeap`: the
descriptors created so far, each with the slot it was created at, and the local `handle`,
counted in descriptors from the start of the heap (`handle.ptr` is the start of the heap
plus `handle` times `handleIncrement`). -/
structure HeapCursor where
  writes : List (Nat × Descriptor)
  handle : Nat

/-- A call `CreateUnorderedAccessView`, `CreateShaderResourceView` or
`CreateConstantBufferView` at `handle`. -/
def HeapCursor.create (c : HeapCursor) (d : Descriptor) : HeapCursor :=
  { c with writes := c.writes ++ [(c.handle, d)] }

/-- The statement `handle.ptr += handleIncrement`. -/
def HeapCursor.advance (c : HeapCursor) : HeapCursor :=
  { c with handle := c.handle + 1 }

/-- The loop over `usedTextures` of `createShaderResourceHeap` (rt64_view.cpp:364-367). -/
def HeapCursor.createTextures (dev : Device F) : List Ptr → HeapCursor → Except Fault HeapCursor
  | [], c => .ok c
  | t :: ts, c =>
    if t = 0 then .error .nullDereference
    else
      HeapCursor.createTextures dev ts
        (c.create (.srvTexture2D (dev.getTexture t) .R8G8B8A8_UNORM)).advance

/-- The population of the descriptor heap in `createShaderResourceHeap`
(rt64_view.cpp:261-367), statement by statement: each resource is followed by one
`handle.ptr += handleIncrement`, which for the acceleration structure and for the lights
stands after the conditional creation. -/
def View.populateHeap (hdr : PublicHeader) (dev : Device F) (scene : Scene F) (v : View F) :
    Except Fault HeapCursor :=
  if v.descriptorHeap = 0 then .error .nullDereference
  else
    let numElements := toUInt32 (v.rtWidth * v.rtHeight * MaxQueries)
    let c : HeapCursor := { writes := [], handle := 0 }
    let c := (c.create (.uavTexture2D v.rtOutput)).advance
    let c := (c.create (.uavTexture2D v.rtAlbedo)).advance
    let c := (c.create (.uavTexture2D v.rtNormal)).advance
    let c := (c.create (.uavBuffer v.rtHitDistance numElements .R32_FLOAT)).advance
    let c := (c.create (.uavBuffer v.rtHitColor numElements .R8G8B8A8_UNORM)).advance
    let c := (c.create (.uavBuffer v.rtHitNormal numElements .R16G16B16A16_SNORM)).advance
    let c := (c.create (.uavBuffer v.rtHitSpecular numElements .R8_UNORM)).advance
    let c := (c.create (.uavBuffer v.rtHitInstanceId numElements .R16_UINT)).advance
    let c := (c.create (.srvTexture2D v.rasterBg .R8G8B8A8_UNORM)).advance
    let c :=
      if v.topLevelASBuffers.result ≠ 0 then
        c.create (.srvAccelerationStructure (dev.gpuVirtualAddress v.topLevelASBuffers.result))
      else c
    let c := c.advance
    if v.viewParamBufferResource = 0 then .error .nullDereference
    else
      let c := (c.create
        (.cbv (dev.gpuVirtualAddress v.viewParamBufferResource) v.viewParamsBufferSize)).advance
      let c :=
        if scene.lightsCount > 0 then
          c.create (.srvBuffer scene.lightsBuffer (toUInt32 scene.lightsCount) hdr.sizeofLight)
        else c
      let c := c.advance
      let c := (c.create
        (.srvBuffer v.activeInstancesBufferProps
          (toUInt32 (toUInt64 (v.rtInstances.length + v.rasterBgInstances.length
            + v.rasterFgInstances.length)))
          hdr.sizeofInstanceProperties)).advance
      HeapCursor.createTextures dev v.usedTextures c

/-- The descriptors of the resources that come first in the heap, in the order of
`HeapIndices` from `gOutput` to `gBackground`. -/
def View.outputDescriptors (v : View F) : List (Nat × Descriptor) :=
  [(HeapIndices.gOutput.toNat, .uavTexture2D v.rtOutput),
   (HeapIndices.gAlbedo.toNat, .uavTexture2D v.rtAlbedo),
   (HeapIndices.gNormal.toNat, .uavTexture2D v.rtNormal),
   (HeapIndices.gHitDistance.toNat,
     .uavBuffer v.rtHitDistance (toUInt32 (v.rtWidth * v.rtHeight * MaxQueries)) .R32_FLOAT),
   (HeapIndices.gHitColor.toNat,
     .uavBuffer v.rtHitColor (toUInt32 (v.rtWidth * v.rtHeight * MaxQueries)) .R8G8B8A8_UNORM),
   (HeapIndices.gHitNormal.toNat,
     .uavBuffer v.rtHitNormal (toUInt32 (v.rtWidth * v.rtHeight * MaxQueries))
       .R16G16B16A16_SNORM),
   (HeapIndices.gHitSpecular.toNat,
     .uavBuffer v.rtHitSpecular (toUInt32 (v.rtWidth * v.rtHeight * MaxQueries)) .R8_UNORM),
   (HeapIndices.gHitInstanceId.toNat,
     .uavBuffer v.rtHitInstanceId (toUInt32 (v.rtWidth * v.rtHeight * MaxQueries)) .R16_UINT),
   (HeapIndices.gBackground.toNat, .srvTexture2D v.rasterBg .R8G8B8A8_UNORM)]

/-- The descriptor of the instance-properties buffer. -/
def View.propsDescriptor (hdr : PublicHeader) (v : View F) : Descriptor :=
  .srvBuffer v.activeInstancesBufferProps
    (toUInt32 (toUInt64 (v.rtInstances.length + v.rasterBgInstances.length
      + v.rasterFgInstances.length)))
    hdr.sizeofInstanceProperties

/-- The sample view after an update on the sample scene, as the result of a further call
of `createShaderResourceHeap`. -/
def sampleHeap : View ℚ :=
  okOr sampleView (sampleUpdated.createShaderResourceHeap sampleHeader sampleDevice sampleScene)

/-- The sample scene without its raytraced instance: a background instance and a plain
one. -/
def sampleRasterScene : Scene ℚ where
  instances := [sampleInstance 1 0 13 0 0 2, sampleInstance 0 0 11 0 14 3]
  lightsCount := 1
  lightsBuffer := 700

/-- The sample view after a frame on the sample scene followed by a frame on the scene
without raytraced instances. -/
def sampleSecondFrame : View ℚ :=
  okOr sampleView (sampleUpdated.update sampleHeader sampleFloatOps sampleDevice sampleRasterScene)

/-- The sample view after a first frame on the scene without raytraced instances. -/
def sampleRasterFrame : View ℚ :=
  okOr sampleView (sampleView.update sampleHeader sampleFloatOps sampleDevice sampleRasterScene)

/-- The answer of `D3D12MA::Allocator::CreateResource`: the `HRESULT` it returns and the
allocation it stores through `ppAllocation`, which stays null when the call fails. -/
structure CreateResourceAnswer where
  hresult : Int
  allocation : Ptr

/-- The macro `FAILED` of winerror.h. -/
def FAILED (hr : Int) : Bool := decide (hr < 0)

/-- The code `E_OUTOFMEMORY` of winerror.h, `0x8007000E` as a signed 32-bit integer. -/
def E_OUTOFMEMORY : Int := -2147024882

/-- The method `Device::allocateResource` (rt64_device.cpp:299-308), as a function of the
answer of the allocator: the `HRESULT` of `CreateResource` is not looked at, and the
allocation pointer is wrapped and returned. -/
def DeviceState.allocateResource (answer : CreateResourceAnswer) : Except Fault Ptr :=
  .ok answer.allocation

/-- The method `Device::allocateBuffer` (rt64_device.cpp:310-333), as a function of the
answer of the allocator: the `HRESULT` of `CreateResource` is not looked at, and the
allocation pointer is wrapped and returned. -/
def DeviceState.allocateBuffer (answer : CreateResourceAnswer) : Except Fault Ptr :=
  .ok answer.allocation

/-- The sample device with an allocator that fails on the request for the scratch buffer
of the top-level acceleration structure: `allocateBuffer` hands back the null allocation. -/
def sampleNoScratchDevice : Device ℚ :=
  { sampleDevice with
    allocateBuffer := fun resource size => if resource = .tlasScratch then 0 else 1000 + size }

/-- What an exported function hands to the host: the value it returns and, when it stored
one, the message it left in `RT64::GlobalLastError`. The fault of a call of an exported
function stands for a call that does not return to the host: a failed assertion, a crash,
or an exception that leaves the function. -/
structure HostReturn (α : Type) where
  value : α
  lastError : Option String

/-- A `try` block followed by the macro `RT64_CATCH_EXCEPTION` (rt64_common.h:243-247) and
by the statement after it, which returns `fallthrough`: a `std::runtime_error` thrown by
`body`, with the message `what`, is caught and its message stored. -/
def RT64_CATCH_EXCEPTION {α : Type} (what : String) (fallthrough : α) (body : Except Fault α) :
    Except Fault (HostReturn α) :=
  match body with
  | .ok a => .ok { value := a, lastError := none }
  | .error .runtimeError => .ok { value := fallthrough, lastError := some what }
  | .error e => .error e

/-- The exported function `RT64_CreateDevice` (rt64_device.cpp:853-859); `newDevice` is the
outcome of `new RT64::Device(hwnd)`. -/
def RT64_CreateDevice (what : String) (newDevice : Except Fault Ptr) :
    Except Fault (HostReturn Ptr) :=
  RT64_CATCH_EXCEPTION what 0 newDevice

/-- The exported function `RT64_DestroyDevice` (rt64_device.cpp:861-867); `deleteDevice` is
the outcome of the destructor. -/
def RT64_DestroyDevice (what : String) (devicePtr : Ptr) (deleteDevice : Except Fault Unit) :
    Except Fault (HostReturn Unit) :=
  if devicePtr = 0 then .error .assertion
  else RT64_CATCH_EXCEPTION what () deleteDevice

/-- The exported function `RT64_DrawDevice` (rt64_device.cpp:871-878); `draw` is the outcome
of `Device::draw`, which runs the update and the render of the views. -/
def RT64_DrawDevice (what : String) (devicePtr : Ptr) (draw : Except Fault Unit) :
    Except Fault (HostReturn Unit) :=
  if devicePtr = 0 then .error .assertion
  else RT64_CATCH_EXCEPTION what () draw

/-- The exported function `RT64_CreateView` (rt64_view.cpp:1075-1079): the constructor runs
outside any `try` block. -/
def RT64_CreateView (fl : FloatOps F) (dev : Device F) (scenePtr : Ptr)
    (indeterminate : View F) : Except Fault (HostReturn (View F)) :=
  if scenePtr = 0 then .error .assertion
  else
    match View.new fl dev indeterminate with
    | .error e => .error e
    | .ok v => .ok { value := v, lastError := none }

/-- The exported function `RT64_SetViewPerspective` (rt64_view.cpp:1081-1085); the view
behind `viewPtr` is `none` for a null pointer. -/
def RT64_SetViewPerspective (fl : FloatOps F) (dev : Device F) (viewPtr : Option (View F))
    (viewMatrix : RT64_MATRIX4 F) (fovRadians nearDist farDist : F) :
    Except Fault (HostReturn (View F)) :=
  match viewPtr with
  | none => .error .assertion
  | some view =>
    .ok { value := view.setPerspective fl dev viewMatrix fovRadians nearDist farDist
          lastError := none }

/-- The exported function `RT64_GetViewRaytracedInstanceAt` (rt64_view.cpp:1097-1101): the
method runs outside any `try` block. -/
def RT64_GetViewRaytracedInstanceAt (fl : FloatOps F) (dev : Device F)
    (viewPtr : Option (View F)) (x y : Int) : Except Fault (HostReturn (Picked F)) :=
  match viewPtr with
  | none => .error .assertion
  | some view =>
    match view.getRaytracedInstanceAt fl dev x y with
    | .error e => .error e
    | .ok picked => .ok { value := picked, lastError := none }

/-- The sample device on which the creation of the heap of the raster-background target
fails: `D3D12_CHECK` throws. -/
def sampleNoRtvDevice : Device ℚ :=
  { sampleDevice with createRtvHeap := .error .runtimeError }

/-- The sample device on which mapping the read-back buffer fails: `D3D12_CHECK` throws. -/
def sampleNoMapDevice : Device ℚ :=
  { sampleDevice with mapReadback := .error .runtimeError }

/-- The calls that set the scissor rectangle or the viewport. -/
def Command.isClip : Command F → Bool
  | .RSSetScissorRects _ => true
  | .RSSetViewports _ => true
  | _ => false

/-- The calls issued so far, those that set the scissor rectangle or the viewport left
out. -/
def Recording.calls (rc : Recording F) : List (Command F) :=
  rc.commands.filter fun c => !c.isClip

/-- The members of the view that `render` and `getRaytracedInstanceAt` name in the calls
they issue. -/
structure RenderBindings (F : Type) where
  rtInstances : List (RenderInstance F)
  rasterBgInstances : List (RenderInstance F)
  rasterFgInstances : List (RenderInstance F)
  descriptorHeap : Ptr
  composeHeap : Ptr
  rasterBg : Ptr
  rasterBgHeap : Ptr
  rtOutput : Ptr
  rtAlbedo : Ptr
  rtNormal : Ptr
  rtHitInstanceId : Ptr
  rtHitInstanceIdReadback : Ptr
  sbtStorage : Ptr
  sbtHelper : ShaderBindingTableGenerator
  rtWidth : Int
  rtHeight : Int
  denoiserEnabled : Bool
  denoiser : Ptr

/-- The members of `v` that `render` and `getRaytracedInstanceAt` name in their calls. -/
def View.bindings (v : View F) : RenderBindings F where
  rtInstances := v.rtInstances
  rasterBgInstances := v.rasterBgInstances
  rasterFgInstances := v.rasterFgInstances
  descriptorHeap := v.descriptorHeap
  composeHeap := v.composeHeap
  rasterBg := v.rasterBg
  rasterBgHeap := v.rasterBgHeap
  rtOutput := v.rtOutput
  rtAlbedo := v.rtAlbedo
  rtNormal := v.rtNormal
  rtHitInstanceId := v.rtHitInstanceId
  rtHitInstanceIdReadback := v.rtHitInstanceIdReadback
  sbtStorage := v.sbtStorage
  sbtHelper := v.sbtHelper
  rtWidth := v.rtWidth
  rtHeight := v.rtHeight
  denoiserEnabled := v.denoiserEnabled
  denoiser := v.denoiser

/-- From `rc` to `rc'` the calls `cs` were issued, besides calls that set the scissor
rectangle or the viewport, and no member named in the calls changed. -/
def Recording.Issued (rc rc' : Recording F) (cs : List (Command F)) : Prop :=
  rc'.calls = rc.calls ++ cs ∧ rc'.view.bindings = rc.view.bindings

/-- The calls of the loop of `drawInstances` from index `j` on, over the instances that
remain. -/
def loopCalls (base : Nat) : List (RenderInstance F) → Nat → List (Command F)
  | [], _ => []
  | r :: rs, j => instanceDraw (toUInt32 (base + j)) r ++ loopCalls base rs (j + 1)

/-- The calls of one `drawInstances`. -/
def drawCalls (base : Nat) (l : List (RenderInstance F)) : List (Command F) :=
  .IASetPrimitiveTopology :: loopCalls base (l.take (toUInt32 (toUInt64 l.length))) 0

/-- The calls of the lambda `resetPipeline`. -/
def resetPipelineCalls (b : RenderBindings F) : List (Command F) :=
  [.SetPipelineState .raster, .SetGraphicsRootSignature .raster,
   .SetDescriptorHeaps [b.descriptorHeap], .SetGraphicsRootDescriptorTable 1 b.descriptorHeap]

/-- The calls of the two background passes of `render`. -/
def backgroundCalls (b : RenderBindings F) : List (Command F) :=
  resetPipelineCalls b
    ++ drawCalls (toUInt32 (toUInt64 b.rtInstances.length)) b.rasterBgInstances
    ++ [.ResourceBarrierTransition b.rasterBg .NON_PIXEL_SHADER_RESOURCE .RENDER_TARGET,
        .OMSetRenderTargets .rasterBg, .ClearRenderTargetView .rasterBg]
    ++ drawCalls (toUInt32 (toUInt64 b.rtInstances.length)) b.rasterBgInstances
    ++ [.ResourceBarrierTransition b.rasterBg .RENDER_TARGET .NON_PIXEL_SHADER_RESOURCE]

/-- The calls of the denoiser step of `render`. -/
def denoiseCalls (b : RenderBindings F) : List (Command F) :=
  if b.denoiserEnabled && decide (b.denoiser ≠ 0) then
    [.ResourceBarrierUAV [b.rtAlbedo, b.rtNormal], .submitCommandList, .waitForGPU,
     .resetCommandList, .denoise]
  else []

/-- The calls of the raytracing part of `render`, with the descriptor of the dispatch. -/
def raytraceCalls (b : RenderBindings F) (desc : D3D12_DISPATCH_RAYS_DESC) : List (Command F) :=
  [.ResourceBarrierTransition b.rtOutput .PIXEL_SHADER_RESOURCE .UNORDERED_ACCESS,
   .SetPipelineState1, .DispatchRays desc,
   .ResourceBarrierTransition b.rtOutput .UNORDERED_ACCESS .PIXEL_SHADER_RESOURCE]
    ++ denoiseCalls b
    ++ [.OMSetRenderTargets .swapChain, .SetPipelineState .compose,
        .SetGraphicsRootSignature .compose, .SetDescriptorHeaps [b.composeHeap],
        .SetGraphicsRootDescriptorTable 0 b.composeHeap, .IASetPrimitiveTopology,
        .IASetVertexBuffers 0 none, .DrawInstanced 3]

/-- The calls of the foreground pass of `render`. -/
def foregroundCalls (b : RenderBindings F) : List (Command F) :=
  resetPipelineCalls b
    ++ drawCalls (toUInt32 (toUInt64 (b.rasterBgInstances.length + b.rtInstances.length)))
        b.rasterFgInstances

/-- The calls of a `render` that goes past the check of the descriptor heap. -/
def renderCalls (b : RenderBindings F) (desc : D3D12_DISPATCH_RAYS_DESC) : List (Command F) :=
  backgroundCalls b
    ++ (match b.rtInstances with
        | _ :: _ => raytraceCalls b desc
        | [] => [.OMSetRenderTargets .swapChain])
    ++ foregroundCalls b

/-- The method `View::setDenoiserEnabled` (rt64_view.cpp:993-1005); `newDenoiser` is the
pointer `new RT64::Denoiser` returns, and the call `denoiser->set` is a call into the
denoiser that leaves no trace in this state. -/
def View.setDenoiserEnabled (v : View F) (x : Bool) (newDenoiser : Ptr) : View F :=
  let v : View F :=
    if !v.denoiserEnabled && x then
      if v.denoiser = 0 then { v with denoiser := newDenoiser } else v
    else v
  { v with denoiserEnabled := x }

/-- The calls that put work on the GPU: the indexed draw of an instance, the ray dispatch,
the run of the denoiser and the compose draw. -/
def Command.isPass : Command F → Bool
  | .DrawIndexedInstanced _ => true
  | .DispatchRays _ => true
  | .denoise => true
  | .DrawInstanced _ => true
  | _ => false

/-- The calls that put work on the GPU or bind a render target. -/
def Command.isWork : Command F → Bool
  | .OMSetRenderTargets _ => true
  | c => c.isPass

/-- The draws, which write to the render target bound when they are issued. -/
def Command.isDraw : Command F → Bool
  | .DrawIndexedInstanced _ => true
  | .DrawInstanced _ => true
  | _ => false

/-- The render target bound after the call `c`, when `t` was bound before it. -/
def Command.target (t : RenderTarget) : Command F → RenderTarget
  | .OMSetRenderTargets t' => t'
  | _ => t

/-- The work among the calls issued so far, with the bindings of render targets. -/
def Recording.work (rc : Recording F) : List (Command F) :=
  rc.commands.filter Command.isWork

/-- The work among the calls `cs`, in order, each draw with the render target bound when
it is issued; `t` is the target bound before the first call. -/
def passes (t : RenderTarget) : List (Command F) → List (Option RenderTarget × Command F)
  | [] => []
  | c :: cs =>
    (if c.isPass then [(if c.isDraw then some t else none, c)] else [])
      ++ passes (c.target t) cs

/-- The instances one `drawInstances` draws: the loop runs up to the size of the bucket
converted to `UINT`. -/
def drawn (l : List (RenderInstance F)) : List (RenderInstance F) :=
  l.take (toUInt32 (toUInt64 l.length))

/-- The indexed draws of the instances of `l`, in order. -/
def bucketDraws (l : List (RenderInstance F)) : List (Command F) :=
  l.map fun r => .DrawIndexedInstanced r.indexCount

/-- The denoiser of an enabled view exists. The constructor establishes this and
`setDenoiserEnabled`, the only method that assigns the two members, maintains it. -/
def View.DenoiserReady (v : View F) : Prop :=
  v.denoiserEnabled = true → v.denoiser ≠ 0

/-- The sample view after the sample frame, with the denoiser enabled. -/
def sampleDenoised : View ℚ :=
  sampleUpdated.setDenoiserEnabled true 77

/-- The recording of `render` on the sample view with the denoiser enabled. -/
def sampleDenoisedRender : Recording ℚ :=
  okOr { view := sampleDenoised, commands := [] }
    (sampleDenoised.render sampleFloatOps sampleDevice)

/-- The transition barriers. -/
def Command.isTransition : Command F → Bool
  | .ResourceBarrierTransition _ _ _ => true
  | _ => false

/-- The effect of the call `c` on the states of the resources: a transition barrier whose
`before` state is the state of its resource moves the resource to the `after` state, a
transition barrier that names another `before` state is an error (`none`), and any other
call leaves the states as they are. -/
def applyBarrier (st : Ptr → D3D12_RESOURCE_STATES) :
    Command F → Option (Ptr → D3D12_RESOURCE_STATES)
  | .ResourceBarrierTransition resource before after =>
    if st resource = before then some (Function.update st resource after) else none
  | _ => some st

/-- The states of the resources after the calls `cs`, or `none` when one of the
transition barriers among them names a `before` state its resource is not in. -/
def runBarriers (st : Ptr → D3D12_RESOURCE_STATES) :
    List (Command F) → Option (Ptr → D3D12_RESOURCE_STATES)
  | [] => some st
  | c :: cs =>
    match applyBarrier st c with
    | none => none
    | some st' => runBarriers st' cs

/-- The resources of the view that `render` and `getRaytracedInstanceAt` put barriers on
are in the states `createOutputBuffers` allocates them in (rt64_view.cpp:101-122): the
raster-background texture a non-pixel shader resource, the raytrace output a pixel shader
resource, the buffer of hit instance ids in unordered access. The three states differ, so
the three are different resources. -/
structure View.InAllocatedStates (st : Ptr → D3D12_RESOURCE_STATES) (v : View F) : Prop where
  rasterBg : st v.rasterBg = .NON_PIXEL_SHADER_RESOURCE
  rtOutput : st v.rtOutput = .PIXEL_SHADER_RESOURCE
  rtHitInstanceId : st v.rtHitInstanceId = .UNORDERED_ACCESS

/-- A call of `render` or of `getRaytracedInstanceAt` on a view. -/
inductive ViewCall (F : Type) where
  | render (fl : FloatOps F) (dev : Device F) (v : View F)
  | getRaytracedInstanceAt (fl : FloatOps F) (dev : Device F) (v : View F) (x y : Int)

/-- The view of the call. -/
def ViewCall.view : ViewCall F → View F
  | .render _ _ v => v
  | .getRaytracedInstanceAt _ _ v _ _ => v

/-- The calls the call issued, when it returned. -/
def ViewCall.commands : ViewCall F → Option (List (Command F))
  | .render fl dev v =>
    match v.render fl dev with
    | .ok rc => some rc.commands
    | .error _ => none
  | .getRaytracedInstanceAt fl dev v x y =>
    match v.getRaytracedInstanceAt fl dev x y with
    | .ok picked => some picked.commands
    | .error _ => none

/-- The sample view after the sample frame, with its output resources at three different
addresses. -/
def sampleDistinct : View ℚ :=
  { sampleUpdated with rasterBg := 1, rtOutput := 2, rtHitInstanceId := 3 }

/-- The states `createOutputBuffers` allocates the resources of `sampleDistinct` in. -/
def sampleStates : Ptr → D3D12_RESOURCE_STATES := fun resource =>
  if resource = 1 then .NON_PIXEL_SHADER_RESOURCE
  else if resource = 2 then .PIXEL_SHADER_RESOURCE
  else .UNORDERED_ACCESS

/-- The recording of `render` on `sampleDistinct`. -/
def sampleDistinctRender : Recording ℚ :=
  okOr { view := sampleDistinct, commands := [] }
    (sampleDistinct.render sampleFloatOps sampleDevice)

/-- The two methods of the device that close and reopen the command list. -/
inductive ListCall where
  | submitCommandList
  | resetCommandList
deriving DecidableEq, Repr

/-- The command-list state of the class `RT64::Device` (rt64_device.h): the member
`d3dCommandListOpen`, and, not members of the class, the state of the D3D12 command list
itself (`recording` after `CreateCommandList` and after `Reset`, not recording after
`Close`) and the calls of `submitCommandList` and `resetCommandList` so far, each with the
state of the command list it found. -/
structure DeviceState where
  d3dCommandListOpen : Bool
  recording : Bool
  history : List (ListCall × Bool)

/-- The command-list state the constructor `Device::Device` leaves (rt64_device.cpp:36-58):
it sets `d3dCommandListOpen`, and `loadAssets` creates the command list, which D3D12 hands
out recording, and waits for the GPU without closing it (rt64_device.cpp:551-564). -/
def DeviceState.new : DeviceState :=
  { d3dCommandListOpen := true, recording := true, history := [] }

/-- The method `Device::resetCommandList` (rt64_device.cpp:755-763). -/
def DeviceState.resetCommandList (s : DeviceState) : DeviceState :=
  { d3dCommandListOpen := true
    recording := true
    history := s.history ++ [(.resetCommandList, s.recording)] }

/-- The method `Device::submitCommandList` (rt64_device.cpp:765-774). -/
def DeviceState.submitCommandList (s : DeviceState) : DeviceState :=
  { d3dCommandListOpen := false
    recording := false
    history := s.history ++ [(.submitCommandList, s.recording)] }

/-- The method `Device::waitForGPU` (rt64_device.cpp:776-786): the command list is not
touched. -/
def DeviceState.waitForGPU (s : DeviceState) : DeviceState := s

/-- The effect on the device of a call the view issues. -/
def DeviceState.step (s : DeviceState) : Command F → DeviceState
  | .submitCommandList => s.submitCommandList
  | .waitForGPU => s.waitForGPU
  | .resetCommandList => s.resetCommandList
  | _ => s

/-- The effect on the device of the calls `cs` of a view, in order. -/
def DeviceState.issue (s : DeviceState) (cs : List (Command F)) : DeviceState :=
  cs.foldl DeviceState.step s

/-- The method `Device::preRender` (rt64_device.cpp:645-668). -/
def DeviceState.preRender (s : DeviceState) : DeviceState :=
  let s := if s.d3dCommandListOpen then (s.submitCommandList).waitForGPU else s
  s.resetCommandList

/-- The method `Device::postRender` (rt64_device.cpp:670-685); `present` is the answer of
`Present`, checked by `D3D12_CHECK`. The state is the one the method leaves, also when it
throws. -/
def DeviceState.postRender (s : DeviceState) (present : Except Fault Unit) :
    DeviceState × Except Fault Unit :=
  let s := s.submitCommandList
  match present with
  | .error e => (s, .error e)
  | .ok _ => ((s.waitForGPU).resetCommandList, .ok ())

/-- The method `Device::draw` (rt64_device.cpp:687-733). The scenes and the inspectors are
outside the translated sources: `update` is the outcome of `updateSize` and of the updates
of the scenes, which call no method of the command list; `nested` holds, in order, the
calls issued by the views during the render of the scenes and of the inspectors, one list
for each call of `View::render` or `getRaytracedInstanceAt`; `fault` is the error that
ended them, if any. The state is the one the method leaves, also when it throws. -/
def DeviceState.draw (s : DeviceState) (update : Except Fault Unit)
    (nested : List (List (Command F))) (fault : Option Fault) (present : Except Fault Unit) :
    DeviceState × Except Fault Unit :=
  match update with
  | .error e => (s, .error e)
  | .ok _ =>
    let s := s.preRender
    let s := nested.foldl DeviceState.issue s
    match fault with
    | some e => (s, .error e)
    | none => s.postRender present

/-- The method `Device::dumpRenderTarget` (rt64_device.cpp:788-847): of its calls, only
`submitCommandList`, `waitForGPU` and `resetCommandList` touch the state of the command
list, and none of its calls is checked. -/
def DeviceState.dumpRenderTarget (s : DeviceState) : DeviceState :=
  ((s.submitCommandList).waitForGPU).resetCommandList

/-- A call on the device from the host: `Device::draw`, `Device::dumpRenderTarget`, or
`View::getRaytracedInstanceAt` with the calls it issued and the error that ended it, if
any. -/
inductive DeviceCall (F : Type) where
  | draw (update : Except Fault Unit) (nested : List (List (Command F)))
      (fault : Option Fault) (present : Except Fault Unit)
  | dumpRenderTarget
  | getRaytracedInstanceAt (commands : List (Command F)) (fault : Option Fault)

/-- The state the call leaves and its outcome. -/
def DeviceState.call (s : DeviceState) : DeviceCall F → DeviceState × Except Fault Unit
  | .draw update nested fault present => s.draw update nested fault present
  | .dumpRenderTarget => (s.dumpRenderTarget, .ok ())
  | .getRaytracedInstanceAt commands fault =>
    (s.issue commands,
      match fault with
      | some e => .error e
      | none => .ok ())

/-- The calls in order, up to the first that does not return: the state then and the
outcome. -/
def DeviceState.run (s : DeviceState) : List (DeviceCall F) → DeviceState × Except Fault Unit
  | [] => (s, .ok ())
  | c :: cs =>
    match s.call c with
    | (s', .ok _) => DeviceState.run s' cs
    | (s', .error e) => (s', .error e)

/-- The calls of the view on the methods of the device that touch the command list. -/
def Command.isListCall : Command F → Bool
  | .submitCommandList => true
  | .waitForGPU => true
  | .resetCommandList => true
  | _ => false

/-- The calls `cs` of a view either leave the command list alone or submit it, wait and
reset it, once. -/
def ListUse (cs : List (Command F)) : Prop :=
  cs.filter Command.isListCall = []
  ∨ cs.filter Command.isListCall = [.submitCommandList, .waitForGPU, .resetCommandList]

/-- Every list of calls of views in the call uses the command list in that way. -/
def DeviceCall.ListUse : DeviceCall F → Prop
  | .draw _ nested _ _ => ∀ cs ∈ nested, RT64.ListUse cs
  | .dumpRenderTarget => True
  | .getRaytracedInstanceAt commands _ => RT64.ListUse commands

/-- A call of `submitCommandList` is in order on an open command list, a call of
`resetCommandList` on a closed one. -/
def ListCall.inOrder : ListCall × Bool → Bool
  | (.submitCommandList, wasOpen) => wasOpen
  | (.resetCommandList, wasOpen) => !wasOpen

/-- From `s` to `s'` every call of `submitCommandList` and `resetCommandList` was in
order, and in `s'` the flag `d3dCommandListOpen` tells the state of the command list. -/
def DeviceState.Extends (s s' : DeviceState) : Prop :=
  s'.d3dCommandListOpen = s'.recording
  ∧ ∃ added, s'.history = s.history ++ added ∧ ∀ e ∈ added, ListCall.inOrder e = true

/-- Rounding of a number to the nearest one with a significand of 24 bits, halfway cases
to the even significand: the rounding of binary32 on its normal range (overflow and
subnormal numbers are not modelled). -/
def roundBinary32 (x : ℚ) : ℚ :=
  if x = 0 then 0
  else
    let ulp : ℚ := 2 ^ (Int.log 2 |x| - 23)
    let n : Int := ⌊|x| / ulp⌋
    let r : ℚ := |x| / ulp - n
    let m : Int :=
      if r < 1 / 2 then n else if 1 / 2 < r then n + 1 else if n % 2 = 0 then n else n + 1
    if 0 ≤ x then m * ulp else -(m * ulp)

/-- An arithmetic operation of binary32: NaN if an operand is NaN, and the rounded exact
result otherwise. -/
def binary32Lift (f : ℚ → ℚ → ℚ) : Option ℚ → Option ℚ → Option ℚ
  | some x, some y => some (roundBinary32 (f x y))
  | _, _ => none

/-- Float operations with the rounding of binary32 and a NaN: `some q` is the number `q`
and `none` is NaN. Every comparison with NaN is false except `!=`, which is true; an
operation on NaN gives NaN; the literal `0.01f` is the binary32 number nearest to 1/100;
sums, products and quotients are rounded to binary32, and a division by zero gives NaN
(the infinities are not modelled). The values of `lround` and of the conversion to `int`
on NaN, which the language leaves unspecified, are 0. The matrix routines are the ones of
the sample operations over this arithmetic. -/
def binary32FloatOps : FloatOps (Option ℚ) where
  zero := some 0
  one := some 1
  two := some 2
  hundredth := some (mkRat 5368709 536870912)
  lt
    | some x, some y => decide (x < y)
    | _, _ => false
  ne
    | some x, some y => decide (x ≠ y)
    | _, _ => true
  eq
    | some x, some y => decide (x = y)
    | _, _ => false
  ofInt n := some (roundBinary32 n)
  mul := binary32Lift fun x y => x * y
  lround
    | some x => if 0 ≤ x then ⌊x + mkRat 1 2⌋ else ⌈x - mkRat 1 2⌉
    | none => 0
  XMMatrixInverse M := M
  XMMatrixMultiply A B :=
    { r := fun i j =>
        binary32Lift (fun x y => x + y)
          (binary32Lift (fun x y => x + y)
            (binary32Lift (fun x y => x + y)
              (binary32Lift (fun x y => x * y) (A.r i 0) (B.r 0 j))
              (binary32Lift (fun x y => x * y) (A.r i 1) (B.r 1 j)))
            (binary32Lift (fun x y => x * y) (A.r i 2) (B.r 2 j)))
          (binary32Lift (fun x y => x * y) (A.r i 3) (B.r 3 j)) }
  toInt
    | some x => if 0 ≤ x then ⌊x⌋ else ⌈x⌉
    | none => 0
  add := binary32Lift fun x y => x + y
  div
    | some x, some y => if y = 0 then none else some (roundBinary32 (x / y))
    | _, _ => none
  sqrt
    | some x =>
      if x < 0 then none
      else some (roundBinary32 ((Nat.sqrt x.num.toNat : ℚ) / (Nat.sqrt x.den : ℚ)))
    | none => none
  XMVector4Transform V M := fun j =>
    binary32Lift (fun x y => x + y)
      (binary32Lift (fun x y => x + y)
        (binary32Lift (fun x y => x + y)
          (binary32Lift (fun x y => x * y) (V 0) (M.r 0 j))
          (binary32Lift (fun x y => x * y) (V 1) (M.r 1 j)))
        (binary32Lift (fun x y => x * y) (V 2) (M.r 2 j)))
      (binary32Lift (fun x y => x * y) (V 3) (M.r 3 j))
  XMMatrixPerspectiveFovRH _ aspect nearZ farZ :=
    { r := fun i j =>
        if i = 0 ∧ j = 0 then binary32Lift (fun x y => x / y) (some 1) aspect
        else if i = 1 ∧ j = 1 then some 1
        else if i = 2 ∧ j = 2 then
          binary32Lift (fun x y => x / y) farZ (binary32Lift (fun x y => x - y) nearZ farZ)
        else if i = 2 ∧ j = 3 then some (-1)
        else if i = 3 ∧ j = 2 then
          binary32Lift (fun x y => x / y) (binary32Lift (fun x y => x * y) nearZ farZ)
            (binary32Lift (fun x y => x - y) nearZ farZ)
        else some 0 }

/-- A device with a window of 1680 by 1050 on which every call succeeds. -/
def binary32Device : Device (Option ℚ) where
  width := 1680
  height := 1050
  allocateBuffer _ size := 1000 + size
  allocateResource _ w h := 2000 + (w * h).toNat
  createRtvHeap := .ok 900
  CreateDescriptorHeap count := .ok (3000 + count)
  ComputeASBufferSizes l := (256 * l.length, 512 * l.length, 64 * l.length)
  GenerateTopLevelAS _ _ _ _ := .ok ()
  ComputeSBTSize g := 64 * g.rayGen.length + 64 * g.miss.length + 64 * g.hitGroup.length
  GenerateSBT _ _ := .ok ()
  mapInstanceProps := .ok ()
  gpuDescriptorHandle p := 16 * p
  gpuVirtualAddress p := 32 * p
  getTexture t := 5000 + t
  freshInstanceProps _ :=
    { objectToWorld := { r := fun _ _ => some 7 }
      objectToWorldNormal := { r := fun _ _ => some 7 }
      material := { diffuseTexIndex := 0, normalTexIndex := 0, specularTexIndex := 0, rest := 0 } }
  d3dViewport := { TopLeftX := some 0, TopLeftY := some 0, Width := some 1680, Height := some 1050 }
  d3dScissorRect := { left := 0, top := 0, right := 1680, bottom := 1050 }
  mapViewParams := .ok ()
  XXHash32 _ _ := 0
  GetRayGenSectionSize g := 64 * g.rayGen.length
  GetMissSectionSize g := 64 * g.miss.length
  GetMissEntrySize _ := 64
  GetHitGroupSectionSize g := 64 * g.hitGroup.length
  GetHitGroupEntrySize _ := 64
  aspectRatio := some (mkRat 8 5)
  mapReadback := .ok ()
  readbackInstanceId _ := 0

/-- The memory a view is constructed in, before the constructor runs. -/
def binary32Blank : View (Option ℚ) where
  rtInstances := []
  rasterBgInstances := []
  rasterFgInstances := []
  usedTextures := []
  topLevelASGenerator := []
  topLevelASBuffers :=
    { scratch := 0, scratchSize := 0, result := 0, resultSize := 0,
      instanceDesc := 0, instanceDescSize := 0 }
  activeInstancesBufferProps := 0
  activeInstancesBufferPropsSize := 0
  instancePropsData := binary32Device.freshInstanceProps
  descriptorHeap := 0
  descriptorHeapEntryCount := 0
  descriptorWrites := []
  composeHeap := 0
  composeWrites := []
  sbtHelper := { rayGen := [], miss := [], hitGroup := [] }
  sbtStorage := 0
  sbtStorageSize := 0
  viewParamBufferResource := 0
  viewParamsBufferSize := 0
  viewParamsBufferData :=
    { view := { r := fun a b => if a = b then some 1 else some 0 }
      projection := { r := fun a b => if a = b then some 1 else some 0 }
      viewI := { r := fun a b => if a = b then some 1 else some 0 }
      projectionI := { r := fun a b => if a = b then some 1 else some 0 }
      prevViewProj := { r := fun a b => if a = b then some 1 else some 0 }
      viewport := fun _ => some 0
      resolution := fun _ => some 0
      randomSeed := 0
      frameCount := 0 }
  rtWidth := 0
  rtHeight := 0
  rtScale := some 0
  resolutionScale := some 0
  rasterBg := 0
  rtOutput := 0
  rtAlbedo := 0
  rtNormal := 0
  rtHitDistance := 0
  rtHitColor := 0
  rtHitNormal := 0
  rtHitSpecular := 0
  rtHitInstanceId := 0
  rtHitInstanceIdReadback := 0
  rasterBgHeap := 0
  denoiserEnabled := false
  denoiser := 0
  viewParamsBufferUpdatedThisFrame := false
  rtHitInstanceIdReadbackUpdated := false
  scissorApplied := false
  viewportApplied := false
  perspectiveControlActive := false
  fovRadians := some 1
  nearDist := some 1
  farDist := some 100
  allocations := []

/-- The view constructed on the 1680 by 1050 device. -/
def binary32New : View (Option ℚ) :=
  okOr binary32Blank (View.new binary32FloatOps binary32Device binary32Blank)

/-- A scene without instances, over the floats with a NaN. -/
def binary32EmptyScene : Scene (Option ℚ) where
  instances := []
  lightsCount := 0
  lightsBuffer := 0

/-- The number the literal `0.65f` denotes: 10905190 / 2^24. -/
def binary32SixtyFive : ℚ := mkRat 10905190 16777216

/-- The constructed view after a request for the scale `0.65f` and an update. -/
def binary32Scaled : View (Option ℚ) :=
  okOr binary32Blank ((binary32New.setResolutionScale (some binary32SixtyFive)).update
    sampleHeader binary32FloatOps binary32Device binary32EmptyScene)

/-- The constructed view after a request for the scale NaN and an update. -/
def binary32NanOnce : View (Option ℚ) :=
  okOr binary32Blank ((binary32New.setResolutionScale none).update
    sampleHeader binary32FloatOps binary32Device binary32EmptyScene)

/-- The constructed view after a request for the scale NaN and two updates. -/
def binary32NanTwice : View (Option ℚ) :=
  okOr binary32Blank (binary32NanOnce.update
    sampleHeader binary32FloatOps binary32Device binary32EmptyScene)

end Notions

/-! ## Integer conversions in range -/

theorem toUInt64_of_lt {n : Nat} (h : n < 18446744073709551616) : toUInt64 n = n := by
  unfold toUInt64
  exact Nat.mod_eq_of_lt h

theorem toUInt32_of_lt {n : Nat} (h : n < 4294967296) : toUInt32 (n : Int) = n := by
  unfold toUInt32
  have h1 : (n : Int) % 4294967296 = (n : Int) := Int.emod_eq_of_lt (by omega) (by omega)
  rw [h1]
  exact Int.toNat_natCast n

theorem toInt32_of_lt {n : Nat} (h : n < 2147483648) : toInt32 (n : Int) = n := by
  unfold toInt32
  have h1 : (n : Int) % 4294967296 = (n : Int) := Int.emod_eq_of_lt (by omega) (by omega)
  rw [h1, if_pos (by omega)]

/-- A vector index below `2^31` is passed unchanged as `UINT`, and so is its double. -/
theorem index_conversions {i : Nat} (h : i < 2147483648) :
    toUInt32 (toUInt64 i) = i ∧ toUInt32 (toUInt64 (2 * i)) = 2 * i := by
  rw [toUInt64_of_lt (by omega), toUInt64_of_lt (by omega), toUInt32_of_lt (by omega),
    toUInt32_of_lt (by omega)]
  exact ⟨rfl, rfl⟩

/-- On a 64-bit operand that does not overflow, `ROUND_UP(v, 256)` is the least multiple
of 256 that is at least `v`. -/
theorem ROUND_UP_256 (x : Nat) (h : x + 255 < 18446744073709551616) :
    ROUND_UP x 256 = (x + 255) / 256 * 256 := by
  unfold ROUND_UP
  rw [toUInt64_of_lt (by omega)]
  have hm : 18446744073709551616 - 1 - (256 - 1) = 2 ^ 8 * (2 ^ 56 - 1) := by norm_num
  have hd : (x + 255) / 256 * 256 = 2 ^ 8 * ((x + 255) >>> 8) := by
    rw [Nat.shiftRight_eq_div_pow, Nat.mul_comm]
    norm_num
  rw [hm, hd]
  apply Nat.eq_of_testBit_eq
  intro j
  rw [Nat.testBit_and, Nat.testBit_mul_pow_two, Nat.testBit_mul_pow_two,
    Nat.testBit_two_pow_sub_one, Nat.testBit_shiftRight]
  by_cases h8 : j ≥ 8
  · by_cases h64 : j - 8 < 56
    · have e : 8 + (j - 8) = j := by omega
      simp [h8, h64, e]
    · have hj : 64 ≤ j := by omega
      have hlt : x + 255 < 2 ^ j :=
        Nat.lt_of_lt_of_le (by norm_num; omega) (Nat.pow_le_pow_right (by norm_num) hj)
      have e : 8 + (j - 8) = j := by omega
      simp [h8, h64, e, Nat.testBit_lt_two_pow hlt]
  · simp [h8]

/-- The size `createInstancePropertiesBuffer` computes for `n` records of `S` bytes, when
nothing overflows. -/
theorem propsSize_in_range (n S : Nat) (hn : n ≤ 1024) (hS : S * 1024 + 255 < 4294967296) :
    toUInt32 (ROUND_UP (toUInt64 (toUInt32 (toUInt64 n) * S)) 256) = (n * S + 255) / 256 * 256 := by
  have h1 : n * S ≤ 1024 * S := Nat.mul_le_mul_right S hn
  have e1 : toUInt64 n = n := toUInt64_of_lt (by omega)
  have e2 : toUInt32 (n : Int) = n := toUInt32_of_lt (by omega)
  have e3 : toUInt64 (n * S) = n * S := toUInt64_of_lt (by omega)
  have h2 : (n * S + 255) / 256 * 256 ≤ n * S + 255 := Nat.div_mul_le_self _ _
  rw [e1, e2, e3, ROUND_UP_256 _ (by omega)]
  exact toUInt32_of_lt (by omega)

/-! ## The bucketing loop -/

section Bucketing

variable {F : Type}

theorem updateInstance_usedTextures (hdr : PublicHeader) (fl : FloatOps F) (H : Nat)
    (v : View F) (inst : Instance F) :
    (v.updateInstance hdr fl H inst).usedTextures = v.usedTextures ++ inst.textures := by
  unfold View.updateInstance fillRenderInstance Instance.textures
  by_cases h1 : inst.normalTexture = 0 <;> by_cases h2 : inst.specularTexture = 0 <;>
    by_cases h3 : inst.mesh.bottomLevelASResult = 0 <;>
    by_cases h4 : inst.flags &&& hdr.RT64_INSTANCE_RASTER_BACKGROUND = 0 <;>
    simp [h1, h2, h3, h4]

theorem updateInstance_rtInstances (hdr : PublicHeader) (fl : FloatOps F) (H : Nat)
    (v : View F) (inst : Instance F) :
    (v.updateInstance hdr fl H inst).rtInstances.map (fun r => r.instance_)
      = v.rtInstances.map (fun r => r.instance_) ++ [inst].filter Instance.hasStructure := by
  unfold View.updateInstance fillRenderInstance Instance.hasStructure
  by_cases h3 : inst.mesh.bottomLevelASResult = 0 <;>
    by_cases h4 : inst.flags &&& hdr.RT64_INSTANCE_RASTER_BACKGROUND = 0 <;>
    simp [h3, h4]

theorem updateInstance_rasterBgInstances (hdr : PublicHeader) (fl : FloatOps F) (H : Nat)
    (v : View F) (inst : Instance F) :
    (v.updateInstance hdr fl H inst).rasterBgInstances.map (fun r => r.instance_)
      = v.rasterBgInstances.map (fun r => r.instance_)
        ++ [inst].filter (fun i => !i.hasStructure && i.isBackground hdr) := by
  unfold View.updateInstance fillRenderInstance Instance.hasStructure Instance.isBackground
  by_cases h3 : inst.mesh.bottomLevelASResult = 0 <;>
    by_cases h4 : inst.flags &&& hdr.RT64_INSTANCE_RASTER_BACKGROUND = 0 <;>
    simp [h3, h4]

theorem updateInstance_rasterFgInstances (hdr : PublicHeader) (fl : FloatOps F) (H : Nat)
    (v : View F) (inst : Instance F) :
    (v.updateInstance hdr fl H inst).rasterFgInstances.map (fun r => r.instance_)
      = v.rasterFgInstances.map (fun r => r.instance_)
        ++ [inst].filter (fun i => !i.hasStructure && !i.isBackground hdr) := by
  unfold View.updateInstance fillRenderInstance Instance.hasStructure Instance.isBackground
  by_cases h3 : inst.mesh.bottomLevelASResult = 0 <;>
    by_cases h4 : inst.flags &&& hdr.RT64_INSTANCE_RASTER_BACKGROUND = 0 <;>
    simp [h3, h4]

theorem foldl_updateInstance_usedTextures (hdr : PublicHeader) (fl : FloatOps F) (H : Nat)
    (l : List (Instance F)) (v : View F) :
    (l.foldl (View.updateInstance hdr fl H) v).usedTextures
      = v.usedTextures ++ l.flatMap Instance.textures := by
  induction l generalizing v with
  | nil => simp
  | cons a l ih => simp [ih, updateInstance_usedTextures]

theorem foldl_updateInstance_rtInstances (hdr : PublicHeader) (fl : FloatOps F) (H : Nat)
    (l : List (Instance F)) (v : View F) :
    (l.foldl (View.updateInstance hdr fl H) v).rtInstances.map (fun r => r.instance_)
      = v.rtInstances.map (fun r => r.instance_) ++ l.filter Instance.hasStructure := by
  induction l generalizing v with
  | nil => simp
  | cons a l ih =>
    rw [List.foldl_cons, ih, updateInstance_rtInstances, List.append_assoc,
      ← List.filter_append, List.singleton_append]

theorem foldl_updateInstance_rasterBgInstances (hdr : PublicHeader) (fl : FloatOps F) (H : Nat)
    (l : List (Instance F)) (v : View F) :
    (l.foldl (View.updateInstance hdr fl H) v).rasterBgInstances.map (fun r => r.instance_)
      = v.rasterBgInstances.map (fun r => r.instance_)
        ++ l.filter (fun i => !i.hasStructure && i.isBackground hdr) := by
  induction l generalizing v with
  | nil => simp
  | cons a l ih =>
    rw [List.foldl_cons, ih, updateInstance_rasterBgInstances, List.append_assoc,
      ← List.filter_append, List.singleton_append]

theorem foldl_updateInstance_rasterFgInstances (hdr : PublicHeader) (fl : FloatOps F) (H : Nat)
    (l : List (Instance F)) (v : View F) :
    (l.foldl (View.updateInstance hdr fl H) v).rasterFgInstances.map (fun r => r.instance_)
      = v.rasterFgInstances.map (fun r => r.instance_)
        ++ l.filter (fun i => !i.hasStructure && !i.isBackground hdr) := by
  induction l generalizing v with
  | nil => simp
  | cons a l ih =>
    rw [List.foldl_cons, ih, updateInstance_rasterFgInstances, List.append_assoc,
      ← List.filter_append, List.singleton_append]

/-- The three buckets and the texture list after the bucketing pass, in terms of the
scene's instance list. -/
theorem updateInstances_spec (hdr : PublicHeader) (fl : FloatOps F) (dev : Device F)
    (scene : Scene F) (v : View F) :
    (v.updateInstances hdr fl dev scene).rtInstances.map (fun r => r.instance_)
        = scene.instances.filter Instance.hasStructure
    ∧ (v.updateInstances hdr fl dev scene).rasterBgInstances.map (fun r => r.instance_)
        = scene.instances.filter (fun i => !i.hasStructure && i.isBackground hdr)
    ∧ (v.updateInstances hdr fl dev scene).rasterFgInstances.map (fun r => r.instance_)
        = scene.instances.filter (fun i => !i.hasStructure && !i.isBackground hdr)
    ∧ (v.updateInstances hdr fl dev scene).usedTextures
        = scene.instances.flatMap Instance.textures := by
  unfold View.updateInstances
  simp [foldl_updateInstance_rtInstances, foldl_updateInstance_rasterBgInstances,
    foldl_updateInstance_rasterFgInstances, foldl_updateInstance_usedTextures]

theorem getElem?_eq_some_lt {α : Type} {l : List α} {i : Nat} {a : α} (h : l[i]? = some a) :
    i < l.length := by
  rcases Nat.lt_or_ge i l.length with hlt | hge
  · exact hlt
  · rw [List.getElem?_eq_none hge] at h
    cases h

/-- Resolved texture indices stay resolved when textures are appended to the list. -/
theorem texturesResolved_append (tex more : List Ptr) (r : RenderInstance F)
    (h : r.texturesResolved tex) : r.texturesResolved (tex ++ more) := by
  unfold RenderInstance.texturesResolved at h ⊢
  obtain ⟨⟨hd0, hd⟩, hn, hs⟩ := h
  refine ⟨⟨hd0, ?_⟩, ?_, ?_⟩
  · rw [List.getElem?_append_left (getElem?_eq_some_lt hd)]
    exact hd
  · split
    · rename_i h0
      rw [if_pos h0] at hn
      exact hn
    · rename_i h0
      rw [if_neg h0] at hn
      refine ⟨hn.1, ?_⟩
      rw [List.getElem?_append_left (getElem?_eq_some_lt hn.2)]
      exact hn.2
  · split
    · rename_i h0
      rw [if_pos h0] at hs
      exact hs
    · rename_i h0
      rw [if_neg h0] at hs
      refine ⟨hs.1, ?_⟩
      rw [List.getElem?_append_left (getElem?_eq_some_lt hs.2)]
      exact hs.2

theorem fillRenderInstance_textures (hdr : PublicHeader) (fl : FloatOps F) (H : Nat)
    (tex : List Ptr) (inst : Instance F) :
    (fillRenderInstance hdr fl H tex inst).2 = tex ++ inst.textures := by
  unfold fillRenderInstance Instance.textures
  by_cases h1 : inst.normalTexture = 0 <;> by_cases h2 : inst.specularTexture = 0 <;>
    simp [h1, h2]

theorem textures_length (inst : Instance F) : inst.textures.length = inst.textureCount := by
  unfold Instance.textures Instance.textureCount
  by_cases h1 : inst.normalTexture = 0 <;> by_cases h2 : inst.specularTexture = 0 <;>
    simp [h1, h2]

theorem fillRenderInstance_instance (hdr : PublicHeader) (fl : FloatOps F) (H : Nat)
    (tex : List Ptr) (inst : Instance F) :
    (fillRenderInstance hdr fl H tex inst).1.instance_ = inst := rfl

theorem fillRenderInstance_diffuseTexIndex (hdr : PublicHeader) (fl : FloatOps F) (H : Nat)
    (tex : List Ptr) (inst : Instance F) :
    (fillRenderInstance hdr fl H tex inst).1.material.diffuseTexIndex
      = toInt32 (toUInt64 tex.length) := by
  unfold fillRenderInstance
  simp

theorem fillRenderInstance_normalTexIndex (hdr : PublicHeader) (fl : FloatOps F) (H : Nat)
    (tex : List Ptr) (inst : Instance F) :
    (fillRenderInstance hdr fl H tex inst).1.material.normalTexIndex
      = if inst.normalTexture ≠ 0 then toInt32 (toUInt64 (tex.length + 1)) else -1 := by
  unfold fillRenderInstance
  simp

theorem fillRenderInstance_specularTexIndex (hdr : PublicHeader) (fl : FloatOps F) (H : Nat)
    (tex : List Ptr) (inst : Instance F) :
    (fillRenderInstance hdr fl H tex inst).1.material.specularTexIndex
      = if inst.specularTexture ≠ 0 then
          toInt32 (toUInt64 (tex.length + (if inst.normalTexture ≠ 0 then 2 else 1)))
        else -1 := by
  unfold fillRenderInstance
  by_cases h1 : inst.normalTexture = 0 <;> simp [h1]

theorem getElem?_append_offset {α : Type} (tex more : List α) (k : Nat) (a : α)
    (h : more[k]? = some a) : (tex ++ more)[((tex.length + k : Nat) : Int).toNat]? = some a := by
  rw [Int.toNat_natCast, List.getElem?_append_right (Nat.le_add_right _ _),
    Nat.add_sub_cancel_left]
  exact h

/-- The render instance filled by one iteration has its texture indices resolved in the
texture list left by that iteration, as long as that list has fewer than `2^31` entries. -/
theorem fillRenderInstance_resolved (hdr : PublicHeader) (fl : FloatOps F) (H : Nat)
    (tex : List Ptr) (inst : Instance F)
    (hlen : (tex ++ inst.textures).length < 2147483648) :
    (fillRenderInstance hdr fl H tex inst).1.texturesResolved (tex ++ inst.textures) := by
  have hl : tex.length + inst.textureCount < 2147483648 := by
    rw [List.length_append, textures_length] at hlen
    exact hlen
  have hc : 1 ≤ inst.textureCount := by
    unfold Instance.textureCount
    omega
  have hdi : (fillRenderInstance hdr fl H tex inst).1.material.diffuseTexIndex
      = ((tex.length + 0 : Nat) : Int) := by
    rw [fillRenderInstance_diffuseTexIndex, toUInt64_of_lt (by omega), toInt32_of_lt (by omega)]
    rfl
  unfold RenderInstance.texturesResolved
  rw [fillRenderInstance_instance, hdi, fillRenderInstance_normalTexIndex,
    fillRenderInstance_specularTexIndex]
  refine ⟨⟨Int.natCast_nonneg _, getElem?_append_offset _ _ 0 _ (by simp [Instance.textures])⟩,
    ?_, ?_⟩
  · by_cases h1 : inst.normalTexture = 0
    · rw [if_pos h1, if_neg (by simpa using h1)]
    · rw [if_neg h1, if_pos h1]
      have hc2 : 2 ≤ inst.textureCount := by
        unfold Instance.textureCount
        rw [if_pos h1]
        omega
      rw [toUInt64_of_lt (by omega), toInt32_of_lt (by omega)]
      exact ⟨Int.natCast_nonneg _,
        getElem?_append_offset _ _ 1 _ (by simp [Instance.textures, h1])⟩
  · by_cases h2 : inst.specularTexture = 0
    · rw [if_pos h2, if_neg (by simpa using h2)]
    · rw [if_neg h2, if_pos h2]
      by_cases h1 : inst.normalTexture = 0
      · have hc2 : 2 ≤ inst.textureCount := by
          unfold Instance.textureCount
          rw [if_pos h2]
          omega
        rw [if_neg (by simpa using h1), toUInt64_of_lt (by omega), toInt32_of_lt (by omega)]
        exact ⟨Int.natCast_nonneg _,
          getElem?_append_offset _ _ 1 _ (by simp [Instance.textures, h1, h2])⟩
      · have hc3 : 3 ≤ inst.textureCount := by
          unfold Instance.textureCount
          rw [if_pos h1, if_pos h2]
        rw [if_pos h1, toUInt64_of_lt (by omega), toInt32_of_lt (by omega)]
        exact ⟨Int.natCast_nonneg _,
          getElem?_append_offset _ _ 2 _ (by simp [Instance.textures, h1, h2])⟩

theorem updateInstance_bucketed_mem (hdr : PublicHeader) (fl : FloatOps F) (H : Nat)
    (v : View F) (inst : Instance F) (r : RenderInstance F)
    (hr : r ∈ (v.updateInstance hdr fl H inst).bucketed) :
    r ∈ v.bucketed ∨ r = (fillRenderInstance hdr fl H v.usedTextures inst).1 := by
  by_cases h3 : (fillRenderInstance hdr fl H v.usedTextures inst).1.bottomLevelAS = 0 <;>
    by_cases h4 : inst.flags &&& hdr.RT64_INSTANCE_RASTER_BACKGROUND = 0 <;>
    simp only [View.updateInstance, View.bucketed, h3, h4, ne_eq, not_true_eq_false,
      not_false_eq_true, if_true, if_false, List.mem_append, List.mem_singleton] at hr ⊢ <;>
    tauto

/-- The loop keeps the texture indices of all bucketed render instances resolved, as long
as the texture list it ends with has fewer than `2^31` entries. -/
theorem foldl_updateInstance_resolved (hdr : PublicHeader) (fl : FloatOps F) (H : Nat)
    (l : List (Instance F)) (v : View F)
    (hlen : (l.foldl (View.updateInstance hdr fl H) v).usedTextures.length < 2147483648)
    (hv : ∀ r ∈ v.bucketed, r.texturesResolved v.usedTextures) :
    ∀ r ∈ (l.foldl (View.updateInstance hdr fl H) v).bucketed,
      r.texturesResolved (l.foldl (View.updateInstance hdr fl H) v).usedTextures := by
  induction l generalizing v with
  | nil => simpa using hv
  | cons a l ih =>
    rw [List.foldl_cons] at hlen ⊢
    apply ih _ hlen
    intro r hr
    rw [updateInstance_usedTextures]
    have hb : (v.usedTextures ++ a.textures).length < 2147483648 := by
      rw [foldl_updateInstance_usedTextures, updateInstance_usedTextures,
        List.length_append] at hlen
      omega
    rcases updateInstance_bucketed_mem hdr fl H v a r hr with hold | hnew
    · exact texturesResolved_append _ _ _ (hv r hold)
    · rw [hnew]
      exact fillRenderInstance_resolved hdr fl H v.usedTextures a hb

/-- After the bucketing pass every bucketed render instance has its texture indices
resolved in the texture list, when that list has fewer than `2^31` entries. -/
theorem updateInstances_resolved (hdr : PublicHeader) (fl : FloatOps F) (dev : Device F)
    (scene : Scene F) (v : View F)
    (hlen : (v.updateInstances hdr fl dev scene).usedTextures.length < 2147483648) :
    ∀ r ∈ (v.updateInstances hdr fl dev scene).bucketed,
      r.texturesResolved (v.updateInstances hdr fl dev scene).usedTextures := by
  unfold View.updateInstances at hlen ⊢
  apply foldl_updateInstance_resolved hdr fl _ _ _ hlen
  intro r hr
  simp [View.bucketed] at hr

theorem length_flatMap_textures (l : List (Instance F)) :
    (l.flatMap Instance.textures).length = (l.map Instance.textureCount).sum := by
  induction l with
  | nil => simp
  | cons a l ih => simp [ih, textures_length]

/-- The three classification rules split a list of instances. -/
theorem filters_partition (hdr : PublicHeader) (l : List (Instance F)) :
    (l.filter Instance.hasStructure
        ++ (l.filter (fun i => !i.hasStructure && i.isBackground hdr)
          ++ l.filter (fun i => !i.hasStructure && !i.isBackground hdr))).Perm l := by
  have h1 := List.filter_append_perm Instance.hasStructure l
  have h2 := List.filter_append_perm (fun i : Instance F => i.isBackground hdr)
    (l.filter (fun i => !i.hasStructure))
  rw [List.filter_filter, List.filter_filter] at h2
  refine List.Perm.trans ?_ h1
  refine List.Perm.append_left _ ?_
  refine List.Perm.trans (List.Perm.of_eq ?_) h2
  congr 2 <;> funext a <;> simp [Bool.and_comm]

theorem updateInstance_capacities (hdr : PublicHeader) (fl : FloatOps F) (H : Nat)
    (v : View F) (inst : Instance F) :
    (v.updateInstance hdr fl H inst).capacities = v.capacities := by
  by_cases h3 : (fillRenderInstance hdr fl H v.usedTextures inst).1.bottomLevelAS = 0 <;>
    by_cases h4 : inst.flags &&& hdr.RT64_INSTANCE_RASTER_BACKGROUND = 0 <;>
    simp [View.updateInstance, View.capacities, h3, h4]

theorem updateInstances_capacities (hdr : PublicHeader) (fl : FloatOps F) (dev : Device F)
    (scene : Scene F) (v : View F) :
    (v.updateInstances hdr fl dev scene).capacities = v.capacities := by
  unfold View.updateInstances
  have key : ∀ (l : List (Instance F)) (w : View F),
      (l.foldl (View.updateInstance hdr fl (toUInt32 dev.height)) w).capacities
        = w.capacities := by
    intro l
    induction l with
    | nil => intro w; rfl
    | cons a l ih =>
      intro w
      rw [List.foldl_cons, ih, updateInstance_capacities]
  rw [key]
  rfl

end Bucketing

/-! ## What the later steps of an update leave unchanged -/

section Frame

variable {F : Type}

theorem View.SameBuckets.refl (v : View F) : v.SameBuckets v := ⟨rfl, rfl, rfl, rfl⟩

theorem View.SameBuckets.trans {a b c : View F} (h1 : a.SameBuckets b) (h2 : b.SameBuckets c) :
    a.SameBuckets c :=
  ⟨h2.1.trans h1.1, h2.2.1.trans h1.2.1, h2.2.2.1.trans h1.2.2.1, h2.2.2.2.trans h1.2.2.2⟩

theorem createOutputBuffers_sameBuckets (fl : FloatOps F) (dev : Device F) (v v' : View F)
    (h : v.createOutputBuffers fl dev = .ok v') : v.SameBuckets v' := by
  unfold View.createOutputBuffers at h
  split at h
  · cases h
  · cases h
    exact ⟨rfl, rfl, rfl, rfl⟩

theorem updateScale_sameBuckets (fl : FloatOps F) (dev : Device F) (v v' : View F)
    (h : v.updateScale fl dev = .ok v') : v.SameBuckets v' := by
  unfold View.updateScale at h
  split at h
  · have hs := createOutputBuffers_sameBuckets fl dev _ _ h
    exact ⟨hs.1, hs.2.1, hs.2.2.1, hs.2.2.2⟩
  · cases h
    exact View.SameBuckets.refl _

theorem createTopLevelAS_sameBuckets (dev : Device F) (v v' : View F)
    (l : List (RenderInstance F)) (h : v.createTopLevelAS dev l = .ok v') :
    v.SameBuckets v' := by
  dsimp only [View.createTopLevelAS] at h
  split at h
  · cases h
  · cases h
    split <;> exact ⟨rfl, rfl, rfl, rfl⟩

theorem createInstancePropertiesBuffer_sameBuckets (hdr : PublicHeader) (dev : Device F)
    (v : View F) : v.SameBuckets (v.createInstancePropertiesBuffer hdr dev) := by
  dsimp only [View.createInstancePropertiesBuffer]
  split <;> exact ⟨rfl, rfl, rfl, rfl⟩

theorem growDescriptorHeap_sameBuckets (dev : Device F) (v v' : View F)
    (h : v.growDescriptorHeap dev = .ok v') : v.SameBuckets v' := by
  dsimp only [View.growDescriptorHeap] at h
  split at h
  · split at h
    · cases h
    · cases h
      exact ⟨rfl, rfl, rfl, rfl⟩
  · cases h
    exact View.SameBuckets.refl _

theorem createComposeHeap_sameBuckets (dev : Device F) (v v' : View F)
    (h : v.createComposeHeap dev = .ok v') : v.SameBuckets v' := by
  dsimp only [View.createComposeHeap] at h
  split at h
  · cases h
  · rename_i w hw
    split at h
    · cases h
    · cases h
      split at hw
      · split at hw
        · cases hw
        · cases hw
          exact ⟨rfl, rfl, rfl, rfl⟩
      · cases hw
        exact ⟨rfl, rfl, rfl, rfl⟩

theorem createShaderResourceHeap_sameBuckets (hdr : PublicHeader) (dev : Device F)
    (scene : Scene F) (v v' : View F)
    (h : v.createShaderResourceHeap hdr dev scene = .ok v') : v.SameBuckets v' := by
  dsimp only [View.createShaderResourceHeap] at h
  split at h
  · cases h
  · split at h
    · cases h
    · rename_i w hw
      split at h
      · cases h
      · have h1 := growDescriptorHeap_sameBuckets dev _ _ hw
        have h2 := createComposeHeap_sameBuckets dev _ _ h
        exact h1.trans ⟨h2.1, h2.2.1, h2.2.2.1, h2.2.2.2⟩

theorem createShaderBindingTable_sameBuckets (dev : Device F) (v v' : View F)
    (h : v.createShaderBindingTable dev = .ok v') : v.SameBuckets v' := by
  dsimp only [View.createShaderBindingTable] at h
  split at h
  · cases h
  · split at h
    · cases h
    · cases h
      split <;> exact ⟨rfl, rfl, rfl, rfl⟩

theorem updateInstancePropertiesBuffer_sameBuckets (fl : FloatOps F) (dev : Device F)
    (v v' : View F) (h : v.updateInstancePropertiesBuffer fl dev = .ok v') :
    v.SameBuckets v' := by
  dsimp only [View.updateInstancePropertiesBuffer] at h
  split at h
  · cases h
  · split at h
    · cases h
    · cases h
      exact ⟨rfl, rfl, rfl, rfl⟩

theorem createShaderResourceHeap_ok_bound (hdr : PublicHeader) (dev : Device F)
    (scene : Scene F) (v v' : View F)
    (h : v.createShaderResourceHeap hdr dev scene = .ok v') : v.usedTextures.length ≤ 1024 := by
  dsimp only [View.createShaderResourceHeap] at h
  split at h
  · cases h
  · rename_i hle
    simpa using hle

/-! ### Capacities -/

theorem entryCount_eq (v : View F) (h : v.usedTextures.length ≤ 1024) :
    v.entryCount = 13 + v.usedTextures.length := by
  unfold View.entryCount HeapIndices.toNat
  have e0 : toUInt32 ((14 : Nat) : Int) = 14 := toUInt32_of_lt (by omega)
  have e1 : toUInt64 v.usedTextures.length = v.usedTextures.length := toUInt64_of_lt (by omega)
  have e2 : toUInt32 (v.usedTextures.length : Int) = v.usedTextures.length :=
    toUInt32_of_lt (by omega)
  rw [e0, e1, e2]
  have e3 : ((14 : Nat) : Int) - 1 + (v.usedTextures.length : Int)
      = ((13 + v.usedTextures.length : Nat) : Int) := by
    push_cast
    ring
  rw [e3]
  exact toUInt32_of_lt (by omega)

theorem createOutputBuffers_capacities (fl : FloatOps F) (dev : Device F) (v v' : View F)
    (h : v.createOutputBuffers fl dev = .ok v') : v'.capacities = v.capacities := by
  unfold View.createOutputBuffers at h
  split at h
  · cases h
  · cases h
    rfl

theorem updateScale_capacities (fl : FloatOps F) (dev : Device F) (v v' : View F)
    (h : v.updateScale fl dev = .ok v') : v'.capacities = v.capacities := by
  unfold View.updateScale at h
  split at h
  · exact (createOutputBuffers_capacities fl dev _ _ h).trans rfl
  · cases h
    rfl

theorem createTopLevelAS_capacities (dev : Device F) (v v' : View F)
    (l : List (RenderInstance F)) (h : v.createTopLevelAS dev l = .ok v') :
    v'.capacities = v.capacities := by
  dsimp only [View.createTopLevelAS] at h
  split at h
  · cases h
  · cases h
    split <;> rfl

theorem createInstancePropertiesBuffer_capacities (hdr : PublicHeader) (dev : Device F)
    (v : View F) :
    (v.createInstancePropertiesBuffer hdr dev).capacities
      = (v.descriptorHeapEntryCount, v.sbtStorageSize,
          toUInt32 (ROUND_UP (toUInt64 (toUInt32 (toUInt64 (v.rtInstances.length
            + v.rasterBgInstances.length + v.rasterFgInstances.length))
              * hdr.sizeofInstanceProperties)) D3D12_CONSTANT_BUFFER_DATA_PLACEMENT_ALIGNMENT)) := by
  dsimp only [View.createInstancePropertiesBuffer]
  split
  · rfl
  · rename_i hc
    simp only [ne_eq, Decidable.not_not] at hc
    unfold View.capacities
    rw [hc]

theorem growDescriptorHeap_capacities (dev : Device F) (v v' : View F)
    (h : v.growDescriptorHeap dev = .ok v') :
    v'.capacities = (max v.descriptorHeapEntryCount v.entryCount, v.sbtStorageSize,
      v.activeInstancesBufferPropsSize) := by
  dsimp only [View.growDescriptorHeap] at h
  split at h
  · rename_i hlt
    split at h
    · cases h
    · cases h
      unfold View.capacities
      rw [Nat.max_eq_right (Nat.le_of_lt hlt)]
  · rename_i hge
    cases h
    unfold View.capacities
    rw [Nat.max_eq_left (Nat.le_of_not_lt hge)]

theorem createComposeHeap_capacities (dev : Device F) (v v' : View F)
    (h : v.createComposeHeap dev = .ok v') : v'.capacities = v.capacities := by
  dsimp only [View.createComposeHeap] at h
  split at h
  · cases h
  · rename_i w hw
    split at h
    · cases h
    · cases h
      split at hw
      · split at hw
        · cases hw
        · cases hw
          rfl
      · cases hw
        rfl

theorem createShaderResourceHeap_capacities (hdr : PublicHeader) (dev : Device F)
    (scene : Scene F) (v v' : View F)
    (h : v.createShaderResourceHeap hdr dev scene = .ok v') :
    v'.capacities = (max v.descriptorHeapEntryCount (13 + v.usedTextures.length),
      v.sbtStorageSize, v.activeInstancesBufferPropsSize) := by
  have hb := createShaderResourceHeap_ok_bound hdr dev scene v v' h
  dsimp only [View.createShaderResourceHeap] at h
  split at h
  · cases h
  · split at h
    · cases h
    · rename_i w hw
      split at h
      · cases h
      · have h1 := growDescriptorHeap_capacities dev _ _ hw
        have h2 := createComposeHeap_capacities dev _ _ h
        rw [h2, ← entryCount_eq v hb]
        exact h1

theorem createShaderBindingTable_capacities (dev : Device F) (v v' : View F)
    (h : v.createShaderBindingTable dev = .ok v') :
    v'.capacities = (v.descriptorHeapEntryCount,
      max v.sbtStorageSize (toUInt32 (dev.ComputeSBTSize v'.sbtHelper)),
      v.activeInstancesBufferPropsSize) := by
  dsimp only [View.createShaderBindingTable] at h
  split at h
  · cases h
  · split at h
    · cases h
    · cases h
      unfold View.capacities
      split
      · rename_i hlt
        dsimp only
        rw [Nat.max_eq_right (Nat.le_of_lt hlt)]
      · rename_i hge
        rw [Nat.max_eq_left (Nat.le_of_not_lt hge)]

theorem updateInstancePropertiesBuffer_capacities (fl : FloatOps F) (dev : Device F)
    (v v' : View F) (h : v.updateInstancePropertiesBuffer fl dev = .ok v') :
    v'.capacities = v.capacities ∧ v'.sbtHelper = v.sbtHelper := by
  dsimp only [View.updateInstancePropertiesBuffer] at h
  split at h
  · cases h
  · split at h
    · cases h
    · cases h
      exact ⟨rfl, rfl⟩

/-! ### The generator and the heap after the later steps -/

theorem createInstancePropertiesBuffer_generator (hdr : PublicHeader) (dev : Device F)
    (v : View F) :
    (v.createInstancePropertiesBuffer hdr dev).topLevelASGenerator = v.topLevelASGenerator := by
  dsimp only [View.createInstancePropertiesBuffer]
  split <;> rfl

theorem createShaderResourceHeap_generator (hdr : PublicHeader) (dev : Device F)
    (scene : Scene F) (v v' : View F)
    (h : v.createShaderResourceHeap hdr dev scene = .ok v') :
    v'.topLevelASGenerator = v.topLevelASGenerator := by
  dsimp only [View.createShaderResourceHeap] at h
  split at h
  · cases h
  · split at h
    · cases h
    · rename_i w hw
      have e1 : w.topLevelASGenerator = v.topLevelASGenerator := by
        dsimp only [View.growDescriptorHeap] at hw
        split at hw
        · split at hw
          · cases hw
          · cases hw
            rfl
        · cases hw
          rfl
      split at h
      · cases h
      · rename_i writes _
        have e2 : v'.topLevelASGenerator = w.topLevelASGenerator := by
          dsimp only [View.createComposeHeap] at h
          split at h
          · cases h
          · rename_i u hu
            split at h
            · cases h
            · cases h
              split at hu
              · split at hu
                · cases hu
                · cases hu
                  rfl
              · cases hu
                rfl
        rw [e2, e1]

theorem createShaderBindingTable_generator (dev : Device F) (v v' : View F)
    (h : v.createShaderBindingTable dev = .ok v') :
    v'.topLevelASGenerator = v.topLevelASGenerator ∧ v'.descriptorHeap ≠ 0 := by
  dsimp only [View.createShaderBindingTable] at h
  split at h
  · cases h
  · rename_i hne
    split at h
    · cases h
    · cases h
      split <;> exact ⟨rfl, hne⟩

theorem updateInstancePropertiesBuffer_generator (fl : FloatOps F) (dev : Device F)
    (v v' : View F) (h : v.updateInstancePropertiesBuffer fl dev = .ok v') :
    v'.topLevelASGenerator = v.topLevelASGenerator ∧ v'.descriptorHeap = v.descriptorHeap := by
  dsimp only [View.updateInstancePropertiesBuffer] at h
  split at h
  · cases h
  · split at h
    · cases h
    · cases h
      exact ⟨rfl, rfl⟩

end Frame

/-! ## The steps of a completed update -/

section Update

variable {F : Type}

/-- A completed update went through its steps one after the other. -/
theorem update_ok_steps (hdr : PublicHeader) (fl : FloatOps F) (dev : Device F)
    (scene : Scene F) (v v' : View F) (h : v.update hdr fl dev scene = .ok v') :
    ∃ v1, v.updateScale fl dev = .ok v1 ∧
      ((scene.instances = [] ∧
          v' = { v1 with rtInstances := [], rasterBgInstances := [], rasterFgInstances := [] })
        ∨ (scene.instances ≠ [] ∧ ∃ v2 v3 v4,
            (if (v1.updateInstances hdr fl dev scene).rtInstances.isEmpty then
                Except.ok (v1.updateInstances hdr fl dev scene)
              else (v1.updateInstances hdr fl dev scene).createTopLevelAS dev
                (v1.updateInstances hdr fl dev scene).rtInstances) = .ok v2
            ∧ (v2.createInstancePropertiesBuffer hdr dev).createShaderResourceHeap hdr dev scene
                = .ok v3
            ∧ v3.createShaderBindingTable dev = .ok v4
            ∧ v4.updateInstancePropertiesBuffer fl dev = .ok v')) := by
  dsimp only [View.update] at h
  split at h
  · cases h
  · rename_i v1 h1
    refine ⟨v1, h1, ?_⟩
    split at h
    · rename_i he
      left
      refine ⟨by simpa using he, ?_⟩
      cases h
      rfl
    · rename_i he
      right
      refine ⟨by simpa using he, ?_⟩
      split at h
      · cases h
      · rename_i v2 h2
        split at h
        · cases h
        · rename_i v3 h3
          split at h
          · cases h
          · rename_i v4 h4
            exact ⟨v2, v3, v4, h2, h3, h4, h⟩

/-- After a completed update on a non-empty scene the buckets and the texture list are
those of the bucketing pass. -/
theorem update_ok_sameBuckets (hdr : PublicHeader) (fl : FloatOps F) (dev : Device F)
    (scene : Scene F) (v v' : View F) (h : v.update hdr fl dev scene = .ok v')
    (hne : scene.instances ≠ []) :
    ∃ v1, v.updateScale fl dev = .ok v1 ∧ (v1.updateInstances hdr fl dev scene).SameBuckets v' := by
  obtain ⟨v1, h1, hc⟩ := update_ok_steps hdr fl dev scene v v' h
  refine ⟨v1, h1, ?_⟩
  rcases hc with ⟨he, _⟩ | ⟨_, v2, v3, v4, h2, h3, h4, h5⟩
  · exact absurd he hne
  · have s2 : (v1.updateInstances hdr fl dev scene).SameBuckets v2 := by
      split at h2
      · cases h2
        exact View.SameBuckets.refl _
      · exact createTopLevelAS_sameBuckets dev _ _ _ h2
    have s3 := createInstancePropertiesBuffer_sameBuckets hdr dev v2
    have s4 := createShaderResourceHeap_sameBuckets hdr dev scene _ _ h3
    have s5 := createShaderBindingTable_sameBuckets dev _ _ h4
    have s6 := updateInstancePropertiesBuffer_sameBuckets fl dev _ _ h5
    exact (((s2.trans s3).trans s4).trans s5).trans s6

/-- The buckets after a completed update, in terms of the scene's instance list. -/
theorem update_ok_buckets (hdr : PublicHeader) (fl : FloatOps F) (dev : Device F)
    (scene : Scene F) (v v' : View F) (h : v.update hdr fl dev scene = .ok v') :
    v'.rtInstances.map (fun r => r.instance_) = scene.instances.filter Instance.hasStructure
    ∧ v'.rasterBgInstances.map (fun r => r.instance_)
        = scene.instances.filter (fun i => !i.hasStructure && i.isBackground hdr)
    ∧ v'.rasterFgInstances.map (fun r => r.instance_)
        = scene.instances.filter (fun i => !i.hasStructure && !i.isBackground hdr) := by
  by_cases hne : scene.instances = []
  · obtain ⟨v1, _, hc⟩ := update_ok_steps hdr fl dev scene v v' h
    rcases hc with ⟨_, hv⟩ | ⟨hn, _⟩
    · subst hv
      simp [hne]
    · exact absurd hne hn
  · obtain ⟨v1, _, hs⟩ := update_ok_sameBuckets hdr fl dev scene v v' h hne
    have hu := updateInstances_spec hdr fl dev scene v1
    rw [hs.1, hs.2.1, hs.2.2.1]
    exact ⟨hu.1, hu.2.1, hu.2.2.1⟩

/-- The texture list after a completed update on a non-empty scene. -/
theorem update_ok_usedTextures (hdr : PublicHeader) (fl : FloatOps F) (dev : Device F)
    (scene : Scene F) (v v' : View F) (h : v.update hdr fl dev scene = .ok v')
    (hne : scene.instances ≠ []) :
    v'.usedTextures = scene.instances.flatMap Instance.textures := by
  obtain ⟨v1, _, hs⟩ := update_ok_sameBuckets hdr fl dev scene v v' h hne
  rw [hs.2.2.2]
  exact (updateInstances_spec hdr fl dev scene v1).2.2.2

/-- A completed update on a non-empty scene passed the texture-capacity assertion. -/
theorem update_ok_texture_bound (hdr : PublicHeader) (fl : FloatOps F) (dev : Device F)
    (scene : Scene F) (v v' : View F) (h : v.update hdr fl dev scene = .ok v')
    (hne : scene.instances ≠ []) : v'.usedTextures.length ≤ 1024 := by
  obtain ⟨v1, _, hc⟩ := update_ok_steps hdr fl dev scene v v' h
  rcases hc with ⟨he, _⟩ | ⟨_, v2, v3, v4, h2, h3, h4, h5⟩
  · exact absurd he hne
  · have b := createShaderResourceHeap_ok_bound hdr dev scene _ _ h3
    have s3 := createInstancePropertiesBuffer_sameBuckets hdr dev v2
    have s4 := createShaderResourceHeap_sameBuckets hdr dev scene _ _ h3
    have s5 := createShaderBindingTable_sameBuckets dev _ _ h4
    have s6 := updateInstancePropertiesBuffer_sameBuckets fl dev _ _ h5
    rw [s6.2.2.2, s5.2.2.2, s4.2.2.2]
    exact b

/-- The bucket sizes after a completed update add up to the number of scene instances. -/
theorem update_ok_lengths (hdr : PublicHeader) (fl : FloatOps F) (dev : Device F)
    (scene : Scene F) (v v' : View F) (h : v.update hdr fl dev scene = .ok v') :
    v'.rtInstances.length + v'.rasterBgInstances.length + v'.rasterFgInstances.length
      = scene.instances.length := by
  obtain ⟨hrt, hbg, hfg⟩ := update_ok_buckets hdr fl dev scene v v' h
  have hl := (filters_partition hdr scene.instances).length_eq
  rw [← hrt, ← hbg, ← hfg] at hl
  simpa [List.length_append, Nat.add_assoc] using hl

/-- A completed update on a non-empty scene handled at most 1024 instances. -/
theorem update_ok_instances_bound (hdr : PublicHeader) (fl : FloatOps F) (dev : Device F)
    (scene : Scene F) (v v' : View F) (h : v.update hdr fl dev scene = .ok v')
    (hne : scene.instances ≠ []) : scene.instances.length ≤ 1024 := by
  have hb := update_ok_texture_bound hdr fl dev scene v v' h hne
  rw [update_ok_usedTextures hdr fl dev scene v v' h hne, length_flatMap_textures] at hb
  have hle : ∀ l : List (Instance F), l.length ≤ (l.map Instance.textureCount).sum := by
    intro l
    induction l with
    | nil => simp
    | cons a l ih =>
      simp only [List.length_cons, List.map_cons, List.sum_cons]
      have h1 : 1 ≤ a.textureCount := by
        unfold Instance.textureCount
        omega
      omega
  exact Nat.le_trans (hle _) hb

/-- The capacities after a completed update on a non-empty scene. -/
theorem update_ok_capacities (hdr : PublicHeader) (fl : FloatOps F) (dev : Device F)
    (scene : Scene F) (v v' : View F) (h : v.update hdr fl dev scene = .ok v')
    (hne : scene.instances ≠ []) :
    v'.capacities
      = (max v.descriptorHeapEntryCount (13 + (scene.instances.map Instance.textureCount).sum),
         max v.sbtStorageSize (toUInt32 (dev.ComputeSBTSize v'.sbtHelper)),
         toUInt32 (ROUND_UP (toUInt64 (toUInt32 (toUInt64 scene.instances.length)
           * hdr.sizeofInstanceProperties)) D3D12_CONSTANT_BUFFER_DATA_PLACEMENT_ALIGNMENT)) := by
  have hlen := update_ok_lengths hdr fl dev scene v v' h
  have htex := update_ok_usedTextures hdr fl dev scene v v' h hne
  obtain ⟨v1, h1, hc⟩ := update_ok_steps hdr fl dev scene v v' h
  rcases hc with ⟨he, _⟩ | ⟨_, v2, v3, v4, h2, h3, h4, h5⟩
  · exact absurd he hne
  · have c1 := updateScale_capacities fl dev _ _ h1
    have cu := updateInstances_capacities hdr fl dev scene v1
    have c2 : v2.capacities = v.capacities := by
      split at h2
      · cases h2
        rw [cu, c1]
      · rw [createTopLevelAS_capacities dev _ _ _ h2, cu, c1]
    have s3 := createInstancePropertiesBuffer_sameBuckets hdr dev v2
    have s4 := createShaderResourceHeap_sameBuckets hdr dev scene _ _ h3
    have s5 := createShaderBindingTable_sameBuckets dev _ _ h4
    have s6 := updateInstancePropertiesBuffer_sameBuckets fl dev _ _ h5
    have c3 := createInstancePropertiesBuffer_capacities hdr dev v2
    have c4 := createShaderResourceHeap_capacities hdr dev scene _ _ h3
    have c5 := createShaderBindingTable_capacities dev _ _ h4
    obtain ⟨c6, g6⟩ := updateInstancePropertiesBuffer_capacities fl dev _ _ h5
    have l2 : v2.rtInstances.length + v2.rasterBgInstances.length + v2.rasterFgInstances.length
        = scene.instances.length := by
      rw [← hlen, s6.1, s6.2.1, s6.2.2.1, s5.1, s5.2.1, s5.2.2.1, s4.1, s4.2.1, s4.2.2.1,
        s3.1, s3.2.1, s3.2.2.1]
    have t3 : (v2.createInstancePropertiesBuffer hdr dev).usedTextures.length
        = (scene.instances.map Instance.textureCount).sum := by
      rw [← length_flatMap_textures, ← htex, s6.2.2.2, s5.2.2.2, s4.2.2.2]
    unfold View.capacities at c2 c3 c4 c5 c6 ⊢
    simp only [Prod.mk.injEq] at c2 c3 c4 c5 c6 ⊢
    rw [g6]
    refine ⟨?_, ?_, ?_⟩
    · rw [c6.1, c5.1, c4.1, c3.1, c2.1, t3]
    · rw [c6.2.1, c5.2.1, c4.2.1, c3.2.1, c2.2.1]
    · rw [c6.2.2, c5.2.2, c4.2.2, c3.2.2, l2]

theorem updateScale_returns (fl : FloatOps F) (dev : Device F) (v : View F)
    (hd : dev.Reliable) (hv : v.Allocated) :
    ∃ v1, v.updateScale fl dev = .ok v1 ∧ v1.Allocated := by
  unfold View.updateScale
  split
  · obtain ⟨heap, hh⟩ := hd.rtvHeap
    dsimp only
    unfold View.createOutputBuffers
    rw [hh]
    exact ⟨_, rfl, ⟨hv.heap, hv.props, hv.viewParams⟩⟩
  · exact ⟨v, rfl, hv⟩

theorem updateInstances_allocated (hdr : PublicHeader) (fl : FloatOps F) (dev : Device F)
    (scene : Scene F) (v : View F) (hv : v.Allocated) :
    (v.updateInstances hdr fl dev scene).Allocated := by
  have key : ∀ (l : List (Instance F)) (w : View F), w.Allocated →
      (l.foldl (View.updateInstance hdr fl (toUInt32 dev.height)) w).Allocated := by
    intro l
    induction l with
    | nil => intro w hw; exact hw
    | cons a l ih =>
      intro w hw
      rw [List.foldl_cons]
      apply ih
      by_cases h3 : (fillRenderInstance hdr fl (toUInt32 dev.height) w.usedTextures a).1.bottomLevelAS
          = 0 <;>
        by_cases h4 : a.flags &&& hdr.RT64_INSTANCE_RASTER_BACKGROUND = 0 <;>
        simp only [View.updateInstance, h3, h4, ne_eq, not_true_eq_false, not_false_eq_true,
          if_true, if_false] <;>
        exact ⟨hw.heap, hw.props, hw.viewParams⟩
  unfold View.updateInstances
  exact key _ _ ⟨hv.heap, hv.props, hv.viewParams⟩

theorem createTopLevelAS_returns (dev : Device F) (v : View F) (l : List (RenderInstance F))
    (hd : dev.Reliable) (hv : v.Allocated) :
    ∃ v2, v.createTopLevelAS dev l = .ok v2 ∧ v2.Allocated := by
  dsimp only [View.createTopLevelAS]
  rw [hd.topLevelAS]
  refine ⟨_, rfl, ?_⟩
  split <;> exact ⟨hv.heap, hv.props, hv.viewParams⟩

theorem textureDescriptors_returns (dev : Device F) (l : List Ptr) (h : ∀ t ∈ l, t ≠ 0) :
    ∀ slot, ∃ ws, textureDescriptors dev l slot = .ok ws := by
  induction l with
  | nil => intro slot; exact ⟨[], rfl⟩
  | cons t ts ih =>
    intro slot
    obtain ⟨ws, hws⟩ := ih (fun u hu => h u (List.mem_cons_of_mem _ hu)) (slot + 1)
    rw [textureDescriptors, if_neg (h t (List.mem_cons_self _ _)), hws]
    exact ⟨_, rfl⟩

theorem createShaderResourceHeap_returns (hdr : PublicHeader) (dev : Device F)
    (scene : Scene F) (v : View F) (hd : dev.Reliable) (hv : v.Allocated)
    (hp : v.activeInstancesBufferProps ≠ 0)
    (hlen : v.usedTextures.length ≤ 1024) (htex : ∀ t ∈ v.usedTextures, t ≠ 0) :
    ∃ v3, v.createShaderResourceHeap hdr dev scene = .ok v3 ∧ v3.Allocated
      ∧ v3.descriptorHeap ≠ 0 ∧ v3.activeInstancesBufferProps ≠ 0 := by
  have hec := entryCount_eq v hlen
  have hgrow : ∃ w, v.growDescriptorHeap dev = .ok w ∧ w.descriptorHeap ≠ 0
      ∧ w.usedTextures = v.usedTextures ∧ w.viewParamBufferResource = v.viewParamBufferResource
      ∧ w.activeInstancesBufferProps = v.activeInstancesBufferProps
      ∧ w.activeInstancesBufferPropsSize = v.activeInstancesBufferPropsSize := by
    dsimp only [View.growDescriptorHeap]
    split
    · obtain ⟨heap, hh, hne⟩ := hd.descriptorHeap v.entryCount
      rw [hh]
      exact ⟨_, rfl, hne, rfl, rfl, rfl, rfl⟩
    · rename_i hge
      refine ⟨v, rfl, ?_, rfl, rfl, rfl, rfl⟩
      rcases hv.heap with h0 | h0
      · rw [h0, hec] at hge
        omega
      · exact h0
  obtain ⟨w, hw, hwheap, hwtex, hwvp, hwp, hwps⟩ := hgrow
  obtain ⟨ws, hws⟩ := textureDescriptors_returns dev w.usedTextures (by rw [hwtex]; exact htex) 13
  have hdesc : ∃ writes, w.heapDescriptors hdr dev scene = .ok writes := by
    dsimp only [View.heapDescriptors]
    rw [if_neg hwheap, if_neg (by rw [hwvp]; exact hv.viewParams), hws]
    exact ⟨_, rfl⟩
  obtain ⟨writes, hwrites⟩ := hdesc
  have hcomp : ∀ u : View F, u.descriptorHeap ≠ 0 → u.viewParamBufferResource ≠ 0 →
      u.activeInstancesBufferProps ≠ 0 →
      ∃ v3, u.createComposeHeap dev = .ok v3 ∧ v3.Allocated ∧ v3.descriptorHeap ≠ 0
        ∧ v3.activeInstancesBufferProps ≠ 0 := by
    intro u hu1 hu2 hu3
    dsimp only [View.createComposeHeap]
    by_cases hc : u.composeHeap = 0
    · obtain ⟨heap, hh, hne⟩ := hd.descriptorHeap 1
      rw [if_pos hc, hh]
      dsimp only
      rw [if_neg hne]
      exact ⟨_, rfl, ⟨Or.inr hu1, Or.inr hu3, hu2⟩, hu1, hu3⟩
    · rw [if_neg hc]
      dsimp only
      rw [if_neg hc]
      exact ⟨_, rfl, ⟨Or.inr hu1, Or.inr hu3, hu2⟩, hu1, hu3⟩
  dsimp only [View.createShaderResourceHeap]
  rw [if_neg (by simpa using hlen), hw]
  dsimp only
  rw [hwrites]
  exact hcomp _ hwheap (by rw [hwvp]; exact hv.viewParams) (by rw [hwp]; exact hp)

theorem createShaderBindingTable_returns (dev : Device F) (v : View F) (hd : dev.Reliable)
    (hv : v.Allocated) (hh : v.descriptorHeap ≠ 0) (hp : v.activeInstancesBufferProps ≠ 0) :
    ∃ v4, v.createShaderBindingTable dev = .ok v4 ∧ v4.Allocated
      ∧ v4.activeInstancesBufferProps ≠ 0 := by
  dsimp only [View.createShaderBindingTable]
  rw [if_neg hh, hd.bindingTable]
  refine ⟨_, rfl, ?_⟩
  split <;> exact ⟨⟨hv.heap, hv.props, hv.viewParams⟩, hp⟩

theorem updateInstancePropertiesBuffer_returns (fl : FloatOps F) (dev : Device F) (v : View F)
    (hd : dev.Reliable) (hv : v.Allocated) (hp : v.activeInstancesBufferProps ≠ 0) :
    ∃ v5, v.updateInstancePropertiesBuffer fl dev = .ok v5 ∧ v5.Allocated := by
  dsimp only [View.updateInstancePropertiesBuffer]
  rw [if_neg hp, hd.map]
  exact ⟨_, rfl, ⟨hv.heap, hv.props, hv.viewParams⟩⟩

theorem createInstancePropertiesBuffer_allocated (hdr : PublicHeader) (dev : Device F)
    (v : View F) (hd : dev.Reliable) (hv : v.Allocated)
    (hn : 1 ≤ v.rtInstances.length + v.rasterBgInstances.length + v.rasterFgInstances.length)
    (hb : v.rtInstances.length + v.rasterBgInstances.length + v.rasterFgInstances.length ≤ 1024)
    (hS0 : 0 < hdr.sizeofInstanceProperties)
    (hS : hdr.sizeofInstanceProperties * 1024 + 255 < 4294967296) :
    (v.createInstancePropertiesBuffer hdr dev).Allocated
    ∧ (v.createInstancePropertiesBuffer hdr dev).activeInstancesBufferProps ≠ 0 := by
  have hsize := propsSize_in_range _ _ hb hS
  have hpos : 0 < (v.rtInstances.length + v.rasterBgInstances.length
      + v.rasterFgInstances.length) * hdr.sizeofInstanceProperties := Nat.mul_pos (by omega) hS0
  have h256 : 256 ≤ ((v.rtInstances.length + v.rasterBgInstances.length
      + v.rasterFgInstances.length) * hdr.sizeofInstanceProperties + 255) / 256 * 256 := by
    have : 1 ≤ ((v.rtInstances.length + v.rasterBgInstances.length
        + v.rasterFgInstances.length) * hdr.sizeofInstanceProperties + 255) / 256 :=
      (Nat.one_le_div_iff (by norm_num)).2 (by omega)
    omega
  dsimp only [View.createInstancePropertiesBuffer]
  split
  · exact ⟨⟨hv.heap, Or.inr (hd.buffer _ _), hv.viewParams⟩, hd.buffer _ _⟩
  · rename_i heq
    simp only [ne_eq, Decidable.not_not] at heq
    unfold D3D12_CONSTANT_BUFFER_DATA_PLACEMENT_ALIGNMENT at heq
    rw [hsize] at heq
    have hp : v.activeInstancesBufferProps ≠ 0 := by
      rcases hv.props with h0 | h0
      · omega
      · exact h0
    exact ⟨hv, hp⟩

theorem mem_flatMap_textures_ne (l : List (Instance F))
    (hd : ∀ inst ∈ l, inst.diffuseTexture ≠ 0) :
    ∀ t ∈ l.flatMap Instance.textures, t ≠ 0 := by
  intro t ht
  rw [List.mem_flatMap] at ht
  obtain ⟨inst, hi, hti⟩ := ht
  unfold Instance.textures at hti
  simp only [List.mem_append, List.mem_singleton] at hti
  rcases hti with (h1 | h2) | h3
  · rw [h1]
    exact hd inst hi
  · split at h2
    · rename_i hn
      simp only [List.mem_singleton] at h2
      rw [h2]
      exact hn
    · simp at h2
  · split at h3
    · rename_i hn
      simp only [List.mem_singleton] at h3
      rw [h3]
      exact hn
    · simp at h3

/-- An update returns whenever the device does not fail, the view holds the allocations
it records, every instance has a diffuse texture, and the instances of the scene refer
to at most 1024 textures in all; the state it returns holds its allocations again. -/
theorem update_returns (hdr : PublicHeader) (fl : FloatOps F) (dev : Device F)
    (scene : Scene F) (v : View F) (hd : dev.Reliable) (hv : v.Allocated)
    (hS0 : 0 < hdr.sizeofInstanceProperties)
    (hS : hdr.sizeofInstanceProperties * 1024 + 255 < 4294967296)
    (hdiffuse : ∀ inst ∈ scene.instances, inst.diffuseTexture ≠ 0)
    (hcap : (scene.instances.map Instance.textureCount).sum ≤ 1024) :
    ∃ v', v.update hdr fl dev scene = .ok v' ∧ v'.Allocated := by
  obtain ⟨v1, h1, a1⟩ := updateScale_returns fl dev v hd hv
  dsimp only [View.update]
  rw [h1]
  dsimp only
  by_cases he : scene.instances.isEmpty = true
  · rw [if_pos he]
    exact ⟨_, rfl, ⟨a1.heap, a1.props, a1.viewParams⟩⟩
  · rw [if_neg he]
    have hne : scene.instances ≠ [] := by
      intro h0
      rw [h0] at he
      exact he rfl
    have au := updateInstances_allocated hdr fl dev scene v1 a1
    obtain ⟨urt, ubg, ufg, utex⟩ := updateInstances_spec hdr fl dev scene v1
    have hbuilt : ∃ v2, (if (v1.updateInstances hdr fl dev scene).rtInstances.isEmpty then
          Except.ok (v1.updateInstances hdr fl dev scene)
        else (v1.updateInstances hdr fl dev scene).createTopLevelAS dev
          (v1.updateInstances hdr fl dev scene).rtInstances) = .ok v2
        ∧ v2.Allocated ∧ (v1.updateInstances hdr fl dev scene).SameBuckets v2 := by
      split
      · exact ⟨_, rfl, au, View.SameBuckets.refl _⟩
      · obtain ⟨v2, h2, a2⟩ := createTopLevelAS_returns dev (v1.updateInstances hdr fl dev scene)
          (v1.updateInstances hdr fl dev scene).rtInstances hd au
        exact ⟨v2, h2, a2, createTopLevelAS_sameBuckets dev _ _ _ h2⟩
    obtain ⟨v2, h2, a2, s2⟩ := hbuilt
    rw [h2]
    dsimp only
    have hlen2 : v2.rtInstances.length + v2.rasterBgInstances.length
        + v2.rasterFgInstances.length = scene.instances.length := by
      have hl := (filters_partition hdr scene.instances).length_eq
      rw [← urt, ← ubg, ← ufg] at hl
      rw [s2.1, s2.2.1, s2.2.2.1]
      simpa [List.length_append, Nat.add_assoc] using hl
    have hpos : 1 ≤ scene.instances.length := by
      cases hs : scene.instances with
      | nil => exact absurd hs hne
      | cons a l => simp
    have hcount : scene.instances.length ≤ 1024 := by
      have hle : ∀ l : List (Instance F), l.length ≤ (l.map Instance.textureCount).sum := by
        intro l
        induction l with
        | nil => simp
        | cons a l ih =>
          simp only [List.length_cons, List.map_cons, List.sum_cons]
          have h1 : 1 ≤ a.textureCount := by
            unfold Instance.textureCount
            omega
          omega
      exact Nat.le_trans (hle _) hcap
    obtain ⟨a3, p3⟩ := createInstancePropertiesBuffer_allocated hdr dev v2 hd a2
      (by rw [hlen2]; exact hpos) (by rw [hlen2]; exact hcount) hS0 hS
    have s3 := createInstancePropertiesBuffer_sameBuckets hdr dev v2
    have t3 : (v2.createInstancePropertiesBuffer hdr dev).usedTextures
        = scene.instances.flatMap Instance.textures := by
      rw [s3.2.2.2, s2.2.2.2, utex]
    obtain ⟨v3, h3, a3', hh3, p3'⟩ := createShaderResourceHeap_returns hdr dev scene
      (v2.createInstancePropertiesBuffer hdr dev) hd a3 p3
      (by rw [t3, length_flatMap_textures]; exact hcap)
      (by rw [t3]; exact mem_flatMap_textures_ne _ hdiffuse)
    rw [h3]
    dsimp only
    obtain ⟨v4, h4, a4, p4⟩ := createShaderBindingTable_returns dev v3 hd a3' hh3 p3'
    rw [h4]
    exact updateInstancePropertiesBuffer_returns fl dev v4 hd a4 p4

end Update

/-! ## Bucketing: partition and classification -/

section Claims

variable {F : Type}

/-- C1. After a completed `View::update` the three buckets together hold each entry of
the scene's instance list exactly once: the bucket sizes add up to the number of scene instances,
and the instances of the raytraced, background and foreground buckets, taken
together, are a rearrangement of the scene's list (nothing twice, nothing left out). -/
theorem update_buckets_partition (hdr : PublicHeader) (fl : FloatOps F) (dev : Device F)
    (scene : Scene F) (v v' : View F) (h : v.update hdr fl dev scene = .ok v') :
    v'.rtInstances.length + v'.rasterBgInstances.length + v'.rasterFgInstances.length
        = scene.instances.length
    ∧ (v'.bucketed.map (fun r => r.instance_)).Perm scene.instances := by
  obtain ⟨hrt, hbg, hfg⟩ := update_ok_buckets hdr fl dev scene v v' h
  have hperm : (v'.bucketed.map (fun r => r.instance_)).Perm scene.instances := by
    unfold View.bucketed
    rw [List.map_append, List.map_append, hrt, hbg, hfg, List.append_assoc]
    exact filters_partition hdr scene.instances
  refine ⟨?_, hperm⟩
  have hl := hperm.length_eq
  unfold View.bucketed at hl
  simpa [List.length_append, Nat.add_assoc] using hl

/-- Witness of C1 on the sample frame: the update completes and the three buckets hold
the three instances of the sample scene once each. -/
theorem update_buckets_partition_witness :
    sampleView.update sampleHeader sampleFloatOps sampleDevice sampleScene = .ok sampleUpdated
    ∧ (sampleUpdated.rtInstances.length + sampleUpdated.rasterBgInstances.length
          + sampleUpdated.rasterFgInstances.length = sampleScene.instances.length
        ∧ (sampleUpdated.bucketed.map (fun r => r.instance_)).Perm sampleScene.instances) :=
  ⟨rfl, update_buckets_partition sampleHeader sampleFloatOps sampleDevice sampleScene sampleView
    sampleUpdated rfl⟩

/-- C2. After a completed `View::update`, an instance of the scene is in the raytraced
bucket exactly when the bottom-level structure result of its mesh is non-null, whatever
its flags; it is in the raster-background bucket exactly when that result is null and the
flag bit `RT64_INSTANCE_RASTER_BACKGROUND` is set; and it is in the raster-foreground
bucket exactly when the result is null and the bit is clear. -/
theorem update_classifies (hdr : PublicHeader) (fl : FloatOps F) (dev : Device F)
    (scene : Scene F) (v v' : View F) (h : v.update hdr fl dev scene = .ok v')
    (inst : Instance F) (hi : inst ∈ scene.instances) :
    (inst ∈ v'.rtInstances.map (fun r => r.instance_) ↔ inst.mesh.bottomLevelASResult ≠ 0)
    ∧ (inst ∈ v'.rasterBgInstances.map (fun r => r.instance_)
        ↔ inst.mesh.bottomLevelASResult = 0
          ∧ inst.flags &&& hdr.RT64_INSTANCE_RASTER_BACKGROUND ≠ 0)
    ∧ (inst ∈ v'.rasterFgInstances.map (fun r => r.instance_)
        ↔ inst.mesh.bottomLevelASResult = 0
          ∧ inst.flags &&& hdr.RT64_INSTANCE_RASTER_BACKGROUND = 0) := by
  obtain ⟨hrt, hbg, hfg⟩ := update_ok_buckets hdr fl dev scene v v' h
  rw [hrt, hbg, hfg]
  simp [List.mem_filter, hi, Instance.hasStructure, Instance.isBackground]

/-- Witness of C2 on the sample frame, at the background instance of the sample scene. -/
theorem update_classifies_witness :
    sampleView.update sampleHeader sampleFloatOps sampleDevice sampleScene = .ok sampleUpdated
    ∧ sampleInstance 1 0 13 0 0 2 ∈ sampleScene.instances
    ∧ (sampleInstance 1 0 13 0 0 2 ∈ sampleUpdated.rasterBgInstances.map (fun r => r.instance_)
        ↔ (sampleInstance 1 0 13 0 0 2).mesh.bottomLevelASResult = 0
          ∧ (sampleInstance 1 0 13 0 0 2).flags
              &&& sampleHeader.RT64_INSTANCE_RASTER_BACKGROUND ≠ 0) :=
  ⟨rfl, List.mem_cons_of_mem _ (List.mem_cons_self _ _),
    (update_classifies sampleHeader sampleFloatOps sampleDevice sampleScene sampleView
      sampleUpdated rfl (sampleInstance 1 0 13 0 0 2)
      (List.mem_cons_of_mem _ (List.mem_cons_self _ _))).2.1⟩

/-- The generator after `createTopLevelAS` holds the calls of its loop and nothing else. -/
theorem createTopLevelAS_generator (dev : Device F) (v v' : View F)
    (rtInstances : List (RenderInstance F))
    (h : v.createTopLevelAS dev rtInstances = .ok v') :
    v'.topLevelASGenerator = addInstances rtInstances := by
  dsimp only [View.createTopLevelAS] at h
  split at h
  · cases h
  · cases h
    split <;> rfl

/-- C3. A completed `createTopLevelAS` on a raytraced bucket of size `n` leaves in the
generator exactly `n` instances, whatever it held before; the `i`-th carries the
bottom-level structure, the transform and the flags of `rtInstances[i]`, and as instance
index and hit-group index the `UINT` values of `i` and `2 * i`, which are `i` and `2 * i`
themselves for every bucket of at most `2^31` instances. -/
theorem createTopLevelAS_adds_instances (dev : Device F) (v v' : View F)
    (rtInstances : List (RenderInstance F))
    (h : v.createTopLevelAS dev rtInstances = .ok v') :
    v'.topLevelASGenerator.length = rtInstances.length
    ∧ (∀ (i : Nat) (r : RenderInstance F), rtInstances[i]? = some r →
        v'.topLevelASGenerator[i]? = some
          { bottomLevelAS := r.bottomLevelAS
            transform := r.transform
            instanceID := toUInt32 (toUInt64 i)
            hitGroupIndex := toUInt32 (toUInt64 (2 * i))
            flags := r.flags })
    ∧ (rtInstances.length ≤ 2147483648 →
        ∀ (i : Nat) (r : RenderInstance F), rtInstances[i]? = some r →
          v'.topLevelASGenerator[i]? = some
            { bottomLevelAS := r.bottomLevelAS
              transform := r.transform
              instanceID := i
              hitGroupIndex := 2 * i
              flags := r.flags }) := by
  rw [createTopLevelAS_generator dev v v' rtInstances h]
  refine ⟨by simp [addInstances], ?_, ?_⟩
  · intro i r hr
    simp [addInstances, List.getElem?_mapIdx, hr]
  · intro hn i r hr
    have hi : i < rtInstances.length := by
      rcases Nat.lt_or_ge i rtInstances.length with hlt | hge
      · exact hlt
      · rw [List.getElem?_eq_none hge] at hr
        cases hr
    obtain ⟨e1, e2⟩ := index_conversions (show i < 2147483648 by omega)
    simp [addInstances, List.getElem?_mapIdx, hr, e1, e2]

/-- Witness of C3: the raytraced bucket of the sample frame, of size one. -/
theorem createTopLevelAS_adds_instances_witness :
    sampleUpdated.createTopLevelAS sampleDevice sampleUpdated.rtInstances
        = .ok (okOr sampleView
            (sampleUpdated.createTopLevelAS sampleDevice sampleUpdated.rtInstances))
    ∧ (okOr sampleView (sampleUpdated.createTopLevelAS sampleDevice
          sampleUpdated.rtInstances)).topLevelASGenerator.length
        = sampleUpdated.rtInstances.length :=
  ⟨rfl,
    (createTopLevelAS_adds_instances sampleDevice sampleUpdated _ sampleUpdated.rtInstances
      rfl).1⟩

/-- The records of a raytraced instance in the binding table: surface, then shadow. -/
theorem foldl_addHitGroups (heapPointer : Nat) (l : List (RenderInstance F))
    (g : ShaderBindingTableGenerator) :
    (l.foldl (addHitGroups heapPointer) g).rayGen = g.rayGen
    ∧ (l.foldl (addHitGroups heapPointer) g).miss = g.miss
    ∧ (l.foldl (addHitGroups heapPointer) g).hitGroup
        = g.hitGroup ++ l.flatMap (hitGroupRecords heapPointer) := by
  induction l generalizing g with
  | nil => simp
  | cons a l ih =>
    rw [List.foldl_cons]
    obtain ⟨h1, h2, h3⟩ := ih (addHitGroups heapPointer g a)
    rw [h1, h2, h3]
    simp [addHitGroups, ShaderBindingTableGenerator.AddHitGroup, hitGroupRecords]

/-- Position `2 * i` and `2 * i + 1` of a list of pairs laid out one after the other. -/
theorem getElem?_flatMap_pair {α β : Type} (f g : α → β) (l : List α) (i : Nat) :
    (l.flatMap (fun a => [f a, g a]))[2 * i]? = l[i]?.map f
    ∧ (l.flatMap (fun a => [f a, g a]))[2 * i + 1]? = l[i]?.map g := by
  induction l generalizing i with
  | nil => simp
  | cons a l ih =>
    cases i with
    | zero => simp
    | succ j =>
      have e1 : 2 * (j + 1) = (2 * j) + 1 + 1 := by omega
      rw [e1]
      simpa using ih j

theorem length_flatMap_pair {α β : Type} (f g : α → β) (l : List α) :
    (l.flatMap (fun a => [f a, g a])).length = 2 * l.length := by
  induction l with
  | nil => simp
  | cons a l ih => simp [ih]; omega

/-- The helper after `createShaderBindingTable` holds the registrations of that call. -/
theorem createShaderBindingTable_helper (dev : Device F) (v v' : View F)
    (h : v.createShaderBindingTable dev = .ok v') :
    v'.sbtHelper = v.registerPrograms (dev.gpuDescriptorHandle v.descriptorHeap)
    ∧ v'.rtInstances = v.rtInstances := by
  dsimp only [View.createShaderBindingTable] at h
  split at h
  · cases h
  · split at h
    · cases h
    · cases h
      split <;> exact ⟨rfl, rfl⟩

/-- C4. A completed `createShaderBindingTable` on a raytraced bucket of size `n` has
registered exactly one ray-generation record, carrying only the heap pointer, exactly one
miss record without arguments, and exactly `2 * n` hit-group records; for every `i < n`
the record at hit-group position `2 * i` is the `SurfaceHitGroup` record and the one at
`2 * i + 1` the `ShadowHitGroup` record of `rtInstances[i]`, both with its vertex-buffer
address, its index-buffer address and the heap pointer; and for a bucket of at most `2^31` instances
the hit-group index that `createTopLevelAS` gives to instance `i` selects the
surface record of that same instance. -/
theorem createShaderBindingTable_records (dev : Device F) (v v' : View F)
    (h : v.createShaderBindingTable dev = .ok v') :
    v'.sbtHelper.rayGen
        = [{ entryPoint := .TraceRayGen, inputData := [dev.gpuDescriptorHandle v.descriptorHeap] }]
    ∧ v'.sbtHelper.miss = [{ entryPoint := .ShadowMiss, inputData := [] }]
    ∧ v'.sbtHelper.hitGroup.length = 2 * v'.rtInstances.length
    ∧ (∀ (i : Nat) (r : RenderInstance F), v'.rtInstances[i]? = some r →
        v'.sbtHelper.hitGroup[2 * i]? = some
            { entryPoint := .SurfaceHitGroup
              inputData := [r.vertexBufferView.BufferLocation, r.indexBufferView.BufferLocation,
                dev.gpuDescriptorHandle v.descriptorHeap] }
        ∧ v'.sbtHelper.hitGroup[2 * i + 1]? = some
            { entryPoint := .ShadowHitGroup
              inputData := [r.vertexBufferView.BufferLocation, r.indexBufferView.BufferLocation,
                dev.gpuDescriptorHandle v.descriptorHeap] })
    ∧ (v'.rtInstances.length ≤ 2147483648 →
        ∀ (i : Nat) (r : RenderInstance F) (t : TLASInstance F), v'.rtInstances[i]? = some r →
          (addInstances v'.rtInstances)[i]? = some t →
          v'.sbtHelper.hitGroup[t.hitGroupIndex]? = some
            { entryPoint := .SurfaceHitGroup
              inputData := [r.vertexBufferView.BufferLocation, r.indexBufferView.BufferLocation,
                dev.gpuDescriptorHandle v.descriptorHeap] }) := by
  obtain ⟨hh, hrt⟩ := createShaderBindingTable_helper dev v v' h
  obtain ⟨f1, f2, f3⟩ := foldl_addHitGroups (dev.gpuDescriptorHandle v.descriptorHeap)
    v.rtInstances
    (((v.sbtHelper.Reset).AddRayGenerationProgram .TraceRayGen
      [dev.gpuDescriptorHandle v.descriptorHeap]).AddMissProgram .ShadowMiss [])
  have hg : v'.sbtHelper.hitGroup
      = v.rtInstances.flatMap (hitGroupRecords (dev.gpuDescriptorHandle v.descriptorHeap)) := by
    rw [hh]
    dsimp only [View.registerPrograms]
    rw [f3]
    simp [ShaderBindingTableGenerator.Reset, ShaderBindingTableGenerator.AddRayGenerationProgram,
      ShaderBindingTableGenerator.AddMissProgram]
  have hpair : ∀ (i : Nat) (r : RenderInstance F), v'.rtInstances[i]? = some r →
      v'.sbtHelper.hitGroup[2 * i]? = some
          { entryPoint := .SurfaceHitGroup
            inputData := [r.vertexBufferView.BufferLocation, r.indexBufferView.BufferLocation,
              dev.gpuDescriptorHandle v.descriptorHeap] }
      ∧ v'.sbtHelper.hitGroup[2 * i + 1]? = some
          { entryPoint := .ShadowHitGroup
            inputData := [r.vertexBufferView.BufferLocation, r.indexBufferView.BufferLocation,
              dev.gpuDescriptorHandle v.descriptorHeap] } := by
    intro i r hr
    rw [hrt] at hr
    rw [hg]
    unfold hitGroupRecords
    obtain ⟨p1, p2⟩ := getElem?_flatMap_pair
      (fun a : RenderInstance F => SBTRecord.mk .SurfaceHitGroup
        [a.vertexBufferView.BufferLocation, a.indexBufferView.BufferLocation,
          dev.gpuDescriptorHandle v.descriptorHeap])
      (fun a : RenderInstance F => SBTRecord.mk .ShadowHitGroup
        [a.vertexBufferView.BufferLocation, a.indexBufferView.BufferLocation,
          dev.gpuDescriptorHandle v.descriptorHeap])
      v.rtInstances i
    rw [p1, p2, hr]
    exact ⟨rfl, rfl⟩
  refine ⟨?_, ?_, ?_, hpair, ?_⟩
  · rw [hh]
    dsimp only [View.registerPrograms]
    rw [f1]
    simp [ShaderBindingTableGenerator.Reset, ShaderBindingTableGenerator.AddRayGenerationProgram,
      ShaderBindingTableGenerator.AddMissProgram]
  · rw [hh]
    dsimp only [View.registerPrograms]
    rw [f2]
    simp [ShaderBindingTableGenerator.Reset, ShaderBindingTableGenerator.AddRayGenerationProgram,
      ShaderBindingTableGenerator.AddMissProgram]
  · rw [hg, hrt]
    unfold hitGroupRecords
    exact length_flatMap_pair _ _ _
  · intro hn i r t hr ht
    have hi : i < v'.rtInstances.length := by
      rcases Nat.lt_or_ge i v'.rtInstances.length with hlt | hge
      · exact hlt
      · rw [List.getElem?_eq_none hge] at hr
        cases hr
    obtain ⟨_, e2⟩ := index_conversions (show i < 2147483648 by omega)
    have ht2 : t.hitGroupIndex = 2 * i := by
      simp only [addInstances, List.getElem?_mapIdx, hr, Option.map_some', Option.some.injEq] at ht
      rw [← ht]
      exact e2
    rw [ht2]
    exact (hpair i r hr).1

/-- Witness of C4: the binding table of the sample frame, built again on its state. -/
theorem createShaderBindingTable_records_witness :
    sampleUpdated.createShaderBindingTable sampleDevice
        = .ok (okOr sampleView (sampleUpdated.createShaderBindingTable sampleDevice))
    ∧ (okOr sampleView (sampleUpdated.createShaderBindingTable sampleDevice)).sbtHelper.hitGroup.length
        = 2 * (okOr sampleView
            (sampleUpdated.createShaderBindingTable sampleDevice)).rtInstances.length :=
  ⟨rfl, (createShaderBindingTable_records sampleDevice sampleUpdated _ rfl).2.2.1⟩

/-- C5. After a completed `View::update` on a non-empty scene, every render instance in
any bucket has `usedTextures[material.diffuseTexIndex]` equal to the diffuse texture of
its instance, `normalTexIndex` equal to `-1` when the instance has no normal texture and
otherwise `usedTextures[normalTexIndex]` equal to its normal texture, and likewise for
the specular texture; and the length of `usedTextures` is the sum over the scene's instances
of `1 + (normal present) + (specular present)`: textures are appended per instance,
shared ones again. -/
theorem update_resolves_textures (hdr : PublicHeader) (fl : FloatOps F) (dev : Device F)
    (scene : Scene F) (v v' : View F) (h : v.update hdr fl dev scene = .ok v')
    (hne : scene.instances ≠ []) :
    (∀ r ∈ v'.bucketed, r.texturesResolved v'.usedTextures)
    ∧ v'.usedTextures.length = (scene.instances.map Instance.textureCount).sum := by
  have hb := update_ok_texture_bound hdr fl dev scene v v' h hne
  have ht := update_ok_usedTextures hdr fl dev scene v v' h hne
  obtain ⟨v1, _, hs⟩ := update_ok_sameBuckets hdr fl dev scene v v' h hne
  refine ⟨?_, ?_⟩
  · have hlen : (v1.updateInstances hdr fl dev scene).usedTextures.length < 2147483648 := by
      rw [← hs.2.2.2]
      omega
    have hr := updateInstances_resolved hdr fl dev scene v1 hlen
    unfold View.bucketed at hr ⊢
    rw [hs.1, hs.2.1, hs.2.2.1, hs.2.2.2]
    exact hr
  · rw [ht]
    exact length_flatMap_textures _

/-- Witness of C5 on the sample frame. -/
theorem update_resolves_textures_witness :
    sampleView.update sampleHeader sampleFloatOps sampleDevice sampleScene = .ok sampleUpdated
    ∧ sampleScene.instances ≠ []
    ∧ ((∀ r ∈ sampleUpdated.bucketed, r.texturesResolved sampleUpdated.usedTextures)
      ∧ sampleUpdated.usedTextures.length
          = (sampleScene.instances.map Instance.textureCount).sum) :=
  ⟨rfl, List.cons_ne_nil _ _,
    update_resolves_textures sampleHeader sampleFloatOps sampleDevice sampleScene sampleView
      sampleUpdated rfl (List.cons_ne_nil _ _)⟩

end Claims

/-! ## The instance-properties buffer -/

section InstanceProps

variable {F : Type}

theorem objectToWorldNormal_eq (fl : FloatOps F) (M : XMMATRIX F) :
    objectToWorldNormal fl M = XMMatrixTranspose (fl.XMMatrixInverse (upper3x3 fl M)) := by
  dsimp only [objectToWorldNormal, upper3x3, XMMATRIX.set]
  congr 3
  funext a b
  fin_cases a <;> fin_cases b <;> simp

theorem foldl_writeRt (fl : FloatOps F) (l : List (RenderInstance F)) (c : PropsCursor F) :
    (l.foldl (PropsCursor.writeRt fl) c).current = c.current + l.length
    ∧ (∀ k, k < c.current → (l.foldl (PropsCursor.writeRt fl) c).data k = c.data k)
    ∧ (∀ (i : Nat) (r : RenderInstance F), l[i]? = some r →
        (l.foldl (PropsCursor.writeRt fl) c).data (c.current + i) = rtRecord fl r)
    ∧ (∀ k, c.current + l.length ≤ k → (l.foldl (PropsCursor.writeRt fl) c).data k = c.data k) := by
  induction l generalizing c with
  | nil => simp
  | cons a l ih =>
    rw [List.foldl_cons]
    obtain ⟨h1, h2, h3, h4⟩ := ih (c.writeRt fl a)
    have hcur : (c.writeRt fl a).current = c.current + 1 := rfl
    refine ⟨?_, ?_, ?_, ?_⟩
    · rw [h1, hcur, List.length_cons]
      omega
    · intro k hk
      rw [h2 k (by rw [hcur]; omega)]
      show (if k = c.current then _ else c.data k) = c.data k
      rw [if_neg (by omega)]
    · intro i r hr
      cases i with
      | zero =>
        simp only [List.getElem?_cons_zero, Option.some.injEq] at hr
        rw [Nat.add_zero, h2 c.current (by rw [hcur]; omega), ← hr]
        show (if c.current = c.current then _ else c.data c.current) = _
        rw [if_pos rfl, rtRecord, objectToWorldNormal_eq]
      | succ j =>
        simp only [List.getElem?_cons_succ] at hr
        have := h3 j r hr
        rw [hcur] at this
        rw [← this]
        congr 1
        omega
    · intro k hk
      rw [List.length_cons] at hk
      rw [h4 k (by rw [hcur]; omega)]
      show (if k = c.current then _ else c.data k) = c.data k
      rw [if_neg (by omega)]

theorem foldl_writeRaster (l : List (RenderInstance F)) (c : PropsCursor F) :
    (l.foldl PropsCursor.writeRaster c).current = c.current + l.length
    ∧ (∀ k, k < c.current → (l.foldl PropsCursor.writeRaster c).data k = c.data k)
    ∧ (∀ (i : Nat) (r : RenderInstance F), l[i]? = some r →
        (l.foldl PropsCursor.writeRaster c).data (c.current + i)
          = { c.data (c.current + i) with material := r.material })
    ∧ (∀ k, c.current + l.length ≤ k → (l.foldl PropsCursor.writeRaster c).data k = c.data k) := by
  induction l generalizing c with
  | nil => simp
  | cons a l ih =>
    rw [List.foldl_cons]
    obtain ⟨h1, h2, h3, h4⟩ := ih (c.writeRaster a)
    have hcur : (c.writeRaster a).current = c.current + 1 := rfl
    refine ⟨?_, ?_, ?_, ?_⟩
    · rw [h1, hcur, List.length_cons]
      omega
    · intro k hk
      rw [h2 k (by rw [hcur]; omega)]
      show (if k = c.current then _ else c.data k) = c.data k
      rw [if_neg (by omega)]
    · intro i r hr
      cases i with
      | zero =>
        simp only [List.getElem?_cons_zero, Option.some.injEq] at hr
        rw [Nat.add_zero, h2 c.current (by rw [hcur]; omega), ← hr]
        show (if c.current = c.current then _ else c.data c.current) = _
        rw [if_pos rfl]
      | succ j =>
        simp only [List.getElem?_cons_succ] at hr
        have := h3 j r hr
        rw [hcur] at this
        have e : c.current + (j + 1) = c.current + 1 + j := by omega
        rw [e, this]
        show ({ (if c.current + 1 + j = c.current then _ else c.data (c.current + 1 + j)) with
          material := r.material } : InstanceProperties F) = _
        rw [if_neg (by omega)]
    · intro k hk
      rw [List.length_cons] at hk
      rw [h4 k (by rw [hcur]; omega)]
      show (if k = c.current then _ else c.data k) = c.data k
      rw [if_neg (by omega)]

/-- The content of the mapped buffer after the three loops, record by record. -/
theorem writeInstanceProperties_spec (fl : FloatOps F) (v : View F) :
    (v.writeInstanceProperties fl).current
        = v.rtInstances.length + v.rasterBgInstances.length + v.rasterFgInstances.length
    ∧ (∀ (i : Nat) (r : RenderInstance F), v.rtInstances[i]? = some r →
        (v.writeInstanceProperties fl).data i = rtRecord fl r)
    ∧ (∀ (j : Nat) (r : RenderInstance F), v.rasterBgInstances[j]? = some r →
        (v.writeInstanceProperties fl).data (v.rtInstances.length + j)
          = { v.instancePropsData (v.rtInstances.length + j) with material := r.material })
    ∧ (∀ (j : Nat) (r : RenderInstance F), v.rasterFgInstances[j]? = some r →
        (v.writeInstanceProperties fl).data
            (v.rtInstances.length + v.rasterBgInstances.length + j)
          = { v.instancePropsData (v.rtInstances.length + v.rasterBgInstances.length + j) with
              material := r.material })
    ∧ (∀ k, v.rtInstances.length + v.rasterBgInstances.length + v.rasterFgInstances.length ≤ k →
        (v.writeInstanceProperties fl).data k = v.instancePropsData k) := by
  obtain ⟨a1, a2, a3, a4⟩ := foldl_writeRt fl v.rtInstances
    { data := v.instancePropsData, current := 0 }
  obtain ⟨b1, b2, b3, b4⟩ := foldl_writeRaster v.rasterBgInstances
    (v.rtInstances.foldl (PropsCursor.writeRt fl) { data := v.instancePropsData, current := 0 })
  obtain ⟨c1, c2, c3, c4⟩ := foldl_writeRaster v.rasterFgInstances
    (v.rasterBgInstances.foldl PropsCursor.writeRaster
      (v.rtInstances.foldl (PropsCursor.writeRt fl)
        { data := v.instancePropsData, current := 0 }))
  simp only [Nat.zero_add] at a1 a3 a4
  rw [a1] at b1 b2 b3 b4
  rw [b1] at c1 c2 c3 c4
  dsimp only [View.writeInstanceProperties]
  refine ⟨c1, ?_, ?_, ?_, ?_⟩
  · intro i r hr
    have hi := getElem?_eq_some_lt hr
    rw [c2 i (by omega), b2 i hi]
    exact a3 i r hr
  · intro j r hr
    have hj := getElem?_eq_some_lt hr
    rw [c2 _ (by omega), b3 j r hr, a4 _ (by omega)]
  · intro j r hr
    rw [c3 j r hr, b4 _ (by omega), a4 _ (by omega)]
  · intro k hk
    rw [c4 k hk, b4 k (by omega), a4 k (by omega)]

theorem updateInstancePropertiesBuffer_data (fl : FloatOps F) (dev : Device F) (v v' : View F)
    (h : v.updateInstancePropertiesBuffer fl dev = .ok v') :
    v'.instancePropsData = (v.writeInstanceProperties fl).data := by
  dsimp only [View.updateInstancePropertiesBuffer] at h
  split at h
  · cases h
  · split at h
    · cases h
    · cases h
      rfl

/-- C6. A completed `updateInstancePropertiesBuffer` has written exactly
`|rtInstances| + |rasterBgInstances| + |rasterFgInstances|` records from the start of the
buffer, in the order raytraced, background, foreground, each group in bucket order: the
material of record `k` is the material of the `k`-th instance of that concatenation, and
the records past the last one are untouched. With one raytraced, one background and one
plain instance it has written exactly three records, in that order. -/
theorem updateInstancePropertiesBuffer_records (fl : FloatOps F) (dev : Device F)
    (v v' : View F) (h : v.updateInstancePropertiesBuffer fl dev = .ok v') :
    (v.writeInstanceProperties fl).current
        = v.rtInstances.length + v.rasterBgInstances.length + v.rasterFgInstances.length
    ∧ (∀ (k : Nat) (r : RenderInstance F),
        (v.rtInstances ++ v.rasterBgInstances ++ v.rasterFgInstances)[k]? = some r →
          (v'.instancePropsData k).material = r.material)
    ∧ (∀ k, v.rtInstances.length + v.rasterBgInstances.length + v.rasterFgInstances.length ≤ k →
        v'.instancePropsData k = v.instancePropsData k)
    ∧ (∀ a b c : RenderInstance F, v.rtInstances = [a] → v.rasterBgInstances = [b] →
        v.rasterFgInstances = [c] →
          (v.writeInstanceProperties fl).current = 3
          ∧ (v'.instancePropsData 0).material = a.material
          ∧ (v'.instancePropsData 1).material = b.material
          ∧ (v'.instancePropsData 2).material = c.material) := by
  obtain ⟨w1, w2, w3, w4, w5⟩ := writeInstanceProperties_spec fl v
  have hd := updateInstancePropertiesBuffer_data fl dev v v' h
  have hmat : ∀ (k : Nat) (r : RenderInstance F),
      (v.rtInstances ++ v.rasterBgInstances ++ v.rasterFgInstances)[k]? = some r →
        (v'.instancePropsData k).material = r.material := by
    intro k r hr
    rw [hd]
    rcases Nat.lt_or_ge k v.rtInstances.length with h1 | h1
    · rw [List.append_assoc, List.getElem?_append_left h1] at hr
      rw [w2 k r hr]
      rfl
    · rcases Nat.lt_or_ge k (v.rtInstances.length + v.rasterBgInstances.length) with h2 | h2
      · rw [List.getElem?_append_left (by rw [List.length_append]; exact h2),
          List.getElem?_append_right h1] at hr
        have := w3 _ r hr
        rw [Nat.add_sub_cancel' h1] at this
        rw [this]
      · rw [List.getElem?_append_right (by rw [List.length_append]; exact h2),
          List.length_append] at hr
        have := w4 _ r hr
        rw [Nat.add_sub_cancel' h2] at this
        rw [this]
  refine ⟨w1, hmat, ?_, ?_⟩
  · intro k hk
    rw [hd]
    exact w5 k hk
  · intro a b c ha hb hc
    refine ⟨by rw [w1, ha, hb, hc]; rfl, ?_, ?_, ?_⟩
    · exact hmat 0 a (by rw [ha, hb, hc]; rfl)
    · exact hmat 1 b (by rw [ha, hb, hc]; rfl)
    · exact hmat 2 c (by rw [ha, hb, hc]; rfl)

/-- Witness of C6: the sample frame has one raytraced, one background and one plain instance,
and three records are written. -/
theorem updateInstancePropertiesBuffer_records_witness :
    sampleUpdated.updateInstancePropertiesBuffer sampleFloatOps sampleDevice
        = .ok (okOr sampleView
            (sampleUpdated.updateInstancePropertiesBuffer sampleFloatOps sampleDevice))
    ∧ (sampleUpdated.writeInstanceProperties sampleFloatOps).current
        = sampleUpdated.rtInstances.length + sampleUpdated.rasterBgInstances.length
          + sampleUpdated.rasterFgInstances.length
    ∧ sampleUpdated.rtInstances.length + sampleUpdated.rasterBgInstances.length
          + sampleUpdated.rasterFgInstances.length = 3 :=
  ⟨rfl,
    (updateInstancePropertiesBuffer_records sampleFloatOps sampleDevice sampleUpdated _ rfl).1,
    by decide⟩

/-- C8, as amended. After a completed `updateInstancePropertiesBuffer`, the record of a
raytraced instance holds its object-to-world transform, the normal transform (the
transpose of the inverse of that transform with its translation row and column zeroed)
and its material; the record of a background or foreground instance holds its material,
and the two transforms of that record are what the buffer held there before the call. -/
theorem updateInstancePropertiesBuffer_record_contents (fl : FloatOps F) (dev : Device F)
    (v v' : View F) (h : v.updateInstancePropertiesBuffer fl dev = .ok v') :
    (∀ (i : Nat) (r : RenderInstance F), v.rtInstances[i]? = some r →
        v'.instancePropsData i =
          { objectToWorld := r.transform
            objectToWorldNormal :=
              XMMatrixTranspose (fl.XMMatrixInverse (upper3x3 fl r.transform))
            material := r.material })
    ∧ (∀ (j : Nat) (r : RenderInstance F), v.rasterBgInstances[j]? = some r →
        v'.instancePropsData (v.rtInstances.length + j) =
          { objectToWorld := (v.instancePropsData (v.rtInstances.length + j)).objectToWorld
            objectToWorldNormal :=
              (v.instancePropsData (v.rtInstances.length + j)).objectToWorldNormal
            material := r.material })
    ∧ (∀ (j : Nat) (r : RenderInstance F), v.rasterFgInstances[j]? = some r →
        v'.instancePropsData (v.rtInstances.length + v.rasterBgInstances.length + j) =
          { objectToWorld := (v.instancePropsData
              (v.rtInstances.length + v.rasterBgInstances.length + j)).objectToWorld
            objectToWorldNormal := (v.instancePropsData
              (v.rtInstances.length + v.rasterBgInstances.length + j)).objectToWorldNormal
            material := r.material }) := by
  obtain ⟨_, w2, w3, w4, _⟩ := writeInstanceProperties_spec fl v
  rw [updateInstancePropertiesBuffer_data fl dev v v' h]
  exact ⟨fun i r hr => w2 i r hr, fun j r hr => w3 j r hr, fun j r hr => w4 j r hr⟩

/-- Witness of C8 as amended, on the sample frame. -/
theorem updateInstancePropertiesBuffer_record_contents_witness :
    sampleUpdated.updateInstancePropertiesBuffer sampleFloatOps sampleDevice
        = .ok (okOr sampleView
            (sampleUpdated.updateInstancePropertiesBuffer sampleFloatOps sampleDevice))
    ∧ ∀ (i : Nat) (r : RenderInstance ℚ), sampleUpdated.rtInstances[i]? = some r →
        (okOr sampleView (sampleUpdated.updateInstancePropertiesBuffer sampleFloatOps
            sampleDevice)).instancePropsData i =
          { objectToWorld := r.transform
            objectToWorldNormal :=
              XMMatrixTranspose (sampleFloatOps.XMMatrixInverse (upper3x3 sampleFloatOps r.transform))
            material := r.material } :=
  ⟨rfl, (updateInstancePropertiesBuffer_record_contents sampleFloatOps sampleDevice sampleUpdated
    _ rfl).1⟩

/-- Counterexample to C8 as stated: after the update of the sample frame, the record of
the background instance (record 1) does not hold the transform of that instance; its
entry (0, 0) is that of the buffer content before the write, 7, not that of the
transform, 1. -/
theorem raster_record_without_transform :
    sampleView.update sampleHeader sampleFloatOps sampleDevice sampleScene = .ok sampleUpdated
    ∧ ¬ (∀ (k : Nat) (r : RenderInstance ℚ), sampleUpdated.bucketed[k]? = some r →
          (sampleUpdated.instancePropsData k).objectToWorld = r.transform) := by
  refine ⟨rfl, ?_⟩
  intro hall
  have hne : (sampleUpdated.instancePropsData 1).objectToWorld.r 0 0
      ≠ (sampleUpdated.bucketed.get ⟨1, by decide⟩).transform.r 0 0 := by decide
  exact hne (congrArg (fun M => M.r 0 0)
    (hall 1 (sampleUpdated.bucketed.get ⟨1, by decide⟩) (List.getElem?_eq_getElem _)))

/-- The material of record `k` after the three loops is that of the `k`-th bucketed instance.
-/
theorem writeInstanceProperties_material (fl : FloatOps F) (v : View F) (k : Nat)
    (r : RenderInstance F) (hr : v.bucketed[k]? = some r) :
    ((v.writeInstanceProperties fl).data k).material = r.material := by
  obtain ⟨_, w2, w3, w4, _⟩ := writeInstanceProperties_spec fl v
  unfold View.bucketed at hr
  rcases Nat.lt_or_ge k v.rtInstances.length with h1 | h1
  · rw [List.append_assoc, List.getElem?_append_left h1] at hr
    rw [w2 k r hr]
    rfl
  · rcases Nat.lt_or_ge k (v.rtInstances.length + v.rasterBgInstances.length) with h2 | h2
    · rw [List.getElem?_append_left (by rw [List.length_append]; exact h2),
        List.getElem?_append_right h1] at hr
      have := w3 _ r hr
      rw [Nat.add_sub_cancel' h1] at this
      rw [this]
    · rw [List.getElem?_append_right (by rw [List.length_append]; exact h2),
        List.length_append] at hr
      have := w4 _ r hr
      rw [Nat.add_sub_cancel' h2] at this
      rw [this]

/-- The position of the `j`-th instance of each bucket in the concatenation of the
three buckets. -/
theorem bucketed_positions (v : View F) :
    (∀ (i : Nat) (r : RenderInstance F), v.rtInstances[i]? = some r → v.bucketed[i]? = some r)
    ∧ (∀ (j : Nat) (r : RenderInstance F), v.rasterBgInstances[j]? = some r →
        v.bucketed[v.rtInstances.length + j]? = some r)
    ∧ (∀ (j : Nat) (r : RenderInstance F), v.rasterFgInstances[j]? = some r →
        v.bucketed[v.rasterBgInstances.length + v.rtInstances.length + j]? = some r) := by
  unfold View.bucketed
  refine ⟨?_, ?_, ?_⟩
  · intro i r hr
    rw [List.append_assoc, List.getElem?_append_left (getElem?_eq_some_lt hr)]
    exact hr
  · intro j r hr
    have hj := getElem?_eq_some_lt hr
    rw [List.getElem?_append_left (by rw [List.length_append]; omega),
      List.getElem?_append_right (by omega), Nat.add_sub_cancel_left]
    exact hr
  · intro j r hr
    rw [List.getElem?_append_right (by rw [List.length_append]; omega), List.length_append]
    have e : v.rasterBgInstances.length + v.rtInstances.length + j
        - (v.rtInstances.length + v.rasterBgInstances.length) = j := by omega
    rw [e]
    exact hr

/-- After a completed update on a non-empty scene, the instance-properties buffer holds
what the three loops wrote from the buckets of the frame, the heap exists, and the
generator holds the instances of a non-empty raytraced bucket. -/
theorem update_ok_final (hdr : PublicHeader) (fl : FloatOps F) (dev : Device F)
    (scene : Scene F) (v v' : View F) (h : v.update hdr fl dev scene = .ok v')
    (hne : scene.instances ≠ []) :
    (∃ v4 : View F, v4.SameBuckets v'
        ∧ v'.instancePropsData = (v4.writeInstanceProperties fl).data)
    ∧ v'.descriptorHeap ≠ 0
    ∧ (v'.rtInstances ≠ [] → v'.topLevelASGenerator = addInstances v'.rtInstances) := by
  obtain ⟨v1, h1, hc⟩ := update_ok_steps hdr fl dev scene v v' h
  rcases hc with ⟨he, _⟩ | ⟨_, v2, v3, v4, h2, h3, h4, h5⟩
  · exact absurd he hne
  · have s3 := createInstancePropertiesBuffer_sameBuckets hdr dev v2
    have s4 := createShaderResourceHeap_sameBuckets hdr dev scene _ _ h3
    have s5 := createShaderBindingTable_sameBuckets dev _ _ h4
    have s6 := updateInstancePropertiesBuffer_sameBuckets fl dev _ _ h5
    have g3 := createInstancePropertiesBuffer_generator hdr dev v2
    have g4 := createShaderResourceHeap_generator hdr dev scene _ _ h3
    obtain ⟨g5, k5⟩ := createShaderBindingTable_generator dev _ _ h4
    obtain ⟨g6, k6⟩ := updateInstancePropertiesBuffer_generator fl dev _ _ h5
    refine ⟨⟨v4, s6, updateInstancePropertiesBuffer_data fl dev _ _ h5⟩, by rw [k6]; exact k5, ?_⟩
    intro hrt
    have e2 : v'.rtInstances = v2.rtInstances := by
      rw [s6.1, s5.1, s4.1, s3.1]
    rw [g6, g5, g4, g3, e2]
    rw [e2] at hrt
    split at h2
    · rename_i hemp
      cases h2
      rw [List.isEmpty_iff] at hemp
      exact absurd hemp hrt
    · have hs := createTopLevelAS_sameBuckets dev _ _ _ h2
      rw [createTopLevelAS_generator dev _ _ _ h2, hs.1]

end InstanceProps

/-! ## Rendering: instance indices -/

section Rendering

variable {F : Type}

theorem draws_record (rc : Recording F) (cs : List (Command F)) :
    (rc.record cs).draws = rc.draws ++ cs.filter Command.isInstanceDraw
    ∧ (rc.record cs).view = rc.view := by
  unfold Recording.record Recording.draws
  exact ⟨List.filter_append _ _, rfl⟩

theorem draws_resetPipeline (rc : Recording F) :
    rc.resetPipeline.draws = rc.draws ∧ rc.view.SameBuckets rc.resetPipeline.view := by
  unfold Recording.resetPipeline
  obtain ⟨h1, h2⟩ := draws_record rc
    [.SetPipelineState .raster, .SetGraphicsRootSignature .raster,
     .SetDescriptorHeaps [rc.view.descriptorHeap],
     .SetGraphicsRootDescriptorTable 1 rc.view.descriptorHeap]
  rw [h1, h2]
  exact ⟨by simp [Command.isInstanceDraw], View.SameBuckets.refl _⟩

theorem draws_resetScissor (dev : Device F) (rc : Recording F) :
    (rc.resetScissor dev).draws = rc.draws ∧ rc.view.SameBuckets (rc.resetScissor dev).view := by
  unfold Recording.resetScissor Recording.draws
  exact ⟨by simp [Command.isInstanceDraw], ⟨rfl, rfl, rfl, rfl⟩⟩

theorem draws_resetViewport (dev : Device F) (rc : Recording F) :
    (rc.resetViewport dev).draws = rc.draws
    ∧ rc.view.SameBuckets (rc.resetViewport dev).view := by
  unfold Recording.resetViewport Recording.draws
  exact ⟨by simp [Command.isInstanceDraw], ⟨rfl, rfl, rfl, rfl⟩⟩

theorem draws_applyScissor (dev : Device F) (rc : Recording F) (rect : D3D12_RECT) :
    (rc.applyScissor dev rect).draws = rc.draws
    ∧ rc.view.SameBuckets (rc.applyScissor dev rect).view := by
  unfold Recording.applyScissor
  split
  · unfold Recording.draws
    exact ⟨by simp [Command.isInstanceDraw], ⟨rfl, rfl, rfl, rfl⟩⟩
  · split
    · exact draws_resetScissor dev rc
    · exact ⟨rfl, View.SameBuckets.refl _⟩

theorem draws_applyViewport (fl : FloatOps F) (dev : Device F) (rc : Recording F)
    (viewport : D3D12_VIEWPORT F) :
    (rc.applyViewport fl dev viewport).draws = rc.draws
    ∧ rc.view.SameBuckets (rc.applyViewport fl dev viewport).view := by
  unfold Recording.applyViewport
  split
  · unfold Recording.draws
    exact ⟨by simp [Command.isInstanceDraw], ⟨rfl, rfl, rfl, rfl⟩⟩
  · split
    · exact draws_resetViewport dev rc
    · exact ⟨rfl, View.SameBuckets.refl _⟩

theorem draws_drawInstance (fl : FloatOps F) (dev : Device F) (base : Nat) (flag : Bool)
    (rc : Recording F) (j : Nat) (r : RenderInstance F) :
    (rc.drawInstance fl dev base flag j r).draws = rc.draws ++ instanceDraw (toUInt32 (base + j)) r
    ∧ rc.view.SameBuckets (rc.drawInstance fl dev base flag j r).view := by
  unfold Recording.drawInstance
  dsimp only
  have key : ∀ rc0 : Recording F, rc0.draws = rc.draws → rc.view.SameBuckets rc0.view →
      (rc0.record
        [.SetGraphicsRoot32BitConstant 0 (toUInt32 (base + j)) 0,
         .IASetVertexBuffers 1 (some r.vertexBufferView),
         .IASetIndexBuffer r.indexBufferView,
         .DrawIndexedInstanced r.indexCount]).draws
          = rc.draws ++ instanceDraw (toUInt32 (base + j)) r
      ∧ rc.view.SameBuckets (rc0.record
        [.SetGraphicsRoot32BitConstant 0 (toUInt32 (base + j)) 0,
         .IASetVertexBuffers 1 (some r.vertexBufferView),
         .IASetIndexBuffer r.indexBufferView,
         .DrawIndexedInstanced r.indexCount]).view := by
    intro rc0 hd hs
    obtain ⟨h1, h2⟩ := draws_record rc0
      [.SetGraphicsRoot32BitConstant 0 (toUInt32 (base + j)) 0,
       .IASetVertexBuffers 1 (some r.vertexBufferView),
       .IASetIndexBuffer r.indexBufferView,
       .DrawIndexedInstanced r.indexCount]
    rw [h1, h2, hd]
    exact ⟨by simp [Command.isInstanceDraw, instanceDraw], hs⟩
  split
  · obtain ⟨a1, a2⟩ := draws_applyScissor dev rc r.scissorRect
    obtain ⟨b1, b2⟩ := draws_applyViewport fl dev (rc.applyScissor dev r.scissorRect) r.viewport
    exact key _ (b1.trans a1) (a2.trans b2)
  · exact key rc rfl (View.SameBuckets.refl _)

theorem draws_drawLoop (fl : FloatOps F) (dev : Device F) (base : Nat) (flag : Bool)
    (l : List (RenderInstance F)) :
    ∀ (j : Nat) (rc : Recording F),
      (Recording.drawLoop fl dev base flag l j rc).draws
          = rc.draws ++ (l.mapIdx fun i r => instanceDraw (toUInt32 (base + (j + i))) r).flatten
      ∧ rc.view.SameBuckets (Recording.drawLoop fl dev base flag l j rc).view := by
  induction l with
  | nil =>
    intro j rc
    simp [Recording.drawLoop, View.SameBuckets.refl]
  | cons a l ih =>
    intro j rc
    rw [Recording.drawLoop]
    obtain ⟨h1, h2⟩ := ih (j + 1) (rc.drawInstance fl dev base flag j a)
    obtain ⟨d1, d2⟩ := draws_drawInstance fl dev base flag rc j a
    refine ⟨?_, d2.trans h2⟩
    rw [h1, d1, List.mapIdx_cons, List.flatten_cons, List.append_assoc]
    have e : (fun (i : Nat) (r : RenderInstance F) =>
          instanceDraw (toUInt32 ((base : Int) + (((j + 1 : Nat) : Int) + (i : Int)))) r)
        = (fun (i : Nat) (r : RenderInstance F) =>
          instanceDraw (toUInt32 ((base : Int) + ((j : Int) + ((i + 1 : Nat) : Int)))) r) := by
      funext i r
      congr 2
      push_cast
      ring
    rw [e]
    simp

theorem mapIdx_congr_of_lt {α β : Type} (l : List α) (f g : Nat → α → β)
    (h : ∀ i, i < l.length → ∀ a, f i a = g i a) : l.mapIdx f = l.mapIdx g := by
  apply List.ext_getElem?
  intro n
  rw [List.getElem?_mapIdx, List.getElem?_mapIdx]
  rcases Nat.lt_or_ge n l.length with hlt | hge
  · rw [List.getElem?_eq_getElem hlt]
    simp [h n hlt]
  · rw [List.getElem?_eq_none hge]
    rfl

/-- The draws of one `drawInstances` call when the instance indices stay below `2^32`. -/
theorem draws_drawInstances (fl : FloatOps F) (dev : Device F) (rc : Recording F)
    (l : List (RenderInstance F)) (base : Nat) (flag : Bool)
    (hb : base + l.length < 4294967296) :
    (rc.drawInstances fl dev l base flag).draws = rc.draws ++ instanceDraws base l
    ∧ rc.view.SameBuckets (rc.drawInstances fl dev l base flag).view := by
  unfold Recording.drawInstances
  dsimp only
  obtain ⟨r1, r2⟩ := draws_record rc [.IASetPrimitiveTopology]
  obtain ⟨h1, h2⟩ := draws_drawLoop fl dev base flag
    (l.take (toUInt32 (toUInt64 l.length))) 0 (rc.record [.IASetPrimitiveTopology])
  rw [r2] at h2
  refine ⟨?_, h2⟩
  rw [h1, r1]
  have htake : l.take (toUInt32 (toUInt64 l.length)) = l := by
    rw [toUInt64_of_lt (by omega), toUInt32_of_lt (by omega), List.take_length]
  rw [htake]
  have hm : (l.mapIdx fun (i : Nat) (r : RenderInstance F) =>
        instanceDraw (toUInt32 ((base : Int) + (((0 : Nat) : Int) + (i : Int)))) r)
      = l.mapIdx fun (i : Nat) (r : RenderInstance F) => instanceDraw (base + i) r := by
    apply mapIdx_congr_of_lt
    intro i hi r
    have e : (base : Int) + (((0 : Nat) : Int) + (i : Int)) = ((base + i : Nat) : Int) := by
      push_cast
      ring
    rw [e, toUInt32_of_lt (by omega)]
  rw [hm]
  simp [Command.isInstanceDraw, instanceDraws]

theorem Recording.Step.andThen {a b c : Recording F} {x y : List (Command F)}
    (h1 : a.Step b x) (h2 : b.Step c y) : a.Step c (x ++ y) :=
  ⟨by rw [h2.1, h1.1, List.append_assoc], h1.2.trans h2.2⟩

theorem step_record (rc : Recording F) (cs : List (Command F))
    (h : cs.filter Command.isInstanceDraw = []) : rc.Step (rc.record cs) [] := by
  obtain ⟨h1, h2⟩ := draws_record rc cs
  exact ⟨by rw [h1, h], by rw [h2]; exact View.SameBuckets.refl _⟩

theorem step_resets (dev : Device F) (rc : Recording F) :
    rc.Step (((rc.resetPipeline).resetScissor dev).resetViewport dev) [] := by
  obtain ⟨a1, a2⟩ := draws_resetPipeline rc
  obtain ⟨b1, b2⟩ := draws_resetScissor dev rc.resetPipeline
  obtain ⟨c1, c2⟩ := draws_resetViewport dev (rc.resetPipeline.resetScissor dev)
  exact ⟨by rw [c1, b1, a1, List.append_nil], (a2.trans b2).trans c2⟩

theorem step_resetScissorViewport (dev : Device F) (rc : Recording F) :
    rc.Step ((rc.resetScissor dev).resetViewport dev) [] := by
  obtain ⟨b1, b2⟩ := draws_resetScissor dev rc
  obtain ⟨c1, c2⟩ := draws_resetViewport dev (rc.resetScissor dev)
  exact ⟨by rw [c1, b1, List.append_nil], b2.trans c2⟩

theorem step_applies (fl : FloatOps F) (dev : Device F) (rc : Recording F) (rect : D3D12_RECT)
    (viewport : D3D12_VIEWPORT F) :
    rc.Step ((rc.applyScissor dev rect).applyViewport fl dev viewport) [] := by
  obtain ⟨b1, b2⟩ := draws_applyScissor dev rc rect
  obtain ⟨c1, c2⟩ := draws_applyViewport fl dev (rc.applyScissor dev rect) viewport
  exact ⟨by rw [c1, b1, List.append_nil], b2.trans c2⟩

theorem step_drawInstances (fl : FloatOps F) (dev : Device F) (rc : Recording F)
    (l : List (RenderInstance F)) (base : Nat) (flag : Bool)
    (hb : base + l.length < 4294967296) :
    rc.Step (rc.drawInstances fl dev l (toUInt32 (toUInt64 base)) flag) (instanceDraws base l) := by
  have e : toUInt32 (toUInt64 base) = base := by
    rw [toUInt64_of_lt (by omega), toUInt32_of_lt (by omega)]
  rw [e]
  exact draws_drawInstances fl dev rc l base flag hb

theorem step_denoiseStep (dev : Device F) (rc : Recording F) :
    rc.Step (rc.denoiseStep dev) [] := by
  unfold Recording.denoiseStep
  split
  · have s1 := step_record rc
      [.ResourceBarrierUAV [rc.view.rtAlbedo, rc.view.rtNormal], .submitCommandList,
       .waitForGPU, .resetCommandList, .denoise] (by simp [Command.isInstanceDraw])
    exact s1.andThen (step_resetScissorViewport dev _)
  · exact ⟨by rw [List.append_nil], View.SameBuckets.refl _⟩

theorem capturePreviousViewProj_sameBuckets (fl : FloatOps F) (v : View F) :
    v.SameBuckets (v.capturePreviousViewProj fl) := by
  unfold View.capturePreviousViewProj
  split <;> exact ⟨rfl, rfl, rfl, rfl⟩

theorem updateViewParamsBuffer_sameBuckets (fl : FloatOps F) (dev : Device F) (v v' : View F)
    (h : v.updateViewParamsBuffer fl dev = .ok v') : v.SameBuckets v' := by
  dsimp only [View.updateViewParamsBuffer] at h
  have s1 := capturePreviousViewProj_sameBuckets fl v
  split at h
  · cases h
  · split at h
    · cases h
    · split at h
      · cases h
      · cases h
        exact ⟨s1.1, s1.2.1, s1.2.2.1, s1.2.2.2⟩

theorem step_rasterBackground (fl : FloatOps F) (dev : Device F) (rc rc' : Recording F)
    (h : rc.rasterBackground fl dev = .ok rc')
    (hb : rc.view.rtInstances.length + rc.view.rasterBgInstances.length < 4294967296) :
    rc.Step rc' (instanceDraws rc.view.rtInstances.length rc.view.rasterBgInstances
        ++ instanceDraws rc.view.rtInstances.length rc.view.rasterBgInstances) := by
  dsimp only [Recording.rasterBackground] at h
  have s1 := step_resets dev rc
  set rc1 := ((rc.resetPipeline).resetScissor dev).resetViewport dev with hrc1
  have s2 := step_drawInstances fl dev rc1 rc1.view.rasterBgInstances rc1.view.rtInstances.length
    true (by rw [s1.2.1, s1.2.2.1]; exact hb)
  set rc2 := rc1.drawInstances fl dev rc1.view.rasterBgInstances
    (toUInt32 (toUInt64 rc1.view.rtInstances.length)) true with hrc2
  have s3 := step_record rc2
    [.ResourceBarrierTransition rc2.view.rasterBg .NON_PIXEL_SHADER_RESOURCE .RENDER_TARGET]
    (by simp [Command.isInstanceDraw])
  set rc3 := rc2.record
    [.ResourceBarrierTransition rc2.view.rasterBg .NON_PIXEL_SHADER_RESOURCE .RENDER_TARGET]
    with hrc3
  split at h
  · cases h
  · have s4 := step_record rc3 [.OMSetRenderTargets .rasterBg, .ClearRenderTargetView .rasterBg]
      (by simp [Command.isInstanceDraw])
    set rc4 := rc3.record [.OMSetRenderTargets .rasterBg, .ClearRenderTargetView .rasterBg]
      with hrc4
    have s5 := step_resetScissorViewport dev rc4
    set rc5 := (rc4.resetScissor dev).resetViewport dev with hrc5
    have s15 := (((s1.andThen s2).andThen s3).andThen s4).andThen s5
    have s6 := step_drawInstances fl dev rc5 rc5.view.rasterBgInstances
      rc5.view.rtInstances.length false (by rw [s15.2.1, s15.2.2.1]; exact hb)
    set rc6 := rc5.drawInstances fl dev rc5.view.rasterBgInstances
      (toUInt32 (toUInt64 rc5.view.rtInstances.length)) false with hrc6
    have s7 := step_record rc6
      [.ResourceBarrierTransition rc6.view.rasterBg .RENDER_TARGET .NON_PIXEL_SHADER_RESOURCE]
      (by simp [Command.isInstanceDraw])
    cases h
    have sall := (s15.andThen s6).andThen s7
    rw [s15.2.1, s15.2.2.1, s1.2.1, s1.2.2.1] at sall
    simpa using sall

theorem step_raytrace (fl : FloatOps F) (dev : Device F) (rc rc' : Recording F)
    (first : RenderInstance F) (h : rc.raytrace fl dev first = .ok rc') : rc.Step rc' [] := by
  dsimp only [Recording.raytrace] at h
  have s1 := step_record rc
    [.ResourceBarrierTransition rc.view.rtOutput .PIXEL_SHADER_RESOURCE .UNORDERED_ACCESS]
    (by simp [Command.isInstanceDraw])
  split at h
  · cases h
  · rename_i w hw
    have sw := updateViewParamsBuffer_sameBuckets fl dev _ _ hw
    have s2 : rc.Step { view := w, commands := (rc.record
        [.ResourceBarrierTransition rc.view.rtOutput .PIXEL_SHADER_RESOURCE
          .UNORDERED_ACCESS]).commands } [] :=
      ⟨s1.1, ⟨sw.1, sw.2.1, sw.2.2.1, sw.2.2.2⟩⟩
    set rc2 : Recording F := { view := w, commands := (rc.record
        [.ResourceBarrierTransition rc.view.rtOutput .PIXEL_SHADER_RESOURCE
          .UNORDERED_ACCESS]).commands } with hrc2
    split at h
    · cases h
    · have s3 := step_record rc2
        [.SetPipelineState1, .DispatchRays (rc2.view.dispatchRaysDesc dev),
         .ResourceBarrierTransition rc2.view.rtOutput .UNORDERED_ACCESS .PIXEL_SHADER_RESOURCE]
        (by simp [Command.isInstanceDraw])
      set rc3 := rc2.record
        [.SetPipelineState1, .DispatchRays (rc2.view.dispatchRaysDesc dev),
         .ResourceBarrierTransition rc2.view.rtOutput .UNORDERED_ACCESS .PIXEL_SHADER_RESOURCE]
        with hrc3
      have s4 := step_denoiseStep dev rc3
      set rc4 := rc3.denoiseStep dev with hrc4
      have s5 := step_applies fl dev rc4 (rtScissorRect dev first) (rtViewport fl dev first)
      set rc5 := (rc4.applyScissor dev (rtScissorRect dev first)).applyViewport fl dev
        (rtViewport fl dev first) with hrc5
      have s6 := step_record rc5
        [.OMSetRenderTargets .swapChain, .SetPipelineState .compose,
         .SetGraphicsRootSignature .compose, .SetDescriptorHeaps [rc5.view.composeHeap]]
        (by simp [Command.isInstanceDraw])
      set rc6 := rc5.record
        [.OMSetRenderTargets .swapChain, .SetPipelineState .compose,
         .SetGraphicsRootSignature .compose, .SetDescriptorHeaps [rc5.view.composeHeap]]
        with hrc6
      split at h
      · cases h
      · have s7 := step_record rc6
          [.SetGraphicsRootDescriptorTable 0 rc6.view.composeHeap, .IASetPrimitiveTopology,
           .IASetVertexBuffers 0 none, .DrawInstanced 3]
          (by simp [Command.isInstanceDraw])
        cases h
        simpa using (((((s2.andThen s3).andThen s4).andThen s5).andThen s6).andThen s7)

theorem step_rasterForeground (fl : FloatOps F) (dev : Device F) (rc : Recording F)
    (hb : rc.view.rasterBgInstances.length + rc.view.rtInstances.length
      + rc.view.rasterFgInstances.length < 4294967296) :
    rc.Step (rc.rasterForeground fl dev)
      (instanceDraws (rc.view.rasterBgInstances.length + rc.view.rtInstances.length)
        rc.view.rasterFgInstances) := by
  dsimp only [Recording.rasterForeground]
  have s1 := step_resets dev rc
  set rc1 := ((rc.resetPipeline).resetScissor dev).resetViewport dev with hrc1
  have s2 := step_drawInstances fl dev rc1 rc1.view.rasterFgInstances
    (rc1.view.rasterBgInstances.length + rc1.view.rtInstances.length)
    true (by rw [s1.2.1, s1.2.2.1, s1.2.2.2.1]; exact hb)
  have sall := s1.andThen s2
  rw [s1.2.1, s1.2.2.1, s1.2.2.2.1] at sall
  simpa using sall

/-- The instance draws of a completed `render` on a view with fewer than `2^32` bucketed instances:
the background bucket twice, then the foreground bucket, the `j`-th instance
of a bucket with the index of its position in the concatenation of the three buckets. -/
theorem render_draws (fl : FloatOps F) (dev : Device F) (v : View F) (rc : Recording F)
    (h : v.render fl dev = .ok rc) (hheap : v.descriptorHeap ≠ 0)
    (hb : v.rtInstances.length + v.rasterBgInstances.length + v.rasterFgInstances.length
      < 4294967296) :
    rc.draws = instanceDraws v.rtInstances.length v.rasterBgInstances
        ++ instanceDraws v.rtInstances.length v.rasterBgInstances
        ++ instanceDraws (v.rasterBgInstances.length + v.rtInstances.length) v.rasterFgInstances
    ∧ v.SameBuckets rc.view := by
  dsimp only [View.render] at h
  rw [if_neg hheap] at h
  split at h
  · cases h
  · rename_i rc1 h1
    have s1 := step_rasterBackground fl dev _ _ h1 (by dsimp only; omega)
    dsimp only at s1
    split at h
    · cases h
    · rename_i rc2 h2
      have s2 : rc1.Step rc2 [] := by
        split at h2
        · exact step_raytrace fl dev _ _ _ h2
        · cases h2
          exact step_record rc1 [.OMSetRenderTargets .swapChain]
            (by simp [Command.isInstanceDraw])
      have s12 := s1.andThen s2
      have s3 := step_rasterForeground fl dev rc2
        (by rw [s12.2.1, s12.2.2.1, s12.2.2.2.1]; dsimp only; omega)
      have sall := s12.andThen s3
      rw [s12.2.1, s12.2.2.1, s12.2.2.2.1] at sall
      cases h
      obtain ⟨d, b⟩ := sall
      refine ⟨?_, ⟨b.1, b.2.1, b.2.2.1, b.2.2.2⟩⟩
      have hd : (Recording.mk (rc2.rasterForeground fl dev).view.endFrame
          (rc2.rasterForeground fl dev).commands).draws = (rc2.rasterForeground fl dev).draws := rfl
      rw [hd, d]
      simp [Recording.draws]

/-- C7. After a completed `View::update`, a completed `View::render` draws the background
bucket twice and then the foreground bucket, passing as root constant `|rtInstances| + j`
with the `j`-th background instance and `|rasterBgInstances| + |rtInstances| + j` with the
`j`-th foreground instance; that number is the position of the instance in the order
raytraced, background, foreground, and the record at that position of the instance-properties
buffer carries the material of that instance. The `i`-th raytraced instance
is at position `i`, its acceleration-structure instance index is `i`, and the
record at position `i` is the one written for it. -/
theorem render_indices_match_records (hdr : PublicHeader) (fl : FloatOps F)
    (dev dev2 : Device F) (scene : Scene F) (v v1 : View F) (rc : Recording F)
    (h : v.update hdr fl dev scene = .ok v1) (hr : v1.render fl dev2 = .ok rc) :
    rc.draws = instanceDraws v1.rtInstances.length v1.rasterBgInstances
        ++ instanceDraws v1.rtInstances.length v1.rasterBgInstances
        ++ instanceDraws (v1.rasterBgInstances.length + v1.rtInstances.length)
            v1.rasterFgInstances
    ∧ (∀ (j : Nat) (r : RenderInstance F), v1.rasterBgInstances[j]? = some r →
        v1.bucketed[v1.rtInstances.length + j]? = some r
        ∧ (v1.instancePropsData (v1.rtInstances.length + j)).material = r.material)
    ∧ (∀ (j : Nat) (r : RenderInstance F), v1.rasterFgInstances[j]? = some r →
        v1.bucketed[v1.rasterBgInstances.length + v1.rtInstances.length + j]? = some r
        ∧ (v1.instancePropsData
            (v1.rasterBgInstances.length + v1.rtInstances.length + j)).material = r.material)
    ∧ (∀ (i : Nat) (r : RenderInstance F), v1.rtInstances[i]? = some r →
        v1.bucketed[i]? = some r
        ∧ v1.topLevelASGenerator[i]?.map (fun t => t.instanceID) = some i
        ∧ v1.instancePropsData i = rtRecord fl r) := by
  obtain ⟨hrt, hbg, hfg⟩ := update_ok_buckets hdr fl dev scene v v1 h
  have hlen := update_ok_lengths hdr fl dev scene v v1 h
  obtain ⟨p1, p2, p3⟩ := bucketed_positions v1
  by_cases hne : scene.instances = []
  · have e1 : v1.rtInstances = [] := by
      rw [hne] at hrt
      simpa using hrt
    have e2 : v1.rasterBgInstances = [] := by
      rw [hne] at hbg
      simpa using hbg
    have e3 : v1.rasterFgInstances = [] := by
      rw [hne] at hfg
      simpa using hfg
    refine ⟨?_, ?_, ?_, ?_⟩
    · by_cases hheap : v1.descriptorHeap = 0
      · dsimp only [View.render] at hr
        rw [if_pos hheap] at hr
        cases hr
        rw [e2, e3]
        rfl
      · exact (render_draws fl dev2 v1 rc hr hheap (by rw [e1, e2, e3]; simp)).1
    · intro j r hj
      rw [e2] at hj
      simp at hj
    · intro j r hj
      rw [e3] at hj
      simp at hj
    · intro i r hi
      rw [e1] at hi
      simp at hi
  · have hb := update_ok_instances_bound hdr fl dev scene v v1 h hne
    obtain ⟨⟨v4, s4, hdata⟩, hheap, hgen⟩ := update_ok_final hdr fl dev scene v v1 h hne
    have hbk : v4.bucketed = v1.bucketed := by
      unfold View.bucketed
      rw [s4.1, s4.2.1, s4.2.2.1]
    have hmat : ∀ (k : Nat) (r : RenderInstance F), v1.bucketed[k]? = some r →
        (v1.instancePropsData k).material = r.material := by
      intro k r hk
      rw [hdata]
      exact writeInstanceProperties_material fl v4 k r (by rw [hbk]; exact hk)
    refine ⟨(render_draws fl dev2 v1 rc hr hheap (by omega)).1, ?_, ?_, ?_⟩
    · intro j r hj
      exact ⟨p2 j r hj, hmat _ r (p2 j r hj)⟩
    · intro j r hj
      exact ⟨p3 j r hj, hmat _ r (p3 j r hj)⟩
    · intro i r hi
      have hi' := getElem?_eq_some_lt hi
      have hrtne : v1.rtInstances ≠ [] := by
        intro he
        rw [he] at hi
        simp at hi
      refine ⟨p1 i r hi, ?_, ?_⟩
      · rw [hgen hrtne]
        obtain ⟨c1, _⟩ := index_conversions (show i < 2147483648 by omega)
        simp [addInstances, List.getElem?_mapIdx, hi, c1]
      · rw [hdata]
        have hi4 : v4.rtInstances[i]? = some r := by
          rw [← s4.1]
          exact hi
        exact (writeInstanceProperties_spec fl v4).2.1 i r hi4

/-- Witness of C7: the sample view, updated on the sample scene and then rendered on the
sample device. -/
theorem render_indices_match_records_witness :
    sampleView.update sampleHeader sampleFloatOps sampleDevice sampleScene = .ok sampleUpdated
    ∧ sampleUpdated.render sampleFloatOps sampleDevice
        = .ok (okOr { view := sampleUpdated, commands := [] }
            (sampleUpdated.render sampleFloatOps sampleDevice))
    ∧ (okOr { view := sampleUpdated, commands := [] }
          (sampleUpdated.render sampleFloatOps sampleDevice)).draws
        = instanceDraws sampleUpdated.rtInstances.length sampleUpdated.rasterBgInstances
          ++ instanceDraws sampleUpdated.rtInstances.length sampleUpdated.rasterBgInstances
          ++ instanceDraws
              (sampleUpdated.rasterBgInstances.length + sampleUpdated.rtInstances.length)
              sampleUpdated.rasterFgInstances :=
  ⟨rfl, rfl,
    (render_indices_match_records sampleHeader sampleFloatOps sampleDevice sampleDevice
      sampleScene sampleView sampleUpdated _ rfl rfl).1⟩

end Rendering

/-! ## Capacities across frames -/

section Capacities

variable {F : Type}

/-- C9, as amended. After a completed `View::update` on a non-empty scene, the number of
descriptor-heap entries required for the frame is 13, the number of `HeapIndices` entries
before `gTextures`, plus the number of texture references of the frame's instances, one
for each diffuse, normal and specular texture of each instance, a texture referred to by
several instances counting once per reference; the heap holds at least that many. -/
theorem update_entryCount (hdr : PublicHeader) (fl : FloatOps F) (dev : Device F)
    (scene : Scene F) (v v' : View F) (h : v.update hdr fl dev scene = .ok v')
    (hne : scene.instances ≠ []) :
    v'.entryCount = HeapIndices.gTextures.toNat + (scene.instances.map Instance.textureCount).sum
    ∧ v'.entryCount ≤ v'.descriptorHeapEntryCount := by
  have hb := update_ok_texture_bound hdr fl dev scene v v' h hne
  have ht := update_ok_usedTextures hdr fl dev scene v v' h hne
  have hc := update_ok_capacities hdr fl dev scene v v' h hne
  have he : v'.entryCount = 13 + (scene.instances.map Instance.textureCount).sum := by
    rw [entryCount_eq v' hb, ht, length_flatMap_textures]
  unfold View.capacities at hc
  simp only [Prod.mk.injEq] at hc
  refine ⟨he, ?_⟩
  rw [he, hc.1]
  exact Nat.le_max_right _ _

/-- Witness of C9 as amended, on the sample frame. -/
theorem update_entryCount_witness :
    sampleView.update sampleHeader sampleFloatOps sampleDevice sampleScene = .ok sampleUpdated
    ∧ sampleScene.instances ≠ []
    ∧ (sampleUpdated.entryCount
          = HeapIndices.gTextures.toNat + (sampleScene.instances.map Instance.textureCount).sum
        ∧ sampleUpdated.entryCount ≤ sampleUpdated.descriptorHeapEntryCount) :=
  ⟨rfl, List.cons_ne_nil _ _,
    update_entryCount sampleHeader sampleFloatOps sampleDevice sampleScene sampleView
      sampleUpdated rfl (List.cons_ne_nil _ _)⟩

/-- Counterexample to C9 as stated: the instances of the sample scene refer to four
distinct textures, one of them twice, and the update requires `13 + 5` entries, not
`13 + 4`. -/
theorem entryCount_counts_references :
    sampleView.update sampleHeader sampleFloatOps sampleDevice sampleScene = .ok sampleUpdated
    ∧ (sampleScene.instances.flatMap Instance.textures).dedup.length = 4
    ∧ sampleUpdated.entryCount = 13 + 5
    ∧ sampleUpdated.entryCount
        ≠ 13 + (sampleScene.instances.flatMap Instance.textures).dedup.length :=
  ⟨rfl, by decide, by decide, by decide⟩

end Capacities

section AccelerationBuffers
variable {F : Type}

/-- One completed `createTopLevelAS`: a reallocation takes place exactly when a required
size exceeds the size held, and then all three held sizes become the required ones;
otherwise the buffers are kept. -/
theorem createTopLevelAS_buffers (dev : Device F) (v v' : View F)
    (rtInstances : List (RenderInstance F))
    (h : v.createTopLevelAS dev rtInstances = .ok v') :
    (v.topLevelASBuffers.tooSmall (requiredSizes (dev, rtInstances)) →
        v'.topLevelASBuffers.sizes = requiredSizes (dev, rtInstances)
        ∧ v'.allocations
            = v.allocations ++ tlasAllocations (requiredSizes (dev, rtInstances)))
    ∧ (¬ v.topLevelASBuffers.tooSmall (requiredSizes (dev, rtInstances)) →
        v'.topLevelASBuffers = v.topLevelASBuffers ∧ v'.allocations = v.allocations) := by
  dsimp only [View.createTopLevelAS] at h
  split at h
  · cases h
  · cases h
    unfold AccelerationStructureBuffers.tooSmall requiredSizes
    refine ⟨fun ht => ?_, fun ht => ?_⟩
    · rw [if_pos ht]
      exact ⟨rfl, rfl⟩
    · rw [if_neg ht]
      exact ⟨rfl, rfl⟩

theorem createTopLevelAS_held (dev : Device F) (v v' : View F)
    (rtInstances : List (RenderInstance F))
    (h : v.createTopLevelAS dev rtInstances = .ok v') :
    sizesLe (requiredSizes (dev, rtInstances)) v'.topLevelASBuffers.sizes := by
  obtain ⟨h1, h2⟩ := createTopLevelAS_buffers dev v v' rtInstances h
  by_cases ht : v.topLevelASBuffers.tooSmall (requiredSizes (dev, rtInstances))
  · rw [(h1 ht).1]
    exact ⟨Nat.le_refl _, Nat.le_refl _, Nat.le_refl _⟩
  · rw [(h2 ht).1]
    unfold AccelerationStructureBuffers.tooSmall at ht
    unfold sizesLe AccelerationStructureBuffers.sizes
    dsimp only
    omega

theorem createTopLevelASs_step (calls : List (Device F × List (RenderInstance F))) :
    ∀ (v0 : View F) (vs : List (View F)), View.createTopLevelASs calls v0 = .ok vs →
      ∀ (i : Nat) (prev next : View F) (call : Device F × List (RenderInstance F)),
        (v0 :: vs)[i]? = some prev → vs[i]? = some next → calls[i]? = some call →
          prev.createTopLevelAS call.1 call.2 = .ok next := by
  induction calls with
  | nil =>
    intro v0 vs _ i prev next call _ _ hf
    simp at hf
  | cons f rest ih =>
    intro v0 vs hrun i prev next call hp hn hf
    rw [View.createTopLevelASs] at hrun
    split at hrun
    · cases hrun
    · rename_i v1 h1
      split at hrun
      · cases hrun
      · rename_i vs1 hr
        cases hrun
        cases i with
        | zero =>
          simp only [List.getElem?_cons_zero, Option.some.injEq] at hp hn hf
          rw [← hp, ← hn, ← hf]
          exact h1
        | succ j =>
          simp only [List.getElem?_cons_succ] at hp hn hf
          exact ih v1 vs1 hr j prev next call hp hn hf

theorem createTopLevelASs_chain (calls : List (Device F × List (RenderInstance F))) :
    ∀ (v0 : View F) (vs : List (View F)), View.createTopLevelASs calls v0 = .ok vs →
      calls.Chain' requiredGrow →
      (∀ c, calls.head? = some c → sizesLe v0.topLevelASBuffers.sizes (requiredSizes c)) →
      List.Chain View.heldSizesLe v0 vs := by
  induction calls with
  | nil =>
    intro v0 vs hrun _ _
    rw [View.createTopLevelASs] at hrun
    cases hrun
    exact List.Chain.nil
  | cons f rest ih =>
    intro v0 vs hrun hc h0
    rw [View.createTopLevelASs] at hrun
    split at hrun
    · cases hrun
    · rename_i v1 h1
      split at hrun
      · cases hrun
      · rename_i vs1 hr
        cases hrun
        obtain ⟨s1, s2⟩ := createTopLevelAS_buffers f.1 v0 v1 f.2 h1
        have h0f := h0 f rfl
        have hle : v0.heldSizesLe v1 ∧ sizesLe v1.topLevelASBuffers.sizes (requiredSizes f) := by
          by_cases ht : v0.topLevelASBuffers.tooSmall (requiredSizes f)
          · have e := (s1 ht).1
            unfold View.heldSizesLe
            rw [e]
            exact ⟨h0f, Nat.le_refl _, Nat.le_refl _, Nat.le_refl _⟩
          · have e := (s2 ht).1
            unfold View.heldSizesLe
            rw [e]
            exact ⟨⟨Nat.le_refl _, Nat.le_refl _, Nat.le_refl _⟩, h0f⟩
        refine List.Chain.cons hle.1 (ih v1 vs1 hr (List.Chain'.tail hc) ?_)
        intro c hcd
        have hg : requiredGrow f c := by
          cases rest with
          | nil => simp at hcd
          | cons g rest2 =>
            simp only [List.head?_cons, Option.some.injEq] at hcd
            rw [← hcd]
            exact (List.chain'_cons.1 hc).1
        unfold requiredGrow sizesLe at hg
        have h2 := hle.2
        unfold sizesLe at h2 ⊢
        omega

/-- C11, as amended. Along every completed sequence of `createTopLevelAS` calls, whatever
sizes the backend reports: a call reallocates the three buffers exactly when one of the
required sizes exceeds the size held, and then all three held sizes become the required
ones; a call that does not reallocate keeps the buffers and their sizes; after every call
each held size is at least the required size. When no buffers are held at the start and
the required sizes never decrease from one call to the next, no held size decreases from
one call to the next. -/
theorem createTopLevelAS_sizes (calls : List (Device F × List (RenderInstance F)))
    (v0 : View F) (vs : List (View F))
    (hrun : View.createTopLevelASs calls v0 = .ok vs) :
    (∀ (i : Nat) (prev next : View F) (call : Device F × List (RenderInstance F)),
        (v0 :: vs)[i]? = some prev → vs[i]? = some next → calls[i]? = some call →
          (prev.topLevelASBuffers.tooSmall (requiredSizes call) →
            next.topLevelASBuffers.sizes = requiredSizes call
            ∧ next.allocations = prev.allocations ++ tlasAllocations (requiredSizes call))
          ∧ (¬ prev.topLevelASBuffers.tooSmall (requiredSizes call) →
            next.topLevelASBuffers = prev.topLevelASBuffers
            ∧ next.allocations = prev.allocations)
          ∧ sizesLe (requiredSizes call) next.topLevelASBuffers.sizes)
    ∧ (v0.topLevelASBuffers.sizes = (0, 0, 0) → calls.Chain' requiredGrow →
        List.Chain View.heldSizesLe v0 vs) := by
  refine ⟨?_, ?_⟩
  · intro i prev next call hp hn hc
    have hstep := createTopLevelASs_step calls v0 vs hrun i prev next call hp hn hc
    obtain ⟨s1, s2⟩ := createTopLevelAS_buffers call.1 prev next call.2 hstep
    exact ⟨s1, s2, createTopLevelAS_held call.1 prev next call.2 hstep⟩
  · intro h0 hmono
    refine createTopLevelASs_chain calls v0 vs hrun hmono ?_
    intro c _
    rw [h0]
    exact ⟨Nat.zero_le _, Nat.zero_le _, Nat.zero_le _⟩

/-- Witness of C11: two calls for the raytraced bucket of the sample frame, from the
constructed view. -/
theorem createTopLevelAS_sizes_witness :
    View.createTopLevelASs
        [(sampleDevice, sampleUpdated.rtInstances), (sampleDevice, sampleUpdated.rtInstances)]
        sampleView
      = .ok (okOr [] (View.createTopLevelASs
          [(sampleDevice, sampleUpdated.rtInstances),
           (sampleDevice, sampleUpdated.rtInstances)] sampleView))
    ∧ sampleView.topLevelASBuffers.sizes = (0, 0, 0)
    ∧ [(sampleDevice, sampleUpdated.rtInstances),
        (sampleDevice, sampleUpdated.rtInstances)].Chain' requiredGrow
    ∧ List.Chain View.heldSizesLe sampleView
        (okOr [] (View.createTopLevelASs
          [(sampleDevice, sampleUpdated.rtInstances),
           (sampleDevice, sampleUpdated.rtInstances)] sampleView)) :=
  ⟨rfl, rfl, List.chain'_pair.2 ⟨Nat.le_refl _, Nat.le_refl _, Nat.le_refl _⟩,
    (createTopLevelAS_sizes
      [(sampleDevice, sampleUpdated.rtInstances), (sampleDevice, sampleUpdated.rtInstances)]
      sampleView _ rfl).2 rfl
      (List.chain'_pair.2 ⟨Nat.le_refl _, Nat.le_refl _, Nat.le_refl _⟩)⟩

/-- Counterexample to C11 as stated: the backend reports the sizes (10, 10, 10) for a first
call and (11, 5, 5) for a second one; the second call reallocates because the scratch
size is exceeded, and the held result size drops from 10 to 5. -/
theorem createTopLevelAS_size_decreases :
    View.createTopLevelASs
        [(sampleSizesDevice 10 10 10, sampleUpdated.rtInstances),
         (sampleSizesDevice 11 5 5, sampleUpdated.rtInstances)] sampleView
      = .ok (okOr [] (View.createTopLevelASs
          [(sampleSizesDevice 10 10 10, sampleUpdated.rtInstances),
           (sampleSizesDevice 11 5 5, sampleUpdated.rtInstances)] sampleView))
    ∧ (okOr [] (View.createTopLevelASs
          [(sampleSizesDevice 10 10 10, sampleUpdated.rtInstances),
           (sampleSizesDevice 11 5 5, sampleUpdated.rtInstances)] sampleView)).map
        (fun v => v.topLevelASBuffers.sizes) = [(10, 10, 10), (11, 5, 5)]
    ∧ ¬ List.Chain View.heldSizesLe sampleView
        (okOr [] (View.createTopLevelASs
          [(sampleSizesDevice 10 10 10, sampleUpdated.rtInstances),
           (sampleSizesDevice 11 5 5, sampleUpdated.rtInstances)] sampleView)) := by
  refine ⟨rfl, rfl, ?_⟩
  intro h
  have h2 : List.Chain View.heldSizesLe sampleView
      [okOr sampleView (sampleView.createTopLevelAS (sampleSizesDevice 10 10 10)
          sampleUpdated.rtInstances),
       okOr sampleView ((okOr sampleView (sampleView.createTopLevelAS
          (sampleSizesDevice 10 10 10) sampleUpdated.rtInstances)).createTopLevelAS
            (sampleSizesDevice 11 5 5) sampleUpdated.rtInstances)] := h
  rw [List.chain_cons, List.chain_cons] at h2
  have h3 := h2.2.1.2.1
  revert h3
  decide

end AccelerationBuffers

section Idempotence
variable {F : Type}

/-! ### What each step of an update leaves alone -/

theorem createOutputBuffers_scale (fl : FloatOps F) (dev : Device F) (v v' : View F)
    (h : v.createOutputBuffers fl dev = .ok v') :
    v'.rtScale = v.rtScale ∧ v'.resolutionScale = v.resolutionScale := by
  dsimp only [View.createOutputBuffers] at h
  split at h
  · cases h
  · cases h
    exact ⟨rfl, rfl⟩

theorem updateScale_scale (fl : FloatOps F) (dev : Device F) (v v' : View F)
    (h : v.updateScale fl dev = .ok v')
    (hnum : fl.ne v'.rtScale v'.rtScale = false) :
    fl.ne v'.rtScale v'.resolutionScale = false := by
  dsimp only [View.updateScale] at h
  split at h
  · obtain ⟨e1, e2⟩ := createOutputBuffers_scale fl dev _ _ h
    have e : v'.resolutionScale = v'.rtScale := by rw [e1, e2]
    rw [e]
    exact hnum
  · rename_i hs
    cases h
    simpa using hs

/-- After the scale step the effective and the requested scale compare equal, unless the
requested scale left by the step differs from itself. -/
theorem updateScale_settles (fl : FloatOps F) (dev : Device F) (v v' : View F)
    (h : v.updateScale fl dev = .ok v')
    (hnum : fl.ne v'.resolutionScale v'.resolutionScale = false) :
    fl.ne v'.rtScale v'.resolutionScale = false := by
  dsimp only [View.updateScale] at h
  split at h
  · obtain ⟨e1, e2⟩ := createOutputBuffers_scale fl dev _ _ h
    have e : v'.rtScale = v'.resolutionScale := by rw [e1, e2]
    rw [e]
    exact hnum
  · rename_i hs
    cases h
    simpa using hs

theorem updateInstance_withBuckets (hdr : PublicHeader) (fl : FloatOps F) (screenHeight : Nat)
    (v b : View F) (inst : Instance F) :
    View.updateInstance hdr fl screenHeight (v.withBuckets b) inst
      = v.withBuckets (View.updateInstance hdr fl screenHeight b inst) := by
  unfold View.updateInstance View.withBuckets
  dsimp only
  by_cases h3 : (fillRenderInstance hdr fl screenHeight b.usedTextures inst).1.bottomLevelAS ≠ 0
  · rw [if_pos h3, if_pos h3]
  · rw [if_neg h3, if_neg h3]
    by_cases h4 : inst.flags &&& hdr.RT64_INSTANCE_RASTER_BACKGROUND ≠ 0
    · rw [if_pos h4, if_pos h4]
    · rw [if_neg h4, if_neg h4]

theorem foldl_updateInstance_withBuckets (hdr : PublicHeader) (fl : FloatOps F)
    (screenHeight : Nat) (l : List (Instance F)) :
    ∀ (v b : View F),
      l.foldl (View.updateInstance hdr fl screenHeight) (v.withBuckets b)
        = v.withBuckets (l.foldl (View.updateInstance hdr fl screenHeight) b) := by
  induction l with
  | nil => intro v b; rfl
  | cons a t ih =>
    intro v b
    rw [List.foldl_cons, List.foldl_cons, updateInstance_withBuckets, ih]

/-- The bucketing pass only replaces the buckets and the texture list, and what it
puts there does not depend on the view it starts from. -/
theorem updateInstances_withBuckets (hdr : PublicHeader) (fl : FloatOps F) (dev : Device F)
    (scene : Scene F) (v w : View F) :
    v.updateInstances hdr fl dev scene = v.withBuckets (w.updateInstances hdr fl dev scene) := by
  exact foldl_updateInstance_withBuckets hdr fl (toUInt32 dev.height) scene.instances v
    { w with rtInstances := [], rasterBgInstances := [], rasterFgInstances := [],
             usedTextures := [] }

/-- A view that holds the buckets of the bucketing pass is left as it is by the pass. -/
theorem updateInstances_fixed (hdr : PublicHeader) (fl : FloatOps F) (dev : Device F)
    (scene : Scene F) (v w : View F)
    (h : (w.updateInstances hdr fl dev scene).SameBuckets v) :
    v.updateInstances hdr fl dev scene = v := by
  rw [updateInstances_withBuckets hdr fl dev scene v w]
  obtain ⟨h1, h2, h3, h4⟩ := h
  unfold View.withBuckets
  rw [← h1, ← h2, ← h3, ← h4]

theorem updateInstances_height (hdr : PublicHeader) (fl : FloatOps F) (dev dev2 : Device F)
    (scene : Scene F) (v : View F) (hh : dev2.height = dev.height) :
    v.updateInstances hdr fl dev2 scene = v.updateInstances hdr fl dev scene := by
  unfold View.updateInstances
  rw [hh]

theorem createTopLevelAS_frame (dev : Device F) (v v' : View F)
    (rtInstances : List (RenderInstance F))
    (h : v.createTopLevelAS dev rtInstances = .ok v') :
    v' = { v with
      topLevelASGenerator := addInstances rtInstances
      topLevelASBuffers := v'.topLevelASBuffers
      allocations := v'.allocations } := by
  dsimp only [View.createTopLevelAS] at h
  split at h
  · cases h
  · cases h
    split <;> rfl

theorem createInstancePropertiesBuffer_frame (hdr : PublicHeader) (dev : Device F)
    (v : View F) :
    v.createInstancePropertiesBuffer hdr dev = { v with
      activeInstancesBufferProps :=
        (v.createInstancePropertiesBuffer hdr dev).activeInstancesBufferProps
      activeInstancesBufferPropsSize := v.propsBufferSize hdr
      instancePropsData := (v.createInstancePropertiesBuffer hdr dev).instancePropsData
      allocations := (v.createInstancePropertiesBuffer hdr dev).allocations } := by
  unfold View.createInstancePropertiesBuffer View.propsBufferSize
  dsimp only
  split
  · rfl
  · rename_i hs
    have e := not_not.1 hs
    rw [← e]

theorem growDescriptorHeap_frame (dev : Device F) (v v' : View F)
    (h : v.growDescriptorHeap dev = .ok v') :
    v' = { v with
      descriptorHeap := v'.descriptorHeap
      descriptorHeapEntryCount := v'.descriptorHeapEntryCount
      allocations := v'.allocations } := by
  dsimp only [View.growDescriptorHeap] at h
  split at h
  · split at h
    · cases h
    · cases h
      rfl
  · cases h
    rfl

theorem createComposeHeap_frame (dev : Device F) (v v' : View F)
    (h : v.createComposeHeap dev = .ok v') :
    v' = { v with
      composeHeap := v'.composeHeap
      composeWrites := [(0, .srvTexture2D v.rtOutput .R32G32B32A32_FLOAT)]
      allocations := v'.allocations } ∧ v'.composeHeap ≠ 0 := by
  dsimp only [View.createComposeHeap] at h
  split at h
  · cases h
  · rename_i w hw
    split at h
    · cases h
    · rename_i hc
      cases h
      split at hw
      · split at hw
        · cases hw
        · cases hw
          exact ⟨rfl, hc⟩
      · cases hw
        exact ⟨rfl, hc⟩

theorem createShaderBindingTable_frame (dev : Device F) (v v' : View F)
    (h : v.createShaderBindingTable dev = .ok v') :
    v' = { v with
      sbtHelper := v.registerPrograms (dev.gpuDescriptorHandle v.descriptorHeap)
      sbtStorage := v'.sbtStorage
      sbtStorageSize := v'.sbtStorageSize
      allocations := v'.allocations }
    ∧ ¬ v'.sbtStorageSize < toUInt32 (dev.ComputeSBTSize v'.sbtHelper) := by
  dsimp only [View.createShaderBindingTable] at h
  split at h
  · cases h
  · split at h
    · cases h
    · cases h
      split
      · exact ⟨rfl, Nat.lt_irrefl _⟩
      · rename_i hs
        exact ⟨rfl, hs⟩

theorem updateInstancePropertiesBuffer_frame (fl : FloatOps F) (dev : Device F) (v v' : View F)
    (h : v.updateInstancePropertiesBuffer fl dev = .ok v') :
    v' = { v with instancePropsData := (v.writeInstanceProperties fl).data } := by
  dsimp only [View.updateInstancePropertiesBuffer] at h
  split at h
  · cases h
  · split at h
    · cases h
    · cases h
      rfl

theorem createShaderResourceHeap_frame (hdr : PublicHeader) (dev : Device F)
    (scene : Scene F) (v v' : View F)
    (h : v.createShaderResourceHeap hdr dev scene = .ok v') :
    v' = { v with
      descriptorHeap := v'.descriptorHeap
      descriptorHeapEntryCount := v'.descriptorHeapEntryCount
      descriptorWrites := v'.descriptorWrites
      composeHeap := v'.composeHeap
      composeWrites := [(0, .srvTexture2D v.rtOutput .R32G32B32A32_FLOAT)]
      allocations := v'.allocations }
    ∧ ¬ v'.descriptorHeapEntryCount < v'.entryCount
    ∧ v'.heapDescriptors hdr dev scene = .ok v'.descriptorWrites
    ∧ v'.composeHeap ≠ 0 := by
  dsimp only [View.createShaderResourceHeap] at h
  split at h
  · cases h
  · split at h
    · cases h
    · rename_i w hw
      split at h
      · cases h
      · rename_i writes hwr
        obtain ⟨e2, hc⟩ := createComposeHeap_frame dev _ _ h
        have e1 := growDescriptorHeap_frame dev _ _ hw
        have hcount : ¬ w.descriptorHeapEntryCount < w.entryCount := by
          dsimp only [View.growDescriptorHeap] at hw
          split at hw
          · split at hw
            · cases hw
            · cases hw
              exact Nat.lt_irrefl _
          · rename_i hs
            cases hw
            exact hs
        refine ⟨?_, ?_, ?_, hc⟩
        · rw [e2, e1]
        · rw [e2]
          exact hcount
        · rw [e2]
          exact hwr

/-! ### A completed update leaves the view settled -/

theorem tooSmall_of_sizesLe (b : AccelerationStructureBuffers) (required : Nat × Nat × Nat)
    (h : sizesLe required b.sizes) : ¬ b.tooSmall required := by
  unfold sizesLe AccelerationStructureBuffers.sizes at h
  unfold AccelerationStructureBuffers.tooSmall
  dsimp only at h
  omega

/-- Writing the instance properties a second time over what the first pass wrote, for
the same buckets, changes nothing. -/
theorem writeInstanceProperties_again (fl : FloatOps F) (v : View F) :
    (View.writeInstanceProperties fl
        { v with instancePropsData := (v.writeInstanceProperties fl).data }).data
      = (v.writeInstanceProperties fl).data := by
  obtain ⟨_, a1, a2, a3, a4⟩ := writeInstanceProperties_spec fl
    { v with instancePropsData := (v.writeInstanceProperties fl).data }
  obtain ⟨_, b1, b2, b3, _⟩ := writeInstanceProperties_spec fl v
  dsimp only at a1 a2 a3 a4
  funext k
  by_cases h1 : k < v.rtInstances.length
  · have hr : v.rtInstances[k]? = some (v.rtInstances.get ⟨k, h1⟩) :=
      List.getElem?_eq_getElem h1
    rw [a1 k _ hr, b1 k _ hr]
  · by_cases h2 : k < v.rtInstances.length + v.rasterBgInstances.length
    · have hj : k - v.rtInstances.length < v.rasterBgInstances.length := by omega
      have hr : v.rasterBgInstances[k - v.rtInstances.length]?
          = some (v.rasterBgInstances.get ⟨k - v.rtInstances.length, hj⟩) :=
        List.getElem?_eq_getElem hj
      have hk : v.rtInstances.length + (k - v.rtInstances.length) = k := by omega
      have a := a2 _ _ hr
      have b := b2 _ _ hr
      rw [hk] at a b
      rw [a, b]
    · by_cases h3 : k < v.rtInstances.length + v.rasterBgInstances.length
          + v.rasterFgInstances.length
      · have hj : k - (v.rtInstances.length + v.rasterBgInstances.length)
            < v.rasterFgInstances.length := by omega
        have hr : v.rasterFgInstances[k - (v.rtInstances.length + v.rasterBgInstances.length)]?
            = some (v.rasterFgInstances.get
                ⟨k - (v.rtInstances.length + v.rasterBgInstances.length), hj⟩) :=
          List.getElem?_eq_getElem hj
        have hk : v.rtInstances.length + v.rasterBgInstances.length
            + (k - (v.rtInstances.length + v.rasterBgInstances.length)) = k := by omega
        have a := a3 _ _ hr
        have b := b3 _ _ hr
        rw [hk] at a b
        rw [a, b]
      · exact a4 k (by omega)

theorem update_ok_settled (hdr : PublicHeader) (fl : FloatOps F) (dev : Device F)
    (scene : Scene F) (v v' : View F) (h : v.update hdr fl dev scene = .ok v')
    (hne : scene.instances ≠ []) :
    v'.Settled hdr dev scene
    ∧ (v'.writeInstanceProperties fl).data = v'.instancePropsData := by
  obtain ⟨v1, _, hcase⟩ := update_ok_steps hdr fl dev scene v v' h
  rcases hcase with ⟨he, _⟩ | ⟨_, v2, v3, v4, h2, h3, h4, h5⟩
  · exact absurd he hne
  · have e5 := updateInstancePropertiesBuffer_frame fl dev v4 v' h5
    obtain ⟨e4, s4⟩ := createShaderBindingTable_frame dev v3 v4 h4
    obtain ⟨e3, c3, w3, k3⟩ := createShaderResourceHeap_frame hdr dev scene _ v3 h3
    have e2 := createInstancePropertiesBuffer_frame hdr dev v2
    have hT : (v2.rtInstances ≠ [] → v2.topLevelASGenerator = addInstances v2.rtInstances)
        ∧ (v2.rtInstances ≠ [] → ¬ v2.topLevelASBuffers.tooSmall
            (dev.ComputeASBufferSizes (addInstances v2.rtInstances))) := by
      split at h2
      · rename_i hem
        cases h2
        have : (v1.updateInstances hdr fl dev scene).rtInstances = [] := by simpa using hem
        exact ⟨fun hn => absurd this hn, fun hn => absurd this hn⟩
      · have f := createTopLevelAS_frame dev _ v2 _ h2
        have hr : v2.rtInstances = (v1.updateInstances hdr fl dev scene).rtInstances := by
          rw [f]
        have hg : v2.topLevelASGenerator
            = addInstances (v1.updateInstances hdr fl dev scene).rtInstances := by
          rw [f]
        have hh := createTopLevelAS_held dev _ v2 _ h2
        rw [hr]
        exact ⟨fun _ => hg, fun _ => tooSmall_of_sizesLe _ _ hh⟩
    have r3 : v3.rtInstances = v2.rtInstances := by rw [e3, e2]
    have r4 : v4.rtInstances = v2.rtInstances := by rw [e4]; exact r3
    have r5 : v'.rtInstances = v2.rtInstances := by rw [e5]; exact r4
    constructor
    · constructor
      · intro hn
        rw [r5] at hn ⊢
        have g : v'.topLevelASGenerator = v2.topLevelASGenerator := by rw [e5, e4, e3, e2]
        rw [g]
        exact hT.1 hn
      · intro hn
        rw [r5] at hn ⊢
        have g : v'.topLevelASBuffers = v2.topLevelASBuffers := by rw [e5, e4, e3, e2]
        rw [g]
        exact hT.2 hn
      · rw [e5, e4, e3, e2]
        rfl
      · rw [e5, e4]
        exact c3
      · rw [e5, e4]
        exact w3
      · rw [e5, e4]
        exact k3
      · rw [e5, e4, e3]
      · rw [e5, e4]
        rfl
      · rw [e5]
        exact s4
    · rw [e5]
      exact writeInstanceProperties_again fl v4

/-! ### An update of a settled view -/

theorem textureDescriptors_congr (dev dev2 : Device F)
    (ht : dev2.getTexture = dev.getTexture) :
    ∀ (l : List Ptr) (slot : Nat),
      textureDescriptors dev2 l slot = textureDescriptors dev l slot := by
  intro l
  induction l with
  | nil => intro slot; rfl
  | cons t ts ih =>
    intro slot
    rw [textureDescriptors, textureDescriptors, ih (slot + 1), ht]

theorem heapDescriptors_congr (hdr : PublicHeader) (dev dev2 : Device F) (scene : Scene F)
    (v : View F) (hv : dev2.gpuVirtualAddress = dev.gpuVirtualAddress)
    (ht : dev2.getTexture = dev.getTexture) :
    v.heapDescriptors hdr dev2 scene = v.heapDescriptors hdr dev scene := by
  unfold View.heapDescriptors
  rw [hv, textureDescriptors_congr dev dev2 ht]

/-- A view settled for the answers of one device is settled for every device that gives
the same answers. -/
theorem settled_sameAnswers (hdr : PublicHeader) (dev dev2 : Device F) (scene : Scene F)
    (v : View F) (hs : v.Settled hdr dev scene) (ha : dev.SameAnswers dev2) :
    v.Settled hdr dev2 scene := by
  constructor
  · exact hs.generator
  · rw [ha.asSizes]
    exact hs.tlas
  · exact hs.props
  · exact hs.heapCount
  · rw [heapDescriptors_congr hdr dev dev2 scene v ha.virtualAddress ha.texture]
    exact hs.heapWrites
  · exact hs.compose
  · exact hs.composeWrites
  · rw [ha.descriptorHandle]
    exact hs.sbtHelper
  · rw [ha.sbtSize]
    exact hs.sbtSize

theorem updateScale_fixed (fl : FloatOps F) (dev : Device F) (v : View F)
    (h : fl.ne v.rtScale v.resolutionScale = false) : v.updateScale fl dev = .ok v := by
  unfold View.updateScale
  rw [h]
  rfl

theorem createTopLevelAS_fixed (dev : Device F) (v v' : View F)
    (h : v.createTopLevelAS dev v.rtInstances = .ok v')
    (hg : v.topLevelASGenerator = addInstances v.rtInstances)
    (ht : ¬ v.topLevelASBuffers.tooSmall (dev.ComputeASBufferSizes (addInstances v.rtInstances))) :
    v' = v := by
  have e := createTopLevelAS_frame dev v v' v.rtInstances h
  obtain ⟨hb, ha⟩ := (createTopLevelAS_buffers dev v v' v.rtInstances h).2 ht
  rw [e, hb, ha, ← hg]

theorem createInstancePropertiesBuffer_fixed (hdr : PublicHeader) (dev : Device F) (v : View F)
    (h : v.activeInstancesBufferPropsSize = v.propsBufferSize hdr) :
    v.createInstancePropertiesBuffer hdr dev = v := by
  unfold View.propsBufferSize at h
  unfold View.createInstancePropertiesBuffer
  dsimp only
  rw [if_neg (not_not.2 h)]

theorem createShaderResourceHeap_fixed (hdr : PublicHeader) (dev : Device F) (scene : Scene F)
    (v v' : View F) (h : v.createShaderResourceHeap hdr dev scene = .ok v')
    (hs : v.Settled hdr dev scene) : v' = v := by
  dsimp only [View.createShaderResourceHeap] at h
  split at h
  · cases h
  · split at h
    · cases h
    · rename_i w hw
      split at h
      · cases h
      · rename_i writes hwr
        have e0 : w = v := by
          unfold View.growDescriptorHeap at hw
          rw [if_neg hs.heapCount] at hw
          cases hw
          rfl
        subst e0
        rw [hs.heapWrites] at hwr
        cases hwr
        obtain ⟨e2, _⟩ := createComposeHeap_frame dev _ _ h
        have ec : v'.composeHeap = w.composeHeap ∧ v'.allocations = w.allocations := by
          dsimp only [View.createComposeHeap] at h
          rw [if_neg hs.compose] at h
          dsimp only at h
          rw [if_neg hs.compose] at h
          cases h
          exact ⟨rfl, rfl⟩
        rw [e2, ec.1, ec.2]
        dsimp only
        rw [← hs.composeWrites]

theorem createShaderBindingTable_fixed (dev : Device F) (v v' : View F)
    (h : v.createShaderBindingTable dev = .ok v')
    (hh : v.sbtHelper = v.registerPrograms (dev.gpuDescriptorHandle v.descriptorHeap))
    (hz : ¬ v.sbtStorageSize < toUInt32 (dev.ComputeSBTSize v.sbtHelper)) : v' = v := by
  dsimp only [View.createShaderBindingTable] at h
  split at h
  · cases h
  · rw [← hh, if_neg hz] at h
    split at h
    · cases h
    · cases h
      rfl

/-- An update of a settled view on the scene it is settled for changes nothing. -/
theorem update_settled (hdr : PublicHeader) (fl : FloatOps F) (dev : Device F)
    (scene : Scene F) (v v' w : View F) (h : v.update hdr fl dev scene = .ok v')
    (hne : scene.instances ≠ [])
    (hs : v.Settled hdr dev scene)
    (hd : (v.writeInstanceProperties fl).data = v.instancePropsData)
    (hb : (w.updateInstances hdr fl dev scene).SameBuckets v)
    (hscale : fl.ne v.rtScale v.resolutionScale = false) : v' = v := by
  obtain ⟨v1, h1, hcase⟩ := update_ok_steps hdr fl dev scene v v' h
  rw [updateScale_fixed fl dev v hscale] at h1
  cases h1
  rcases hcase with ⟨he, _⟩ | ⟨_, v2, v3, v4, h2, h3, h4, h5⟩
  · exact absurd he hne
  · rw [updateInstances_fixed hdr fl dev scene v w hb] at h2
    have e2 : v2 = v := by
      split at h2
      · cases h2
        rfl
      · rename_i hem
        have hn : v.rtInstances ≠ [] := by simpa using hem
        exact createTopLevelAS_fixed dev v v2 h2 (hs.generator hn) (hs.tlas hn)
    subst e2
    rw [createInstancePropertiesBuffer_fixed hdr dev v2 hs.props] at h3
    have e3 := createShaderResourceHeap_fixed hdr dev scene v2 v3 h3 hs
    subst e3
    have e4 := createShaderBindingTable_fixed dev v3 v4 h4 hs.sbtHelper hs.sbtSize
    subst e4
    rw [updateInstancePropertiesBuffer_frame fl dev v4 v' h5, hd]

theorem update_ok_scale (hdr : PublicHeader) (fl : FloatOps F) (dev : Device F)
    (scene : Scene F) (v v' : View F) (h : v.update hdr fl dev scene = .ok v') :
    ∃ v1, v.updateScale fl dev = .ok v1 ∧ v'.rtScale = v1.rtScale
      ∧ v'.resolutionScale = v1.resolutionScale := by
  obtain ⟨v1, h1, hcase⟩ := update_ok_steps hdr fl dev scene v v' h
  refine ⟨v1, h1, ?_⟩
  rcases hcase with ⟨_, e⟩ | ⟨_, v2, v3, v4, h2, h3, h4, h5⟩
  · rw [e]
    exact ⟨rfl, rfl⟩
  · have e5 := updateInstancePropertiesBuffer_frame fl dev v4 v' h5
    obtain ⟨e4, _⟩ := createShaderBindingTable_frame dev v3 v4 h4
    obtain ⟨e3, _⟩ := createShaderResourceHeap_frame hdr dev scene _ v3 h3
    have e2 := createInstancePropertiesBuffer_frame hdr dev v2
    have e1 : v2.rtScale = v1.rtScale ∧ v2.resolutionScale = v1.resolutionScale := by
      split at h2
      · cases h2
        rw [updateInstances_withBuckets hdr fl dev scene v1 v1]
        exact ⟨rfl, rfl⟩
      · rw [createTopLevelAS_frame dev _ v2 _ h2,
          updateInstances_withBuckets hdr fl dev scene v1 v1]
        exact ⟨rfl, rfl⟩
    constructor
    · rw [e5, e4, e3, e2]
      exact e1.1
    · rw [e5, e4, e3, e2]
      exact e1.2

theorem createTopLevelAS_generated (dev : Device F) (v v' : View F)
    (rtInstances : List (RenderInstance F))
    (h : v.createTopLevelAS dev rtInstances = .ok v') :
    dev.GenerateTopLevelAS v'.topLevelASGenerator v'.topLevelASBuffers.scratch
      v'.topLevelASBuffers.result v'.topLevelASBuffers.instanceDesc = .ok () := by
  dsimp only [View.createTopLevelAS] at h
  split at h
  · cases h
  · rename_i u hu
    cases h
    exact hu

theorem createShaderBindingTable_generated (dev : Device F) (v v' : View F)
    (h : v.createShaderBindingTable dev = .ok v') :
    dev.GenerateSBT v'.sbtHelper v'.sbtStorage = .ok () ∧ v'.descriptorHeap ≠ 0 := by
  dsimp only [View.createShaderBindingTable] at h
  split at h
  · cases h
  · rename_i hheap
    split at h
    · cases h
    · rename_i u hu
      cases h
      refine ⟨hu, ?_⟩
      split <;> exact hheap

theorem updateInstancePropertiesBuffer_mapped (fl : FloatOps F) (dev : Device F) (v v' : View F)
    (h : v.updateInstancePropertiesBuffer fl dev = .ok v') :
    v'.activeInstancesBufferProps ≠ 0 ∧ dev.mapInstanceProps = .ok () := by
  dsimp only [View.updateInstancePropertiesBuffer] at h
  split at h
  · cases h
  · rename_i hp
    split at h
    · cases h
    · rename_i u hu
      cases h
      exact ⟨hp, hu⟩

/-- After a completed update on a non-empty scene every check of an update succeeds on
the view as it stands. -/
theorem update_ok_ready (hdr : PublicHeader) (fl : FloatOps F) (dev : Device F)
    (scene : Scene F) (v v' : View F) (h : v.update hdr fl dev scene = .ok v')
    (hne : scene.instances ≠ []) : v'.Ready dev := by
  have hb := update_ok_texture_bound hdr fl dev scene v v' h hne
  obtain ⟨v1, _, hcase⟩ := update_ok_steps hdr fl dev scene v v' h
  rcases hcase with ⟨he, _⟩ | ⟨_, v2, v3, v4, h2, h3, h4, h5⟩
  · exact absurd he hne
  · have e5 := updateInstancePropertiesBuffer_frame fl dev v4 v' h5
    obtain ⟨e4, _⟩ := createShaderBindingTable_frame dev v3 v4 h4
    obtain ⟨e3, _⟩ := createShaderResourceHeap_frame hdr dev scene _ v3 h3
    have e2 := createInstancePropertiesBuffer_frame hdr dev v2
    obtain ⟨g4, k4⟩ := createShaderBindingTable_generated dev v3 v4 h4
    obtain ⟨p5, m5⟩ := updateInstancePropertiesBuffer_mapped fl dev v4 v' h5
    have r5 : v'.rtInstances = v2.rtInstances := by rw [e5, e4, e3, e2]
    refine ⟨hb, ?_, ?_, ?_, p5, m5⟩
    · rw [e5]
      exact k4
    · intro hn
      rw [r5] at hn
      have g : v'.topLevelASGenerator = v2.topLevelASGenerator := by rw [e5, e4, e3, e2]
      have b : v'.topLevelASBuffers = v2.topLevelASBuffers := by rw [e5, e4, e3, e2]
      rw [g, b]
      split at h2
      · rename_i hem
        cases h2
        have : (v1.updateInstances hdr fl dev scene).rtInstances = [] := by simpa using hem
        exact absurd this hn
      · exact createTopLevelAS_generated dev _ v2 _ h2
    · rw [e5]
      exact g4

theorem createTopLevelAS_again (dev : Device F) (v : View F)
    (hg : v.topLevelASGenerator = addInstances v.rtInstances)
    (ht : ¬ v.topLevelASBuffers.tooSmall (dev.ComputeASBufferSizes (addInstances v.rtInstances)))
    (hgen : dev.GenerateTopLevelAS v.topLevelASGenerator v.topLevelASBuffers.scratch
      v.topLevelASBuffers.result v.topLevelASBuffers.instanceDesc = .ok ()) :
    v.createTopLevelAS dev v.rtInstances = .ok v := by
  unfold AccelerationStructureBuffers.tooSmall at ht
  unfold View.createTopLevelAS
  dsimp only
  rw [if_neg ht, ← hg, hgen]

theorem createShaderResourceHeap_again (hdr : PublicHeader) (dev : Device F) (scene : Scene F)
    (v : View F) (hs : v.Settled hdr dev scene) (hr : v.Ready dev) :
    v.createShaderResourceHeap hdr dev scene = .ok v := by
  unfold View.createShaderResourceHeap
  rw [if_neg (not_not.2 hr.textures)]
  unfold View.growDescriptorHeap
  rw [if_neg hs.heapCount]
  dsimp only
  rw [hs.heapWrites]
  dsimp only
  unfold View.createComposeHeap
  dsimp only
  rw [if_neg hs.compose]
  dsimp only
  rw [if_neg hs.compose, ← hs.composeWrites]

theorem createShaderBindingTable_again (hdr : PublicHeader) (dev : Device F) (scene : Scene F)
    (v : View F) (hs : v.Settled hdr dev scene) (hr : v.Ready dev) :
    v.createShaderBindingTable dev = .ok v := by
  unfold View.createShaderBindingTable
  rw [if_neg hr.heap]
  dsimp only
  rw [← hs.sbtHelper, if_neg hs.sbtSize, hr.sbt]

theorem updateInstancePropertiesBuffer_again (fl : FloatOps F) (dev : Device F) (v : View F)
    (hr : v.Ready dev) (hd : (v.writeInstanceProperties fl).data = v.instancePropsData) :
    v.updateInstancePropertiesBuffer fl dev = .ok v := by
  unfold View.updateInstancePropertiesBuffer
  rw [if_neg hr.props, hr.map, hd]

/-- An update of a settled view, on the device and the scene it is settled for, returns
and changes nothing. -/
theorem update_again (hdr : PublicHeader) (fl : FloatOps F) (dev : Device F)
    (scene : Scene F) (v w : View F) (hne : scene.instances ≠ [])
    (hs : v.Settled hdr dev scene) (hr : v.Ready dev)
    (hd : (v.writeInstanceProperties fl).data = v.instancePropsData)
    (hb : (w.updateInstances hdr fl dev scene).SameBuckets v)
    (hscale : fl.ne v.rtScale v.resolutionScale = false) :
    v.update hdr fl dev scene = .ok v := by
  have hem : scene.instances.isEmpty = false := by
    cases hi : scene.instances with
    | nil => exact absurd hi hne
    | cons a t => rfl
  unfold View.update
  rw [updateScale_fixed fl dev v hscale]
  dsimp only
  rw [hem, updateInstances_fixed hdr fl dev scene v w hb]
  have hbuilt : (if v.rtInstances.isEmpty = true then Except.ok v
      else v.createTopLevelAS dev v.rtInstances) = .ok v := by
    split
    · rfl
    · rename_i hrt
      have hn : v.rtInstances ≠ [] := by simpa using hrt
      exact createTopLevelAS_again dev v (hs.generator hn) (hs.tlas hn) (hr.tlas hn)
  simp only [Bool.false_eq_true, if_false]
  rw [hbuilt]
  dsimp only
  rw [createInstancePropertiesBuffer_fixed hdr dev v hs.props,
    createShaderResourceHeap_again hdr dev scene v hs hr]
  dsimp only
  rw [createShaderBindingTable_again hdr dev scene v hs hr]
  dsimp only
  exact updateInstancePropertiesBuffer_again fl dev v hr hd

/-- C12, as amended. When `View::update` has returned and the resolution scale it left is
not NaN (it does not differ from itself), calling it again on the unchanged scene returns
and leaves the three buckets, the texture list, `rtScale` and `resolutionScale`, the
acceleration-structure buffers and their sizes, `activeInstancesBufferPropsSize`,
`descriptorHeapEntryCount`, `sbtStorageSize` and the descriptors written to the heap as
the first call left them, and it issues no allocation request: on the same device the
second call returns the very state it was given, and on any device that gives the same
answers a second call that returns agrees with the first on all of the above. -/
theorem update_twice (hdr : PublicHeader) (fl : FloatOps F) (dev : Device F)
    (scene : Scene F) (v v1 : View F)
    (h1 : v.update hdr fl dev scene = .ok v1)
    (hnum : fl.ne v1.resolutionScale v1.resolutionScale = false) :
    v1.update hdr fl dev scene = .ok v1
    ∧ ∀ (dev2 : Device F) (v2 : View F), dev.SameAnswers dev2 →
        v1.update hdr fl dev2 scene = .ok v2 →
          v2.rtInstances = v1.rtInstances
          ∧ v2.rasterBgInstances = v1.rasterBgInstances
          ∧ v2.rasterFgInstances = v1.rasterFgInstances
          ∧ v2.usedTextures = v1.usedTextures
          ∧ v2.rtScale = v1.rtScale
          ∧ v2.resolutionScale = v1.resolutionScale
          ∧ v2.topLevelASBuffers = v1.topLevelASBuffers
          ∧ v2.activeInstancesBufferPropsSize = v1.activeInstancesBufferPropsSize
          ∧ v2.descriptorHeapEntryCount = v1.descriptorHeapEntryCount
          ∧ v2.sbtStorageSize = v1.sbtStorageSize
          ∧ v2.descriptorWrites = v1.descriptorWrites
          ∧ v2.allocations = v1.allocations := by
  have hscale : fl.ne v1.rtScale v1.resolutionScale = false := by
    obtain ⟨w1, hw1, er, es⟩ := update_ok_scale hdr fl dev scene v v1 h1
    rw [es] at hnum
    rw [er, es]
    exact updateScale_settles fl dev v w1 hw1 hnum
  by_cases hne : scene.instances = []
  · obtain ⟨w1, _, hcase⟩ := update_ok_steps hdr fl dev scene v v1 h1
    rcases hcase with ⟨_, e1⟩ | ⟨hn, _⟩
    · have hfix : ∀ d : Device F, v1.update hdr fl d scene = .ok v1 := by
        intro d
        unfold View.update
        rw [updateScale_fixed fl d v1 hscale, hne]
        dsimp only
        rw [e1]
        rfl
      refine ⟨hfix dev, ?_⟩
      intro dev2 v2 _ h2
      rw [hfix dev2] at h2
      cases h2
      exact ⟨rfl, rfl, rfl, rfl, rfl, rfl, rfl, rfl, rfl, rfl, rfl, rfl⟩
    · exact absurd hne hn
  · obtain ⟨hs, hd⟩ := update_ok_settled hdr fl dev scene v v1 h1 hne
    have hr := update_ok_ready hdr fl dev scene v v1 h1 hne
    obtain ⟨w1, _, hb⟩ := update_ok_sameBuckets hdr fl dev scene v v1 h1 hne
    refine ⟨update_again hdr fl dev scene v1 w1 hne hs hr hd hb hscale, ?_⟩
    intro dev2 v2 ha h2
    rw [← updateInstances_height hdr fl dev dev2 scene w1 ha.height] at hb
    have e := update_settled hdr fl dev2 scene v1 v2 w1 h2 hne
      (settled_sameAnswers hdr dev dev2 scene v1 hs ha) hd hb hscale
    rw [e]
    exact ⟨rfl, rfl, rfl, rfl, rfl, rfl, rfl, rfl, rfl, rfl, rfl, rfl⟩

/-- Witness of C12 as amended: the sample frame twice in a row on the sample device. -/
theorem update_twice_witness :
    sampleView.update sampleHeader sampleFloatOps sampleDevice sampleScene = .ok sampleUpdated
    ∧ sampleFloatOps.ne sampleUpdated.resolutionScale sampleUpdated.resolutionScale = false
    ∧ sampleUpdated.update sampleHeader sampleFloatOps sampleDevice sampleScene
        = .ok sampleUpdated :=
  ⟨rfl, by simp [sampleFloatOps],
    (update_twice sampleHeader sampleFloatOps sampleDevice sampleScene sampleView
      sampleUpdated rfl (by simp [sampleFloatOps])).1⟩

end Idempotence

section EmptyScene
variable {F : Type}

theorem createOutputBuffers_frameResources (fl : FloatOps F) (dev : Device F) (v v' : View F)
    (h : v.createOutputBuffers fl dev = .ok v') :
    v.SameFrameResources v'
    ∧ ∃ batch : List (Resource × Nat), v'.allocations = v.allocations ++ batch
        ∧ ∀ a ∈ batch, a.1.isOutput = true := by
  dsimp only [View.createOutputBuffers] at h
  split at h
  · cases h
  · cases h
    refine ⟨⟨rfl, rfl, rfl, rfl, rfl, rfl, rfl, rfl, rfl, rfl, rfl, rfl, rfl⟩, _,
      List.append_assoc _ _ _, ?_⟩
    intro a ha
    simp only [List.mem_append, List.mem_cons, List.mem_singleton,
      List.not_mem_nil, or_false] at ha
    rcases ha with (h | h | h | h | h | h | h | h | h | h) | h <;> rw [h] <;> rfl

theorem updateScale_frameResources (fl : FloatOps F) (dev : Device F) (v v' : View F)
    (h : v.updateScale fl dev = .ok v') :
    v.SameFrameResources v'
    ∧ ∃ batch : List (Resource × Nat), v'.allocations = v.allocations ++ batch
        ∧ ∀ a ∈ batch, a.1.isOutput = true := by
  dsimp only [View.updateScale] at h
  split at h
  · obtain ⟨hf, hb⟩ := createOutputBuffers_frameResources fl dev _ v' h
    exact ⟨⟨hf.1, hf.2, hf.3, hf.4, hf.5, hf.6, hf.7, hf.8, hf.9, hf.10, hf.11, hf.12, hf.13⟩,
      hb⟩
  · cases h
    exact ⟨⟨rfl, rfl, rfl, rfl, rfl, rfl, rfl, rfl, rfl, rfl, rfl, rfl, rfl⟩, [],
      (List.append_nil _).symm, fun a ha => absurd ha (List.not_mem_nil a)⟩

/-- C13. On a scene whose instance list is empty, `View::update` does nothing after its
resolution-scale step but clear the three buckets: when the scale is unchanged it returns
the view with empty buckets, and whenever it returns the buckets are empty and the
acceleration-structure generator and buffers with their sizes, the instance-properties
buffer and its size, the descriptor heap with its entry count and its descriptors, the
compose heap, and the binding table with its storage and size are those before the call;
the only allocation requests it issues are those of `createOutputBuffers`. -/
theorem update_empty_scene (hdr : PublicHeader) (fl : FloatOps F) (dev : Device F)
    (scene : Scene F) (v : View F) (he : scene.instances = []) :
    (fl.ne v.rtScale v.resolutionScale = false →
      v.update hdr fl dev scene
        = .ok { v with rtInstances := [], rasterBgInstances := [], rasterFgInstances := [] })
    ∧ ∀ v', v.update hdr fl dev scene = .ok v' →
        v'.rtInstances = [] ∧ v'.rasterBgInstances = [] ∧ v'.rasterFgInstances = []
        ∧ v.SameFrameResources v'
        ∧ ∃ batch : List (Resource × Nat), v'.allocations = v.allocations ++ batch
            ∧ ∀ a ∈ batch, a.1.isOutput = true := by
  refine ⟨fun hs => ?_, fun v' h => ?_⟩
  · unfold View.update
    rw [updateScale_fixed fl dev v hs]
    simp [he]
  · obtain ⟨v1, h1, hcase⟩ := update_ok_steps hdr fl dev scene v v' h
    rcases hcase with ⟨_, e⟩ | ⟨hn, _⟩
    · obtain ⟨hf, hb⟩ := updateScale_frameResources fl dev v v1 h1
      rw [e]
      exact ⟨rfl, rfl, rfl,
        ⟨hf.1, hf.2, hf.3, hf.4, hf.5, hf.6, hf.7, hf.8, hf.9, hf.10, hf.11, hf.12, hf.13⟩, hb⟩
    · exact absurd he hn

/-- Witness of C13: the sample view after a frame, updated on the empty scene. -/
theorem update_empty_scene_witness :
    sampleEmptyScene.instances = []
    ∧ sampleUpdated.update sampleHeader sampleFloatOps sampleDevice sampleEmptyScene
        = .ok { sampleUpdated with
            rtInstances := [], rasterBgInstances := [], rasterFgInstances := [] } :=
  ⟨rfl, (update_empty_scene sampleHeader sampleFloatOps sampleDevice sampleEmptyScene
    sampleUpdated rfl).1 (by decide)⟩

end EmptyScene

section Scale
variable {F : Type}

theorem sampleFloatOps_exact : sampleFloatOps.Exact where
  zero_eq := rfl
  one_eq := rfl
  two_eq := rfl
  hundredth_eq := by
    show mkRat 1 100 = 1 / 100
    rw [Rat.mkRat_eq_div]
    norm_num
  lt_iff a b := by simp [sampleFloatOps]
  ne_iff a b := by simp [sampleFloatOps]
  ofInt_eq n := rfl
  mul_eq a b := rfl
  lround_eq x := by
    have e : mkRat 1 2 = 1 / 2 := by
      rw [Rat.mkRat_eq_div]
      norm_num
    show (if 0 ≤ x then ⌊x + mkRat 1 2⌋ else ⌈x - mkRat 1 2⌉) = roundHalfAway x
    rw [e]
    rfl
  toInt_eq x := rfl

/-- The clamp of `update` (rt64_view.cpp:479), read on numbers. -/
theorem clamp_exact [LinearOrderedField F] [FloorRing F] (fl : FloatOps F) (hx : fl.Exact)
    (x : F) : fl.max (fl.min x fl.two) fl.hundredth = max (1 / 100) (min x 2) := by
  unfold FloatOps.max FloatOps.min
  rw [hx.two_eq, hx.hundredth_eq]
  by_cases h1 : (2 : F) < x
  · rw [if_pos ((hx.lt_iff 2 x).2 h1), min_eq_right (le_of_lt h1)]
    have h2 : ¬ (2 : F) < 1 / 100 := by norm_num
    rw [if_neg (fun h => h2 ((hx.lt_iff _ _).1 h)), max_eq_right (by norm_num)]
  · rw [if_neg (fun h => h1 ((hx.lt_iff _ _).1 h)), min_eq_left (not_lt.1 h1)]
    by_cases h2 : x < 1 / 100
    · rw [if_pos ((hx.lt_iff _ _).2 h2), max_eq_left (le_of_lt h2)]
    · rw [if_neg (fun h => h2 ((hx.lt_iff _ _).1 h)), max_eq_right (not_lt.1 h2)]

end Scale

section OutputBuffers
variable {F : Type}

theorem outputCreations_append (v v' : View F) (rest : List (Resource × Nat))
    (h : v'.allocations = v.allocations ++ rest) (hr : ∀ a ∈ rest, a.1 ≠ Resource.rasterBg) :
    v'.outputCreations = v.outputCreations := by
  unfold View.outputCreations
  rw [h, List.countP_append]
  have : List.countP (fun a : Resource × Nat => decide (a.1 = Resource.rasterBg)) rest = 0 := by
    rw [List.countP_eq_zero]
    intro a ha
    simpa using hr a ha
  omega

theorem createOutputBuffers_creations (fl : FloatOps F) (dev : Device F) (v v' : View F)
    (h : v.createOutputBuffers fl dev = .ok v') :
    v'.outputCreations = v.outputCreations + 1 := by
  dsimp only [View.createOutputBuffers] at h
  split at h
  · cases h
  · cases h
    unfold View.outputCreations
    simp [List.countP_append, List.countP_cons, View.releaseOutputBuffers]

theorem createTopLevelAS_sameOutput (dev : Device F) (v v' : View F)
    (rtInstances : List (RenderInstance F))
    (h : v.createTopLevelAS dev rtInstances = .ok v') : v.SameOutput v' := by
  have e := createTopLevelAS_frame dev v v' rtInstances h
  obtain ⟨s1, s2⟩ := createTopLevelAS_buffers dev v v' rtInstances h
  have hc : v'.outputCreations = v.outputCreations := by
    by_cases ht : v.topLevelASBuffers.tooSmall (requiredSizes (dev, rtInstances))
    · refine outputCreations_append v v' _ (s1 ht).2 ?_
      intro a ha
      simp only [tlasAllocations, List.mem_cons, List.mem_singleton, List.not_mem_nil,
        or_false] at ha
      rcases ha with h | h | h <;> rw [h] <;> simp
    · rw [View.outputCreations, (s2 ht).2]
      rfl
  refine ⟨hc, ?_, ?_, ?_, ?_, ?_, ?_, ?_⟩ <;> rw [e]

theorem createInstancePropertiesBuffer_sameOutput (hdr : PublicHeader) (dev : Device F)
    (v : View F) : v.SameOutput (v.createInstancePropertiesBuffer hdr dev) := by
  unfold View.createInstancePropertiesBuffer
  dsimp only
  split
  · refine ⟨?_, rfl, rfl, rfl, rfl, rfl, rfl, rfl⟩
    refine outputCreations_append v _ _ rfl ?_
    intro a ha
    rw [List.mem_singleton.1 ha]
    simp
  · exact ⟨rfl, rfl, rfl, rfl, rfl, rfl, rfl, rfl⟩

theorem createShaderResourceHeap_sameOutput (hdr : PublicHeader) (dev : Device F)
    (scene : Scene F) (v v' : View F)
    (h : v.createShaderResourceHeap hdr dev scene = .ok v') : v.SameOutput v' := by
  obtain ⟨e, _⟩ := createShaderResourceHeap_frame hdr dev scene v v' h
  have hc : v'.outputCreations = v.outputCreations := by
    dsimp only [View.createShaderResourceHeap] at h
    split at h
    · cases h
    · split at h
      · cases h
      · rename_i w hw
        split at h
        · cases h
        · have c1 : w.outputCreations = v.outputCreations := by
            dsimp only [View.growDescriptorHeap] at hw
            split at hw
            · split at hw
              · cases hw
              · cases hw
                refine outputCreations_append v _ _ rfl ?_
                intro a ha
                rw [List.mem_singleton.1 ha]
                simp
            · cases hw
              rfl
          have c2 : v'.outputCreations = w.outputCreations := by
            dsimp only [View.createComposeHeap] at h
            split at h
            · cases h
            · rename_i u hu
              split at h
              · cases h
              · cases h
                split at hu
                · split at hu
                  · cases hu
                  · cases hu
                    refine outputCreations_append w _ _ rfl ?_
                    intro a ha
                    rw [List.mem_singleton.1 ha]
                    simp
                · cases hu
                  rfl
          rw [c2, c1]
  refine ⟨hc, ?_, ?_, ?_, ?_, ?_, ?_, ?_⟩ <;> rw [e]

theorem createShaderBindingTable_sameOutput (dev : Device F) (v v' : View F)
    (h : v.createShaderBindingTable dev = .ok v') : v.SameOutput v' := by
  obtain ⟨e, _⟩ := createShaderBindingTable_frame dev v v' h
  have hc : v'.outputCreations = v.outputCreations := by
    dsimp only [View.createShaderBindingTable] at h
    split at h
    · cases h
    · split at h
      · cases h
      · cases h
        split
        · refine outputCreations_append v _ _ rfl ?_
          intro a ha
          rw [List.mem_singleton.1 ha]
          simp
        · rfl
  refine ⟨hc, ?_, ?_, ?_, ?_, ?_, ?_, ?_⟩ <;> rw [e]

theorem sameOutput_trans {a b c : View F} (h1 : a.SameOutput b) (h2 : b.SameOutput c) :
    a.SameOutput c :=
  ⟨h2.1.trans h1.1, h2.2.trans h1.2, h2.3.trans h1.3, h2.4.trans h1.4, h2.5.trans h1.5,
    h2.6.trans h1.6, h2.7.trans h1.7, h2.8.trans h1.8⟩

/-- An update that finds the effective scale equal to the requested one allocates no
output buffer and leaves what `createOutputBuffers` writes alone. -/
theorem update_sameOutput (hdr : PublicHeader) (fl : FloatOps F) (dev : Device F)
    (scene : Scene F) (v v' : View F)
    (hs : fl.ne v.rtScale v.resolutionScale = false)
    (h : v.update hdr fl dev scene = .ok v') : v.SameOutput v' := by
  obtain ⟨v1, h1, hcase⟩ := update_ok_steps hdr fl dev scene v v' h
  rw [updateScale_fixed fl dev v hs] at h1
  cases h1
  rcases hcase with ⟨_, e⟩ | ⟨_, v2, v3, v4, h2, h3, h4, h5⟩
  · rw [e]
    exact ⟨rfl, rfl, rfl, rfl, rfl, rfl, rfl, rfl⟩
  · have o1 : v.SameOutput (v.updateInstances hdr fl dev scene) := by
      rw [updateInstances_withBuckets hdr fl dev scene v v]
      exact ⟨rfl, rfl, rfl, rfl, rfl, rfl, rfl, rfl⟩
    have o2 : (v.updateInstances hdr fl dev scene).SameOutput v2 := by
      split at h2
      · cases h2
        exact ⟨rfl, rfl, rfl, rfl, rfl, rfl, rfl, rfl⟩
      · exact createTopLevelAS_sameOutput dev _ v2 _ h2
    have o3 := createInstancePropertiesBuffer_sameOutput hdr dev v2
    have o4 := createShaderResourceHeap_sameOutput hdr dev scene _ v3 h3
    have o5 := createShaderBindingTable_sameOutput dev v3 v4 h4
    have o6 : v4.SameOutput v' := by
      rw [updateInstancePropertiesBuffer_frame fl dev v4 v' h5]
      exact ⟨rfl, rfl, rfl, rfl, rfl, rfl, rfl, rfl⟩
    exact sameOutput_trans (sameOutput_trans (sameOutput_trans (sameOutput_trans
      (sameOutput_trans o1 o2) o3) o4) o5) o6

/-- After the scale step the rest of an update is an update that finds the scale
unchanged. -/
theorem update_after_scale (hdr : PublicHeader) (fl : FloatOps F) (dev : Device F)
    (scene : Scene F) (v w : View F) (h : v.updateScale fl dev = .ok w)
    (hs : fl.ne w.rtScale w.resolutionScale = false) :
    w.update hdr fl dev scene = v.update hdr fl dev scene := by
  unfold View.update
  rw [h, updateScale_fixed fl dev w hs]

theorem createOutputBuffers_resolution (fl : FloatOps F) (dev : Device F) (v v' : View F)
    (h : v.createOutputBuffers fl dev = .ok v') :
    v'.rtWidth = fl.lround (fl.mul (fl.ofInt dev.width) v.rtScale)
    ∧ v'.rtHeight = fl.lround (fl.mul (fl.ofInt dev.height) v.rtScale)
    ∧ v'.viewParamsBufferData.resolution = fun i =>
        if i = 0 then fl.ofInt (fl.lround (fl.mul (fl.ofInt dev.width) v.rtScale))
        else if i = 1 then fl.ofInt (fl.lround (fl.mul (fl.ofInt dev.height) v.rtScale))
        else if i = 2 then fl.ofInt dev.width
        else fl.ofInt dev.height := by
  dsimp only [View.createOutputBuffers] at h
  split at h
  · cases h
  · cases h
    exact ⟨rfl, rfl, rfl⟩

/-- On exact arithmetic (the float operations read as operations on numbers, so that no
product is rounded and no scale is NaN): when the requested scale `s'` differs from the
effective scale, the next `View::update` runs `createOutputBuffers` exactly once, on the
view with both scales set to `c`, the request clamped to [0.01, 2], and what follows is
an update that finds the scale unchanged; the resolution fields of the view parameters
become (round(W c), round(H c), W, H) for the device size W x H, halfway cases rounded
away from zero; and an update that follows without a new request recreates nothing. -/
theorem update_recreates_output_exact [LinearOrderedField F] [FloorRing F]
    (hdr : PublicHeader) (fl : FloatOps F) (hx : fl.Exact) (dev : Device F) (scene : Scene F)
    (v v1 : View F) (s' : F) (hdiff : s' ≠ v.rtScale)
    (h : (v.setResolutionScale s').update hdr fl dev scene = .ok v1) :
    (∃ w, View.createOutputBuffers fl dev
          { v with rtScale := max (1 / 100) (min s' 2)
                   resolutionScale := max (1 / 100) (min s' 2) } = .ok w
        ∧ w.update hdr fl dev scene = .ok v1 ∧ w.SameOutput v1)
    ∧ v1.outputCreations = v.outputCreations + 1
    ∧ v1.rtWidth = roundHalfAway ((dev.width : F) * max (1 / 100) (min s' 2))
    ∧ v1.rtHeight = roundHalfAway ((dev.height : F) * max (1 / 100) (min s' 2))
    ∧ (v1.viewParamsBufferData.resolution = fun i =>
        if i = 0 then ((roundHalfAway ((dev.width : F) * max (1 / 100) (min s' 2)) : Int) : F)
        else if i = 1 then
          ((roundHalfAway ((dev.height : F) * max (1 / 100) (min s' 2)) : Int) : F)
        else if i = 2 then (dev.width : F)
        else (dev.height : F))
    ∧ ∀ (dev2 : Device F) (scene2 : Scene F) (v2 : View F),
        v1.update hdr fl dev2 scene2 = .ok v2 → v1.SameOutput v2 := by
  obtain ⟨w, hw, _⟩ := update_ok_steps hdr fl dev scene _ v1 h
  have hupd := hw
  have hne : fl.ne v.rtScale s' = true := (hx.ne_iff _ _).2 (fun e => hdiff e.symm)
  dsimp only [View.updateScale, View.setResolutionScale] at hw
  rw [if_pos hne, clamp_exact fl hx s'] at hw
  obtain ⟨e1, e2⟩ := createOutputBuffers_scale fl dev _ _ hw
  have hsw : fl.ne w.rtScale w.resolutionScale = false := by
    rw [e1, e2]
    cases hq : fl.ne (max (1 / 100) (min s' 2)) (max (1 / 100) (min s' 2)) with
    | false => rfl
    | true => exact absurd rfl ((hx.ne_iff _ _).1 hq)
  have hwu : w.update hdr fl dev scene = .ok v1 := by
    rw [update_after_scale hdr fl dev scene _ w hupd hsw]
    exact h
  have so := update_sameOutput hdr fl dev scene w v1 hsw hwu
  obtain ⟨r1, r2, r3⟩ := createOutputBuffers_resolution fl dev _ _ hw
  dsimp only at r1 r2 r3
  simp only [hx.lround_eq, hx.mul_eq, hx.ofInt_eq] at r1 r2 r3
  have hs1 : fl.ne v1.rtScale v1.resolutionScale = false := by
    rw [so.rtScale, so.resolutionScale]
    exact hsw
  refine ⟨⟨w, hw, hwu, so⟩, ?_, ?_, ?_, ?_, ?_⟩
  · rw [so.creations, createOutputBuffers_creations fl dev _ _ hw]
    rfl
  · rw [so.rtWidth, r1]
  · rw [so.rtHeight, r2]
  · rw [so.viewParams, r3]
  · intro dev2 scene2 v2 h2
    exact update_sameOutput hdr fl dev2 scene2 v1 v2 hs1 h2

theorem sample_halved_size (n m : Int) (h : n = 2 * m) :
    roundHalfAway ((n : ℚ) * max (1 / 100) (min (mkRat 1 2) 2)) = m := by
  have e : mkRat 1 2 = 1 / 2 := by
    rw [Rat.mkRat_eq_div]
    norm_num
  have h1 : min (1 / 2 : ℚ) 2 = 1 / 2 := min_eq_left (by norm_num)
  have h2 : max (1 / 100 : ℚ) (1 / 2) = 1 / 2 := max_eq_right (by norm_num)
  have h3 : (n : ℚ) * (1 / 2) = m := by
    rw [h]
    push_cast
    ring
  rw [e, h1, h2, h3]
  unfold roundHalfAway
  by_cases hm : (0 : ℚ) ≤ m
  · rw [if_pos hm, Int.floor_eq_iff]
    constructor <;> norm_num
  · rw [if_neg hm, Int.ceil_eq_iff]
    constructor <;> norm_num

/-- The exact reading on the sample: the scale of the sample view changed from 1 to 1/2
gives exactly one recreation, and the 640x480 device gives the resolution 320x240. -/
theorem update_recreates_output_exact_sample :
    mkRat 1 2 ≠ sampleView.rtScale
    ∧ (sampleView.setResolutionScale (mkRat 1 2)).update sampleHeader sampleFloatOps
        sampleDevice sampleScene = .ok sampleHalved
    ∧ sampleHalved.outputCreations = sampleView.outputCreations + 1
    ∧ sampleView.outputCreations = 0
    ∧ sampleHalved.rtWidth = 320 ∧ sampleHalved.rtHeight = 240 := by
  have t := update_recreates_output_exact sampleHeader sampleFloatOps sampleFloatOps_exact
    sampleDevice sampleScene sampleView sampleHalved (mkRat 1 2) (by decide) rfl
  refine ⟨by decide, rfl, t.2.1, rfl, ?_, ?_⟩
  · rw [t.2.2.1]
    exact sample_halved_size 640 320 rfl
  · rw [t.2.2.2.1]
    exact sample_halved_size 480 240 rfl

/-- What a completed update does after its scale step allocates no output buffer. -/
theorem update_output (hdr : PublicHeader) (fl : FloatOps F) (dev : Device F)
    (scene : Scene F) (v v' : View F) (h : v.update hdr fl dev scene = .ok v') :
    ∃ w, v.updateScale fl dev = .ok w ∧ w.SameOutput v' := by
  obtain ⟨v1, h1, hcase⟩ := update_ok_steps hdr fl dev scene v v' h
  refine ⟨v1, h1, ?_⟩
  rcases hcase with ⟨_, e⟩ | ⟨_, v2, v3, v4, h2, h3, h4, h5⟩
  · rw [e]
    exact ⟨rfl, rfl, rfl, rfl, rfl, rfl, rfl, rfl⟩
  · have o1 : v1.SameOutput (v1.updateInstances hdr fl dev scene) := by
      rw [updateInstances_withBuckets hdr fl dev scene v1 v1]
      exact ⟨rfl, rfl, rfl, rfl, rfl, rfl, rfl, rfl⟩
    have o2 : (v1.updateInstances hdr fl dev scene).SameOutput v2 := by
      split at h2
      · cases h2
        exact ⟨rfl, rfl, rfl, rfl, rfl, rfl, rfl, rfl⟩
      · exact createTopLevelAS_sameOutput dev _ v2 _ h2
    have o3 := createInstancePropertiesBuffer_sameOutput hdr dev v2
    have o4 := createShaderResourceHeap_sameOutput hdr dev scene _ v3 h3
    have o5 := createShaderBindingTable_sameOutput dev v3 v4 h4
    have o6 : v4.SameOutput v' := by
      rw [updateInstancePropertiesBuffer_frame fl dev v4 v' h5]
      exact ⟨rfl, rfl, rfl, rfl, rfl, rfl, rfl, rfl⟩
    exact sameOutput_trans (sameOutput_trans (sameOutput_trans (sameOutput_trans
      (sameOutput_trans o1 o2) o3) o4) o5) o6

/-- An update that finds the requested scale `s` different from the effective one runs
`createOutputBuffers` on the view with both scales set to the clamped request, and the
steps that follow allocate no output buffer. -/
theorem update_changed_scale (hdr : PublicHeader) (fl : FloatOps F) (dev : Device F)
    (scene : Scene F) (v v1 : View F) (s : F) (hdiff : fl.ne v.rtScale s = true)
    (h : (v.setResolutionScale s).update hdr fl dev scene = .ok v1) :
    ∃ w, View.createOutputBuffers fl dev
          { v with rtScale := fl.max (fl.min s fl.two) fl.hundredth
                   resolutionScale := fl.max (fl.min s fl.two) fl.hundredth } = .ok w
      ∧ (v.setResolutionScale s).updateScale fl dev = .ok w
      ∧ w.SameOutput v1 := by
  obtain ⟨w, hw, so⟩ := update_output hdr fl dev scene _ v1 h
  refine ⟨w, ?_, hw, so⟩
  dsimp only [View.updateScale, View.setResolutionScale] at hw
  rw [if_pos hdiff] at hw
  exact hw

/-- The sizes an update gives the output after a changed request: `lround` of the float
products of the device size and the clamped request. -/
theorem update_changed_size (hdr : PublicHeader) (fl : FloatOps F) (dev : Device F)
    (scene : Scene F) (v v1 : View F) (s : F) (hdiff : fl.ne v.rtScale s = true)
    (h : (v.setResolutionScale s).update hdr fl dev scene = .ok v1) :
    v1.rtWidth = fl.lround (fl.mul (fl.ofInt dev.width) (fl.max (fl.min s fl.two) fl.hundredth))
    ∧ v1.rtHeight
      = fl.lround (fl.mul (fl.ofInt dev.height) (fl.max (fl.min s fl.two) fl.hundredth)) := by
  obtain ⟨w, hw, _, so⟩ := update_changed_scale hdr fl dev scene v v1 s hdiff h
  obtain ⟨r1, r2, _⟩ := createOutputBuffers_resolution fl dev _ _ hw
  exact ⟨so.rtWidth.trans r1, so.rtHeight.trans r2⟩

/-- C15, as amended. When the requested scale `s'` differs from the effective scale, the
next `View::update` runs `createOutputBuffers` exactly once, as its scale step, on the
view with its buckets as the previous update left them and both scales set to `c`, the
request clamped by `std::min` and `std::max` to [0.01f, 2]; the steps that follow
allocate no output buffer; the resolution fields of the view parameters become
(lround(W * c), lround(H * c), W, H) for the device size W x H, where the products are
float products; and when `c` is not NaN (it does not differ from itself) what follows the
scale step is an update that finds the scale unchanged, and an update that follows without
a new request recreates nothing. -/
theorem update_recreates_output_once (hdr : PublicHeader) (fl : FloatOps F) (dev : Device F)
    (scene : Scene F) (v v1 : View F) (s' : F) (hdiff : fl.ne v.rtScale s' = true)
    (h : (v.setResolutionScale s').update hdr fl dev scene = .ok v1) :
    (∃ w, View.createOutputBuffers fl dev
          { v with rtScale := fl.max (fl.min s' fl.two) fl.hundredth
                   resolutionScale := fl.max (fl.min s' fl.two) fl.hundredth } = .ok w
        ∧ (v.setResolutionScale s').updateScale fl dev = .ok w
        ∧ w.SameOutput v1
        ∧ (fl.ne (fl.max (fl.min s' fl.two) fl.hundredth)
              (fl.max (fl.min s' fl.two) fl.hundredth) = false →
            w.update hdr fl dev scene = .ok v1))
    ∧ v1.outputCreations = v.outputCreations + 1
    ∧ v1.rtScale = fl.max (fl.min s' fl.two) fl.hundredth
    ∧ v1.resolutionScale = fl.max (fl.min s' fl.two) fl.hundredth
    ∧ v1.rtWidth
        = fl.lround (fl.mul (fl.ofInt dev.width) (fl.max (fl.min s' fl.two) fl.hundredth))
    ∧ v1.rtHeight
        = fl.lround (fl.mul (fl.ofInt dev.height) (fl.max (fl.min s' fl.two) fl.hundredth))
    ∧ (v1.viewParamsBufferData.resolution = fun i =>
        if i = 0 then fl.ofInt (fl.lround
          (fl.mul (fl.ofInt dev.width) (fl.max (fl.min s' fl.two) fl.hundredth)))
        else if i = 1 then fl.ofInt (fl.lround
          (fl.mul (fl.ofInt dev.height) (fl.max (fl.min s' fl.two) fl.hundredth)))
        else if i = 2 then fl.ofInt dev.width
        else fl.ofInt dev.height)
    ∧ (fl.ne (fl.max (fl.min s' fl.two) fl.hundredth)
          (fl.max (fl.min s' fl.two) fl.hundredth) = false →
        ∀ (dev2 : Device F) (scene2 : Scene F) (v2 : View F),
          v1.update hdr fl dev2 scene2 = .ok v2 → v1.SameOutput v2) := by
  obtain ⟨w, hw, hupd, so⟩ := update_changed_scale hdr fl dev scene v v1 s' hdiff h
  obtain ⟨e1, e2⟩ := createOutputBuffers_scale fl dev _ _ hw
  obtain ⟨r1, r2, r3⟩ := createOutputBuffers_resolution fl dev _ _ hw
  dsimp only at e1 e2 r1 r2 r3
  have hsw : fl.ne (fl.max (fl.min s' fl.two) fl.hundredth)
      (fl.max (fl.min s' fl.two) fl.hundredth) = false →
      fl.ne w.rtScale w.resolutionScale = false := by
    intro hn
    rw [e1, e2]
    exact hn
  refine ⟨⟨w, hw, hupd, so, ?_⟩, ?_, ?_, ?_, ?_, ?_, ?_, ?_⟩
  · intro hn
    rw [update_after_scale hdr fl dev scene _ w hupd (hsw hn)]
    exact h
  · rw [so.creations, createOutputBuffers_creations fl dev _ _ hw]
    rfl
  · rw [so.rtScale, e1]
  · rw [so.resolutionScale, e2]
  · rw [so.rtWidth, r1]
  · rw [so.rtHeight, r2]
  · rw [so.viewParams, r3]
  · intro hn dev2 scene2 v2 h2
    refine update_sameOutput hdr fl dev2 scene2 v1 v2 ?_ h2
    rw [so.rtScale, so.resolutionScale]
    exact hsw hn

/-- Witness of C15 as amended: the scale of the sample view changed from 1 to 1/2 gives
exactly one recreation, the 640x480 device gives the resolution 320x240, and the update
that follows leaves the output alone. -/
theorem update_recreates_output_once_witness :
    sampleFloatOps.ne sampleView.rtScale (mkRat 1 2) = true
    ∧ (sampleView.setResolutionScale (mkRat 1 2)).update sampleHeader sampleFloatOps
        sampleDevice sampleScene = .ok sampleHalved
    ∧ sampleHalved.outputCreations = sampleView.outputCreations + 1
    ∧ sampleView.outputCreations = 0
    ∧ sampleHalved.rtWidth = 320 ∧ sampleHalved.rtHeight = 240
    ∧ ∀ v2, sampleHalved.update sampleHeader sampleFloatOps sampleDevice sampleScene = .ok v2 →
        sampleHalved.SameOutput v2 := by
  have t := update_recreates_output_once sampleHeader sampleFloatOps sampleDevice sampleScene
    sampleView sampleHalved (mkRat 1 2) (by decide) rfl
  refine ⟨by decide, rfl, t.2.1, rfl, ?_, ?_, ?_⟩
  · with_unfolding_all rfl
  · with_unfolding_all rfl
  · intro v2 h2
    exact t.2.2.2.2.2.2.2 (by simp [sampleFloatOps]) sampleDevice sampleScene v2 h2

end OutputBuffers

section Picking
variable {F : Type}

theorem refreshReadback_view (v : View F) :
    v.refreshReadback.view.rtScale = v.rtScale
    ∧ v.refreshReadback.view.rtWidth = v.rtWidth
    ∧ v.refreshReadback.view.rtHeight = v.rtHeight
    ∧ v.refreshReadback.view.rtInstances = v.rtInstances
    ∧ v.refreshReadback.view.rtHitInstanceIdReadback = v.rtHitInstanceIdReadback := by
  unfold View.refreshReadback
  split <;> exact ⟨rfl, rfl, rfl, rfl, rfl⟩

/-- A position that fails the bounds check ends the call with no match, before the
read-back buffer is mapped. -/
theorem getRaytracedInstanceAt_outside (fl : FloatOps F) (dev : Device F) (v : View F)
    (x y : Int) (hout : ¬ v.inBounds (v.texel fl x y)) :
    v.getRaytracedInstanceAt fl dev x y
      = .ok { instance_ := none, view := v.refreshReadback.view,
              commands := v.refreshReadback.commands } := by
  obtain ⟨e1, e2, e3, _, _⟩ := refreshReadback_view v
  unfold View.inBounds View.texel at hout
  dsimp only at hout
  unfold View.getRaytracedInstanceAt
  dsimp only
  rw [e1, e2, e3, if_pos (not_not.1 hout)]

/-- C16, as amended. With floats read as numbers, the position `getRaytracedInstanceAt`
checks is each screen coordinate times `rtScale`, rounded toward zero; whenever that
position lies outside [0, rtWidth) x [0, rtHeight) the call returns no match, without
reading the read-back buffer. -/
theorem getRaytracedInstanceAt_out_of_bounds [LinearOrderedField F] [FloorRing F]
    (fl : FloatOps F) (hx : fl.Exact) (dev : Device F) (v : View F) (x y : Int) :
    v.texel fl x y = (truncate ((x : F) * v.rtScale), truncate ((y : F) * v.rtScale))
    ∧ (¬ v.inBounds (v.texel fl x y) →
        v.getRaytracedInstanceAt fl dev x y
          = .ok { instance_ := none, view := v.refreshReadback.view,
                  commands := v.refreshReadback.commands }) := by
  refine ⟨?_, getRaytracedInstanceAt_outside fl dev v x y⟩
  unfold View.texel
  rw [hx.toInt_eq, hx.toInt_eq, hx.mul_eq, hx.mul_eq, hx.ofInt_eq, hx.ofInt_eq]

/-- Witness of C16: at the scale 1/2 the screen coordinates (-2, 0) scale to (-1, 0). -/
theorem getRaytracedInstanceAt_out_of_bounds_witness :
    ¬ sampleHalved.inBounds (sampleHalved.texel sampleFloatOps (-2) 0)
    ∧ pickedInstance (sampleHalved.getRaytracedInstanceAt sampleFloatOps sampleDevice (-2) 0)
        = none := by
  have hout : ¬ sampleHalved.inBounds (sampleHalved.texel sampleFloatOps (-2) 0) := by
    unfold View.inBounds
    with_unfolding_all decide
  refine ⟨hout, ?_⟩
  rw [(getRaytracedInstanceAt_out_of_bounds sampleFloatOps sampleFloatOps_exact sampleDevice
    sampleHalved (-2) 0).2 hout]
  rfl

/-- Counterexample to C16 as stated: at the scale 1/2 the screen coordinates (-1, 0), which
lie outside the 640x480 screen, scale to the position (0, 0), which passes the bounds
check, and the call returns the raytraced instance whose id is read there. -/
theorem getRaytracedInstanceAt_off_screen_match :
    ¬ (0 ≤ (-1 : Int) ∧ (-1 : Int) < sampleDevice.width)
    ∧ mkRat 1 100 ≤ sampleHalved.rtScale ∧ sampleHalved.rtScale ≤ 2
    ∧ sampleHalved.texel sampleFloatOps (-1) 0 = (0, 0)
    ∧ pickedInstance (sampleHalved.getRaytracedInstanceAt sampleFloatOps sampleDevice (-1) 0)
        = some (sampleInstance 0 500 11 12 0 1) := by
  refine ⟨by decide, by decide, by decide, ?_, ?_⟩
  · with_unfolding_all rfl
  · with_unfolding_all rfl

/-- C17. When the scaled position passes the bounds check and the read-back buffer can
be mapped, `getRaytracedInstanceAt` returns; it returns no match when the 16-bit id read
for that position is at least the size of the raytraced bucket, and otherwise the
scene instance recorded in `rtInstances[id]`. -/
theorem getRaytracedInstanceAt_in_bounds (fl : FloatOps F) (dev : Device F) (v : View F)
    (x y : Int) (hin : v.inBounds (v.texel fl x y))
    (hbuf : v.rtHitInstanceIdReadback ≠ 0) (hmap : dev.mapReadback = .ok ()) :
    ∃ p, v.getRaytracedInstanceAt fl dev x y = .ok p
      ∧ (v.rtInstances.length ≤ v.readbackId dev (v.texel fl x y) → p.instance_ = none)
      ∧ (∀ r, v.rtInstances[v.readbackId dev (v.texel fl x y)]? = some r →
          p.instance_ = some r.instance_) := by
  obtain ⟨e1, e2, e3, e4, e5⟩ := refreshReadback_view v
  unfold View.inBounds View.texel at hin
  dsimp only at hin
  unfold View.getRaytracedInstanceAt View.readbackId View.texel
  dsimp only
  rw [e1, e2, e3, e4, e5, if_neg hin, if_neg hbuf, hmap]
  dsimp only
  split
  · rename_i hge
    refine ⟨_, rfl, fun _ => rfl, ?_⟩
    intro r hr
    have := (List.getElem?_eq_some_iff.1 hr).1
    omega
  · rename_i hlt
    refine ⟨_, rfl, fun hle => absurd hle (by omega), ?_⟩
    intro r hr
    dsimp only
    rw [hr]
    rfl

/-- Witness of C17: at the scale 1/2 the screen coordinates (10, 10) scale to the
position (5, 5), where the sample device reads the id 0. -/
theorem getRaytracedInstanceAt_in_bounds_witness :
    sampleHalved.inBounds (sampleHalved.texel sampleFloatOps 10 10)
    ∧ sampleHalved.rtHitInstanceIdReadback ≠ 0
    ∧ sampleDevice.mapReadback = .ok ()
    ∧ pickedInstance (sampleHalved.getRaytracedInstanceAt sampleFloatOps sampleDevice 10 10)
        = some (sampleInstance 0 500 11 12 0 1) := by
  have hin : sampleHalved.inBounds (sampleHalved.texel sampleFloatOps 10 10) := by
    unfold View.inBounds
    with_unfolding_all decide
  have hbuf : sampleHalved.rtHitInstanceIdReadback ≠ 0 := by with_unfolding_all decide
  obtain ⟨p, hp, _, h2⟩ := getRaytracedInstanceAt_in_bounds sampleFloatOps sampleDevice
    sampleHalved 10 10 hin hbuf rfl
  refine ⟨hin, hbuf, rfl, ?_⟩
  rw [hp]
  exact h2 _ rfl

end Picking

section Camera
variable {F : Type}

/-- C18. While `perspectiveControlActive` is set, `setPerspective` returns the view as it
was, whatever the arguments: the view matrix, the projection matrix, `fovRadians`,
`nearDist` and `farDist` are those before the call. While it is clear, the view matrix
becomes the supplied matrix and the three scalars become the supplied values. -/
theorem setPerspective_override (fl : FloatOps F) (dev : Device F) (v : View F)
    (viewMatrix : RT64_MATRIX4 F) (fovRadians nearDist farDist : F) :
    (v.perspectiveControlActive = true →
      v.setPerspective fl dev viewMatrix fovRadians nearDist farDist = v)
    ∧ (v.perspectiveControlActive = false →
      (v.setPerspective fl dev viewMatrix fovRadians nearDist farDist).viewParamsBufferData.view
          = { r := viewMatrix.m }
      ∧ (v.setPerspective fl dev viewMatrix fovRadians nearDist farDist).fovRadians = fovRadians
      ∧ (v.setPerspective fl dev viewMatrix fovRadians nearDist farDist).nearDist = nearDist
      ∧ (v.setPerspective fl dev viewMatrix fovRadians nearDist farDist).farDist = farDist) := by
  refine ⟨fun h => ?_, fun h => ?_⟩
  · unfold View.setPerspective
    rw [h]
    rfl
  · unfold View.setPerspective
    rw [h]
    exact ⟨rfl, rfl, rfl, rfl⟩

/-- Witness of C18: the sample view with the override set, and the sample view as it is. -/
theorem setPerspective_override_witness :
    (sampleView.setPerspectiveControlActive true).perspectiveControlActive = true
    ∧ (sampleView.setPerspectiveControlActive true).setPerspective sampleFloatOps sampleDevice
        sampleViewMatrix 2 3 4 = sampleView.setPerspectiveControlActive true
    ∧ sampleView.perspectiveControlActive = false
    ∧ (sampleView.setPerspective sampleFloatOps sampleDevice sampleViewMatrix 2 3 4).fovRadians
        = 2 :=
  ⟨rfl,
    (setPerspective_override sampleFloatOps sampleDevice
      (sampleView.setPerspectiveControlActive true) sampleViewMatrix 2 3 4).1 rfl,
    rfl,
    ((setPerspective_override sampleFloatOps sampleDevice sampleView sampleViewMatrix
      2 3 4).2 rfl).2.1⟩

end Camera

section FrameEnd
variable {F : Type}

theorem frameCount_record (rc : Recording F) (cs : List (Command F)) :
    (rc.record cs).view.frameCount = rc.view.frameCount := rfl

theorem frameCount_resetPipeline (rc : Recording F) :
    rc.resetPipeline.view.frameCount = rc.view.frameCount := rfl

theorem frameCount_resetScissor (dev : Device F) (rc : Recording F) :
    (rc.resetScissor dev).view.frameCount = rc.view.frameCount := rfl

theorem frameCount_resetViewport (dev : Device F) (rc : Recording F) :
    (rc.resetViewport dev).view.frameCount = rc.view.frameCount := rfl

theorem frameCount_applyScissor (dev : Device F) (rc : Recording F) (rect : D3D12_RECT) :
    (rc.applyScissor dev rect).view.frameCount = rc.view.frameCount := by
  unfold Recording.applyScissor
  split
  · rfl
  · split <;> rfl

theorem frameCount_applyViewport (fl : FloatOps F) (dev : Device F) (rc : Recording F)
    (viewport : D3D12_VIEWPORT F) :
    (rc.applyViewport fl dev viewport).view.frameCount = rc.view.frameCount := by
  unfold Recording.applyViewport
  split
  · rfl
  · split <;> rfl

theorem frameCount_drawInstance (fl : FloatOps F) (dev : Device F) (base : Nat) (flag : Bool)
    (rc : Recording F) (j : Nat) (r : RenderInstance F) :
    (rc.drawInstance fl dev base flag j r).view.frameCount = rc.view.frameCount := by
  unfold Recording.drawInstance
  dsimp only
  rw [frameCount_record]
  split
  · rw [frameCount_applyViewport, frameCount_applyScissor]
  · rfl

theorem frameCount_drawLoop (fl : FloatOps F) (dev : Device F) (base : Nat) (flag : Bool)
    (l : List (RenderInstance F)) :
    ∀ (j : Nat) (rc : Recording F),
      (Recording.drawLoop fl dev base flag l j rc).view.frameCount = rc.view.frameCount := by
  induction l with
  | nil => intro j rc; rfl
  | cons r rs ih =>
    intro j rc
    rw [Recording.drawLoop, ih, frameCount_drawInstance]

theorem frameCount_drawInstances (fl : FloatOps F) (dev : Device F) (rc : Recording F)
    (l : List (RenderInstance F)) (base : Nat) (flag : Bool) :
    (rc.drawInstances fl dev l base flag).view.frameCount = rc.view.frameCount := by
  unfold Recording.drawInstances
  dsimp only
  rw [frameCount_drawLoop, frameCount_record]

theorem frameCount_rasterBackground (fl : FloatOps F) (dev : Device F) (rc rc' : Recording F)
    (h : rc.rasterBackground fl dev = .ok rc') : rc'.view.frameCount = rc.view.frameCount := by
  dsimp only [Recording.rasterBackground] at h
  split at h
  · cases h
  · cases h
    simp only [frameCount_record, frameCount_drawInstances, frameCount_resetViewport,
      frameCount_resetScissor, frameCount_resetPipeline]

theorem frameCount_updateViewParamsBuffer (fl : FloatOps F) (dev : Device F) (v v' : View F)
    (h : v.updateViewParamsBuffer fl dev = .ok v') : v'.frameCount = v.frameCount := by
  dsimp only [View.updateViewParamsBuffer] at h
  split at h
  · cases h
  · split at h
    · cases h
    · split at h
      · cases h
      · cases h
        unfold View.capturePreviousViewProj
        split <;> rfl

theorem frameCount_denoiseStep (dev : Device F) (rc : Recording F) :
    (rc.denoiseStep dev).view.frameCount = rc.view.frameCount := by
  unfold Recording.denoiseStep
  split <;> rfl

theorem frameCount_raytrace (fl : FloatOps F) (dev : Device F) (rc rc' : Recording F)
    (first : RenderInstance F) (h : rc.raytrace fl dev first = .ok rc') :
    rc'.view.frameCount = rc.view.frameCount := by
  dsimp only [Recording.raytrace] at h
  split at h
  · cases h
  · rename_i w hw
    have e := frameCount_updateViewParamsBuffer fl dev _ _ hw
    split at h
    · cases h
    · split at h
      · cases h
      · cases h
        simp only [frameCount_record, frameCount_applyViewport, frameCount_applyScissor,
          frameCount_denoiseStep]
        exact e

theorem frameCount_rasterForeground (fl : FloatOps F) (dev : Device F) (rc : Recording F) :
    (rc.rasterForeground fl dev).view.frameCount = rc.view.frameCount := by
  unfold Recording.rasterForeground
  dsimp only
  rw [frameCount_drawInstances, frameCount_resetViewport, frameCount_resetScissor,
    frameCount_resetPipeline]

/-- C20, as amended. A completed `View::render` on a view whose descriptor heap exists
ends the frame: `viewParamsBufferUpdatedThisFrame` and `rtHitInstanceIdReadbackUpdated`
are false afterwards and the frame counter is the previous one plus one, as a 32-bit
unsigned number. On a view whose descriptor heap is still null, as it is while the scene
has always been empty, `render` returns at once: it issues no call and leaves the view,
its two flags and its frame counter as they were. -/
theorem render_ends_frame (fl : FloatOps F) (dev : Device F) (v : View F) (rc : Recording F)
    (h : v.render fl dev = .ok rc) :
    (v.descriptorHeap ≠ 0 →
      rc.view.viewParamsBufferUpdatedThisFrame = false
      ∧ rc.view.rtHitInstanceIdReadbackUpdated = false
      ∧ rc.view.frameCount = toUInt32 (v.frameCount + 1)
      ∧ (v.frameCount + 1 < 4294967296 → rc.view.frameCount = v.frameCount + 1))
    ∧ (v.descriptorHeap = 0 → rc.view = v ∧ rc.commands = []) := by
  refine ⟨fun hheap => ?_, fun hnull => ?_⟩
  · dsimp only [View.render] at h
    rw [if_neg hheap] at h
    split at h
    · cases h
    · rename_i rc1 h1
      have e1 := frameCount_rasterBackground fl dev _ _ h1
      split at h
      · cases h
      · rename_i rc2 h2
        have e2 : rc2.view.frameCount = rc1.view.frameCount := by
          split at h2
          · exact frameCount_raytrace fl dev _ _ _ h2
          · cases h2
            rfl
        have e3 := frameCount_rasterForeground fl dev rc2
        cases h
        have e : (rc2.rasterForeground fl dev).view.endFrame.frameCount
            = toUInt32 (v.frameCount + 1) := by
          show toUInt32 ((rc2.rasterForeground fl dev).view.frameCount + 1) = _
          rw [e3, e2, e1]
        refine ⟨rfl, rfl, e, fun hlt => ?_⟩
        rw [e]
        exact toUInt32_of_lt hlt
  · dsimp only [View.render] at h
    rw [if_pos hnull] at h
    cases h
    exact ⟨rfl, rfl⟩

/-- Witness of C20: the sample view after its update, rendered on the sample device. -/
theorem render_ends_frame_witness :
    sampleUpdated.render sampleFloatOps sampleDevice
      = .ok (okOr { view := sampleView, commands := [] }
          (sampleUpdated.render sampleFloatOps sampleDevice))
    ∧ sampleUpdated.descriptorHeap ≠ 0
    ∧ (okOr { view := sampleView, commands := [] }
          (sampleUpdated.render sampleFloatOps sampleDevice)).view.frameCount
        = sampleUpdated.frameCount + 1 :=
  ⟨rfl, by decide,
    ((render_ends_frame sampleFloatOps sampleDevice sampleUpdated _ rfl).1
      (by decide)).2.2.2 (by decide)⟩

/-- Counterexample to C20 as stated: a view is constructed and updated on an empty scene,
a call of `getRaytracedInstanceAt` sets `rtHitInstanceIdReadbackUpdated`, and `render`
then returns at once because the descriptor heap is null: the flag is still set and the
frame counter is still 0. -/
theorem render_idle_view_untouched :
    View.new sampleFloatOps sampleDevice sampleView = .ok sampleNew
    ∧ sampleNew.update sampleHeader sampleFloatOps sampleDevice sampleEmptyScene
        = .ok sampleIdle
    ∧ sampleIdlePicked.rtHitInstanceIdReadbackUpdated = true
    ∧ sampleIdlePicked.frameCount = 0
    ∧ sampleIdlePicked.render sampleFloatOps sampleDevice
        = .ok { view := sampleIdlePicked, commands := [] }
    ∧ (okOr { view := sampleView, commands := [] }
          (sampleIdlePicked.render sampleFloatOps sampleDevice)).view.frameCount
        ≠ sampleIdlePicked.frameCount + 1
    ∧ View.rtHitInstanceIdReadbackUpdated
          (okOr { view := sampleView, commands := [] }
            (sampleIdlePicked.render sampleFloatOps sampleDevice)).view ≠ false := by
  refine ⟨rfl, rfl, ?_, ?_, ?_, ?_, ?_⟩
  · with_unfolding_all decide
  · with_unfolding_all decide
  · with_unfolding_all rfl
  · with_unfolding_all decide
  · with_unfolding_all decide

end FrameEnd

section CameraRoundTrip
variable {F : Type}

theorem getViewPosition_eq (fl : FloatOps F) (v : View F) :
    v.getViewPosition fl = cameraPosition fl v.viewParamsBufferData.viewI := rfl

theorem getViewDirection_eq (fl : FloatOps F) (v : View F) :
    v.getViewDirection fl = cameraDirection fl v.viewParamsBufferData.viewI := rfl

theorem updateViewParamsBuffer_viewI (fl : FloatOps F) (dev : Device F) (v v' : View F)
    (h : v.updateViewParamsBuffer fl dev = .ok v') :
    v'.viewParamsBufferData.viewI = fl.XMMatrixInverse v.viewParamsBufferData.view := by
  dsimp only [View.updateViewParamsBuffer] at h
  split at h
  · cases h
  · split at h
    · cases h
    · split at h
      · cases h
      · cases h
        unfold View.capturePreviousViewProj
        split <;> rfl

/-- C19, as amended. With the perspective-control override inactive, `setPerspective`
does not touch the inverse view matrix: `getViewPosition` and `getViewDirection` called
right after it return what they returned before it. Once `updateViewParamsBuffer` has run
after `setPerspective(V, ...)`, as it does in `render`, they return the image of the
origin under the inverse of `V` and the normalised image of (0, 0, 1, 0) under the
inverse of `V`. -/
theorem setPerspective_round_trip (fl : FloatOps F) (dev : Device F) (v : View F)
    (V : RT64_MATRIX4 F) (fovRadians nearDist farDist : F)
    (hov : v.perspectiveControlActive = false) :
    (v.setPerspective fl dev V fovRadians nearDist farDist).getViewPosition fl
        = v.getViewPosition fl
    ∧ (v.setPerspective fl dev V fovRadians nearDist farDist).getViewDirection fl
        = v.getViewDirection fl
    ∧ ∀ v', (v.setPerspective fl dev V fovRadians nearDist farDist).updateViewParamsBuffer
          fl dev = .ok v' →
        v'.getViewPosition fl = cameraPosition fl (fl.XMMatrixInverse (XMMatrixSet V.m))
        ∧ v'.getViewDirection fl
            = cameraDirection fl (fl.XMMatrixInverse (XMMatrixSet V.m)) := by
  refine ⟨?_, ?_, ?_⟩
  · unfold View.setPerspective
    rw [hov]
    rfl
  · unfold View.setPerspective
    rw [hov]
    rfl
  · intro v' h
    have e := updateViewParamsBuffer_viewI fl dev _ v' h
    have ev : (v.setPerspective fl dev V fovRadians nearDist farDist).viewParamsBufferData.view
        = XMMatrixSet V.m := by
      unfold View.setPerspective
      rw [hov]
      rfl
    rw [ev] at e
    rw [getViewPosition_eq, getViewDirection_eq, e]
    exact ⟨rfl, rfl⟩

/-- Witness of C19: the sample view, whose view matrix is set to the identity and whose
view parameters are then refreshed. -/
theorem setPerspective_round_trip_witness :
    sampleView.perspectiveControlActive = false
    ∧ (sampleView.setPerspective sampleFloatOps sampleDevice { m := sampleIdentity.r } 1 1 100
        ).getViewPosition sampleFloatOps = sampleView.getViewPosition sampleFloatOps :=
  ⟨rfl, (setPerspective_round_trip sampleFloatOps sampleDevice sampleView
    { m := sampleIdentity.r } 1 1 100 rfl).1⟩

/-- Counterexample to C19 as stated: the sample view holds the identity as inverse view
matrix; `setPerspective` is called with the view matrix of a camera moved by one unit along
x, whose inverse maps the origin to (-1, 0, 0); `getViewPosition`, called right after,
returns (0, 0, 0). -/
theorem getViewPosition_stale :
    sampleView.perspectiveControlActive = false
    ∧ (∀ i j, (matrixTimesMatrix (XMMatrixSet sampleViewMatrix.m) sampleViewMatrixInverse).r i j
        = sampleIdentity.r i j)
    ∧ (∀ i j, (matrixTimesMatrix sampleViewMatrixInverse (XMMatrixSet sampleViewMatrix.m)).r i j
        = sampleIdentity.r i j)
    ∧ vectorTimesMatrix (XMVectorSet 0 0 0 1) sampleViewMatrixInverse 0 = -1
    ∧ (sampleMoved.getViewPosition sampleFloatOps).x = 0
    ∧ (sampleMoved.getViewPosition sampleFloatOps).x
        ≠ vectorTimesMatrix (XMVectorSet 0 0 0 1) sampleViewMatrixInverse 0 := by
  refine ⟨rfl, ?_, ?_, ?_, ?_, ?_⟩ <;> with_unfolding_all decide

end CameraRoundTrip

section Order
variable {F : Type}

/-- C28. After a completed `View::update`, each bucket lists, in the order of the scene's
instance list, exactly the instances selected by its rule: the raytraced bucket those whose
mesh has a bottom-level structure, the background bucket the others that carry the
background flag, the foreground bucket the rest. Each bucket is therefore a subsequence of
the scene list, and two instances that follow one another in a bucket follow one another
in the same order in the scene list. -/
theorem update_preserves_order (hdr : PublicHeader) (fl : FloatOps F) (dev : Device F)
    (scene : Scene F) (v v' : View F) (h : v.update hdr fl dev scene = .ok v') :
    (v'.rtInstances.map (fun r => r.instance_) = scene.instances.filter Instance.hasStructure
      ∧ v'.rasterBgInstances.map (fun r => r.instance_)
          = scene.instances.filter (fun i => !i.hasStructure && i.isBackground hdr)
      ∧ v'.rasterFgInstances.map (fun r => r.instance_)
          = scene.instances.filter (fun i => !i.hasStructure && !i.isBackground hdr))
    ∧ ∀ bucket ∈ [v'.rtInstances, v'.rasterBgInstances, v'.rasterFgInstances],
        (bucket.map (fun r => r.instance_)).Sublist scene.instances
        ∧ ∀ a b : Instance F, [a, b].Sublist (bucket.map (fun r => r.instance_)) →
            [a, b].Sublist scene.instances := by
  obtain ⟨hrt, hbg, hfg⟩ := update_ok_buckets hdr fl dev scene v v' h
  refine ⟨⟨hrt, hbg, hfg⟩, ?_⟩
  have key : ∀ (bucket : List (RenderInstance F)) (p : Instance F → Bool),
      bucket.map (fun r => r.instance_) = scene.instances.filter p →
      (bucket.map (fun r => r.instance_)).Sublist scene.instances
        ∧ ∀ a b : Instance F, [a, b].Sublist (bucket.map (fun r => r.instance_)) →
            [a, b].Sublist scene.instances := by
    intro bucket p hp
    have hs : (bucket.map (fun r => r.instance_)).Sublist scene.instances := by
      rw [hp]
      exact List.filter_sublist _
    exact ⟨hs, fun a b hab => hab.trans hs⟩
  intro bucket hb
  simp only [List.mem_cons, List.mem_singleton, List.not_mem_nil, or_false] at hb
  rcases hb with hb | hb | hb
  · rw [hb]
    exact key _ _ hrt
  · rw [hb]
    exact key _ _ hbg
  · rw [hb]
    exact key _ _ hfg

/-- Witness of C28: the update of the sample view on the sample scene. -/
theorem update_preserves_order_witness :
    sampleView.update sampleHeader sampleFloatOps sampleDevice sampleScene = .ok sampleUpdated
    ∧ (sampleUpdated.rasterFgInstances.map (fun r => r.instance_)).Sublist
        sampleScene.instances :=
  ⟨rfl,
    ((update_preserves_order sampleHeader sampleFloatOps sampleDevice sampleScene sampleView
      sampleUpdated rfl).2 sampleUpdated.rasterFgInstances (by simp)).1⟩

end Order

section TextureCapacity
variable {F : Type}

theorem updateScale_reliable (fl : FloatOps F) (dev : Device F) (v : View F)
    (hd : dev.Reliable) : ∃ v1, v.updateScale fl dev = .ok v1 := by
  unfold View.updateScale
  split
  · obtain ⟨heap, hh⟩ := hd.rtvHeap
    dsimp only
    unfold View.createOutputBuffers
    rw [hh]
    exact ⟨_, rfl⟩
  · exact ⟨v, rfl⟩

theorem createTopLevelAS_reliable (dev : Device F) (v : View F) (l : List (RenderInstance F))
    (hd : dev.Reliable) : ∃ v2, v.createTopLevelAS dev l = .ok v2 := by
  dsimp only [View.createTopLevelAS]
  rw [hd.topLevelAS]
  exact ⟨_, rfl⟩

theorem createComposeHeap_reliable (dev : Device F) (v : View F) (hd : dev.Reliable) :
    ∃ v3, v.createComposeHeap dev = .ok v3 := by
  dsimp only [View.createComposeHeap]
  by_cases hc : v.composeHeap = 0
  · obtain ⟨heap, hh, hne⟩ := hd.descriptorHeap 1
    rw [if_pos hc, hh]
    dsimp only
    rw [if_neg hne]
    exact ⟨_, rfl⟩
  · rw [if_neg hc]
    dsimp only
    rw [if_neg hc]
    exact ⟨_, rfl⟩

theorem textureDescriptors_fault (dev : Device F) (l : List Ptr) :
    ∀ slot e, textureDescriptors dev l slot = .error e → e = .nullDereference := by
  induction l with
  | nil =>
    intro slot e h
    cases h
  | cons t ts ih =>
    intro slot e h
    rw [textureDescriptors] at h
    split at h
    · cases h
      rfl
    · split at h
      · rename_i e' he
        cases h
        exact ih _ _ he
      · cases h

theorem heapDescriptors_fault (hdr : PublicHeader) (dev : Device F) (scene : Scene F)
    (v : View F) (e : Fault) (h : v.heapDescriptors hdr dev scene = .error e) :
    e = .nullDereference := by
  dsimp only [View.heapDescriptors] at h
  split at h
  · cases h
    rfl
  · split at h
    · cases h
      rfl
    · split at h
      · rename_i e' he
        cases h
        exact textureDescriptors_fault dev _ _ _ he
      · cases h

/-- On a device whose calls do not fail, `createShaderResourceHeap` ends with the failed
assertion exactly when the texture list has more than 1024 entries. -/
theorem createShaderResourceHeap_assertion (hdr : PublicHeader) (dev : Device F)
    (scene : Scene F) (v : View F) (hd : dev.Reliable) :
    v.createShaderResourceHeap hdr dev scene = .error .assertion ↔ 1024 < v.usedTextures.length := by
  dsimp only [View.createShaderResourceHeap]
  by_cases hlen : v.usedTextures.length ≤ 1024
  · rw [if_neg (by simpa using hlen)]
    have hgrow : ∃ w, v.growDescriptorHeap dev = .ok w := by
      dsimp only [View.growDescriptorHeap]
      split
      · obtain ⟨heap, hh, _⟩ := hd.descriptorHeap v.entryCount
        rw [hh]
        exact ⟨_, rfl⟩
      · exact ⟨v, rfl⟩
    obtain ⟨w, hw⟩ := hgrow
    rw [hw]
    dsimp only
    constructor
    · intro h
      split at h
      · rename_i e he
        have := heapDescriptors_fault hdr dev scene w e he
        rw [this] at h
        cases h
      · rename_i writes _
        obtain ⟨v3, h3⟩ := createComposeHeap_reliable dev { w with descriptorWrites := writes } hd
        rw [h3] at h
        cases h
    · intro h
      omega
  · rw [if_pos (by simpa using hlen)]
    exact ⟨fun _ => by omega, fun _ => rfl⟩

theorem dedup_length_le {α : Type} [DecidableEq α] (l : List α) : l.dedup.length ≤ l.length :=
  (List.dedup_sublist l).length_le

/-- C25. On a device whose calls do not fail, `View::update` on a non-empty scene ends with
the failed texture-capacity assertion exactly when the instances of the scene refer to more
than 1024 textures in all, counting for each instance its diffuse texture, its normal
texture when present and its specular texture when present; the texture list checked is
the full list of these references, and a scene that refers to more than 1024 distinct
textures fails the assertion. -/
theorem update_texture_assertion (hdr : PublicHeader) (fl : FloatOps F) (dev : Device F)
    (scene : Scene F) (v : View F) (hd : dev.Reliable) (hne : scene.instances ≠ []) :
    (v.update hdr fl dev scene = .error .assertion
        ↔ 1024 < (scene.instances.map Instance.textureCount).sum)
    ∧ (∀ v', v.update hdr fl dev scene = .ok v' →
        v'.usedTextures = scene.instances.flatMap Instance.textures
        ∧ v'.usedTextures.length = (scene.instances.map Instance.textureCount).sum)
    ∧ (1024 < (scene.instances.flatMap Instance.textures).dedup.length →
        v.update hdr fl dev scene = .error .assertion) := by
  have hiff : v.update hdr fl dev scene = .error .assertion
      ↔ 1024 < (scene.instances.map Instance.textureCount).sum := by
    obtain ⟨v1, h1⟩ := updateScale_reliable fl dev v hd
    dsimp only [View.update]
    rw [h1]
    dsimp only
    have he : ¬ scene.instances.isEmpty = true := by
      intro h0
      exact hne (List.isEmpty_iff.1 h0)
    rw [if_neg he]
    obtain ⟨_, _, _, utex⟩ := updateInstances_spec hdr fl dev scene v1
    have hbuilt : ∃ v2, (if (v1.updateInstances hdr fl dev scene).rtInstances.isEmpty then
          Except.ok (v1.updateInstances hdr fl dev scene)
        else (v1.updateInstances hdr fl dev scene).createTopLevelAS dev
          (v1.updateInstances hdr fl dev scene).rtInstances) = .ok v2
        ∧ (v1.updateInstances hdr fl dev scene).SameBuckets v2 := by
      split
      · exact ⟨_, rfl, View.SameBuckets.refl _⟩
      · obtain ⟨v2, h2⟩ := createTopLevelAS_reliable dev (v1.updateInstances hdr fl dev scene)
          (v1.updateInstances hdr fl dev scene).rtInstances hd
        exact ⟨v2, h2, createTopLevelAS_sameBuckets dev _ _ _ h2⟩
    obtain ⟨v2, h2, s2⟩ := hbuilt
    rw [h2]
    dsimp only
    have s3 := createInstancePropertiesBuffer_sameBuckets hdr dev v2
    have t3 : (v2.createInstancePropertiesBuffer hdr dev).usedTextures.length
        = (scene.instances.map Instance.textureCount).sum := by
      rw [s3.2.2.2, s2.2.2.2, utex, length_flatMap_textures]
    have ha := createShaderResourceHeap_assertion hdr dev scene
      (v2.createInstancePropertiesBuffer hdr dev) hd
    rw [t3] at ha
    constructor
    · intro h
      split at h
      · rename_i e he
        cases h
        exact ha.1 he
      · rename_i v3 h3
        exfalso
        split at h
        · rename_i e he
          cases h
          dsimp only [View.createShaderBindingTable] at he
          split at he
          · cases he
          · rw [hd.bindingTable] at he
            cases he
        · rename_i v4 h4
          dsimp only [View.updateInstancePropertiesBuffer] at h
          split at h
          · cases h
          · rw [hd.map] at h
            cases h
    · intro h
      rw [ha.2 h]
  refine ⟨hiff, ?_, ?_⟩
  · intro v' h
    have ht := update_ok_usedTextures hdr fl dev scene v v' h hne
    exact ⟨ht, by rw [ht, length_flatMap_textures]⟩
  · intro hdist
    apply hiff.2
    have hle := dedup_length_le (scene.instances.flatMap Instance.textures)
    rw [length_flatMap_textures] at hle
    omega

theorem sampleDevice_reliable : sampleDevice.Reliable where
  rtvHeap := ⟨_, rfl⟩
  descriptorHeap count := ⟨_, rfl, by simp⟩
  buffer resource size := by
    show 1000 + size ≠ 0
    omega
  topLevelAS _ _ _ _ := rfl
  bindingTable _ _ := rfl
  map := rfl

theorem sampleCrowdedScene_ne : sampleCrowdedScene.instances ≠ [] := by
  intro h
  have hl := congrArg List.length h
  rw [show sampleCrowdedScene.instances = List.replicate 342 (sampleInstance 1 0 11 12 14 1)
    from rfl, List.length_replicate] at hl
  exact absurd hl (by decide)

theorem sampleCrowdedScene_sum :
    (sampleCrowdedScene.instances.map Instance.textureCount).sum = 1026 := by
  rw [show sampleCrowdedScene.instances = List.replicate 342 (sampleInstance 1 0 11 12 14 1)
    from rfl, List.map_replicate, List.sum_replicate]
  rfl

/-- Witness of C25: the update of the sample view on a scene of 342 instances with three
textures each fails the assertion. -/
theorem update_texture_assertion_witness :
    sampleCrowdedScene.instances ≠ []
    ∧ (sampleCrowdedScene.instances.map Instance.textureCount).sum = 1026
    ∧ sampleView.update sampleHeader sampleFloatOps sampleDevice sampleCrowdedScene
        = .error .assertion :=
  ⟨sampleCrowdedScene_ne, sampleCrowdedScene_sum,
    (update_texture_assertion sampleHeader sampleFloatOps sampleDevice sampleCrowdedScene
      sampleView sampleDevice_reliable sampleCrowdedScene_ne).1.2
      (by rw [sampleCrowdedScene_sum]; decide)⟩

end TextureCapacity

section Readback
variable {F : Type}

theorem linear_index_bounds (w h x y : Int) (hx0 : 0 ≤ x) (hx : x < w) (hy0 : 0 ≤ y)
    (hy : y < h) : 0 ≤ w * y + x ∧ w * y + x + 1 ≤ w * h := by
  have hw : 0 ≤ w := by omega
  constructor
  · have := mul_nonneg hw hy0
    omega
  · have h1 : w * (y + 1) ≤ w * h := mul_le_mul_of_nonneg_left (by omega) hw
    have h2 : w * (y + 1) = w * y + w := by ring
    omega

theorem linear_index_injective (w x1 y1 x2 y2 : Int) (hx1 : 0 ≤ x1) (hx1w : x1 < w)
    (hx2 : 0 ≤ x2) (hx2w : x2 < w) (h : w * y1 + x1 = w * y2 + x2) : x1 = x2 ∧ y1 = y2 := by
  have hw : 0 < w := by omega
  have hy : y1 = y2 := by
    rcases lt_trichotomy y1 y2 with hlt | heq | hgt
    · exfalso
      have h1 : w * (y1 + 1) ≤ w * y2 := mul_le_mul_of_nonneg_left (by omega) (by omega)
      have h2 : w * (y1 + 1) = w * y1 + w := by ring
      omega
    · exact heq
    · exfalso
      have h1 : w * (y2 + 1) ≤ w * y1 := mul_le_mul_of_nonneg_left (by omega) (by omega)
      have h2 : w * (y2 + 1) = w * y2 + w := by ring
      omega
  subst hy
  exact ⟨by omega, rfl⟩

theorem readbackOffset_eq (v : View F) (p : Int × Int) (hin : v.inBounds p)
    (hrange : v.rtWidth * v.rtHeight * 2 < 2147483648) :
    (v.readbackOffset p : Int) = (v.rtWidth * p.2 + p.1) * 2
    ∧ (v.readbackSize : Int) = v.rtWidth * v.rtHeight * 2 := by
  unfold View.inBounds at hin
  have hb := linear_index_bounds v.rtWidth v.rtHeight p.1 p.2 (by omega) (by omega) (by omega)
    (by omega)
  have h0 : 0 ≤ (v.rtWidth * p.2 + p.1) * 2 := by omega
  have h1 : (v.rtWidth * p.2 + p.1) * 2 < 2147483648 := by omega
  have hsz : 0 ≤ v.rtWidth * v.rtHeight := by omega
  unfold View.readbackOffset View.readbackSize intToUInt64 toInt32 toUInt64
  constructor
  · rw [Int.emod_eq_of_lt h0 (by omega), if_pos h1, Int.emod_eq_of_lt h0 (by omega)]
    exact Int.toNat_of_nonneg h0
  · rw [Int.emod_eq_of_lt hsz (by omega)]
    have h2 : (v.rtWidth * v.rtHeight).toNat * 2 < 18446744073709551616 := by omega
    rw [Nat.mod_eq_of_lt h2]
    push_cast
    rw [Int.toNat_of_nonneg hsz]

/-- C29. After `createOutputBuffers` the read-back buffer is the one requested with
`rtWidth * rtHeight * 2` bytes, and, as long as that product is in the range of `int`,
the two bytes `getRaytracedInstanceAt` reads for a position that passes its bounds check,
at the offset `(rtWidth * y + x) * 2`, end within the buffer; two different positions that
pass the check read byte ranges that do not overlap. -/
theorem readback_in_range (fl : FloatOps F) (dev : Device F) (v v' : View F)
    (h : v.createOutputBuffers fl dev = .ok v')
    (hrange : v'.rtWidth * v'.rtHeight * 2 < 2147483648) :
    (Resource.rtHitInstanceIdReadback, v'.readbackSize) ∈ v'.allocations
    ∧ v'.rtHitInstanceIdReadback = dev.allocateBuffer .rtHitInstanceIdReadback v'.readbackSize
    ∧ (∀ p, v'.inBounds p → v'.readbackOffset p + 2 ≤ v'.readbackSize)
    ∧ (∀ p q, v'.inBounds p → v'.inBounds q → p ≠ q →
        v'.readbackOffset p + 2 ≤ v'.readbackOffset q
        ∨ v'.readbackOffset q + 2 ≤ v'.readbackOffset p)
    ∧ (∀ (dev2 : Device F) p,
        v'.readbackId dev2 p = dev2.readbackInstanceId (v'.readbackOffset p) % 65536) := by
  refine ⟨?_, ?_, ?_, ?_, fun _ _ => rfl⟩
  · dsimp only [View.createOutputBuffers] at h
    split at h
    · cases h
    · cases h
      simp [View.readbackSize]
  · dsimp only [View.createOutputBuffers] at h
    split at h
    · cases h
    · cases h
      rfl
  · intro p hin
    obtain ⟨ho, hs⟩ := readbackOffset_eq v' p hin hrange
    unfold View.inBounds at hin
    have hb := linear_index_bounds v'.rtWidth v'.rtHeight p.1 p.2 (by omega) (by omega)
      (by omega) (by omega)
    have : (v'.readbackOffset p : Int) + 2 ≤ v'.readbackSize := by
      rw [ho, hs]
      omega
    exact_mod_cast this
  · intro p q hp hq hpq
    obtain ⟨hop, _⟩ := readbackOffset_eq v' p hp hrange
    obtain ⟨hoq, _⟩ := readbackOffset_eq v' q hq hrange
    unfold View.inBounds at hp hq
    have hne : v'.rtWidth * p.2 + p.1 ≠ v'.rtWidth * q.2 + q.1 := by
      intro he
      obtain ⟨e1, e2⟩ := linear_index_injective v'.rtWidth p.1 p.2 q.1 q.2 (by omega)
        (by omega) (by omega) (by omega) he
      exact hpq (Prod.ext e1 e2)
    have : (v'.readbackOffset p : Int) + 2 ≤ v'.readbackOffset q
        ∨ (v'.readbackOffset q : Int) + 2 ≤ v'.readbackOffset p := by
      rw [hop, hoq]
      omega
    rcases this with h1 | h1
    · left
      exact_mod_cast h1
    · right
      exact_mod_cast h1

/-- Witness of C29: the output buffers of the sample view, 640 by 480 positions, and the
last position of the last row. -/
theorem readback_in_range_witness :
    sampleView.createOutputBuffers sampleFloatOps sampleDevice = .ok sampleOutput
    ∧ sampleOutput.rtWidth * sampleOutput.rtHeight * 2 < 2147483648
    ∧ sampleOutput.inBounds (639, 479)
    ∧ sampleOutput.readbackOffset (639, 479) + 2 ≤ sampleOutput.readbackSize := by
  have hsize : sampleOutput.rtWidth * sampleOutput.rtHeight * 2 < 2147483648 := by
    with_unfolding_all decide
  have hin : sampleOutput.inBounds (639, 479) := by
    unfold View.inBounds
    with_unfolding_all decide
  exact ⟨rfl, hsize, hin,
    (readback_in_range sampleFloatOps sampleDevice sampleView sampleOutput rfl hsize).2.2.1
      _ hin⟩

end Readback

section DescriptorSlots
variable {F : Type}

theorem createTextures_eq (dev : Device F) (l : List Ptr) :
    ∀ c : HeapCursor, HeapCursor.createTextures dev l c
      = match textureDescriptors dev l c.handle with
        | .error e => .error e
        | .ok ws => .ok { writes := c.writes ++ ws, handle := c.handle + l.length } := by
  induction l with
  | nil =>
    intro c
    simp [HeapCursor.createTextures, textureDescriptors]
  | cons t ts ih =>
    intro c
    rw [HeapCursor.createTextures, textureDescriptors]
    by_cases ht : t = 0
    · rw [if_pos ht, if_pos ht]
    · rw [if_neg ht, if_neg ht, ih]
      dsimp only [HeapCursor.create, HeapCursor.advance]
      cases textureDescriptors dev ts (c.handle + 1) with
      | error e => rfl
      | ok ws =>
        dsimp only
        rw [List.append_assoc, List.length_cons]
        simp only [List.singleton_append, Except.ok.injEq, HeapCursor.mk.injEq, true_and]
        omega

/-- The statement-by-statement population writes the descriptors of `heapDescriptors`
and leaves the handle behind the last texture. -/
theorem populateHeap_eq (hdr : PublicHeader) (dev : Device F) (scene : Scene F) (v : View F) :
    v.populateHeap hdr dev scene
      = match v.heapDescriptors hdr dev scene with
        | .error e => .error e
        | .ok ws => .ok { writes := ws, handle := 13 + v.usedTextures.length } := by
  unfold View.populateHeap View.heapDescriptors
  by_cases h1 : v.descriptorHeap = 0
  · rw [if_pos h1, if_pos h1]
  · rw [if_neg h1, if_neg h1]
    dsimp only
    by_cases h2 : v.viewParamBufferResource = 0
    · rw [if_pos h2, if_pos h2]
    · rw [if_neg h2, if_neg h2, createTextures_eq]
      have hh : ∀ c : HeapCursor, c.advance.handle = c.handle + 1 := fun _ => rfl
      by_cases h3 : v.topLevelASBuffers.result ≠ 0 <;> by_cases h4 : scene.lightsCount > 0 <;>
        simp only [h3, h4, if_true, if_false, HeapCursor.create, HeapCursor.advance,
          not_true_eq_false, not_false_eq_true, ne_eq] <;>
        cases textureDescriptors dev v.usedTextures 13 <;> simp

theorem textureDescriptors_mapIdx (dev : Device F) (l : List Ptr) :
    ∀ (slot : Nat) (ws : List (Nat × Descriptor)), textureDescriptors dev l slot = .ok ws →
      ws = l.mapIdx fun i t => (slot + i, Descriptor.srvTexture2D (dev.getTexture t) .R8G8B8A8_UNORM) := by
  induction l with
  | nil =>
    intro slot ws h
    rw [textureDescriptors] at h
    cases h
    rfl
  | cons t ts ih =>
    intro slot ws h
    rw [textureDescriptors] at h
    split at h
    · cases h
    · split at h
      · cases h
      · rename_i ws' hws
        cases h
        rw [List.mapIdx_cons, ih _ _ hws]
        simp only [Nat.add_zero, List.cons.injEq, true_and]
        apply mapIdx_congr_of_lt
        intro i _ a
        rw [Nat.add_assoc, Nat.add_comm 1 i]

/-- C21. A completed `createShaderResourceHeap` has created the descriptors and advanced
the handle as follows: one descriptor and one advance for each of `gOutput`, `gAlbedo`,
`gNormal`, `gHitDistance`, `gHitColor`, `gHitNormal`, `gHitSpecular`, `gHitInstanceId` and
`gBackground`, in this order from slot 0; one advance for `SceneBVH`, with a descriptor
only when the view holds a top-level result buffer; the view parameters at slot 10; one
advance for `SceneLights`, with a descriptor only when the scene has lights; the instance
properties at slot 12; and `usedTextures[i]` at slot `13 + i`. The handle ends at the
required entry count, which the heap holds. -/
theorem createShaderResourceHeap_slots (hdr : PublicHeader) (dev : Device F)
    (scene : Scene F) (v v' : View F)
    (h : v.createShaderResourceHeap hdr dev scene = .ok v') :
    ∃ c : HeapCursor, v'.populateHeap hdr dev scene = .ok c
      ∧ c.writes = v'.descriptorWrites
      ∧ c.writes = v'.outputDescriptors
          ++ (if v'.topLevelASBuffers.result ≠ 0 then
                [(HeapIndices.SceneBVH.toNat,
                  .srvAccelerationStructure (dev.gpuVirtualAddress v'.topLevelASBuffers.result))]
              else [])
          ++ [(HeapIndices.ViewParams.toNat,
                .cbv (dev.gpuVirtualAddress v'.viewParamBufferResource) v'.viewParamsBufferSize)]
          ++ (if scene.lightsCount > 0 then
                [(HeapIndices.SceneLights.toNat,
                  .srvBuffer scene.lightsBuffer (toUInt32 scene.lightsCount) hdr.sizeofLight)]
              else [])
          ++ [(HeapIndices.instanceProps.toNat, v'.propsDescriptor hdr)]
          ++ (v'.usedTextures.mapIdx fun i t =>
              (HeapIndices.gTextures.toNat + i,
                Descriptor.srvTexture2D (dev.getTexture t) .R8G8B8A8_UNORM))
      ∧ c.handle = HeapIndices.gTextures.toNat + v'.usedTextures.length
      ∧ c.handle = v'.entryCount
      ∧ v'.entryCount ≤ v'.descriptorHeapEntryCount := by
  obtain ⟨e, hcount, hwrites, _⟩ := createShaderResourceHeap_frame hdr dev scene v v' h
  have hb := createShaderResourceHeap_ok_bound hdr dev scene v v' h
  have ht : v'.usedTextures = v.usedTextures := by rw [e]
  rw [← ht] at hb
  refine ⟨{ writes := v'.descriptorWrites, handle := 13 + v'.usedTextures.length }, ?_, rfl, ?_,
    rfl, ?_, Nat.le_of_not_lt hcount⟩
  · rw [populateHeap_eq, hwrites]
  · dsimp only
    dsimp only [View.heapDescriptors] at hwrites
    split at hwrites
    · cases hwrites
    · split at hwrites
      · cases hwrites
      · split at hwrites
        · cases hwrites
        · rename_i ws hws
          have hm := textureDescriptors_mapIdx dev _ _ _ hws
          injection hwrites with hw
          rw [← hw, hm]
          rfl
  · dsimp only
    rw [entryCount_eq v' hb]

/-- Witness of C21: the heap of the sample view after the sample frame. -/
theorem createShaderResourceHeap_slots_witness :
    sampleUpdated.createShaderResourceHeap sampleHeader sampleDevice sampleScene = .ok sampleHeap
    ∧ ∃ c : HeapCursor, sampleHeap.populateHeap sampleHeader sampleDevice sampleScene = .ok c
      ∧ c.writes = sampleHeap.descriptorWrites
      ∧ c.handle = 13 + 5 := by
  obtain ⟨c, h1, h2, _, h4, _, _⟩ := createShaderResourceHeap_slots sampleHeader sampleDevice
    sampleScene sampleUpdated sampleHeap rfl
  exact ⟨rfl, c, h1, h2, h4⟩

end DescriptorSlots

section SceneBVH
variable {F : Type}

/-- The descriptors a completed update on a non-empty scene leaves in the heap are those of
the population of the heap on the state it returns. -/
theorem update_ok_descriptorWrites (hdr : PublicHeader) (fl : FloatOps F) (dev : Device F)
    (scene : Scene F) (v v' : View F) (h : v.update hdr fl dev scene = .ok v')
    (hne : scene.instances ≠ []) :
    v'.heapDescriptors hdr dev scene = .ok v'.descriptorWrites :=
  (update_ok_settled hdr fl dev scene v v' h hne).1.heapWrites

/-- An update that finds no raytraced instance keeps the top-level buffers it was called
with. -/
theorem update_ok_buffers_kept (hdr : PublicHeader) (fl : FloatOps F) (dev : Device F)
    (scene : Scene F) (v v' : View F) (h : v.update hdr fl dev scene = .ok v')
    (hrt : v'.rtInstances = []) : v'.topLevelASBuffers = v.topLevelASBuffers := by
  obtain ⟨v1, h1, hcase⟩ := update_ok_steps hdr fl dev scene v v' h
  have b1 := (updateScale_frameResources fl dev v v1 h1).1.buffers
  rcases hcase with ⟨_, hv⟩ | ⟨_, v2, v3, v4, h2, h3, h4, h5⟩
  · rw [hv]
    exact b1
  · have e5 := updateInstancePropertiesBuffer_frame fl dev v4 v' h5
    obtain ⟨e4, _⟩ := createShaderBindingTable_frame dev v3 v4 h4
    obtain ⟨e3, _⟩ := createShaderResourceHeap_frame hdr dev scene _ v3 h3
    have e2 := createInstancePropertiesBuffer_frame hdr dev v2
    have r5 : v'.rtInstances = v2.rtInstances := by rw [e5, e4, e3, e2]
    have g : v'.topLevelASBuffers = v2.topLevelASBuffers := by rw [e5, e4, e3, e2]
    have eu : (v1.updateInstances hdr fl dev scene).topLevelASBuffers = v1.topLevelASBuffers := by
      rw [updateInstances_withBuckets hdr fl dev scene v1 v1]
      rfl
    split at h2
    · cases h2
      rw [g, eu, b1]
    · exfalso
      have s2 := createTopLevelAS_sameBuckets dev _ _ _ h2
      rename_i hem
      apply hem
      have e : (v1.updateInstances hdr fl dev scene).rtInstances = v2.rtInstances := by
        first
          | exact s2.1
          | exact s2.1.symm
      rw [e, ← r5, hrt]
      rfl

/-- C22, as amended. After a completed `View::update` on a non-empty scene, the heap holds a
descriptor at the `SceneBVH` slot exactly when the view holds a top-level result buffer,
and the descriptor of the view parameters stands at the next slot either way. A frame
with an empty raytraced bucket keeps the top-level buffers of the view, so it writes no
acceleration-structure descriptor when the view held no result buffer before it, and
writes one when an earlier frame left a result buffer. -/
theorem update_sceneBVH (hdr : PublicHeader) (fl : FloatOps F) (dev : Device F)
    (scene : Scene F) (v v' : View F) (h : v.update hdr fl dev scene = .ok v')
    (hne : scene.instances ≠ []) :
    (∀ d, (HeapIndices.SceneBVH.toNat, d) ∈ v'.descriptorWrites
        ↔ v'.topLevelASBuffers.result ≠ 0
          ∧ d = .srvAccelerationStructure (dev.gpuVirtualAddress v'.topLevelASBuffers.result))
    ∧ (HeapIndices.ViewParams.toNat,
        Descriptor.cbv (dev.gpuVirtualAddress v'.viewParamBufferResource) v'.viewParamsBufferSize)
        ∈ v'.descriptorWrites
    ∧ (v'.rtInstances = [] → v'.topLevelASBuffers = v.topLevelASBuffers)
    ∧ (v'.rtInstances = [] → v.topLevelASBuffers.result = 0 →
        ∀ d, (HeapIndices.SceneBVH.toNat, d) ∉ v'.descriptorWrites)
    ∧ (v'.rtInstances = [] → v.topLevelASBuffers.result ≠ 0 →
        (HeapIndices.SceneBVH.toNat,
          Descriptor.srvAccelerationStructure (dev.gpuVirtualAddress v.topLevelASBuffers.result))
          ∈ v'.descriptorWrites) := by
  have hw := update_ok_descriptorWrites hdr fl dev scene v v' h hne
  have hkeep := update_ok_buffers_kept hdr fl dev scene v v' h
  have hiff : ∀ d, (HeapIndices.SceneBVH.toNat, d) ∈ v'.descriptorWrites
      ↔ v'.topLevelASBuffers.result ≠ 0
        ∧ d = .srvAccelerationStructure (dev.gpuVirtualAddress v'.topLevelASBuffers.result) := by
    intro d
    dsimp only [View.heapDescriptors] at hw
    split at hw
    · cases hw
    · split at hw
      · cases hw
      · split at hw
        · cases hw
        · rename_i ws hws
          have hm := textureDescriptors_mapIdx dev _ _ _ hws
          injection hw with hw
          rw [← hw, hm]
          by_cases h3 : v'.topLevelASBuffers.result ≠ 0 <;>
            by_cases h4 : scene.lightsCount > 0 <;>
            simp [h3, h4, HeapIndices.toNat, List.mem_mapIdx] <;> omega
  have hvp : (HeapIndices.ViewParams.toNat,
      Descriptor.cbv (dev.gpuVirtualAddress v'.viewParamBufferResource) v'.viewParamsBufferSize)
      ∈ v'.descriptorWrites := by
    dsimp only [View.heapDescriptors] at hw
    split at hw
    · cases hw
    · split at hw
      · cases hw
      · split at hw
        · cases hw
        · injection hw with hw
          rw [← hw]
          simp [HeapIndices.toNat]
  refine ⟨hiff, hvp, hkeep, ?_, ?_⟩
  · intro hrt h0 d hd
    have := ((hiff d).1 hd).1
    rw [hkeep hrt] at this
    exact this h0
  · intro hrt h0
    apply (hiff _).2
    rw [hkeep hrt]
    exact ⟨h0, rfl⟩

/-- Witness of C22 as amended: a first frame without raytraced instances writes no
descriptor at the `SceneBVH` slot. -/
theorem update_sceneBVH_witness :
    sampleView.update sampleHeader sampleFloatOps sampleDevice sampleRasterScene
        = .ok sampleRasterFrame
    ∧ sampleRasterScene.instances ≠ []
    ∧ sampleRasterFrame.rtInstances = []
    ∧ sampleView.topLevelASBuffers.result = 0
    ∧ ∀ d, (HeapIndices.SceneBVH.toNat, d) ∉ sampleRasterFrame.descriptorWrites :=
  ⟨rfl, List.cons_ne_nil _ _, rfl, rfl,
    (update_sceneBVH sampleHeader sampleFloatOps sampleDevice sampleRasterScene sampleView
      sampleRasterFrame rfl (List.cons_ne_nil _ _)).2.2.2.1 rfl rfl⟩

/-- Counterexample to C22 as stated: the frame on the scene without raytraced instances
that follows the sample frame has an empty raytraced bucket, and its heap holds an
acceleration-structure descriptor at the `SceneBVH` slot, for the result buffer of the
earlier frame. -/
theorem sceneBVH_written_for_empty_bucket :
    sampleView.update sampleHeader sampleFloatOps sampleDevice sampleScene = .ok sampleUpdated
    ∧ sampleUpdated.rtInstances.length = 1
    ∧ sampleUpdated.update sampleHeader sampleFloatOps sampleDevice sampleRasterScene
        = .ok sampleSecondFrame
    ∧ sampleSecondFrame.rtInstances = []
    ∧ (HeapIndices.SceneBVH.toNat,
        Descriptor.srvAccelerationStructure
          (sampleDevice.gpuVirtualAddress sampleUpdated.topLevelASBuffers.result))
        ∈ sampleSecondFrame.descriptorWrites :=
  ⟨rfl, rfl, rfl, rfl, by decide⟩

end SceneBVH

section Faults
variable {F : Type}

/-- The three exported functions of the device module catch a `std::runtime_error` of
their body: they return to the host, with the null result, and leave the message in
`GlobalLastError`. -/
theorem device_exports_catch (what : String) (devicePtr : Ptr) (h : devicePtr ≠ 0) :
    RT64_CreateDevice what (.error .runtimeError) = .ok { value := 0, lastError := some what }
    ∧ RT64_DestroyDevice what devicePtr (.error .runtimeError)
        = .ok { value := (), lastError := some what }
    ∧ RT64_DrawDevice what devicePtr (.error .runtimeError)
        = .ok { value := (), lastError := some what } := by
  unfold RT64_CreateDevice RT64_DestroyDevice RT64_DrawDevice
  rw [if_neg h]
  exact ⟨rfl, rfl, rfl⟩

/-- An error of the constructor or of `getRaytracedInstanceAt` is the outcome of the
exported function of the view module that called it. -/
theorem view_exports_propagate (fl : FloatOps F) (dev : Device F) (scenePtr : Ptr)
    (h : scenePtr ≠ 0) (indeterminate view : View F) (x y : Int) (e : Fault) :
    (View.new fl dev indeterminate = .error e →
      RT64_CreateView fl dev scenePtr indeterminate = .error e)
    ∧ (view.getRaytracedInstanceAt fl dev x y = .error e →
      RT64_GetViewRaytracedInstanceAt fl dev (some view) x y = .error e) := by
  constructor
  · intro h1
    unfold RT64_CreateView
    rw [if_neg h, h1]
  · intro h1
    unfold RT64_GetViewRaytracedInstanceAt
    dsimp only
    rw [h1]

/-- C23, at the failing input. On a device on which the creation of the heap of the
raster-background target fails, the constructor of the view ends with the error of
`D3D12_CHECK` and `RT64_CreateView` ends with it too: nothing is caught, nothing is
stored, nothing is returned. The same holds for `RT64_GetViewRaytracedInstanceAt` when
mapping the read-back buffer fails. -/
theorem RT64_CreateView_error_escapes :
    View.new sampleFloatOps sampleNoRtvDevice sampleView = .error .runtimeError
    ∧ RT64_CreateView sampleFloatOps sampleNoRtvDevice 1 sampleView = .error .runtimeError
    ∧ sampleHalved.getRaytracedInstanceAt sampleFloatOps sampleNoMapDevice 10 10
        = .error .runtimeError
    ∧ RT64_GetViewRaytracedInstanceAt sampleFloatOps sampleNoMapDevice (some sampleHalved) 10 10
        = .error .runtimeError := by
  have h1 : View.new sampleFloatOps sampleNoRtvDevice sampleView = .error .runtimeError := rfl
  have h2 : sampleHalved.getRaytracedInstanceAt sampleFloatOps sampleNoMapDevice 10 10
      = .error .runtimeError := by
    with_unfolding_all rfl
  obtain ⟨p1, _⟩ := view_exports_propagate sampleFloatOps sampleNoRtvDevice 1 (by decide)
    sampleView sampleView 0 0 .runtimeError
  obtain ⟨_, p2⟩ := view_exports_propagate sampleFloatOps sampleNoMapDevice 1 (by decide)
    sampleView sampleHalved 10 10 .runtimeError
  exact ⟨h1, p1 h1, h2, p2 h2⟩

/-- C24, at the failing input. When the allocator fails with `E_OUTOFMEMORY` and leaves
the allocation null, `allocateResource` and `allocateBuffer` return the null handle; and
on a device whose allocator fails on the scratch buffer, `createTopLevelAS` for the
raytraced instance of the sample frame runs the generation with the null scratch buffer
and returns, holding the null handle with the size requested. -/
theorem allocateBuffer_failure_returns_null :
    FAILED E_OUTOFMEMORY = true
    ∧ DeviceState.allocateResource { hresult := E_OUTOFMEMORY, allocation := 0 } = .ok 0
    ∧ DeviceState.allocateBuffer { hresult := E_OUTOFMEMORY, allocation := 0 } = .ok 0
    ∧ sampleView.createTopLevelAS sampleNoScratchDevice sampleUpdated.rtInstances
        = .ok (okOr sampleView
            (sampleView.createTopLevelAS sampleNoScratchDevice sampleUpdated.rtInstances))
    ∧ (okOr sampleView (sampleView.createTopLevelAS sampleNoScratchDevice
          sampleUpdated.rtInstances)).topLevelASBuffers.scratch = 0
    ∧ (okOr sampleView (sampleView.createTopLevelAS sampleNoScratchDevice
          sampleUpdated.rtInstances)).topLevelASBuffers.scratchSize = 256 :=
  ⟨rfl, rfl, rfl, rfl, rfl, rfl⟩

end Faults

section Calls
variable {F : Type}

theorem Recording.Issued.followedBy {a b c : Recording F} {x y : List (Command F)}
    (h1 : a.Issued b x) (h2 : b.Issued c y) : a.Issued c (x ++ y) :=
  ⟨by rw [h2.1, h1.1, List.append_assoc], h2.2.trans h1.2⟩

theorem Recording.Issued.nothing (a : Recording F) : a.Issued a [] :=
  ⟨(List.append_nil _).symm, rfl⟩

theorem issued_record (rc : Recording F) (cs : List (Command F))
    (h : ∀ c ∈ cs, c.isClip = false) : rc.Issued (rc.record cs) cs := by
  refine ⟨?_, rfl⟩
  unfold Recording.record Recording.calls
  dsimp only
  rw [List.filter_append]
  congr 1
  rw [List.filter_eq_self]
  intro c hc
  rw [h c hc]
  rfl

theorem issued_resetPipeline (rc : Recording F) :
    rc.Issued rc.resetPipeline (resetPipelineCalls rc.view.bindings) :=
  issued_record rc _ (by
    intro c hc
    simp only [List.mem_cons, List.mem_singleton, List.not_mem_nil, or_false] at hc
    rcases hc with h | h | h | h <;> rw [h] <;> rfl)

theorem issued_resetScissor (dev : Device F) (rc : Recording F) :
    rc.Issued (rc.resetScissor dev) [] := by
  refine ⟨?_, rfl⟩
  unfold Recording.resetScissor Recording.calls
  simp [Command.isClip]

theorem issued_resetViewport (dev : Device F) (rc : Recording F) :
    rc.Issued (rc.resetViewport dev) [] := by
  refine ⟨?_, rfl⟩
  unfold Recording.resetViewport Recording.calls
  simp [Command.isClip]

theorem issued_applyScissor (dev : Device F) (rc : Recording F) (rect : D3D12_RECT) :
    rc.Issued (rc.applyScissor dev rect) [] := by
  unfold Recording.applyScissor
  split
  · refine ⟨?_, rfl⟩
    unfold Recording.calls
    simp [Command.isClip]
  · split
    · exact issued_resetScissor dev rc
    · exact Recording.Issued.nothing rc

theorem issued_applyViewport (fl : FloatOps F) (dev : Device F) (rc : Recording F)
    (viewport : D3D12_VIEWPORT F) : rc.Issued (rc.applyViewport fl dev viewport) [] := by
  unfold Recording.applyViewport
  split
  · refine ⟨?_, rfl⟩
    unfold Recording.calls
    simp [Command.isClip]
  · split
    · exact issued_resetViewport dev rc
    · exact Recording.Issued.nothing rc

theorem issued_resets (dev : Device F) (rc : Recording F) :
    rc.Issued (((rc.resetPipeline).resetScissor dev).resetViewport dev)
      (resetPipelineCalls rc.view.bindings) := by
  have h := ((issued_resetPipeline rc).followedBy (issued_resetScissor dev _)).followedBy
    (issued_resetViewport dev _)
  simpa using h

theorem issued_resetScissorViewport (dev : Device F) (rc : Recording F) :
    rc.Issued ((rc.resetScissor dev).resetViewport dev) [] :=
  (issued_resetScissor dev rc).followedBy (issued_resetViewport dev _)

theorem issued_applies (fl : FloatOps F) (dev : Device F) (rc : Recording F)
    (rect : D3D12_RECT) (viewport : D3D12_VIEWPORT F) :
    rc.Issued ((rc.applyScissor dev rect).applyViewport fl dev viewport) [] :=
  (issued_applyScissor dev rc rect).followedBy (issued_applyViewport fl dev _ viewport)

theorem instanceDraw_not_clip (index : Nat) (r : RenderInstance F) :
    ∀ c ∈ instanceDraw index r, c.isClip = false := by
  intro c hc
  unfold instanceDraw at hc
  simp only [List.mem_cons, List.mem_singleton, List.not_mem_nil, or_false] at hc
  rcases hc with h | h | h | h <;> rw [h] <;> rfl

theorem issued_drawInstance (fl : FloatOps F) (dev : Device F) (base : Nat) (flag : Bool)
    (rc : Recording F) (j : Nat) (r : RenderInstance F) :
    rc.Issued (rc.drawInstance fl dev base flag j r) (instanceDraw (toUInt32 (base + j)) r) := by
  unfold Recording.drawInstance
  dsimp only
  split
  · have h := (issued_applies fl dev rc r.scissorRect r.viewport).followedBy
      (issued_record _ _ (instanceDraw_not_clip (toUInt32 (base + j)) r))
    simpa [instanceDraw] using h
  · exact issued_record _ _ (instanceDraw_not_clip (toUInt32 (base + j)) r)

theorem issued_drawLoop (fl : FloatOps F) (dev : Device F) (base : Nat) (flag : Bool)
    (l : List (RenderInstance F)) :
    ∀ (j : Nat) (rc : Recording F),
      rc.Issued (Recording.drawLoop fl dev base flag l j rc) (loopCalls base l j) := by
  induction l with
  | nil =>
    intro j rc
    exact Recording.Issued.nothing rc
  | cons a l ih =>
    intro j rc
    rw [Recording.drawLoop, loopCalls]
    exact (issued_drawInstance fl dev base flag rc j a).followedBy (ih (j + 1) _)

theorem issued_drawInstances (fl : FloatOps F) (dev : Device F) (rc : Recording F)
    (l : List (RenderInstance F)) (base : Nat) (flag : Bool) :
    rc.Issued (rc.drawInstances fl dev l base flag) (drawCalls base l) := by
  unfold Recording.drawInstances drawCalls
  dsimp only
  have h := (issued_record rc [.IASetPrimitiveTopology] (by
      intro c hc
      simp only [List.mem_singleton] at hc
      rw [hc]
      rfl)).followedBy
    (issued_drawLoop fl dev base flag (l.take (toUInt32 (toUInt64 l.length))) 0 _)
  simpa using h

theorem not_clip_of_mem {cs : List (Command F)} (h : cs.all (fun c => !c.isClip) = true) :
    ∀ c ∈ cs, c.isClip = false := by
  intro c hc
  have := List.all_eq_true.1 h c hc
  simpa using this

theorem issued_rasterBackground (fl : FloatOps F) (dev : Device F) (rc rc' : Recording F)
    (h : rc.rasterBackground fl dev = .ok rc') :
    rc.Issued rc' (backgroundCalls rc.view.bindings) := by
  dsimp only [Recording.rasterBackground] at h
  have s1 := issued_resets dev rc
  set rc1 := ((rc.resetPipeline).resetScissor dev).resetViewport dev with hrc1
  have s2 := issued_drawInstances fl dev rc1 rc1.view.rasterBgInstances
    (toUInt32 (toUInt64 rc1.view.rtInstances.length)) true
  set rc2 := rc1.drawInstances fl dev rc1.view.rasterBgInstances
    (toUInt32 (toUInt64 rc1.view.rtInstances.length)) true with hrc2
  have s3 := issued_record rc2
    [.ResourceBarrierTransition rc2.view.rasterBg .NON_PIXEL_SHADER_RESOURCE .RENDER_TARGET]
    (not_clip_of_mem rfl)
  set rc3 := rc2.record
    [.ResourceBarrierTransition rc2.view.rasterBg .NON_PIXEL_SHADER_RESOURCE .RENDER_TARGET]
    with hrc3
  split at h
  · cases h
  · have s4 := issued_record rc3 [.OMSetRenderTargets .rasterBg, .ClearRenderTargetView .rasterBg]
      (not_clip_of_mem rfl)
    set rc4 := rc3.record [.OMSetRenderTargets .rasterBg, .ClearRenderTargetView .rasterBg]
      with hrc4
    have s5 := issued_resetScissorViewport dev rc4
    set rc5 := (rc4.resetScissor dev).resetViewport dev with hrc5
    have s6 := issued_drawInstances fl dev rc5 rc5.view.rasterBgInstances
      (toUInt32 (toUInt64 rc5.view.rtInstances.length)) false
    set rc6 := rc5.drawInstances fl dev rc5.view.rasterBgInstances
      (toUInt32 (toUInt64 rc5.view.rtInstances.length)) false with hrc6
    have s7 := issued_record rc6
      [.ResourceBarrierTransition rc6.view.rasterBg .RENDER_TARGET .NON_PIXEL_SHADER_RESOURCE]
      (not_clip_of_mem rfl)
    cases h
    have b1 : rc1.view.bindings = rc.view.bindings := s1.2
    have b2 : rc2.view.bindings = rc.view.bindings := (s1.followedBy s2).2
    have b5 : rc5.view.bindings = rc.view.bindings :=
      ((((s1.followedBy s2).followedBy s3).followedBy s4).followedBy s5).2
    have b6 : rc6.view.bindings = rc.view.bindings :=
      (((((s1.followedBy s2).followedBy s3).followedBy s4).followedBy s5).followedBy s6).2
    have e1 : rc1.view.rasterBgInstances = rc.view.bindings.rasterBgInstances :=
      congrArg RenderBindings.rasterBgInstances b1
    have e2 : rc1.view.rtInstances = rc.view.bindings.rtInstances :=
      congrArg RenderBindings.rtInstances b1
    have e3 : rc2.view.rasterBg = rc.view.bindings.rasterBg :=
      congrArg RenderBindings.rasterBg b2
    have e4 : rc5.view.rasterBgInstances = rc.view.bindings.rasterBgInstances :=
      congrArg RenderBindings.rasterBgInstances b5
    have e5 : rc5.view.rtInstances = rc.view.bindings.rtInstances :=
      congrArg RenderBindings.rtInstances b5
    have e6 : rc6.view.rasterBg = rc.view.bindings.rasterBg :=
      congrArg RenderBindings.rasterBg b6
    obtain ⟨c, b⟩ :=
      (((((s1.followedBy s2).followedBy s3).followedBy s4).followedBy s5).followedBy s6).followedBy s7
    refine ⟨?_, b⟩
    rw [c, e1, e2, e3, e4, e5, e6]
    unfold backgroundCalls
    simp

theorem capturePreviousViewProj_bindings (fl : FloatOps F) (v : View F) :
    (v.capturePreviousViewProj fl).bindings = v.bindings := by
  unfold View.capturePreviousViewProj
  split <;> rfl

theorem updateViewParamsBuffer_bindings (fl : FloatOps F) (dev : Device F) (v v' : View F)
    (h : v.updateViewParamsBuffer fl dev = .ok v') : v'.bindings = v.bindings := by
  dsimp only [View.updateViewParamsBuffer] at h
  have s1 := capturePreviousViewProj_bindings fl v
  split at h
  · cases h
  · split at h
    · cases h
    · split at h
      · cases h
      · cases h
        exact s1

theorem issued_denoiseStep (dev : Device F) (rc : Recording F) :
    rc.Issued (rc.denoiseStep dev) (denoiseCalls rc.view.bindings) := by
  unfold Recording.denoiseStep denoiseCalls
  have hc : (rc.view.bindings.denoiserEnabled && decide (rc.view.bindings.denoiser ≠ 0))
      = (rc.view.denoiserEnabled && decide (rc.view.denoiser ≠ 0)) := rfl
  rw [hc]
  split
  · have s1 := issued_record rc
      [.ResourceBarrierUAV [rc.view.rtAlbedo, rc.view.rtNormal], .submitCommandList,
       .waitForGPU, .resetCommandList, .denoise] (not_clip_of_mem rfl)
    have h := s1.followedBy (issued_resetScissorViewport dev _)
    simpa using h
  · exact Recording.Issued.nothing rc

theorem dispatchRaysDesc_congr (dev : Device F) (v w : View F) (h : w.bindings = v.bindings) :
    w.dispatchRaysDesc dev = v.dispatchRaysDesc dev := by
  have h1 : w.sbtStorage = v.sbtStorage := congrArg RenderBindings.sbtStorage h
  have h2 : w.sbtHelper = v.sbtHelper := congrArg RenderBindings.sbtHelper h
  have h3 : w.rtWidth = v.rtWidth := congrArg RenderBindings.rtWidth h
  have h4 : w.rtHeight = v.rtHeight := congrArg RenderBindings.rtHeight h
  unfold View.dispatchRaysDesc
  rw [h1, h2, h3, h4]

theorem issued_raytrace (fl : FloatOps F) (dev : Device F) (rc rc' : Recording F)
    (first : RenderInstance F) (h : rc.raytrace fl dev first = .ok rc') :
    rc.Issued rc' (raytraceCalls rc.view.bindings (rc.view.dispatchRaysDesc dev)) := by
  dsimp only [Recording.raytrace] at h
  have s1 := issued_record rc
    [.ResourceBarrierTransition rc.view.rtOutput .PIXEL_SHADER_RESOURCE .UNORDERED_ACCESS]
    (not_clip_of_mem rfl)
  split at h
  · cases h
  · rename_i w hw
    have sw0 := updateViewParamsBuffer_bindings fl dev _ _ hw
    have sw : w.bindings = rc.view.bindings := sw0
    have s2 : rc.Issued { view := w, commands := (rc.record
        [.ResourceBarrierTransition rc.view.rtOutput .PIXEL_SHADER_RESOURCE
          .UNORDERED_ACCESS]).commands }
        [.ResourceBarrierTransition rc.view.rtOutput .PIXEL_SHADER_RESOURCE .UNORDERED_ACCESS] :=
      ⟨s1.1, sw⟩
    set rc2 : Recording F := { view := w, commands := (rc.record
        [.ResourceBarrierTransition rc.view.rtOutput .PIXEL_SHADER_RESOURCE
          .UNORDERED_ACCESS]).commands } with hrc2
    split at h
    · cases h
    · have s3 := issued_record rc2
        [.SetPipelineState1, .DispatchRays (rc2.view.dispatchRaysDesc dev),
         .ResourceBarrierTransition rc2.view.rtOutput .UNORDERED_ACCESS .PIXEL_SHADER_RESOURCE]
        (not_clip_of_mem rfl)
      set rc3 := rc2.record
        [.SetPipelineState1, .DispatchRays (rc2.view.dispatchRaysDesc dev),
         .ResourceBarrierTransition rc2.view.rtOutput .UNORDERED_ACCESS .PIXEL_SHADER_RESOURCE]
        with hrc3
      have s4 := issued_denoiseStep dev rc3
      set rc4 := rc3.denoiseStep dev with hrc4
      have s5 := issued_applies fl dev rc4 (rtScissorRect dev first) (rtViewport fl dev first)
      set rc5 := (rc4.applyScissor dev (rtScissorRect dev first)).applyViewport fl dev
        (rtViewport fl dev first) with hrc5
      have s6 := issued_record rc5
        [.OMSetRenderTargets .swapChain, .SetPipelineState .compose,
         .SetGraphicsRootSignature .compose, .SetDescriptorHeaps [rc5.view.composeHeap]]
        (not_clip_of_mem rfl)
      set rc6 := rc5.record
        [.OMSetRenderTargets .swapChain, .SetPipelineState .compose,
         .SetGraphicsRootSignature .compose, .SetDescriptorHeaps [rc5.view.composeHeap]]
        with hrc6
      split at h
      · cases h
      · have s7 := issued_record rc6
          [.SetGraphicsRootDescriptorTable 0 rc6.view.composeHeap, .IASetPrimitiveTopology,
           .IASetVertexBuffers 0 none, .DrawInstanced 3]
          (not_clip_of_mem rfl)
        cases h
        have b2 : rc2.view.bindings = rc.view.bindings := s2.2
        have b3 : rc3.view.bindings = rc.view.bindings := (s2.followedBy s3).2
        have b5 : rc5.view.bindings = rc.view.bindings :=
          (((s2.followedBy s3).followedBy s4).followedBy s5).2
        have b6 : rc6.view.bindings = rc.view.bindings :=
          ((((s2.followedBy s3).followedBy s4).followedBy s5).followedBy s6).2
        have e1 : rc2.view.dispatchRaysDesc dev = rc.view.dispatchRaysDesc dev :=
          dispatchRaysDesc_congr dev _ _ b2
        have e2 : rc2.view.rtOutput = rc.view.bindings.rtOutput :=
          congrArg RenderBindings.rtOutput b2
        have e5 : rc5.view.composeHeap = rc.view.bindings.composeHeap :=
          congrArg RenderBindings.composeHeap b5
        have e6 : rc6.view.composeHeap = rc.view.bindings.composeHeap :=
          congrArg RenderBindings.composeHeap b6
        have e0 : rc.view.rtOutput = rc.view.bindings.rtOutput := rfl
        obtain ⟨c, b⟩ := (((((s2.followedBy s3).followedBy s4).followedBy s5).followedBy s6).followedBy s7)
        refine ⟨?_, b⟩
        rw [c, b3, e1, e2, e5, e6, e0]
        unfold raytraceCalls
        simp

theorem issued_rasterForeground (fl : FloatOps F) (dev : Device F) (rc : Recording F) :
    rc.Issued (rc.rasterForeground fl dev) (foregroundCalls rc.view.bindings) := by
  dsimp only [Recording.rasterForeground]
  have s1 := issued_resets dev rc
  set rc1 := ((rc.resetPipeline).resetScissor dev).resetViewport dev with hrc1
  have s2 := issued_drawInstances fl dev rc1 rc1.view.rasterFgInstances
    (toUInt32 (toUInt64 (rc1.view.rasterBgInstances.length + rc1.view.rtInstances.length))) true
  have b1 : rc1.view.bindings = rc.view.bindings := s1.2
  have e1 : rc1.view.rasterFgInstances = rc.view.bindings.rasterFgInstances :=
    congrArg RenderBindings.rasterFgInstances b1
  have e2 : rc1.view.rasterBgInstances = rc.view.bindings.rasterBgInstances :=
    congrArg RenderBindings.rasterBgInstances b1
  have e3 : rc1.view.rtInstances = rc.view.bindings.rtInstances :=
    congrArg RenderBindings.rtInstances b1
  obtain ⟨c, b⟩ := s1.followedBy s2
  refine ⟨?_, b⟩
  rw [c, e1, e2, e3]
  rfl

/-- The calls of a completed `render` that went past the check of the descriptor heap,
those that set the scissor rectangle or the viewport left out; the members named in the
calls are those of the view the call started with. -/
theorem render_calls (fl : FloatOps F) (dev : Device F) (v : View F) (rc : Recording F)
    (h : v.render fl dev = .ok rc) (hheap : v.descriptorHeap ≠ 0) :
    rc.calls = renderCalls v.bindings (v.dispatchRaysDesc dev)
    ∧ rc.view.bindings = v.bindings := by
  dsimp only [View.render] at h
  rw [if_neg hheap] at h
  split at h
  · cases h
  · rename_i rc1 h1
    have s1 := issued_rasterBackground fl dev _ _ h1
    dsimp only at s1
    split at h
    · cases h
    · rename_i rc2 h2
      have s2 : rc1.Issued rc2 (match v.bindings.rtInstances with
          | _ :: _ => raytraceCalls v.bindings (v.dispatchRaysDesc dev)
          | [] => [.OMSetRenderTargets .swapChain]) := by
        have b1 : rc1.view.bindings = v.bindings := s1.2
        have e1 : rc1.view.rtInstances = v.bindings.rtInstances :=
          congrArg RenderBindings.rtInstances b1
        rw [← e1]
        split at h2
        · rename_i first rest hfirst
          have s := issued_raytrace fl dev _ _ _ h2
          rw [b1, dispatchRaysDesc_congr dev v rc1.view b1] at s
          exact s
        · rename_i hnil
          cases h2
          exact issued_record rc1 [.OMSetRenderTargets .swapChain] (not_clip_of_mem rfl)
      have s12 := s1.followedBy s2
      have s3 := issued_rasterForeground fl dev rc2
      have b2 : rc2.view.bindings = v.bindings := s12.2
      rw [b2] at s3
      have sall := s12.followedBy s3
      cases h
      obtain ⟨d, b⟩ := sall
      refine ⟨?_, b⟩
      have hd : (Recording.mk (rc2.rasterForeground fl dev).view.endFrame
          (rc2.rasterForeground fl dev).commands).calls = (rc2.rasterForeground fl dev).calls := rfl
      rw [hd, d]
      simp [Recording.calls, renderCalls]

end Calls

section RenderOrder
variable {F : Type}

theorem new_denoiserReady (fl : FloatOps F) (dev : Device F) (indeterminate v : View F)
    (h : View.new fl dev indeterminate = .ok v) : v.DenoiserReady := by
  dsimp only [View.new] at h
  split at h
  · cases h
  · rename_i w hw
    dsimp only [View.createOutputBuffers] at hw
    split at hw
    · cases hw
    · cases hw
      cases h
      intro he
      cases he

theorem setDenoiserEnabled_denoiserReady (v : View F) (x : Bool) (newDenoiser : Ptr)
    (hn : newDenoiser ≠ 0) (hv : v.DenoiserReady) :
    (v.setDenoiserEnabled x newDenoiser).DenoiserReady := by
  unfold View.DenoiserReady at hv ⊢
  unfold View.setDenoiserEnabled
  dsimp only
  intro hx
  subst hx
  cases he : v.denoiserEnabled
  · by_cases hd : v.denoiser = 0
    · simp [hd, hn]
    · simp [hd]
  · simpa [he] using hv he

theorem isWork_not_clip (c : Command F) (h : c.isWork = true) : (!c.isClip) = true := by
  cases c <;> simp_all [Command.isWork, Command.isClip, Command.isPass]

theorem work_eq_calls (rc : Recording F) : rc.work = rc.calls.filter Command.isWork := by
  unfold Recording.work Recording.calls
  rw [List.filter_filter]
  apply List.filter_congr
  intro c _
  cases hw : c.isWork
  · simp
  · simp [isWork_not_clip c hw]

theorem loopCalls_work (base : Nat) (l : List (RenderInstance F)) :
    ∀ j, (loopCalls base l j).filter Command.isWork = bucketDraws l := by
  induction l with
  | nil =>
    intro j
    rfl
  | cons r rs ih =>
    intro j
    rw [loopCalls, List.filter_append, ih]
    simp [instanceDraw, bucketDraws, Command.isWork, Command.isPass]

theorem drawCalls_work (base : Nat) (l : List (RenderInstance F)) :
    (drawCalls base l).filter Command.isWork = bucketDraws (drawn l) := by
  unfold drawCalls drawn
  rw [List.filter_cons, loopCalls_work]
  simp [Command.isWork, Command.isPass]

theorem resetPipelineCalls_work (b : RenderBindings F) :
    (resetPipelineCalls b).filter Command.isWork = [] := by
  simp [resetPipelineCalls, Command.isWork, Command.isPass]

theorem denoiseCalls_work (b : RenderBindings F) :
    (denoiseCalls b).filter Command.isWork
      = if b.denoiserEnabled && decide (b.denoiser ≠ 0) then [.denoise] else [] := by
  unfold denoiseCalls
  split <;> simp [Command.isWork, Command.isPass]

/-- The work of a completed `render` that went past the check of the descriptor heap. -/
theorem render_work (fl : FloatOps F) (dev : Device F) (v : View F) (rc : Recording F)
    (h : v.render fl dev = .ok rc) (hheap : v.descriptorHeap ≠ 0) :
    rc.work = bucketDraws (drawn v.rasterBgInstances)
      ++ [.OMSetRenderTargets .rasterBg]
      ++ bucketDraws (drawn v.rasterBgInstances)
      ++ (match v.rtInstances with
          | _ :: _ =>
            [.DispatchRays (v.dispatchRaysDesc dev)]
              ++ (if v.denoiserEnabled && decide (v.denoiser ≠ 0) then [.denoise] else [])
              ++ [.OMSetRenderTargets .swapChain, .DrawInstanced 3]
          | [] => [.OMSetRenderTargets .swapChain])
      ++ bucketDraws (drawn v.rasterFgInstances) := by
  obtain ⟨hc, _⟩ := render_calls fl dev v rc h hheap
  rw [work_eq_calls, hc]
  unfold renderCalls backgroundCalls foregroundCalls
  simp only [List.filter_append, drawCalls_work, resetPipelineCalls_work, List.nil_append]
  have e1 : v.bindings.rtInstances = v.rtInstances := rfl
  have e2 : v.bindings.rasterBgInstances = v.rasterBgInstances := rfl
  have e3 : v.bindings.rasterFgInstances = v.rasterFgInstances := rfl
  rw [e1, e2, e3]
  cases hrt : v.rtInstances with
  | nil => simp [Command.isWork, Command.isPass]
  | cons first rest =>
    dsimp only
    unfold raytraceCalls
    simp only [List.filter_append, denoiseCalls_work]
    have e4 : v.bindings.denoiserEnabled = v.denoiserEnabled := rfl
    have e5 : v.bindings.denoiser = v.denoiser := rfl
    rw [e4, e5]
    simp [Command.isWork, Command.isPass]

theorem not_isWork (c : Command F) (h : c.isWork = false) (t : RenderTarget) :
    c.isPass = false ∧ c.target t = t := by
  cases c <;> simp_all [Command.isWork, Command.isPass, Command.target]

theorem passes_filter (cs : List (Command F)) :
    ∀ t, passes t (cs.filter Command.isWork) = passes t cs := by
  induction cs with
  | nil =>
    intro t
    rfl
  | cons c cs ih =>
    intro t
    cases hw : c.isWork
    · obtain ⟨h1, h2⟩ := not_isWork c hw t
      rw [List.filter_cons_of_neg (by simp [hw]), passes, h1, h2, ih]
      simp
    · rw [List.filter_cons_of_pos hw, passes, passes, ih]

theorem passes_append (a b : List (Command F)) :
    ∀ t, passes t (a ++ b) = passes t a ++ passes (a.foldl Command.target t) b := by
  induction a with
  | nil =>
    intro t
    rfl
  | cons c cs ih =>
    intro t
    rw [List.cons_append, passes, passes, ih, List.foldl_cons, List.append_assoc]

theorem passes_bucketDraws (l : List (RenderInstance F)) (t : RenderTarget) :
    passes t (bucketDraws l) = l.map (fun r => (some t, Command.DrawIndexedInstanced r.indexCount))
    ∧ (bucketDraws l).foldl Command.target t = t := by
  induction l with
  | nil => exact ⟨rfl, rfl⟩
  | cons r rs ih =>
    unfold bucketDraws at ih ⊢
    rw [List.map_cons, passes, List.foldl_cons]
    have e : (Command.DrawIndexedInstanced r.indexCount : Command F).target t = t := rfl
    rw [e, ih.1, ih.2]
    exact ⟨rfl, rfl⟩

/-- C26. A completed `View::render` that went past the check of the descriptor heap, on a
view whose denoiser exists when it is enabled, has put its work on the command list in
this order: the draws of the background bucket; the binding of the raster-background
texture as render target and the draws of the background bucket again; then, when the
raytraced bucket is not empty, the ray dispatch, the run of the denoiser exactly when the
denoiser is enabled, the binding of the swap-chain target and the compose draw, and, when
the raytraced bucket is empty, only the binding of the swap-chain target; last the draws
of the foreground bucket. Entered with the swap-chain target bound, the first background
pass and the compose and foreground draws go to the swap chain and the second background
pass to the raster-background texture, and the swap-chain target is bound at the end. -/
theorem render_order (fl : FloatOps F) (dev : Device F) (v : View F) (rc : Recording F)
    (h : v.render fl dev = .ok rc) (hheap : v.descriptorHeap ≠ 0) (hden : v.DenoiserReady) :
    rc.work = bucketDraws (drawn v.rasterBgInstances)
        ++ [.OMSetRenderTargets .rasterBg]
        ++ bucketDraws (drawn v.rasterBgInstances)
        ++ (match v.rtInstances with
            | _ :: _ =>
              [.DispatchRays (v.dispatchRaysDesc dev)]
                ++ (if v.denoiserEnabled then [.denoise] else [])
                ++ [.OMSetRenderTargets .swapChain, .DrawInstanced 3]
            | [] => [.OMSetRenderTargets .swapChain])
        ++ bucketDraws (drawn v.rasterFgInstances)
    ∧ passes .swapChain rc.commands
        = (drawn v.rasterBgInstances).map
            (fun r => (some .swapChain, Command.DrawIndexedInstanced r.indexCount))
          ++ (drawn v.rasterBgInstances).map
            (fun r => (some .rasterBg, Command.DrawIndexedInstanced r.indexCount))
          ++ (match v.rtInstances with
              | _ :: _ =>
                [(none, .DispatchRays (v.dispatchRaysDesc dev))]
                  ++ (if v.denoiserEnabled then [(none, .denoise)] else [])
                  ++ [(some .swapChain, .DrawInstanced 3)]
              | [] => [])
          ++ (drawn v.rasterFgInstances).map
            (fun r => (some .swapChain, Command.DrawIndexedInstanced r.indexCount))
    ∧ rc.commands.foldl Command.target .swapChain = .swapChain
    ∧ (∀ l : List (RenderInstance F), l.length < 4294967296 → drawn l = l) := by
  have hw := render_work fl dev v rc h hheap
  have hcond : (v.denoiserEnabled && decide (v.denoiser ≠ 0)) = v.denoiserEnabled := by
    cases he : v.denoiserEnabled
    · rfl
    · simp [hden he]
  rw [hcond] at hw
  have hfold : ∀ (cs : List (Command F)) (t : RenderTarget),
      (cs.filter Command.isWork).foldl Command.target t = cs.foldl Command.target t := by
    intro cs
    induction cs with
    | nil =>
      intro t
      rfl
    | cons c cs ih =>
      intro t
      cases hc : c.isWork
      · rw [List.filter_cons_of_neg (by simp [hc]), List.foldl_cons, (not_isWork c hc t).2, ih]
      · rw [List.filter_cons_of_pos hc, List.foldl_cons, List.foldl_cons, ih]
  refine ⟨hw, ?_, ?_, ?_⟩
  · rw [← passes_filter, ← Recording.work, hw]
    simp only [passes_append, List.foldl_append, (passes_bucketDraws _ _).1,
      (passes_bucketDraws _ _).2]
    cases hrt : v.rtInstances with
    | nil => simp [passes, Command.isPass, Command.target, (passes_bucketDraws _ _).1]
    | cons first rest =>
      cases he : v.denoiserEnabled <;>
        simp [passes, Command.isPass, Command.isDraw, Command.target,
          (passes_bucketDraws _ _).1]
  · rw [← hfold, ← Recording.work, hw]
    simp only [List.foldl_append, (passes_bucketDraws _ _).2]
    cases hrt : v.rtInstances with
    | nil => simp [Command.target, (passes_bucketDraws _ _).2]
    | cons first rest =>
      cases he : v.denoiserEnabled <;> simp [Command.target, (passes_bucketDraws _ _).2]
  · intro l hl
    unfold drawn
    rw [toUInt64_of_lt (by omega), toUInt32_of_lt hl, List.take_length]

/-- Witness of C26: the sample view after the sample frame, with the denoiser enabled. -/
theorem render_order_witness :
    sampleDenoised.render sampleFloatOps sampleDevice = .ok sampleDenoisedRender
    ∧ sampleDenoised.descriptorHeap ≠ 0
    ∧ sampleDenoised.DenoiserReady
    ∧ sampleDenoisedRender.work
        = [.DrawIndexedInstanced 6, .OMSetRenderTargets .rasterBg, .DrawIndexedInstanced 6,
           .DispatchRays (sampleDenoised.dispatchRaysDesc sampleDevice), .denoise,
           .OMSetRenderTargets .swapChain, .DrawInstanced 3, .DrawIndexedInstanced 6] := by
  have hheap : sampleDenoised.descriptorHeap ≠ 0 := by decide
  have hden : sampleDenoised.DenoiserReady := fun _ => by decide
  exact ⟨rfl, hheap, hden,
    (render_order sampleFloatOps sampleDevice sampleDenoised sampleDenoisedRender rfl hheap
      hden).1.trans (by with_unfolding_all rfl)⟩

end RenderOrder

section Barriers
variable {F : Type}

theorem applyBarrier_other (st : Ptr → D3D12_RESOURCE_STATES) (c : Command F)
    (h : c.isTransition = false) : applyBarrier st c = some st := by
  cases c <;> first | rfl | simp [Command.isTransition] at h

theorem runBarriers_filter (cs : List (Command F)) :
    ∀ st, runBarriers st (cs.filter Command.isTransition) = runBarriers st cs := by
  induction cs with
  | nil =>
    intro st
    rfl
  | cons c cs ih =>
    intro st
    cases hc : c.isTransition
    · rw [List.filter_cons_of_neg (by simp [hc]), runBarriers, applyBarrier_other st c hc, ih]
    · rw [List.filter_cons_of_pos hc, runBarriers, runBarriers]
      cases applyBarrier st c with
      | none => rfl
      | some st' => exact ih st'

theorem runBarriers_append (a b : List (Command F)) :
    ∀ st st', runBarriers st a = some st' → runBarriers st (a ++ b) = runBarriers st' b := by
  induction a with
  | nil =>
    intro st st' h
    cases h
    rfl
  | cons c cs ih =>
    intro st st' h
    rw [List.cons_append, runBarriers]
    rw [runBarriers] at h
    cases hc : applyBarrier st c with
    | none =>
      rw [hc] at h
      cases h
    | some st1 =>
      rw [hc] at h
      exact ih st1 st' h

theorem isTransition_not_clip (c : Command F) (h : c.isTransition = true) :
    (!c.isClip) = true := by
  cases c <;> simp_all [Command.isTransition, Command.isClip]

theorem transitions_eq_calls (rc : Recording F) :
    rc.commands.filter Command.isTransition = rc.calls.filter Command.isTransition := by
  unfold Recording.calls
  rw [List.filter_filter]
  apply List.filter_congr
  intro c _
  cases hw : c.isTransition
  · simp
  · simp [isTransition_not_clip c hw]

theorem loopCalls_transitions (base : Nat) (l : List (RenderInstance F)) :
    ∀ j, (loopCalls base l j).filter Command.isTransition = [] := by
  induction l with
  | nil =>
    intro j
    rfl
  | cons r rs ih =>
    intro j
    rw [loopCalls, List.filter_append, ih]
    simp [instanceDraw, Command.isTransition]

theorem drawCalls_transitions (base : Nat) (l : List (RenderInstance F)) :
    (drawCalls base l).filter Command.isTransition = [] := by
  unfold drawCalls
  rw [List.filter_cons, loopCalls_transitions]
  simp [Command.isTransition]

theorem denoiseCalls_transitions (b : RenderBindings F) :
    (denoiseCalls b).filter Command.isTransition = [] := by
  unfold denoiseCalls
  split <;> simp [Command.isTransition]

/-- The transition barriers of a completed `render` that went past the check of the
descriptor heap: the pair on the raster-background texture, and the pair on the raytrace
output when the raytraced bucket is not empty. -/
theorem render_transitions (fl : FloatOps F) (dev : Device F) (v : View F) (rc : Recording F)
    (h : v.render fl dev = .ok rc) (hheap : v.descriptorHeap ≠ 0) :
    rc.commands.filter Command.isTransition
      = [.ResourceBarrierTransition v.rasterBg .NON_PIXEL_SHADER_RESOURCE .RENDER_TARGET,
         .ResourceBarrierTransition v.rasterBg .RENDER_TARGET .NON_PIXEL_SHADER_RESOURCE]
        ++ (match v.rtInstances with
            | _ :: _ =>
              [.ResourceBarrierTransition v.rtOutput .PIXEL_SHADER_RESOURCE .UNORDERED_ACCESS,
               .ResourceBarrierTransition v.rtOutput .UNORDERED_ACCESS .PIXEL_SHADER_RESOURCE]
            | [] => []) := by
  obtain ⟨hc, _⟩ := render_calls fl dev v rc h hheap
  rw [transitions_eq_calls, hc]
  unfold renderCalls backgroundCalls foregroundCalls resetPipelineCalls
  simp only [List.filter_append, drawCalls_transitions]
  have e1 : v.bindings.rtInstances = v.rtInstances := rfl
  have e2 : v.bindings.rasterBg = v.rasterBg := rfl
  have e3 : v.bindings.rtOutput = v.rtOutput := rfl
  rw [e1, e2]
  cases hrt : v.rtInstances with
  | nil => simp [Command.isTransition]
  | cons first rest =>
    dsimp only
    unfold raytraceCalls
    simp only [List.filter_append, denoiseCalls_transitions]
    rw [e3]
    simp [Command.isTransition]

theorem update_update_eq (st : Ptr → D3D12_RESOURCE_STATES) (r : Ptr)
    (a : D3D12_RESOURCE_STATES) : Function.update (Function.update st r a) r (st r) = st := by
  rw [Function.update_idem, Function.update_eq_self]

/-- A pair of transition barriers on a resource, away from its state and back, is in
order and leaves the states as they were. -/
theorem runBarriers_pair (st : Ptr → D3D12_RESOURCE_STATES) (r : Ptr)
    (a b : D3D12_RESOURCE_STATES) (h : st r = a) :
    runBarriers st
      ([.ResourceBarrierTransition r a b, .ResourceBarrierTransition r b a] : List (Command F))
      = some st := by
  simp only [runBarriers, applyBarrier]
  rw [if_pos h]
  dsimp only
  rw [if_pos (Function.update_same _ _ _)]
  dsimp only
  rw [← h, update_update_eq]

/-- The barriers of a completed `render` are in order and leave every resource in the
state it was in. -/
theorem render_barriers (fl : FloatOps F) (dev : Device F) (v : View F) (rc : Recording F)
    (st : Ptr → D3D12_RESOURCE_STATES) (h : v.render fl dev = .ok rc)
    (hs : v.InAllocatedStates st) : runBarriers st rc.commands = some st := by
  by_cases hheap : v.descriptorHeap = 0
  · dsimp only [View.render] at h
    rw [if_pos hheap] at h
    cases h
    rfl
  · rw [← runBarriers_filter, render_transitions fl dev v rc h hheap]
    rw [runBarriers_append _ _ st st (runBarriers_pair st _ _ _ hs.rasterBg)]
    cases v.rtInstances with
    | nil => rfl
    | cons first rest => exact runBarriers_pair st _ _ _ hs.rtOutput

theorem getRaytracedInstanceAt_commands (fl : FloatOps F) (dev : Device F) (v : View F)
    (x y : Int) (p : Picked F) (h : v.getRaytracedInstanceAt fl dev x y = .ok p) :
    p.commands = v.refreshReadback.commands := by
  dsimp only [View.getRaytracedInstanceAt] at h
  split at h
  · cases h
    rfl
  · split at h
    · cases h
    · split at h
      · cases h
      · split at h
        · cases h
          rfl
        · cases h
          rfl

/-- The barriers of `getRaytracedInstanceAt` are in order and leave every resource in the
state it was in. -/
theorem refreshReadback_barriers (v : View F) (st : Ptr → D3D12_RESOURCE_STATES)
    (hs : v.InAllocatedStates st) : runBarriers st v.refreshReadback.commands = some st := by
  unfold View.refreshReadback
  split
  · rw [← runBarriers_filter]
    exact runBarriers_pair st _ _ _ hs.rtHitInstanceId
  · rfl

theorem viewCall_barriers (st : Ptr → D3D12_RESOURCE_STATES) (c : ViewCall F)
    (cs : List (Command F)) (h : c.commands = some cs) (hs : c.view.InAllocatedStates st) :
    runBarriers st cs = some st := by
  cases c with
  | render fl dev v =>
    dsimp only [ViewCall.commands] at h
    split at h
    · rename_i rc hrc
      cases h
      exact render_barriers fl dev v rc st hrc hs
    · cases h
  | getRaytracedInstanceAt fl dev v x y =>
    dsimp only [ViewCall.commands] at h
    split at h
    · rename_i p hp
      cases h
      rw [getRaytracedInstanceAt_commands fl dev v x y p hp]
      exact refreshReadback_barriers v st hs
    · cases h

/-- C27. Let the resources of the view start in the states they are allocated in. Along
every sequence of completed `View::render` and `getRaytracedInstanceAt` calls, every
transition barrier names as its `before` state the state its resource is in, and at the
end of each call every resource is back in the state it had before the call: the
raster-background texture a non-pixel shader resource, the raytrace output a pixel shader
resource, the buffer of hit instance ids in unordered access. A `render` records the pair
of barriers on the raster-background texture, and the pair on the raytrace output when the
raytraced bucket is not empty; a picking call records the pair on the buffer of hit
instance ids when it copies the buffer. -/
theorem barriers_paired (st : Ptr → D3D12_RESOURCE_STATES) (calls : List (ViewCall F))
    (css : List (List (Command F)))
    (h : List.Forall₂ (fun c cs => c.commands = some cs ∧ c.view.InAllocatedStates st)
      calls css) :
    runBarriers st css.flatten = some st
    ∧ (∀ k, runBarriers st (css.take k).flatten = some st)
    ∧ ∀ c ∈ calls, ∀ cs, c.commands = some cs →
        runBarriers st cs = some st
        ∧ st c.view.rasterBg = .NON_PIXEL_SHADER_RESOURCE
        ∧ st c.view.rtOutput = .PIXEL_SHADER_RESOURCE
        ∧ st c.view.rtHitInstanceId = .UNORDERED_ACCESS := by
  have hall : ∀ (calls : List (ViewCall F)) (css : List (List (Command F))),
      List.Forall₂ (fun c cs => c.commands = some cs ∧ c.view.InAllocatedStates st) calls css →
      runBarriers st css.flatten = some st := by
    intro calls css h
    induction h with
    | nil => rfl
    | cons hc _ ih =>
      rw [List.flatten_cons, runBarriers_append _ _ st st (viewCall_barriers st _ _ hc.1 hc.2)]
      exact ih
  refine ⟨hall calls css h, ?_, ?_⟩
  · intro k
    have hk : List.Forall₂ (fun c cs => c.commands = some cs ∧ c.view.InAllocatedStates st)
        (calls.take k) (css.take k) := List.forall₂_take k h
    exact hall _ _ hk
  · intro c hc cs hcs
    have hmem : ∀ (calls : List (ViewCall F)) (css : List (List (Command F))),
        List.Forall₂ (fun c cs => c.commands = some cs ∧ c.view.InAllocatedStates st) calls css →
        ∀ c ∈ calls, c.view.InAllocatedStates st := by
      intro calls css h
      induction h with
      | nil =>
        intro c hc
        cases hc
      | cons hd _ ih =>
        intro c hc
        rcases List.mem_cons.1 hc with he | hm
        · rw [he]
          exact hd.2
        · exact ih c hm
    have hs : c.view.InAllocatedStates st := hmem calls css h c hc
    exact ⟨viewCall_barriers st c cs hcs hs, hs.rasterBg, hs.rtOutput, hs.rtHitInstanceId⟩

/-- Witness of C27: a `render` of the sample frame followed by a picking call. -/
theorem barriers_paired_witness :
    List.Forall₂
      (fun (c : ViewCall ℚ) cs => c.commands = some cs ∧ c.view.InAllocatedStates sampleStates)
      [.render sampleFloatOps sampleDevice sampleDistinct,
       .getRaytracedInstanceAt sampleFloatOps sampleDevice sampleDistinctRender.view 10 10]
      [sampleDistinctRender.commands, sampleDistinctRender.view.refreshReadback.commands]
    ∧ runBarriers sampleStates
        (sampleDistinctRender.commands ++ sampleDistinctRender.view.refreshReadback.commands)
        = some sampleStates := by
  have h : List.Forall₂
      (fun (c : ViewCall ℚ) cs => c.commands = some cs ∧ c.view.InAllocatedStates sampleStates)
      [.render sampleFloatOps sampleDevice sampleDistinct,
       .getRaytracedInstanceAt sampleFloatOps sampleDevice sampleDistinctRender.view 10 10]
      [sampleDistinctRender.commands, sampleDistinctRender.view.refreshReadback.commands] :=
    .cons ⟨rfl, ⟨rfl, rfl, rfl⟩⟩
      (.cons ⟨by with_unfolding_all rfl, ⟨rfl, rfl, rfl⟩⟩ .nil)
  refine ⟨h, ?_⟩
  have hb := (barriers_paired sampleStates _ _ h).1
  simpa using hb

end Barriers

section CommandList
variable {F : Type}

theorem DeviceState.Extends.chain {a b c : DeviceState} (h1 : a.Extends b) (h2 : b.Extends c) :
    a.Extends c := by
  obtain ⟨_, x, hx, lx⟩ := h1
  obtain ⟨i2, y, hy, ly⟩ := h2
  refine ⟨i2, x ++ y, by rw [hy, hx, List.append_assoc], ?_⟩
  intro e he
  rcases List.mem_append.1 he with h | h
  · exact lx e h
  · exact ly e h

theorem extends_refl (s : DeviceState) (h : s.d3dCommandListOpen = s.recording) : s.Extends s :=
  ⟨h, [], (List.append_nil _).symm, fun e he => absurd he (List.not_mem_nil e)⟩

theorem extends_submit (s : DeviceState) (h : s.recording = true) :
    s.Extends s.submitCommandList ∧ s.submitCommandList.recording = false := by
  refine ⟨⟨rfl, [(.submitCommandList, s.recording)], rfl, ?_⟩, rfl⟩
  intro e he
  rw [List.mem_singleton.1 he, h]
  rfl

theorem extends_reset (s : DeviceState) (h : s.recording = false) :
    s.Extends s.resetCommandList ∧ s.resetCommandList.recording = true := by
  refine ⟨⟨rfl, [(.resetCommandList, s.recording)], rfl, ?_⟩, rfl⟩
  intro e he
  rw [List.mem_singleton.1 he, h]
  rfl

theorem extends_triple (s : DeviceState) (h : s.recording = true) :
    s.Extends ((s.submitCommandList).waitForGPU).resetCommandList
    ∧ (((s.submitCommandList).waitForGPU).resetCommandList).recording = true := by
  obtain ⟨e1, r1⟩ := extends_submit s h
  obtain ⟨e2, r2⟩ := extends_reset s.submitCommandList r1
  exact ⟨e1.chain e2, r2⟩

theorem step_other (s : DeviceState) (c : Command F) (h : c.isListCall = false) :
    s.step c = s := by
  cases c <;> first | rfl | simp [Command.isListCall] at h

theorem issue_filter (cs : List (Command F)) :
    ∀ s : DeviceState, s.issue (cs.filter Command.isListCall) = s.issue cs := by
  induction cs with
  | nil =>
    intro s
    rfl
  | cons c cs ih =>
    intro s
    unfold DeviceState.issue at ih ⊢
    cases hc : c.isListCall
    · rw [List.filter_cons_of_neg (by simp [hc]), List.foldl_cons, step_other s c hc, ih]
    · rw [List.filter_cons_of_pos hc, List.foldl_cons, List.foldl_cons, ih]

/-- The calls of a view that uses the command list in the way of `ListUse`, issued on an
open command list, are in order and leave it open. -/
theorem extends_issue (s : DeviceState) (cs : List (Command F)) (hu : ListUse cs)
    (hi : s.d3dCommandListOpen = s.recording) (h : s.recording = true) :
    s.Extends (s.issue cs) ∧ (s.issue cs).recording = true := by
  rw [← issue_filter]
  rcases hu with h0 | h3
  · rw [h0]
    exact ⟨extends_refl s hi, h⟩
  · rw [h3]
    exact extends_triple s h

theorem extends_nested (nested : List (List (Command F))) :
    ∀ s : DeviceState, (∀ cs ∈ nested, ListUse cs) → s.d3dCommandListOpen = s.recording →
      s.recording = true →
      s.Extends (nested.foldl DeviceState.issue s)
      ∧ (nested.foldl DeviceState.issue s).recording = true := by
  induction nested with
  | nil =>
    intro s _ hi h
    exact ⟨extends_refl s hi, h⟩
  | cons cs rest ih =>
    intro s hu hi h
    obtain ⟨e1, r1⟩ := extends_issue s cs (hu cs (List.mem_cons_self _ _)) hi h
    obtain ⟨e2, r2⟩ := ih (s.issue cs) (fun x hx => hu x (List.mem_cons_of_mem _ hx)) e1.1 r1
    rw [List.foldl_cons]
    exact ⟨e1.chain e2, r2⟩

theorem extends_preRender (s : DeviceState) (hi : s.d3dCommandListOpen = s.recording) :
    s.Extends s.preRender ∧ s.preRender.recording = true := by
  unfold DeviceState.preRender
  dsimp only
  cases hr : s.recording
  · rw [hr] at hi
    rw [hi]
    exact extends_reset s hr
  · rw [hr] at hi
    rw [hi]
    exact extends_triple s hr

theorem extends_postRender (s : DeviceState) (present : Except Fault Unit)
    (h : s.recording = true) :
    s.Extends (s.postRender present).1
    ∧ ((s.postRender present).2 = .ok () → (s.postRender present).1.recording = true) := by
  unfold DeviceState.postRender
  dsimp only
  cases present with
  | error e =>
    exact ⟨(extends_submit s h).1, fun hc => by cases hc⟩
  | ok u =>
    exact ⟨(extends_triple s h).1, fun _ => rfl⟩

/-- A call of `Device::draw` entered with the flag telling the state of the command list,
open or closed, calls `submitCommandList` and `resetCommandList` in order, keeps the flag
telling the state, and leaves the command list open when it returns. -/
theorem extends_draw (s : DeviceState) (update : Except Fault Unit)
    (nested : List (List (Command F))) (fault : Option Fault) (present : Except Fault Unit)
    (hu : ∀ cs ∈ nested, ListUse cs) (hi : s.d3dCommandListOpen = s.recording) :
    s.Extends (s.draw update nested fault present).1
    ∧ ((s.draw update nested fault present).2 = .ok () →
        (s.draw update nested fault present).1.recording = true) := by
  unfold DeviceState.draw
  cases update with
  | error e => exact ⟨extends_refl s hi, fun hc => by cases hc⟩
  | ok u =>
    dsimp only
    obtain ⟨e1, r1⟩ := extends_preRender s hi
    obtain ⟨e2, r2⟩ := extends_nested nested s.preRender hu e1.1 r1
    cases fault with
    | some e => exact ⟨e1.chain e2, fun hc => by cases hc⟩
    | none =>
      dsimp only
      obtain ⟨e3, r3⟩ := extends_postRender (nested.foldl DeviceState.issue s.preRender)
        present r2
      exact ⟨(e1.chain e2).chain e3, r3⟩

/-- A call from the host on an open command list is in order and, when it returns, leaves
the command list open. -/
theorem extends_call (s : DeviceState) (c : DeviceCall F) (hu : c.ListUse)
    (hi : s.d3dCommandListOpen = s.recording) (h : s.recording = true) :
    s.Extends (s.call c).1 ∧ ((s.call c).2 = .ok () → (s.call c).1.recording = true) := by
  cases c with
  | draw update nested fault present => exact extends_draw s update nested fault present hu hi
  | dumpRenderTarget =>
    obtain ⟨e, r⟩ := extends_triple s h
    exact ⟨e, fun _ => r⟩
  | getRaytracedInstanceAt commands fault =>
    obtain ⟨e, r⟩ := extends_issue s commands hu hi h
    exact ⟨e, fun _ => r⟩

theorem extends_run (calls : List (DeviceCall F)) :
    ∀ s : DeviceState, (∀ c ∈ calls, c.ListUse) → s.d3dCommandListOpen = s.recording →
      s.recording = true →
      s.Extends (s.run calls).1 ∧ ((s.run calls).2 = .ok () → (s.run calls).1.recording = true) := by
  induction calls with
  | nil =>
    intro s _ hi h
    exact ⟨extends_refl s hi, fun _ => h⟩
  | cons c rest ih =>
    intro s hu hi h
    obtain ⟨e1, r1⟩ := extends_call s c (hu c (List.mem_cons_self _ _)) hi h
    rw [DeviceState.run]
    cases hc : s.call c with
    | mk s' out =>
      rw [hc] at e1 r1
      cases out with
      | error e =>
        dsimp only
        exact ⟨e1, fun hx => by cases hx⟩
      | ok u =>
        dsimp only
        obtain ⟨e2, r2⟩ := ih s' (fun x hx => hu x (List.mem_cons_of_mem _ hx)) e1.1 (r1 rfl)
        exact ⟨e1.chain e2, r2⟩

theorem isListCall_not_clip (c : Command F) (h : c.isListCall = true) :
    (!c.isClip) = true := by
  cases c <;> simp_all [Command.isListCall, Command.isClip]

theorem listCalls_eq_calls (rc : Recording F) :
    rc.commands.filter Command.isListCall = rc.calls.filter Command.isListCall := by
  unfold Recording.calls
  rw [List.filter_filter]
  apply List.filter_congr
  intro c _
  cases hw : c.isListCall
  · simp
  · simp [isListCall_not_clip c hw]

theorem loopCalls_listCalls (base : Nat) (l : List (RenderInstance F)) :
    ∀ j, (loopCalls base l j).filter Command.isListCall = [] := by
  induction l with
  | nil =>
    intro j
    rfl
  | cons r rs ih =>
    intro j
    rw [loopCalls, List.filter_append, ih]
    simp [instanceDraw, Command.isListCall]

theorem drawCalls_listCalls (base : Nat) (l : List (RenderInstance F)) :
    (drawCalls base l).filter Command.isListCall = [] := by
  unfold drawCalls
  rw [List.filter_cons, loopCalls_listCalls]
  simp [Command.isListCall]

/-- The calls of a completed `render` on the methods of the command list: the three of the
denoiser step when the raytraced bucket is not empty and the denoiser is enabled and
exists, none otherwise. -/
theorem render_listCalls (fl : FloatOps F) (dev : Device F) (v : View F) (rc : Recording F)
    (h : v.render fl dev = .ok rc) :
    rc.commands.filter Command.isListCall
      = if (decide (v.descriptorHeap ≠ 0) && !v.rtInstances.isEmpty
            && (v.denoiserEnabled && decide (v.denoiser ≠ 0))) = true then
          [Command.submitCommandList, Command.waitForGPU, Command.resetCommandList]
        else [] := by
  by_cases hheap : v.descriptorHeap = 0
  · dsimp only [View.render] at h
    rw [if_pos hheap] at h
    cases h
    simp [hheap]
  · obtain ⟨hc, _⟩ := render_calls fl dev v rc h hheap
    rw [listCalls_eq_calls, hc]
    unfold renderCalls backgroundCalls foregroundCalls resetPipelineCalls
    simp only [List.filter_append, drawCalls_listCalls]
    have e1 : v.bindings.rtInstances = v.rtInstances := rfl
    have e4 : v.bindings.denoiserEnabled = v.denoiserEnabled := rfl
    have e5 : v.bindings.denoiser = v.denoiser := rfl
    rw [e1]
    cases hrt : v.rtInstances with
    | nil => simp [Command.isListCall]
    | cons first rest =>
      dsimp only
      unfold raytraceCalls denoiseCalls
      rw [e4, e5]
      by_cases hd : (v.denoiserEnabled && decide (v.denoiser ≠ 0)) = true
      · rw [if_pos hd]
        have hd' : v.denoiserEnabled = true ∧ ¬ v.denoiser = 0 := by simpa using hd
        simp [hd', hheap, Command.isListCall]
      · rw [if_neg hd]
        have hd' : v.denoiserEnabled = true → v.denoiser = 0 := by simpa using hd
        simp [Command.isListCall]
        intro _
        exact hd'

theorem render_listUse (fl : FloatOps F) (dev : Device F) (v : View F) (rc : Recording F)
    (h : v.render fl dev = .ok rc) : ListUse rc.commands := by
  unfold ListUse
  rw [render_listCalls fl dev v rc h]
  split
  · exact Or.inr rfl
  · exact Or.inl rfl

theorem refreshReadback_listUse (v : View F) : ListUse v.refreshReadback.commands := by
  unfold ListUse View.refreshReadback
  split
  · exact Or.inr rfl
  · exact Or.inl rfl

/-- C30. Along every sequence of calls of `Device::draw`, `Device::dumpRenderTarget` and
`getRaytracedInstanceAt` on a constructed device, up to the first call that does not
return, the flag `d3dCommandListOpen` tells the state of the command list, every call of
`submitCommandList` found the command list open and every call of `resetCommandList` found
it closed, and after each call that returned the command list is open. A `Device::draw`
entered with the flag telling the state of the command list, open or closed, calls the two
methods in order, whatever fails in it, and leaves the command list open when it returns.
The views reach the two methods through the denoiser step of `render` and the copy of
`getRaytracedInstanceAt` only, each of which submits, waits and resets. -/
theorem commandList_protocol (calls : List (DeviceCall F)) (hu : ∀ c ∈ calls, c.ListUse) :
    (DeviceState.new.run calls).1.d3dCommandListOpen = (DeviceState.new.run calls).1.recording
    ∧ (∀ e ∈ (DeviceState.new.run calls).1.history, ListCall.inOrder e = true)
    ∧ ((DeviceState.new.run calls).2 = .ok () → (DeviceState.new.run calls).1.recording = true)
    ∧ (∀ (s : DeviceState) (update : Except Fault Unit) (nested : List (List (Command F)))
        (fault : Option Fault) (present : Except Fault Unit),
        (∀ cs ∈ nested, ListUse cs) → s.d3dCommandListOpen = s.recording →
        s.Extends (s.draw update nested fault present).1
        ∧ ((s.draw update nested fault present).2 = .ok () →
            (s.draw update nested fault present).1.recording = true))
    ∧ (∀ (s : DeviceState), s.dumpRenderTarget.d3dCommandListOpen = true
        ∧ s.dumpRenderTarget.recording = true)
    ∧ (∀ (fl : FloatOps F) (dev : Device F) (v : View F) (rc : Recording F),
        v.render fl dev = .ok rc → ListUse rc.commands)
    ∧ (∀ (fl : FloatOps F) (dev : Device F) (v : View F) (x y : Int) (p : Picked F),
        v.getRaytracedInstanceAt fl dev x y = .ok p → ListUse p.commands) := by
  obtain ⟨⟨hi, added, ha, hl⟩, ho⟩ := extends_run calls DeviceState.new hu rfl rfl
  refine ⟨hi, ?_, ho, ?_, fun _ => ⟨rfl, rfl⟩, render_listUse, ?_⟩
  · intro e he
    rw [ha] at he
    exact hl e (by simpa [DeviceState.new] using he)
  · intro s update nested fault present hn hs
    exact extends_draw s update nested fault present hn hs
  · intro fl dev v x y p hp
    rw [getRaytracedInstanceAt_commands fl dev v x y p hp]
    exact refreshReadback_listUse v

/-- Witness of C30: a draw that renders the sample view with the denoiser enabled, a
picking call that copies the read-back buffer, and a dump of the render target. -/
theorem commandList_protocol_witness :
    (∀ c ∈ ([.draw (.ok ()) [sampleDenoisedRender.commands] none (.ok ()),
              .getRaytracedInstanceAt sampleDenoisedRender.view.refreshReadback.commands none,
              .dumpRenderTarget] : List (DeviceCall ℚ)), c.ListUse)
    ∧ (DeviceState.new.run
        ([.draw (.ok ()) [sampleDenoisedRender.commands] none (.ok ()),
          .getRaytracedInstanceAt sampleDenoisedRender.view.refreshReadback.commands none,
          .dumpRenderTarget] : List (DeviceCall ℚ))).1.recording = true := by
  have hu : ∀ c ∈ ([.draw (.ok ()) [sampleDenoisedRender.commands] none (.ok ()),
      .getRaytracedInstanceAt sampleDenoisedRender.view.refreshReadback.commands none,
      .dumpRenderTarget] : List (DeviceCall ℚ)), c.ListUse := by
    intro c hc
    simp only [List.mem_cons, List.mem_singleton, List.not_mem_nil, or_false] at hc
    rcases hc with h | h | h
    · rw [h]
      intro cs hcs
      rw [List.mem_singleton.1 hcs]
      exact render_listUse sampleFloatOps sampleDevice sampleDenoised sampleDenoisedRender rfl
    · rw [h]
      exact refreshReadback_listUse _
    · rw [h]
      exact True.intro
  exact ⟨hu, (commandList_protocol _ hu).2.2.1 rfl⟩

end CommandList

section Binary32

theorem roundBinary32_near (x : ℚ) (e m : Int) (h0 : 0 < x) (hlo : (2 : ℚ) ^ e ≤ x)
    (hhi : x < (2 : ℚ) ^ (e + 1)) (hlt : |x / 2 ^ (e - 23) - m| < 1 / 2) :
    roundBinary32 x = m * 2 ^ (e - 23) := by
  have hlog : Int.log 2 x = e := by
    have a : e ≤ Int.log 2 x :=
      (Int.zpow_le_iff_le_log (by norm_num) h0).1 (by exact_mod_cast hlo)
    have b : Int.log 2 x < e + 1 :=
      (Int.lt_zpow_iff_log_lt (by norm_num) h0).1 (by exact_mod_cast hhi)
    omega
  unfold roundBinary32
  rw [if_neg h0.ne']
  simp only [abs_of_pos h0, hlog, if_pos h0.le]
  obtain ⟨h1, h2⟩ := abs_lt.1 hlt
  rcases le_or_lt (m : ℚ) (x / 2 ^ (e - 23)) with hm | hm
  · have hf : ⌊x / (2 : ℚ) ^ (e - 23)⌋ = m := by
      rw [Int.floor_eq_iff]
      constructor <;> linarith
    rw [hf, if_pos (by linarith)]
  · have hf : ⌊x / (2 : ℚ) ^ (e - 23)⌋ = m - 1 := by
      rw [Int.floor_eq_iff]
      push_cast
      constructor <;> linarith
    rw [hf, if_neg (by push_cast; linarith), if_pos (by push_cast; linarith)]
    push_cast
    ring

theorem binary32_new : View.new binary32FloatOps binary32Device binary32Blank = .ok binary32New :=
  rfl

theorem binary32_scaled :
    (binary32New.setResolutionScale (some binary32SixtyFive)).update
      sampleHeader binary32FloatOps binary32Device binary32EmptyScene = .ok binary32Scaled := by
  with_unfolding_all rfl

theorem binary32_nan_once :
    (binary32New.setResolutionScale none).update
      sampleHeader binary32FloatOps binary32Device binary32EmptyScene = .ok binary32NanOnce :=
  rfl

theorem binary32_nan_twice :
    binary32NanOnce.update
      sampleHeader binary32FloatOps binary32Device binary32EmptyScene = .ok binary32NanTwice :=
  rfl

theorem binary32_sixtyFive : binary32SixtyFive = 5452595 / 8388608 := by
  unfold binary32SixtyFive
  rw [Rat.mkRat_eq_div]
  norm_num

/-- The product 1050 * 0.65f, which is 682.49997..., rounds to the binary32 number 682.5. -/
theorem binary32_product :
    binary32FloatOps.mul (binary32FloatOps.ofInt 1050) (some binary32SixtyFive)
      = some (1365 / 2) := by
  have e1 : roundBinary32 ((1050 : Int) : ℚ) = 1050 := by
    rw [roundBinary32_near _ 10 8601600 (by norm_num) (by norm_num) (by norm_num)
      (by rw [abs_lt]; constructor <;> norm_num)]
    norm_num
  have e2 : roundBinary32 (1050 * binary32SixtyFive) = 1365 / 2 := by
    rw [binary32_sixtyFive,
      roundBinary32_near _ 9 11182080 (by norm_num) (by norm_num) (by norm_num)
        (by rw [abs_lt]; constructor <;> norm_num)]
    norm_num
  show some (roundBinary32 (roundBinary32 ((1050 : Int) : ℚ) * binary32SixtyFive)) = _
  rw [e1, e2]

theorem binary32_clamp :
    binary32FloatOps.max (binary32FloatOps.min (some binary32SixtyFive) binary32FloatOps.two)
      binary32FloatOps.hundredth = some binary32SixtyFive := by
  have l1 : binary32FloatOps.lt binary32FloatOps.two (some binary32SixtyFive) = false := by
    show decide ((2 : ℚ) < binary32SixtyFive) = false
    rw [decide_eq_false_iff_not, binary32_sixtyFive]
    norm_num
  have l2 : binary32FloatOps.lt (some binary32SixtyFive) binary32FloatOps.hundredth
      = false := by
    show decide (binary32SixtyFive < mkRat 5368709 536870912) = false
    rw [decide_eq_false_iff_not, binary32_sixtyFive, Rat.mkRat_eq_div]
    norm_num
  unfold FloatOps.max FloatOps.min
  rw [l1]
  simp only [Bool.false_eq_true, if_false]
  rw [l2]
  rfl

theorem binary32_differs :
    binary32FloatOps.ne binary32New.rtScale (some binary32SixtyFive) = true := by
  with_unfolding_all decide

theorem binary32_scaled_height : binary32Scaled.rtHeight = 683 := by
  have t := (update_changed_size sampleHeader binary32FloatOps binary32Device
    binary32EmptyScene binary32New binary32Scaled (some binary32SixtyFive)
    binary32_differs binary32_scaled).2
  rw [t, binary32_clamp, show binary32Device.height = 1050 from rfl, binary32_product]
  show (if (0 : ℚ) ≤ 1365 / 2 then ⌊(1365 / 2 : ℚ) + mkRat 1 2⌋
    else ⌈(1365 / 2 : ℚ) - mkRat 1 2⌉) = 683
  rw [if_pos (by norm_num), Rat.mkRat_eq_div, Int.floor_eq_iff]
  constructor <;> norm_num

theorem binary32_real_height :
    roundHalfAway ((1050 : ℚ) * max (1 / 100) (min binary32SixtyFive 2)) = 682 := by
  have h1 : min (5452595 / 8388608 : ℚ) 2 = 5452595 / 8388608 := min_eq_left (by norm_num)
  have h2 : max (1 / 100 : ℚ) (5452595 / 8388608) = 5452595 / 8388608 :=
    max_eq_right (by norm_num)
  rw [binary32_sixtyFive, h1, h2]
  unfold roundHalfAway
  rw [if_pos (by norm_num), Int.floor_eq_iff]
  constructor <;> norm_num

theorem binary32_nan_creations :
    binary32NanOnce.outputCreations = 1 + 1 ∧ binary32NanTwice.outputCreations = 1 + 1 + 1
    ∧ binary32NanTwice.allocations.length = binary32NanOnce.allocations.length + 11 := by
  refine ⟨?_, ?_, ?_⟩ <;> rfl

/-- Counterexample to C12 as stated: on floats with a NaN, the view constructed on the
1680 by 1050 device is given the resolution scale NaN. The first update finds the scales
different, clamps NaN to NaN (`std::min` and `std::max` return their first argument when
a comparison with NaN is false) and creates the output buffers; the second update, on the
same empty scene and device, finds NaN different from NaN and creates the output buffers
again: eleven further allocation requests, so the two calls do not leave what one call
leaves. -/
theorem update_twice_reallocates :
    (binary32New.setResolutionScale none).update sampleHeader binary32FloatOps
        binary32Device binary32EmptyScene = .ok binary32NanOnce
    ∧ binary32NanOnce.update sampleHeader binary32FloatOps binary32Device binary32EmptyScene
        = .ok binary32NanTwice
    ∧ binary32NanTwice.allocations.length = binary32NanOnce.allocations.length + 11
    ∧ binary32NanTwice.outputCreations = binary32NanOnce.outputCreations + 1
    ∧ binary32NanTwice.allocations ≠ binary32NanOnce.allocations := by
  refine ⟨binary32_nan_once, binary32_nan_twice, binary32_nan_creations.2.2, ?_, ?_⟩
  · rw [binary32_nan_creations.1, binary32_nan_creations.2.1]
  · intro e
    have l := binary32_nan_creations.2.2
    rw [e] at l
    omega

/-- Counterexample to C15 as stated: on floats with the rounding of binary32, the view
constructed on the 1680 by 1050 device, with the scale 1 in effect, is given the scale
`0.65f` = 10905190 / 2^24. The product 1050 * 0.65f = 682.49997... is rounded to the float
682.5 before `lround` rounds it, so the update sets the height 683 where
round(H * c) is 682. And when the request is NaN, the update that follows a completed
update without a further request creates the output buffers again. -/
theorem update_rounds_product :
    binary32FloatOps.ne binary32New.rtScale (some binary32SixtyFive) = true
    ∧ (binary32New.setResolutionScale (some binary32SixtyFive)).update sampleHeader
        binary32FloatOps binary32Device binary32EmptyScene = .ok binary32Scaled
    ∧ binary32Device.height = 1050
    ∧ binary32Scaled.rtHeight = 683
    ∧ roundHalfAway ((1050 : ℚ) * max (1 / 100) (min binary32SixtyFive 2)) = 682
    ∧ binary32FloatOps.ne binary32New.rtScale none = true
    ∧ (binary32New.setResolutionScale none).update sampleHeader binary32FloatOps
        binary32Device binary32EmptyScene = .ok binary32NanOnce
    ∧ binary32NanOnce.update sampleHeader binary32FloatOps binary32Device binary32EmptyScene
        = .ok binary32NanTwice
    ∧ binary32NanTwice.outputCreations = binary32NanOnce.outputCreations + 1 := by
  refine ⟨binary32_differs, binary32_scaled, rfl, binary32_scaled_height,
    binary32_real_height, rfl, binary32_nan_once, binary32_nan_twice, ?_⟩
  rw [binary32_nan_creations.1, binary32_nan_creations.2.1]

end Binary32

end RT64
